import Mathlib

/-!
lagopus/vrrpd: a shallow embedding of the VRRPv3 agent

The Go sources embedded here are `agent/type.go`, `agent/vrrp.go`,
`agent/adv_timer.go`, `agent/master_down_timer.go`,
`packets/layers/checksum.go`, `packets/layers/vrrpv3_adv.go`,
`packets/vrrp_adv.go`, `packets/arp.go`, `rpc/packet.go`, and the parts of
`models/vrrp.go` and `models/subinterface.go` that `newVRRP` reads. The
serializers of gopacket that the program calls are embedded from the library
and checked against the frames in the tests of the repository.

Conventions of the embedding:
* a Go `[]byte` (and so `net.IP`, `net.HardwareAddr`) is a `List Nat`, every
  element meant to be below 256;
* `uint8`, `uint16`, `uint32` values are `Nat`, arithmetic that the machine
  performs modulo `2^w` is written with an explicit `%`;
* a `time.Time` is the `Int` number of nanoseconds it stands for, which is what
  the code compares (`UnixNano`);
* mutexes are elided: every method below is the body that runs under the lock;
* the two timer tables are maps keyed by `objID`, embedded as their key lists;
* the calls on the two tables, the assignments of the state, the dataplane
  calls and the packets handed to the host interface are appended to a log of
  steps, in the order the code performs them; the trace is the dataplane and
  host interface part of it.
-/

namespace Vrrpd

/-! ## agent/type.go -/

/-- VRRPState of `agent/type.go`. -/
inductive VRRPState where
  | StateInitialize
  | StateBackup
  | StateMaster
  deriving DecidableEq, Repr

/-- VRRPEvent of `agent/type.go`. -/
inductive VRRPEvent where
  | EventStart
  | EventStartMaster
  | EventStartBackup
  | EventMasterDown
  | EventDetectedNewMaster
  | EventPreempt
  | EventShutdown
  deriving DecidableEq, Repr

open VRRPState VRRPEvent

/-- Centisecond of `agent/type.go`, `time.Millisecond * 10`, in nanoseconds. -/
def Centisecond : Int := 10000000

/-! ## Bytes -/

/-- A `net.IP`: a byte slice. -/
abbrev IP := List Nat

/-- A `net.HardwareAddr`: a byte slice. -/
abbrev HardwareAddr := List Nat

/-- Truncation to `uint8`. -/
def u8 (n : Nat) : Nat := n % 256

/-- Truncation to `uint16`. -/
def u16 (n : Nat) : Nat := n % 65536

/-- Truncation to `uint32`. -/
def u32 (n : Nat) : Nat := n % 4294967296

/-- Go's `bytes.Equal`: same length and same bytes. -/
def bytesEqual (a b : List Nat) : Bool := decide (a = b)

/-- Go's `bytes.Compare`: lexicographic comparison of two byte slices,
with result -1, 0 or +1. -/
def bytesCompare : List Nat → List Nat → Int
  | [], [] => 0
  | [], _ :: _ => -1
  | _ :: _, [] => 1
  | a :: as, b :: bs =>
    if a < b then -1 else if b < a then 1 else bytesCompare as bs

/-! ## packets/layers: the advertisement layer -/

/-- The fields of gopacket's `layers.IPv4` that this program reads or sets. -/
structure IPv4 where
  TTL : Nat
  Protocol : Nat
  SrcIP : IP
  DstIP : IP
  deriving DecidableEq, Repr

/-- VRRPv3Adv of `packets/layers/vrrpv3_adv.go`. `Contents` is the embedded
`BaseLayer.Contents`, `pseudoheader` the embedded `checksumPseudoheader`
(`none` for a nil interface). The Go field `Type` is `Type_` here. -/
structure VRRPv3Adv where
  Contents : List Nat := []
  pseudoheader : Option IPv4 := none
  Version : Nat := 0
  Type_ : Nat := 0
  VirtualRtrID : Nat := 0
  Priority : Nat := 0
  CountIPAddr : Nat := 0
  MaxAdverInt : Nat := 0
  Checksum : Nat := 0
  IPAddress : List IP := []
  deriving DecidableEq, Repr

/-- VRRPv3Version of `vrrpv3_adv.go`. -/
def VRRPv3Version : Nat := 3

/-- VRRPv3Advertisement of `vrrpv3_adv.go`. -/
def VRRPv3Advertisement : Nat := 1

/-- IPProtocolVRRP of gopacket. -/
def IPProtocolVRRP : Nat := 112

/-! ## rpc: packets -/

/-- Packet of `rpc/packet.go`. -/
structure Packet where
  Subifname : String
  Data : List Nat
  deriving DecidableEq, Repr

/-! ## agent/vrrp.go: the group -/

/-- VRRP of `agent/vrrp.go`. The embedded `layers.VRRPv3Adv` is the parent
structure. The module pointers (`advTimer`, `mDownTimer`, `hostif`, `dpagent`)
are the tables and the trace of `World`. -/
structure VRRP extends VRRPv3Adv where
  objID : String
  nextMasterAdvTime : Int
  masterDownInterval : Nat
  skewTime : Nat
  nextDownTime : Int
  preempt : Bool
  accept : Bool
  state : VRRPState
  vaddrs : List IP
  vmac : HardwareAddr
  subifName : String
  subifIP : IP
  subifPrefix : Nat
  advPackets : List Packet
  advPriorityZeroPackets : List Packet
  garpPackets : List Packet
  deriving DecidableEq, Repr

/-- What the group does to its collaborators. An address string
`"%s/%d"` of `toMaster`/`toBackup` is kept as the pair (address, prefix length)
it is printed from. -/
inductive Effect where
  | ToMaster (name : String) (phyaddr : IP × Nat) (vaddr : List (IP × Nat))
  | ToBackup (name : String) (phyaddr : IP × Nat) (vaddr : List (IP × Nat))
  | PacketoutBulk (packets : List Packet)
  deriving DecidableEq, Repr

/-- One step of a transition, as the code performs it: a call on the table of
the advertisement timer or of the master-down timer (with the key), the
assignment of the state, or a call on the dataplane or the host interface. -/
inductive Step where
  | AddMasterTable (objID : String)
  | DeleteMasterTable (objID : String)
  | AddBackupTable (objID : String)
  | DeleteBackupTable (objID : String)
  | SetState (s : VRRPState)
  | Call (e : Effect)
  deriving DecidableEq, Repr

/-- The call on the dataplane or the host interface that a step is, if it is
one. -/
def Step.effect : Step → Option Effect
  | Step.Call e => some e
  | Step.AddMasterTable _ => none
  | Step.DeleteMasterTable _ => none
  | Step.AddBackupTable _ => none
  | Step.DeleteBackupTable _ => none
  | Step.SetState _ => none

/-- One group together with the modules it points to: the key set of
`AdvTimer.masterTable`, the key set of `MDownTimer.backupTable`, and the steps
taken so far, oldest first. -/
structure World where
  v : VRRP
  masterTable : List String
  backupTable : List String
  steps : List Step
  deriving DecidableEq, Repr

/-- The calls made so far on `dpagent` and `hostif`, oldest first. -/
def World.trace (w : World) : List Effect := w.steps.filterMap Step.effect

/-- AddMasterTable of `adv_timer.go`: `masterTable[v.objID] = v`. -/
def AddMasterTable (w : World) : World :=
  { w with masterTable := w.masterTable.insert w.v.objID,
           steps := w.steps ++ [Step.AddMasterTable w.v.objID] }

/-- DeleteMasterTable of `adv_timer.go`: `delete(masterTable, v.objID)`. -/
def DeleteMasterTable (w : World) : World :=
  { w with masterTable := w.masterTable.filter (fun k => k ≠ w.v.objID),
           steps := w.steps ++ [Step.DeleteMasterTable w.v.objID] }

/-- AddBackupTable of `master_down_timer.go`. -/
def AddBackupTable (w : World) : World :=
  { w with backupTable := w.backupTable.insert w.v.objID,
           steps := w.steps ++ [Step.AddBackupTable w.v.objID] }

/-- The deleteBackupTable of `master_down_timer.go`. -/
def deleteBackupTable (w : World) : World :=
  { w with backupTable := w.backupTable.filter (fun k => k ≠ w.v.objID),
           steps := w.steps ++ [Step.DeleteBackupTable w.v.objID] }

/-- DeleteBackupTable of `master_down_timer.go` (the locked wrapper). -/
def DeleteBackupTable (w : World) : World := deleteBackupTable w

/-- A call on the dataplane or the host interface. -/
def call (w : World) (e : Effect) : World :=
  { w with steps := w.steps ++ [Step.Call e] }

/-- The setStateNoLock of `vrrp.go`. -/
def setStateNoLock (v : VRRP) (s : VRRPState) : VRRP := { v with state := s }

/-- The call `v.setStateNoLock(s)` inside a transition. -/
def setStateStep (w : World) (s : VRRPState) : World :=
  { w with v := setStateNoLock w.v s, steps := w.steps ++ [Step.SetState s] }

/-- The getStateNoLock of `vrrp.go`. -/
def getStateNoLock (v : VRRP) : VRRPState := v.state

/-- The setNextMasterAdvTimeNoLock of `vrrp.go`:
`t.Add(time.Duration(v.MaxAdverInt) * Centisecond)`. -/
def setNextMasterAdvTimeNoLock (v : VRRP) (t : Int) : VRRP :=
  { v with nextMasterAdvTime := t + (v.MaxAdverInt : Int) * Centisecond }

/-- The setNextDownTimeNoLock of `vrrp.go`:
`t.Add(time.Duration(interval) * Centisecond)`. -/
def setNextDownTimeNoLock (v : VRRP) (t : Int) (interval : Nat) : VRRP :=
  { v with nextDownTime := t + (interval : Int) * Centisecond }

/-- The getNextDownTimeNoLock of `vrrp.go`. -/
def getNextDownTimeNoLock (v : VRRP) : Int := v.nextDownTime

/-- The getSkewTimeTimeNoLock of `vrrp.go`. -/
def getSkewTimeTimeNoLock (v : VRRP) : Nat := v.skewTime

/-- The sendVRRPAdvPriorityZero of `vrrp.go`. -/
def sendVRRPAdvPriorityZero (w : World) : World :=
  call w (Effect.PacketoutBulk w.v.advPriorityZeroPackets)

/-- The sendGARP of `vrrp.go`. -/
def sendGARP (w : World) : World :=
  call w (Effect.PacketoutBulk w.v.garpPackets)

/-- The toMaster of `vrrp.go`; an error of the dataplane call is ignored. -/
def toMaster (w : World) : World :=
  call w (Effect.ToMaster w.v.subifName
    (w.v.subifIP, w.v.subifPrefix) (w.v.vaddrs.map (fun a => (a, w.v.subifPrefix))))

/-- The toBackup of `vrrp.go`; an error of the dataplane call is ignored. -/
def toBackup (w : World) : World :=
  call w (Effect.ToBackup w.v.subifName
    (w.v.subifIP, w.v.subifPrefix) (w.v.vaddrs.map (fun a => (a, w.v.subifPrefix))))

/-- The resetMasterDownInterval of `vrrp.go`. All arithmetic is `uint16`:
`256 - uint16(v.Priority)` does not wrap because `Priority` is a `uint8`. -/
def resetMasterDownInterval (v : VRRP) (interval : Nat) : VRRP :=
  let skewTime := u16 (u16 (256 - v.Priority) * interval) / 256
  let masterDownInterval := u16 (u16 (3 * interval) + skewTime)
  if masterDownInterval ≠ v.masterDownInterval ∨ skewTime ≠ v.skewTime then
    { v with masterDownInterval := masterDownInterval, skewTime := skewTime }
  else v

/-- The containsInterfaceIPs of `vrrp.go`. -/
def containsInterfaceIPs (v : VRRP) (ips : List IP) : Bool :=
  ips.any (fun ip => bytesEqual v.subifIP ip)

/-- The becomeInitialize of `vrrp.go`. -/
def becomeInitialize (w : World) : World :=
  let w1 :=
    match getStateNoLock w.v with
    | StateInitialize => w
    | StateBackup => DeleteBackupTable w
    | StateMaster => toBackup (sendVRRPAdvPriorityZero (DeleteMasterTable w))
  setStateStep w1 StateInitialize

/-- The becomeMaster of `vrrp.go`. -/
def becomeMaster (w : World) : World :=
  setStateStep (AddMasterTable (sendGARP (toMaster w))) StateMaster

/-- The becomeBackup of `vrrp.go`. -/
def becomeBackup (w : World) : World :=
  toBackup (setStateStep (AddBackupTable (DeleteMasterTable w)) StateBackup)

/-- The doInitializeTasks of `vrrp.go`; `next` is the `nextStateNoLock` it
calls back into. -/
def doInitializeTasks (next : World → VRRPEvent → World) (w : World) : World :=
  if containsInterfaceIPs w.v w.v.IPAddress then
    next w EventStartMaster
  else if w.v.Priority = 255 then
    next w EventStartMaster
  else
    next w EventStartBackup

/-- The body of nextStateNoLock of `vrrp.go`; `next` is the function itself,
for the call back from `doInitializeTasks`. An event that the state does not
accept is logged and nothing else happens. -/
def nextStateNoLockBody (next : World → VRRPEvent → World) (w : World)
    (e : VRRPEvent) : World :=
  match getStateNoLock w.v with
  | StateInitialize =>
    match e with
    | EventStart => doInitializeTasks next w
    | EventStartMaster => becomeMaster w
    | EventStartBackup => becomeBackup w
    | EventMasterDown | EventDetectedNewMaster | EventPreempt | EventShutdown => w
  | StateMaster =>
    match e with
    | EventDetectedNewMaster => becomeBackup w
    | EventShutdown => becomeInitialize w
    | EventStart | EventStartMaster | EventStartBackup | EventMasterDown | EventPreempt => w
  | StateBackup =>
    match e with
    | EventMasterDown => becomeMaster w
    | EventPreempt => becomeMaster w
    | EventShutdown => becomeInitialize w
    | EventStart | EventStartMaster | EventStartBackup | EventDetectedNewMaster => w

/-- The nextStateNoLock of `vrrp.go`, with a bound on the depth of the calls
`nextStateNoLock → doInitializeTasks → nextStateNoLock`; at depth 0 nothing
runs. -/
def nextStateNoLockDepth : Nat → World → VRRPEvent → World
  | 0, w, _ => w
  | d + 1, w, e => nextStateNoLockBody (nextStateNoLockDepth d) w e

/-- The nextStateNoLock of `vrrp.go`: the call nests at most twice (`EventStart`
re-enters with `EventStartMaster` or `EventStartBackup`), see
`nextStateNoLockDepth_stable`. -/
def nextStateNoLock (w : World) (e : VRRPEvent) : World := nextStateNoLockDepth 2 w e

/-- NextState of `vrrp.go`. -/
def NextState (w : World) (e : VRRPEvent) : World := nextStateNoLock w e

/-- NextStateForRecv of `vrrp.go`. -/
def NextStateForRecv (w : World) (vrrpAdv : VRRPv3Adv) (advSrcIP : IP) (now : Int) : World :=
  if containsInterfaceIPs w.v vrrpAdv.IPAddress then w
  else
    match getStateNoLock w.v with
    | StateInitialize => w
    | StateBackup =>
      if w.v.Priority = 0 then
        { w with v := setNextDownTimeNoLock w.v now (getSkewTimeTimeNoLock w.v) }
      else if w.v.preempt = true ∧ vrrpAdv.Priority < w.v.Priority then
        nextStateNoLock w EventPreempt
      else if w.v.preempt = false ∨ vrrpAdv.Priority ≥ w.v.Priority then
        let v1 : VRRP := { w.v with MaxAdverInt := vrrpAdv.MaxAdverInt }
        let v2 := resetMasterDownInterval v1 v1.MaxAdverInt
        { w with v := setNextDownTimeNoLock v2 now v2.masterDownInterval }
      else w
    | StateMaster =>
      if w.v.Priority = 0 then
        { w with v := { w.v with nextMasterAdvTime := now } }
      else if vrrpAdv.Priority > w.v.Priority ∨
          (vrrpAdv.Priority = w.v.Priority ∧ bytesCompare advSrcIP w.v.subifIP > 0) then
        let w1 := DeleteMasterTable w
        let v1 : VRRP := { w1.v with MaxAdverInt := vrrpAdv.MaxAdverInt }
        let v2 := resetMasterDownInterval v1 v1.MaxAdverInt
        let w2 := { w1 with v := setNextDownTimeNoLock v2 now v2.masterDownInterval }
        nextStateNoLock w2 EventDetectedNewMaster
      else w

/-- The getVRRPAdvExpired of `vrrp.go`: the new group, the packets returned
(`none` for nil) and the flag. -/
def getVRRPAdvExpired (v : VRRP) (now : Int) : VRRP × Option (List Packet) × Bool :=
  if v.nextMasterAdvTime > now then (v, none, false)
  else
    let v1 := setNextMasterAdvTimeNoLock v now
    (v1, some v1.advPackets, true)

/-- The masterDownTimeExpired of `vrrp.go`; `funcDeleteBackupTable` is the
closure the timer passes. -/
def masterDownTimeExpired (w : World) (now : Int)
    (funcDeleteBackupTable : World → World) : World :=
  if getNextDownTimeNoLock w.v ≤ now then
    let w1 := funcDeleteBackupTable w
    if getStateNoLock w1.v = StateBackup then nextStateNoLock w1 EventMasterDown
    else w1
  else w

/-- The timeOutEvent of `adv_timer.go` at instant `now`, for the group of this
world: it is visited iff its key is in `masterTable`, and the collected packets
are sent when there is at least one. -/
def timeOutEvent (w : World) (now : Int) : World :=
  if w.v.objID ∈ w.masterTable then
    match getVRRPAdvExpired w.v now with
    | (v1, some ps, true) =>
      if ps.length ≠ 0 then
        call { w with v := v1 } (Effect.PacketoutBulk ps)
      else { w with v := v1 }
    | (v1, _, _) => { w with v := v1 }
  else w

/-- One tick of mDownTimerLoop of `master_down_timer.go` at instant `now`, for
the group of this world: it is visited iff its key is in `backupTable`. -/
def mDownTimerTick (w : World) (now : Int) : World :=
  if w.v.objID ∈ w.backupTable then masterDownTimeExpired w now deleteBackupTable
  else w

/-! ## Byte buffers -/

/-- Errors, one constructor per message of the Go code:
`BadVersionOrType` is "Bad version or type: version = %d, type = %d",
`BadPseudoheader` is "bad pseudoheader", `InvalidAddress` is the error of
gopacket's `IPv4.AddressTo4`, `BadNumberOfAddresses` is "VRRPv3 number of IP
addresses is not valid", `BadLengthOfAddresses` is "VRRPv3 length of IP
addresses is not valid", `BadTTL` is "Bad TTL: %v", `BadCountIPAddr` is "Bad
CountIPAddr. CountIPAddr: %v, IPAddress: %v", `BadChecksum` is "Bad checksum",
`InvalidMAC` is the error of gopacket's Ethernet and ARP serializers on a
hardware address of the wrong size, `IndexOutOfRange` is the Go runtime panic of
an index or slice bound past the end, `InvalidArgs` is "Invalid args",
`GetVifMacaddrFailed` is any error of the dataplane's `GetVifMacaddr`,
`LayerDecodeFailed` is any error of gopacket's `DecodeLayers` on the Ethernet
or IPv4 layer, `PacketTooSmall` is "Not a valid VRRP packet. Packet length is
too small". -/
inductive VrrpError where
  | BadVersionOrType (version type : Nat)
  | BadPseudoheader
  | InvalidAddress
  | BadNumberOfAddresses
  | BadLengthOfAddresses
  | BadTTL (ttl : Nat)
  | BadCountIPAddr (count len : Nat)
  | BadChecksum
  | InvalidMAC
  | IndexOutOfRange
  | InvalidArgs
  | GetVifMacaddrFailed
  | LayerDecodeFailed
  | PacketTooSmall
  deriving DecidableEq, Repr

instance instDecidableEqExcept {ε α : Type} [DecidableEq ε] [DecidableEq α] :
    DecidableEq (Except ε α)
  | .ok a, .ok b => if h : a = b then isTrue (by rw [h]) else isFalse (by simp [h])
  | .error a, .error b => if h : a = b then isTrue (by rw [h]) else isFalse (by simp [h])
  | .ok _, .error _ => isFalse (by simp)
  | .error _, .ok _ => isFalse (by simp)

/-- The `v4InV6Prefix` of Go's `net` package. -/
def v4InV6Prefix : List Nat := [0, 0, 0, 0, 0, 0, 0, 0, 0, 0, 255, 255]

/-- Go's `net.IP.To4`: the 4-byte form of an IPv4 address, `none` (nil) for
anything else. -/
def To4 (ip : IP) : Option IP :=
  if ip.length = 4 then some ip
  else if ip.length = 16 ∧ ip.take 12 = v4InV6Prefix then some (ip.drop 12)
  else none

/-- Go's `net.IP.Equal`: equality of addresses, a 4-byte IPv4 address being
equal to its 16-byte form. -/
def ipEqual (ip x : IP) : Bool :=
  if ip.length = x.length then bytesEqual ip x
  else if ip.length = 4 ∧ x.length = 16 then
    bytesEqual (x.take 12) v4InV6Prefix && bytesEqual ip (x.drop 12)
  else if ip.length = 16 ∧ x.length = 4 then
    bytesEqual (ip.take 12) v4InV6Prefix && bytesEqual (ip.drop 12) x
  else false

/-- Go's `data[i]`: a panic past the end. -/
def index (data : List Nat) (i : Nat) : Except VrrpError Nat :=
  match data[i]? with
  | some b => pure b
  | none => throw VrrpError.IndexOutOfRange

/-- Go's `data[i:]`: a panic when `i` is past the length. -/
def sliceFrom (data : List Nat) (i : Nat) : Except VrrpError (List Nat) :=
  if i ≤ data.length then pure (data.drop i) else throw VrrpError.IndexOutOfRange

/-- Go's `binary.BigEndian.Uint16`. -/
def Uint16 (b : List Nat) : Except VrrpError Nat :=
  match b with
  | b0 :: b1 :: _ => pure (b1 ||| (b0 <<< 8))
  | _ => throw VrrpError.IndexOutOfRange

/-- Go's `binary.BigEndian.PutUint16(bytes[i:], v)` on a buffer that has the
two bytes. -/
def PutUint16 (bytes : List Nat) (i : Nat) (v : Nat) : List Nat :=
  (bytes.set i (u8 (v >>> 8))).set (i + 1) (u8 v)

/-- Go's `copy(bytes[lo:hi], src)` for `lo ≤ hi ≤ len(bytes)`: the first
`min (hi - lo) (len src)` bytes of `src` overwrite `bytes` from `lo`. -/
def copyInto (bytes : List Nat) (lo hi : Nat) (src : List Nat) : List Nat :=
  bytes.take lo ++ src.take (hi - lo) ++ bytes.drop (lo + min (hi - lo) src.length)

/-! ## packets/layers/checksum.go -/

/-- The pseudoheaderIPv4 of `checksum.go`. `AddressTo4` of gopacket fails
unless both addresses are IPv4, and replaces them by their 4-byte forms. -/
def pseudoheaderIPv4 (ip : IPv4) : Except VrrpError Nat :=
  match To4 ip.SrcIP, To4 ip.DstIP with
  | some [s0, s1, s2, s3], some [d0, d1, d2, d3] =>
    let csum := 0
    let csum := u32 (csum + u32 ((s0 + s2) <<< 8))
    let csum := u32 (csum + (s1 + s3))
    let csum := u32 (csum + u32 ((d0 + d2) <<< 8))
    let csum := u32 (csum + (d1 + d3))
    pure csum
  | _, _ => throw VrrpError.InvalidAddress

/-- The first loop of ipChecksum: the 16-bit big-endian words of `b` are added
to the `uint32` accumulator, an odd last byte as a high byte. -/
def sumWords : List Nat → Nat → Nat
  | b0 :: b1 :: rest, csum => sumWords rest (u32 (csum + ((b0 <<< 8) ||| b1)))
  | [b0], csum => u32 (csum + (b0 <<< 8))
  | [], csum => csum

/-- The second loop of ipChecksum, `for csum>>16 != 0`, run for at most `fuel`
rounds; two rounds end it for every `uint32`, see `foldCarry_done`. -/
def foldCarry : Nat → Nat → Nat
  | 0, csum => csum
  | fuel + 1, csum =>
    if csum >>> 16 ≠ 0 then foldCarry fuel (u32 ((csum &&& 0xffff) + (csum >>> 16)))
    else csum

/-- The ipChecksum of `checksum.go`; `^csum` on a `uint32` is
`0xffffffff - csum`. -/
def ipChecksum (b : List Nat) (csum : Nat) : Nat :=
  u16 (0xffffffff - foldCarry 32 (sumWords b csum))

/-- ComputeChecksum of `checksum.go`; the pseudoheader is an IPv4 layer or
nil. -/
def ComputeChecksum (c : Option IPv4) (headerAndPayload : List Nat)
    (headerProtocol : Nat) : Except VrrpError Nat :=
  match c with
  | none => throw VrrpError.BadPseudoheader
  | some ip => do
    let length := u32 headerAndPayload.length
    let csum ← pseudoheaderIPv4 ip
    let csum := u32 (csum + headerProtocol)
    let csum := u32 (csum + (length &&& 0xffff))
    let csum := u32 (csum + (length >>> 16))
    pure (ipChecksum headerAndPayload csum)

/-! ## packets/layers/vrrpv3_adv.go -/

/-- The address loop of SerializeTo: `copy(bytes[head:head+4], ip.To4())` for
the addresses from index `i` on. -/
def writeAddresses : List Nat → Nat → List IP → List Nat
  | bytes, _, [] => bytes
  | bytes, i, ip :: ips =>
    let head := 8 + i * 4
    writeAddresses (copyInto bytes head (head + 4) ((To4 ip).getD [])) (i + 1) ips

/-- The bytes of SerializeTo before the checksum is computed. `PrependBytes`
hands out `8 + 4 * len(IPAddress)` zero bytes (the buffer is new). -/
def serializeBody (v : VRRPv3Adv) : List Nat :=
  let bytes := List.replicate (8 + 4 * v.IPAddress.length) 0
  let bytes := bytes.set 0 (u8 (v.Version <<< 4) ||| v.Type_)
  let bytes := bytes.set 1 v.VirtualRtrID
  let bytes := bytes.set 2 v.Priority
  let bytes := bytes.set 3 v.CountIPAddr
  let bytes := PutUint16 bytes 4 v.MaxAdverInt
  let bytes := bytes.set 6 0
  let bytes := bytes.set 7 0
  writeAddresses bytes 0 v.IPAddress

/-- SerializeTo of `vrrpv3_adv.go`: the bytes written for the layer. -/
def SerializeTo (v : VRRPv3Adv) : Except VrrpError (List Nat) :=
  if v.Version ≠ VRRPv3Version ∨ VRRPv3Advertisement ≠ v.Type_ then
    throw (VrrpError.BadVersionOrType v.Version v.Type_)
  else do
    let bytes := serializeBody v
    let csum ← ComputeChecksum v.pseudoheader bytes IPProtocolVRRP
    pure (PutUint16 bytes 6 csum)

/-- DecodeFromBytes of `vrrpv3_adv.go`: the receiver after a successful
decode. `IPAddress` is appended to, as in the code. -/
def DecodeFromBytes (v : VRRPv3Adv) (data : List Nat) : Except VrrpError VRRPv3Adv := do
  let v := { v with Contents := data }
  let b0 ← index data 0
  let v := { v with Version := b0 >>> 4, Type_ := b0 &&& 0x0F }
  if v.Version ≠ VRRPv3Version ∨ VRRPv3Advertisement ≠ v.Type_ then
    throw (VrrpError.BadVersionOrType v.Version v.Type_)
  let b1 ← index data 1
  let b2 ← index data 2
  let v := { v with VirtualRtrID := b1, Priority := b2 }
  let b3 ← index data 3
  let v := { v with CountIPAddr := b3 }
  if v.CountIPAddr < 1 then throw VrrpError.BadNumberOfAddresses
  let maxAdverInt ← (sliceFrom data 4) >>= Uint16
  let checksum ← (sliceFrom data 6) >>= Uint16
  let v := { v with MaxAdverInt := maxAdverInt, Checksum := checksum }
  let rest ← sliceFrom data 8
  if (rest.length < 1 ∧ rest.length > 255) ∨ rest.length % 4 ≠ 0 then
    throw VrrpError.BadLengthOfAddresses
  let addrs := (List.range (rest.length / 4)).map
    (fun i => (data.drop (8 + i * 4)).take 4)
  pure { v with IPAddress := v.IPAddress ++ addrs }

/-! ## gopacket: the Ethernet, IPv4 and ARP serializers

These are library code (github.com/google/gopacket/layers), embedded for the
options this program passes: `FixLengths` always, `ComputeChecksums` for the
advertisement. -/

/-- The IPv4 header checksum of gopacket (`layers.checksum`): the one's
complement sum of the 16-bit words of the header, checksum bytes zero. -/
def ipv4HeaderChecksum (header : List Nat) : Nat :=
  u16 (0xffff - foldCarry 32 (sumWords ((header.set 10 0).set 11 0) 0))

/-- `IPv4.SerializeTo` of gopacket for a header without options, with version 4,
TOS 0, Id 0, flags and fragment offset 0: the 20-byte header in front of the
payload. It fails unless both addresses are IPv4. -/
def ipv4Serialize (ip : IPv4) (payload : List Nat) : Except VrrpError (List Nat) :=
  match To4 ip.SrcIP, To4 ip.DstIP with
  | some src, some dst =>
    let length := u16 (20 + payload.length)
    let header := [0x45, 0, u8 (length >>> 8), u8 length, 0, 0, 0, 0, ip.TTL, u8 ip.Protocol,
      0, 0] ++ src ++ dst
    pure (PutUint16 header 10 (ipv4HeaderChecksum header) ++ payload)
  | _, _ => throw VrrpError.InvalidAddress

/-- `Ethernet.SerializeTo` of gopacket for an EtherType frame: both addresses
must have 6 bytes, and the frame is padded with zeros to 60 bytes. -/
def ethernetSerialize (dstMAC srcMAC : HardwareAddr) (ethernetType : Nat)
    (payload : List Nat) : Except VrrpError (List Nat) :=
  if dstMAC.length ≠ 6 ∨ srcMAC.length ≠ 6 then throw VrrpError.InvalidMAC
  else
    let frame := dstMAC ++ srcMAC ++ [u8 (ethernetType >>> 8), u8 ethernetType] ++ payload
    pure (frame ++ List.replicate (60 - frame.length) 0)

/-- `ARP.SerializeTo` of gopacket with `FixLengths`, for an Ethernet/IPv4
request: the two hardware addresses must have the same size, and so must the
two protocol addresses. -/
def arpSerialize (sourceHw sourceProt dstHw dstProt : List Nat) : Except VrrpError (List Nat) :=
  if sourceHw.length ≠ dstHw.length then throw VrrpError.InvalidMAC
  else if sourceProt.length ≠ dstProt.length then throw VrrpError.InvalidAddress
  else
    pure ([0, 1, 0x08, 0x00, u8 sourceHw.length, u8 sourceProt.length, 0, 1]
      ++ sourceHw ++ sourceProt ++ dstHw ++ dstProt)

/-! ## packets/arp.go, packets/vrrp_adv.go -/

/-- BroadcastMAC of `arp.go`. -/
def BroadcastMAC : HardwareAddr := [0xff, 0xff, 0xff, 0xff, 0xff, 0xff]

/-- SerializeARP of `arp.go`. -/
def SerializeARP (ip : IP) (mac : HardwareAddr) : Except VrrpError (List Nat) := do
  let prot := (To4 ip).getD []
  let arp ← arpSerialize mac prot BroadcastMAC prot
  ethernetSerialize BroadcastMAC mac 0x0806 arp

/-- VRRPAdvTTL of `vrrp_adv.go`. -/
def VRRPAdvTTL : Nat := 255

/-- VRRPAdvDstMAC of `vrrp_adv.go`. -/
def VRRPAdvDstMAC : HardwareAddr := [0x01, 0x00, 0x5e, 0x00, 0x00, 0x12]

/-- VRRPAdvDstIP of `vrrp_adv.go`. -/
def VRRPAdvDstIP : IP := [224, 0, 0, 18]

/-- SerializeVRRPAdv of `vrrp_adv.go`: the frame, and the advertisement as the
call leaves it (`Version`, `Type`, `CountIPAddr` and the pseudoheader are set
on the caller's structure; the pseudoheader is the IPv4 layer, whose addresses
`AddressTo4` has put in 4-byte form). `none` is a nil pointer. -/
def SerializeVRRPAdv (srcIP : IP) (vrrp : Option VRRPv3Adv) :
    Except VrrpError (List Nat × VRRPv3Adv) :=
  match vrrp with
  | none => throw VrrpError.InvalidArgs
  | some vrrp => do
    let vmac := [0x00, 0x00, 0x5e, 0x00, 0x01, vrrp.VirtualRtrID]
    let ip : IPv4 := { TTL := VRRPAdvTTL, Protocol := IPProtocolVRRP,
                       DstIP := VRRPAdvDstIP, SrcIP := srcIP }
    let vrrp := { vrrp with Version := VRRPv3Version, Type_ := VRRPv3Advertisement,
                            CountIPAddr := u8 vrrp.IPAddress.length }
    let vrrp := { vrrp with pseudoheader := some ip }
    let body ← SerializeTo vrrp
    let packet ← ipv4Serialize ip body
    let frame ← ethernetSerialize VRRPAdvDstMAC vmac 0x0800 packet
    let ip4 : IPv4 := { ip with SrcIP := (To4 ip.SrcIP).getD ip.SrcIP,
                                DstIP := (To4 ip.DstIP).getD ip.DstIP }
    pure (frame, { vrrp with pseudoheader := some ip4 })

/-- The checkVRRPAdv of `vrrp_adv.go`: `none` for a nil error. -/
def checkVRRPAdv (ip : IPv4) (vrrp : VRRPv3Adv) : Option VrrpError :=
  if ip.TTL ≠ VRRPAdvTTL then some (VrrpError.BadTTL ip.TTL)
  else if vrrp.CountIPAddr ≠ u8 vrrp.IPAddress.length then
    some (VrrpError.BadCountIPAddr vrrp.CountIPAddr (u8 vrrp.IPAddress.length))
  else
    match ComputeChecksum (some ip) vrrp.Contents IPProtocolVRRP with
    | .error err => some err
    | .ok csum => if csum ≠ 0 then some VrrpError.BadChecksum else none

/-! ## models -/

namespace models

/-- VRRP of `models/vrrp.go`. -/
structure VRRP where
  Vrid : Nat
  Priority : Nat
  Preempt : Bool
  Accept : Bool
  Interval : Nat
  VirtualAddresses : List IP
  deriving DecidableEq, Repr

/-- IsMaster of `models/vrrp.go`. -/
def VRRP.IsMaster (vrrp : VRRP) (addr : IP) : Bool :=
  vrrp.VirtualAddresses.any (fun vaddr => ipEqual vaddr addr)

/-- Subinterface of `models/subinterface.go`; the map `VRRPs` is the list of
its (key, entry) pairs. -/
structure Subinterface where
  Name : String
  Index : Nat
  IP : IP
  Prefix : Nat
  MAC : HardwareAddr
  VRRPs : List (Nat × VRRP)
  deriving DecidableEq, Repr

end models

/-! ## agent/vrrp.go: construction -/

/-- The createGARP of `vrrp.go`. -/
def createGARP (v : VRRP) : Except VrrpError (List Packet) :=
  v.IPAddress.foldlM (fun ps ip => do
    let buf ← SerializeARP ip v.vmac
    pure (ps ++ [Packet.mk v.subifName buf])) []

/-- The createVRRPAdv of `vrrp.go`: the packets, and the group with the fields
`SerializeVRRPAdv` sets on its embedded advertisement. -/
def createVRRPAdv (v : VRRP) : Except VrrpError (List Packet × VRRP) := do
  let (buf, adv) ← SerializeVRRPAdv v.subifIP (some v.toVRRPv3Adv)
  pure ([Packet.mk v.subifName buf], { v with toVRRPv3Adv := adv })

/-- The createVRRPAdvPriorityZero of `vrrp.go`: it works on a copy of the
group. -/
def createVRRPAdvPriorityZero (v : VRRP) : Except VrrpError (List Packet) := do
  let cv : VRRP := { v with Priority := 0 }
  let (ps, _) ← createVRRPAdv cv
  pure ps

/-- The resetPacket of `vrrp.go`. -/
def resetPacket (v : VRRP) : Except VrrpError VRRP := do
  let (advPackets, v) ← createVRRPAdv v
  let v := { v with advPackets := advPackets }
  let advPriorityZeroPackets ← createVRRPAdvPriorityZero v
  let v := { v with advPriorityZeroPackets := advPriorityZeroPackets }
  let garpPackets ← createGARP v
  pure { v with garpPackets := garpPackets }

/-- The zero value of the Go structure `VRRP`. -/
def zeroVRRP : VRRP :=
  { objID := "", nextMasterAdvTime := 0, masterDownInterval := 0, skewTime := 0,
    nextDownTime := 0, preempt := false, accept := false, state := StateInitialize,
    vaddrs := [], vmac := [], subifName := "", subifIP := [], subifPrefix := 0,
    advPackets := [], advPriorityZeroPackets := [], garpPackets := [] }

/-- The newVRRP of `vrrp.go`. `now` is the value of `time.Now()`,
`GetVifMacaddr` the dataplane call. The object identifier
`fmt.Sprintf("%s:%d", imodel.Name, vmodel.Vrid)` is built with `toString`. -/
def newVRRP (GetVifMacaddr : String → Except VrrpError HardwareAddr) (now : Int)
    (imodel : models.Subinterface) (vmodel : models.VRRP) : Except VrrpError VRRP := do
  let priority := if vmodel.IsMaster imodel.IP then 255 else vmodel.Priority
  let v : VRRP := { zeroVRRP with
    Version := VRRPv3Version
    Type_ := VRRPv3Advertisement
    VirtualRtrID := vmodel.Vrid
    Priority := priority
    MaxAdverInt := vmodel.Interval
    IPAddress := vmodel.VirtualAddresses
    preempt := vmodel.Preempt
    vaddrs := vmodel.VirtualAddresses
    subifName := imodel.Name
    subifIP := imodel.IP
    subifPrefix := imodel.Prefix }
  let v := { v with objID := imodel.Name ++ ":" ++ toString vmodel.Vrid }
  let v := setStateNoLock v StateInitialize
  let v := resetMasterDownInterval v vmodel.Interval
  let v := { v with nextMasterAdvTime := now }
  let v := setNextDownTimeNoLock v now v.masterDownInterval
  let vmac ← GetVifMacaddr v.subifName
  let v := { v with vmac := vmac }
  resetPacket v

/-- The world right after `newVRRP`: the group is in no table and nothing has
been sent for it. -/
def initialWorld (v : VRRP) : World :=
  { v := v, masterTable := [], backupTable := [], steps := [] }

/-! ## Example configurations -/

/-- The dataplane of the examples: every interface has the MAC
52:54:00:ce:d1:a3. -/
def exampleDataplane (_ : String) : Except VrrpError HardwareAddr :=
  pure [0x52, 0x54, 0x00, 0xce, 0xd1, 0xa3]

/-- The sub-interface of the examples: `s`, 10.0.0.5/24. -/
def exampleSubif : models.Subinterface :=
  { Name := "s", Index := 1, IP := [10, 0, 0, 5], Prefix := 24, MAC := [], VRRPs := [] }

/-- A VRRP entry of the examples: VRID 50, virtual address 10.0.0.1. -/
def exampleModel (priority interval : Nat) (preempt : Bool) : models.VRRP :=
  { Vrid := 50, Priority := priority, Preempt := preempt, Accept := false,
    Interval := interval, VirtualAddresses := [[10, 0, 0, 1]] }

/-- The group `newVRRP` builds at instant 0 from `exampleSubif` and
`exampleModel`, in its initial world (the zero group if the construction were
to fail, which `exampleWorld_built` excludes for the worlds used). -/
def exampleWorld (priority interval : Nat) (preempt : Bool) : World :=
  match newVRRP exampleDataplane 0 exampleSubif (exampleModel priority interval preempt) with
  | .ok v => initialWorld v
  | .error _ => initialWorld zeroVRRP

/-- An advertisement of the examples, as a peer 10.0.0.9 would send it for
10.0.0.1. -/
def exampleAdv (priority maxAdverInt : Nat) : VRRPv3Adv :=
  { Version := 3, Type_ := 1, VirtualRtrID := 50, Priority := priority, CountIPAddr := 1,
    MaxAdverInt := maxAdverInt, IPAddress := [[10, 0, 0, 1]] }

/-- The examples' group after `EventStart`: it is no address owner, so with a
priority below 255 it is a Backup. -/
def exampleBackup (priority interval : Nat) (preempt : Bool) : World :=
  NextState (exampleWorld priority interval preempt) EventStart

/-- The examples' group as a Master: started as a Backup, then the master-down
tick at 100 s, long after its down timer ran out. -/
def exampleMaster (priority interval : Nat) (preempt : Bool) : World :=
  mDownTimerTick (exampleBackup priority interval preempt) 100000000000

/-- An address owner of the examples: the virtual address is 10.0.0.5, the
address of `exampleSubif`; the configured priority is 100. -/
def exampleOwnerModel : models.VRRP :=
  { Vrid := 50, Priority := 100, Preempt := true, Accept := false,
    Interval := 100, VirtualAddresses := [[10, 0, 0, 5]] }

/-- The initial world of the address owner of the examples. -/
def exampleOwnerWorld : World :=
  match newVRRP exampleDataplane 0 exampleSubif exampleOwnerModel with
  | .ok v => initialWorld v
  | .error _ => initialWorld zeroVRRP

/-! ## Runs of one group -/

/-- What can happen to a group once it is built: an event through `NextState`,
a received advertisement through `NextStateForRecv`, a tick of the
advertisement timer, a tick of the master-down timer. -/
inductive Op where
  | nextState (e : VRRPEvent)
  | recv (vrrpAdv : VRRPv3Adv) (advSrcIP : IP) (now : Int)
  | advTick (now : Int)
  | downTick (now : Int)
  deriving DecidableEq, Repr

/-- One operation on the world of a group. -/
def applyOp (w : World) : Op → World
  | Op.nextState e => NextState w e
  | Op.recv vrrpAdv advSrcIP now => NextStateForRecv w vrrpAdv advSrcIP now
  | Op.advTick now => timeOutEvent w now
  | Op.downTick now => mDownTimerTick w now

/-- A sequence of operations, first to last. -/
def run (w : World) (ops : List Op) : World := ops.foldl applyOp w

/-- The part of the table/state relation that every run keeps: the group is in
the advertisement table iff it is Master, and a Backup is in the backup
table. -/
def TablesFollowState (w : World) : Prop :=
  (w.v.objID ∈ w.masterTable ↔ w.v.state = StateMaster) ∧
  (w.v.state = StateBackup → w.v.objID ∈ w.backupTable)

/-! ## Ranges of the machine types -/

/-- Every element is a byte. -/
def IsBytes (l : List Nat) : Prop := ∀ b ∈ l, b < 256

instance instDecidableIsBytes (l : List Nat) : Decidable (IsBytes l) := by
  unfold IsBytes
  infer_instance

/-- Every field of the advertisement is in the range of its Go type: `uint8`
for the version, type, router identifier, priority and count, `uint16` for the
interval and the checksum, bytes in every address. -/
def VRRPv3Adv.InRange (v : VRRPv3Adv) : Prop :=
  v.Version < 256 ∧ v.Type_ < 256 ∧ v.VirtualRtrID < 256 ∧ v.Priority < 256 ∧
  v.CountIPAddr < 256 ∧ v.MaxAdverInt < 65536 ∧ v.Checksum < 65536 ∧
  ∀ ip ∈ v.IPAddress, IsBytes ip

instance instDecidableInRange (v : VRRPv3Adv) : Decidable v.InRange := by
  unfold VRRPv3Adv.InRange
  infer_instance

/-- The sum, as a natural number, of the 16-bit big-endian words of a byte
list, an odd last byte counting as a high byte. -/
def wordSum : List Nat → Nat
  | b0 :: b1 :: rest => b0 * 256 + b1 + wordSum rest
  | [b0] => b0 * 256
  | [] => 0

/-- The IPv4 layer of the advertisement in the tests of the repository: from
192.168.100.238 to 224.0.0.18, TTL 255. -/
def exampleWireIP : IPv4 :=
  { TTL := 255, Protocol := 112, SrcIP := [192, 168, 100, 238], DstIP := [224, 0, 0, 18] }

/-- The advertisement in the tests of the repository (`TestVRRPv3AdvDecode`):
VRID 50, priority 255, interval 100, addresses 10.0.0.1 and 10.0.0.2. -/
def exampleWireAdv : VRRPv3Adv :=
  { pseudoheader := some exampleWireIP, Version := 3, Type_ := 1, VirtualRtrID := 50,
    Priority := 255, CountIPAddr := 2, MaxAdverInt := 100,
    IPAddress := [[10, 0, 0, 1], [10, 0, 0, 2]] }

/-- The body of `exampleWireAdv` as the tests of the repository give it, with
checksum 0xb539. -/
def exampleWireBody : List Nat :=
  [0x31, 0x32, 0xff, 0x02, 0x00, 0x64, 0xb5, 0x39, 0x0a, 0x00, 0x00, 0x01, 0x0a, 0x00, 0x00, 0x02]

/-! ## Error messages -/

/-- The text of an error that this repository formats itself (`%d` and `%v` of
a number print it in decimal); `none` for the errors whose text comes from
gopacket, the dataplane or the Go runtime. -/
def VrrpError.message : VrrpError → Option String
  | VrrpError.BadVersionOrType version type =>
    some ("Bad version or type: version = " ++ toString version ++ ", type = " ++ toString type)
  | VrrpError.BadPseudoheader => some "bad pseudoheader"
  | VrrpError.BadNumberOfAddresses => some "VRRPv3 number of IP addresses is not valid"
  | VrrpError.BadLengthOfAddresses => some "VRRPv3 length of IP addresses is not valid"
  | VrrpError.BadTTL ttl => some ("Bad TTL: " ++ toString ttl)
  | VrrpError.BadCountIPAddr count len =>
    some ("Bad CountIPAddr. CountIPAddr: " ++ toString count ++ ", IPAddress: " ++ toString len)
  | VrrpError.BadChecksum => some "Bad checksum"
  | VrrpError.InvalidArgs => some "Invalid args"
  | VrrpError.InvalidAddress => none
  | VrrpError.InvalidMAC => none
  | VrrpError.IndexOutOfRange => none
  | VrrpError.GetVifMacaddrFailed => none
  | VrrpError.LayerDecodeFailed => none
  | VrrpError.PacketTooSmall =>
    some "Not a valid VRRP packet. Packet length is too small"

/-- The group with the six fields cleared that transitions, received
advertisements and ticks write (`state`, `MaxAdverInt`, `masterDownInterval`,
`skewTime`, `nextDownTime`, `nextMasterAdvTime`): what is left is written by
`newVRRP` only. -/
def VRRP.settings (v : VRRP) : VRRP :=
  { v with state := StateInitialize, MaxAdverInt := 0, masterDownInterval := 0,
           skewTime := 0, nextDownTime := 0, nextMasterAdvTime := 0 }

/-! ## models: validity and the address list -/

namespace models

/-- DefaultPriority of `models/type.go`. -/
def DefaultPriority : Nat := 100

/-- DefaultPreempt of `models/type.go`. -/
def DefaultPreempt : Bool := true

/-- DefaultAccept of `models/type.go`. -/
def DefaultAccept : Bool := false

/-- DefaultInterval of `models/type.go`. -/
def DefaultInterval : Nat := 100

/-- NewVRRP of `models/vrrp.go`. -/
def NewVRRP : VRRP :=
  { Vrid := 0, Priority := DefaultPriority, Preempt := DefaultPreempt, Accept := DefaultAccept,
    Interval := DefaultInterval, VirtualAddresses := [] }

/-- IsValid of `models/vrrp.go`. -/
def VRRP.IsValid (vrrp : VRRP) : Bool :=
  if vrrp.Vrid > 0 ∧ vrrp.VirtualAddresses.length > 0 then true else false

/-- AddVirtualAddress of `models/vrrp.go`: the loop returns at the first entry
that is `Equal` to the address. -/
def VRRP.AddVirtualAddress (vrrp : VRRP) (addr : IP) : VRRP :=
  if vrrp.VirtualAddresses.any (fun vaddr => ipEqual vaddr addr) then vrrp
  else { vrrp with VirtualAddresses := vrrp.VirtualAddresses ++ [addr] }

/-- DeleteVirtualAddress of `models/vrrp.go`: the entries that are not `Equal`
to the address are appended to `tmp`, first to last. -/
def VRRP.DeleteVirtualAddress (vrrp : VRRP) (addr : IP) : VRRP :=
  { vrrp with
    VirtualAddresses := vrrp.VirtualAddresses.foldl
      (fun tmp vaddr => if !ipEqual vaddr addr then tmp ++ [vaddr] else tmp) [] }

/-- NewSubinterface of `models/subinterface.go`; the nil address and the nil MAC
are the empty list, `math.MaxUint64` and `math.MaxUint32` are written out. -/
def NewSubinterface : Subinterface :=
  { Name := "", Index := 18446744073709551615, IP := [], Prefix := 4294967295, MAC := [],
    VRRPs := [] }

/-- IsValid of `models/subinterface.go`. `subif.IP != nil` is `IP ≠ []`: the nil
slice is the empty list (an address comes from `net.ParseIP`, which returns nil
or 16 bytes). The loop over the map returns false at the first entry that is
not valid, so the order of the entries does not matter. -/
def Subinterface.IsValid (subif : Subinterface) : Bool :=
  if subif.Name.length > 0 ∧ subif.IP ≠ [] ∧
      subif.Index ≥ 0 ∧ subif.Index ≤ 4294967295 ∧
      subif.Prefix ≥ 0 ∧ subif.Prefix ≤ 32 ∧
      subif.VRRPs.length ≥ 0 then
    subif.VRRPs.all (fun kv => kv.2.IsValid)
  else false

end models

/-! ## agent/vrrp_mgr.go: the registry

The registry `vrrpTable` of `VRRPMgr` is a Go map from the object identifier to
the group. It is kept as a list of (key, group) pairs with distinct keys; a
loop over a Go map visits the entries in an unspecified order, which is the
order of the list. The tables of the two timers and the log of steps are
shared by all groups. -/

/-- The manager with the timers it drives. -/
structure Mgr where
  vrrpTable : List (String × VRRP)
  masterTable : List String
  backupTable : List String
  steps : List Step
  deriving DecidableEq, Repr

/-- The manager that `newVRRPMgr` returns, with empty timer tables. -/
def newVRRPMgr : Mgr := { vrrpTable := [], masterTable := [], backupTable := [], steps := [] }

/-- Go's `delete(m, k)` on the registry. -/
def mapDelete (t : List (String × VRRP)) (k : String) : List (String × VRRP) :=
  t.filter (fun e => e.1 ≠ k)

/-- Go's `m[k] = v` on the registry. -/
def mapSet (t : List (String × VRRP)) (k : String) (v : VRRP) : List (String × VRRP) :=
  mapDelete t k ++ [(k, v)]

/-- The world of one group inside the manager. -/
def Mgr.world (m : Mgr) (v : VRRP) : World :=
  { v := v, masterTable := m.masterTable, backupTable := m.backupTable, steps := m.steps }

/-- The first loop of UpdateSettings ("delete all vrrp") over the entries
`entries` of the registry: each group gets `EventShutdown` and the key that is
its object identifier is deleted. -/
def shutdownAll (m : Mgr) (entries : List (String × VRRP)) : Mgr :=
  entries.foldl (fun m kv =>
    let w := NextState (m.world kv.2) EventShutdown
    { vrrpTable := mapDelete m.vrrpTable kv.2.objID, masterTable := w.masterTable,
      backupTable := w.backupTable, steps := w.steps }) m

/-- The inner loop of UpdateSettings over the VRRP entries of one sub-interface:
the group is built, started and stored under its object identifier; the first
construction that fails ends UpdateSettings with its error. `now` gives the
instant `time.Now()` at which the group of an entry is built. -/
def createGroups (GetVifMacaddr : String → Except VrrpError HardwareAddr)
    (now : models.Subinterface → models.VRRP → Int) (subifModel : models.Subinterface) :
    Mgr → List (Nat × models.VRRP) → Mgr × Option VrrpError
  | m, [] => (m, none)
  | m, (_, vrrpModel) :: rest =>
    match newVRRP GetVifMacaddr (now subifModel vrrpModel) subifModel vrrpModel with
    | .ok v =>
      let w := NextState (m.world v) EventStart
      createGroups GetVifMacaddr now subifModel
        { vrrpTable := mapSet m.vrrpTable w.v.objID w.v, masterTable := w.masterTable,
          backupTable := w.backupTable, steps := w.steps } rest
    | .error err => (m, some err)

/-- The outer loop of UpdateSettings over the table of sub-interfaces: a
sub-interface that is not valid is logged and skipped. -/
def createSubifs (GetVifMacaddr : String → Except VrrpError HardwareAddr)
    (now : models.Subinterface → models.VRRP → Int) :
    Mgr → List (String × models.Subinterface) → Mgr × Option VrrpError
  | m, [] => (m, none)
  | m, (_, subifModel) :: rest =>
    if subifModel.IsValid = true then
      match createGroups GetVifMacaddr now subifModel m subifModel.VRRPs with
      | (m1, none) => createSubifs GetVifMacaddr now m1 rest
      | (m1, some err) => (m1, some err)
    else createSubifs GetVifMacaddr now m rest

/-- UpdateSettings of `vrrp_mgr.go`: the manager it leaves and the error it
returns (`none` for nil). Of the module package it reads whether the state is
`StateSuspended` (`moduleSuspended`) and the results of `ResumeModules` and
`SuspendModules`, which are parameters. -/
def UpdateSettings (GetVifMacaddr : String → Except VrrpError HardwareAddr)
    (now : models.Subinterface → models.VRRP → Int) (moduleSuspended : Bool)
    (ResumeModules SuspendModules : Option VrrpError) (m : Mgr)
    (subifTable : List (String × models.Subinterface)) : Mgr × Option VrrpError :=
  let m := shutdownAll m m.vrrpTable
  match (if moduleSuspended = true then ResumeModules else none) with
  | some err => (m, some err)
  | none =>
    match createSubifs GetVifMacaddr now m subifTable with
    | (m1, some err) => (m1, some err)
    | (m1, none) =>
      if m1.vrrpTable.length = 0 then
        match SuspendModules with
        | some err => (m1, some err)
        | none => (m1, none)
      else (m1, none)

/-! ## The checksum as the specification words it

These three definitions follow the words of the specification, not the code;
`C24_checksum_reference` compares them with `ComputeChecksum`. -/

/-- One's-complement addition of two 16-bit words: the carry out of bit 15 is
added back in (end-around carry). -/
def onesComplementAdd (a b : Nat) : Nat :=
  if a + b ≥ 65536 then a + b - 65536 + 1 else a + b

/-- The 16-bit big-endian words of a byte sequence; an odd trailing byte is the
high byte of a final word. -/
def words16 : List Nat → List Nat
  | b0 :: b1 :: rest => (b0 * 256 + b1) :: words16 rest
  | [b0] => [b0 * 256]
  | [] => []

/-- The reference checksum of the specification: the 16-bit complement of the
one's-complement sum of the words of the source address, the destination
address, the word 0x0070 (a zero byte and protocol 112), the length of the body
and the body. -/
def referenceChecksum (src dst b : List Nat) : Nat :=
  0xffff - (words16 src ++ words16 dst ++ [0x0070, b.length] ++ words16 b).foldl
    onesComplementAdd 0

/-! ## packets/vrrp_adv.go: DecodeVRRPAdv -/

/-- The fields of gopacket's `layers.Ethernet` that DecodeVRRPAdv hands back. -/
structure Ethernet where
  SrcMAC : HardwareAddr := []
  DstMAC : HardwareAddr := []
  EthernetType : Nat := 0
  Length : Nat := 0
  deriving DecidableEq, Repr

/-- DecodeVRRPAdv of `vrrp_adv.go`. `DecodeLayers` is the call
`parser.DecodeLayers(packet, &decoded)` of gopacket with the three decoding
layers: its error, or the Ethernet, IPv4 and VRRP layers as it leaves them.
checkVRRPAdv sets the pseudoheader of the VRRP layer, and `AddressTo4` inside
the checksum puts the addresses of the IPv4 layer in 4-byte form. -/
def DecodeVRRPAdv (DecodeLayers : List Nat → Except VrrpError (Ethernet × IPv4 × VRRPv3Adv))
    (packet : List Nat) : Except VrrpError (Ethernet × IPv4 × VRRPv3Adv) := do
  let (eth, ip, vrrp) ← DecodeLayers packet
  match checkVRRPAdv ip vrrp with
  | some err => throw err
  | none =>
    let ip4 : IPv4 := { ip with SrcIP := (To4 ip.SrcIP).getD ip.SrcIP,
                                DstIP := (To4 ip.DstIP).getD ip.DstIP }
    pure (eth, ip4, { vrrp with pseudoheader := some ip4 })

/-- What `DecodeLayers` of gopacket does on a plain frame: at least 34 bytes,
EtherType 0x0800, first IPv4 byte 0x45 (no options), a total length between 20
and the bytes present, no fragment, protocol 112. The Ethernet and IPv4 headers
are read, the IPv4 payload is cut at the total length, and the VRRP layer is
decoded from it by `DecodeFromBytes` on a new layer (a panic is turned into an
error; with an empty payload no VRRP layer is decoded). Frames of another shape
are not modelled and are reported as `LayerDecodeFailed` here: this function is
used for the examples only, and what is proved of DecodeVRRPAdv holds for every
`DecodeLayers`. -/
def decodeLayersPlain (packet : List Nat) : Except VrrpError (Ethernet × IPv4 × VRRPv3Adv) :=
  let ipData := packet.drop 14
  let ethernetType := packet.getD 12 0 * 256 + packet.getD 13 0
  let length := ipData.getD 2 0 * 256 + ipData.getD 3 0
  let flagsfrags := ipData.getD 6 0 * 256 + ipData.getD 7 0
  if packet.length < 34 ∨ ethernetType ≠ 0x0800 ∨ ipData.getD 0 0 ≠ 0x45 ∨ length < 20 ∨
      ipData.length < length ∨ flagsfrags % 16384 ≠ 0 ∨ ipData.getD 9 0 ≠ IPProtocolVRRP then
    throw VrrpError.LayerDecodeFailed
  else
    let eth : Ethernet := { SrcMAC := (packet.drop 6).take 6, DstMAC := packet.take 6,
                            EthernetType := ethernetType, Length := 0 }
    let ip : IPv4 := { TTL := ipData.getD 8 0, Protocol := ipData.getD 9 0,
                       SrcIP := (ipData.drop 12).take 4, DstIP := (ipData.drop 16).take 4 }
    let payload := (ipData.take length).drop 20
    if payload.length = 0 then pure (eth, ip, {})
    else do
      let vrrp ← DecodeFromBytes {} payload
      pure (eth, ip, vrrp)

/-! ## packets/layers/vrrpv3_adv.go: the registered decoder -/

/-- VRRPv3LayerType of `vrrpv3_adv.go`. -/
def VRRPv3LayerType : Nat := 2001

/-- The decodeVRRPv3Adv of `vrrpv3_adv.go`. The packet builder `p` is the list
of the types of the layers added so far, and `p.AddLayer(v)` appends the type
of the VRRP layer. The result is the error returned (`none` for nil) and the
builder. The test after DecodeFromBytes is `err == nil`: on a successful decode
the function returns that nil error at once; on a failed decode it goes on to
AddLayer and returns nil. A panic of DecodeFromBytes passes through. -/
def decodeVRRPv3Adv (data : List Nat) (p : List Nat) : Option VrrpError × List Nat :=
  if data.length < 8 then (some VrrpError.PacketTooSmall, p)
  else
    match DecodeFromBytes {} data with
    | .ok _ => (none, p)
    | .error VrrpError.IndexOutOfRange => (some VrrpError.IndexOutOfRange, p)
    | .error _ => (none, p ++ [VRRPv3LayerType])

/-! ## Calls that take locks

The models and the configuration guard their fields with a `sync.RWMutex` each,
taken at the start of a method and released by a deferred `Unlock`. Go's
mutexes are not reentrant: `Lock` on a mutex that the calling goroutine already
holds never returns. -/

/-- What a call does: it returns a value, it never returns because it waits in
`Lock` for a mutex that its own goroutine holds, or it panics. -/
inductive Outcome (α : Type) where
  | returns (a : α)
  | blocks
  | panics
  deriving DecidableEq, Repr

/-- Sequencing of calls: what follows a call runs only if the call returns. -/
def Outcome.andThen {α β : Type} (x : Outcome α) (f : α → Outcome β) : Outcome β :=
  match x with
  | Outcome.returns a => f a
  | Outcome.blocks => Outcome.blocks
  | Outcome.panics => Outcome.panics

/-- A method body between `lock.Lock()` and the deferred `lock.Unlock()` of its
receiver; `held` says whether the caller holds that lock when it makes the
call. -/
def withLock {α : Type} (held : Bool) (body : Outcome α) : Outcome α :=
  if held then Outcome.blocks else body

/-- Go's `v, ok := m[k]` on a map kept as the list of its (key, value) pairs:
`none` when the key is absent. -/
def mapGet {κ α : Type} [DecidableEq κ] (m : List (κ × α)) (k : κ) : Option α :=
  (m.find? (fun e => decide (e.1 = k))).map Prod.snd

/-- Go's `m[k] = v` on such a map, and equally the write through the pointer
`m[k]`: the value of an existing key is replaced, a new key is added. -/
def mapPut {κ α : Type} [DecidableEq κ] (m : List (κ × α)) (k : κ) (v : α) : List (κ × α) :=
  if m.any (fun e => decide (e.1 = k)) then m.map (fun e => if e.1 = k then (k, v) else e)
  else m ++ [(k, v)]

namespace models

/-- `math.MaxUint64`. -/
def MaxUint64 : Nat := 18446744073709551615

/-- `math.MaxUint32`. -/
def MaxUint32 : Nat := 4294967295

/-- SetPriority of `models/vrrp.go`. -/
def VRRP.SetPriority (vrrp : VRRP) (priority : Nat) : VRRP := { vrrp with Priority := priority }

/-- SetPreempt of `models/vrrp.go`. -/
def VRRP.SetPreempt (vrrp : VRRP) (preempt : Bool) : VRRP := { vrrp with Preempt := preempt }

/-- SetInterval of `models/vrrp.go`. -/
def VRRP.SetInterval (vrrp : VRRP) (interval : Nat) : VRRP := { vrrp with Interval := interval }

/-- Copy of `models/vrrp.go`. -/
def VRRP.Copy (vrrp : VRRP) : VRRP :=
  { Vrid := vrrp.Vrid, Priority := vrrp.Priority, Preempt := vrrp.Preempt,
    Accept := vrrp.Accept, Interval := vrrp.Interval, VirtualAddresses := vrrp.VirtualAddresses }

/-- SetIndex of `models/subinterface.go`. -/
def Subinterface.SetIndex (subif : Subinterface) (index : Nat) : Subinterface :=
  { subif with Index := index }

/-- DeleteIndex of `models/subinterface.go`. -/
def Subinterface.DeleteIndex (subif : Subinterface) : Subinterface :=
  { subif with Index := MaxUint64 }

/-- DeletePrefix of `models/subinterface.go`. -/
def Subinterface.DeletePrefix (subif : Subinterface) : Subinterface :=
  { subif with Prefix := MaxUint32 }

/-- Copy of `models/subinterface.go`; the new map is keyed by the `Vrid` of each
entry. `dupIP` of `models/util.go` is a parameter. -/
def Subinterface.Copy (dupIP : Vrrpd.IP → Vrrpd.IP) (subif : Subinterface) : Subinterface :=
  { Name := subif.Name, Index := subif.Index, IP := dupIP subif.IP, Prefix := subif.Prefix,
    MAC := subif.MAC,
    VRRPs := subif.VRRPs.foldl (fun vrrps kv => mapPut vrrps kv.2.Vrid kv.2.Copy) [] }

/-- AddVrrp of `models/subinterface.go`; `held` says whether the caller holds
the lock of the sub-interface. -/
def Subinterface.AddVrrp (held : Bool) (subif : Subinterface) (vrid : Nat) :
    Outcome Subinterface :=
  withLock held
    (match mapGet subif.VRRPs vrid with
     | some _ => Outcome.returns subif
     | none =>
       Outcome.returns { subif with VRRPs := mapPut subif.VRRPs vrid { NewVRRP with Vrid := vrid } })

/-- The second branch of the four setters of `models/subinterface.go` that
create a missing entry: `subif.AddVrrp(vrid)`, called with the lock of the
sub-interface held, then `subif.VRRPs[vrid]` updated by `set` (a nil pointer if
the key were still absent). -/
def Subinterface.addThenSet (subif : Subinterface) (vrid : Nat) (set : VRRP → VRRP) :
    Outcome Subinterface :=
  (subif.AddVrrp true vrid).andThen (fun subif =>
    match mapGet subif.VRRPs vrid with
    | some vrrp => Outcome.returns { subif with VRRPs := mapPut subif.VRRPs vrid (set vrrp) }
    | none => Outcome.panics)

/-- SetVrrpPriority of `models/subinterface.go`, called with the lock of the
sub-interface free. -/
def Subinterface.SetVrrpPriority (subif : Subinterface) (vrid priority : Nat) :
    Outcome Subinterface :=
  withLock false
    (match mapGet subif.VRRPs vrid with
     | some vrrp =>
       Outcome.returns { subif with VRRPs := mapPut subif.VRRPs vrid (vrrp.SetPriority priority) }
     | none => subif.addThenSet vrid (fun vrrp => vrrp.SetPriority priority))

/-- SetVrrpPreempt of `models/subinterface.go`. -/
def Subinterface.SetVrrpPreempt (subif : Subinterface) (vrid : Nat) (preempt : Bool) :
    Outcome Subinterface :=
  withLock false
    (match mapGet subif.VRRPs vrid with
     | some vrrp =>
       Outcome.returns { subif with VRRPs := mapPut subif.VRRPs vrid (vrrp.SetPreempt preempt) }
     | none => subif.addThenSet vrid (fun vrrp => vrrp.SetPreempt preempt))

/-- SetVrrpInterval of `models/subinterface.go`. -/
def Subinterface.SetVrrpInterval (subif : Subinterface) (vrid interval : Nat) :
    Outcome Subinterface :=
  withLock false
    (match mapGet subif.VRRPs vrid with
     | some vrrp =>
       Outcome.returns { subif with VRRPs := mapPut subif.VRRPs vrid (vrrp.SetInterval interval) }
     | none => subif.addThenSet vrid (fun vrrp => vrrp.SetInterval interval))

/-- AddVrrpVirtualAddress of `models/subinterface.go`. -/
def Subinterface.AddVrrpVirtualAddress (subif : Subinterface) (vrid : Nat) (addr : Vrrpd.IP) :
    Outcome Subinterface :=
  withLock false
    (match mapGet subif.VRRPs vrid with
     | some vrrp =>
       Outcome.returns
         { subif with VRRPs := mapPut subif.VRRPs vrid (vrrp.AddVirtualAddress addr) }
     | none => subif.addThenSet vrid (fun vrrp => vrrp.AddVirtualAddress addr))

/-- IfType of `models/type.go`. -/
inductive IfType where
  | IfTypeUnknown
  | IfTypeEthernetCsmacd
  | IfTypeTunnel
  deriving DecidableEq, Repr

/-- Interface of `models/interface.go`; the Go field `Type` is `Type_` here, the
map `Subinterfaces` is the list of its (key, entry) pairs. -/
structure Interface where
  Name : String
  Type_ : IfType
  Subinterfaces : List (String × Subinterface)
  deriving DecidableEq, Repr

/-- NewInterface of `models/interface.go`. -/
def NewInterface : Interface :=
  { Name := "", Type_ := IfType.IfTypeUnknown, Subinterfaces := [] }

/-- IsValid of `models/interface.go`. -/
def Interface.IsValid (iface : Interface) : Bool :=
  if iface.Type_ = IfType.IfTypeTunnel then true
  else if iface.Subinterfaces.length ≥ 0 then
    iface.Subinterfaces.all (fun kv => kv.2.IsValid)
  else false

/-- Copy of `models/interface.go`; the new map is keyed by the `Name` of each
entry. -/
def Interface.Copy (dupIP : IP → IP) (iface : Interface) : Interface :=
  { Name := iface.Name, Type_ := iface.Type_,
    Subinterfaces := iface.Subinterfaces.foldl
      (fun subinterfaces kv => mapPut subinterfaces kv.2.Name (kv.2.Copy dupIP)) [] }

/-- AddSubinterface of `models/interface.go`; `held` says whether the caller
holds the lock of the interface. -/
def Interface.AddSubinterface (held : Bool) (iface : Interface) (subifname : String) :
    Outcome Interface :=
  withLock held
    (match mapGet iface.Subinterfaces subifname with
     | some _ => Outcome.returns iface
     | none =>
       Outcome.returns { iface with
         Subinterfaces := mapPut iface.Subinterfaces subifname
           { NewSubinterface with Name := subifname } })

/-- SetSubifIndex of `models/interface.go`, called with the lock of the
interface free; in the second branch AddSubinterface is called with that lock
held. -/
def Interface.SetSubifIndex (iface : Interface) (subifname : String) (index : Nat) :
    Outcome Interface :=
  withLock false
    (match mapGet iface.Subinterfaces subifname with
     | some subiface =>
       Outcome.returns { iface with
         Subinterfaces := mapPut iface.Subinterfaces subifname (subiface.SetIndex index) }
     | none =>
       (iface.AddSubinterface true subifname).andThen (fun iface =>
         match mapGet iface.Subinterfaces subifname with
         | some subiface =>
           Outcome.returns { iface with
             Subinterfaces := mapPut iface.Subinterfaces subifname (subiface.SetIndex index) }
         | none => Outcome.panics))

/-- DeleteSubifIndex of `models/interface.go`. -/
def Interface.DeleteSubifIndex (iface : Interface) (subifname : String) : Interface :=
  match mapGet iface.Subinterfaces subifname with
  | some subiface =>
    { iface with Subinterfaces := mapPut iface.Subinterfaces subifname subiface.DeleteIndex }
  | none => iface

/-- DeleteSubifPrefix of `models/interface.go`. -/
def Interface.DeleteSubifPrefix (iface : Interface) (subifname : String) : Interface :=
  match mapGet iface.Subinterfaces subifname with
  | some subiface =>
    { iface with Subinterfaces := mapPut iface.Subinterfaces subifname subiface.DeletePrefix }
  | none => iface

end models

/-! ## config/agent.go, config/manager.go, config/handler.go -/

namespace config

/-- AgentConfig of `config/agent.go`; the map `Interfaces` is the list of its
(key, entry) pairs, a nil address the empty list. -/
structure AgentConfig where
  DsAddr : IP
  DsPort : Nat
  DpaAddr : IP
  DpaPort : Nat
  HostifAddr : IP
  HostifPort : Nat
  Interfaces : List (String × models.Interface)
  deriving DecidableEq, Repr

/-- The newAgentConfig of `config/agent.go`; `net.ParseIP("127.0.0.1")` is the
16-byte form of the address. -/
def newAgentConfig : AgentConfig :=
  { DsAddr := v4InV6Prefix ++ [127, 0, 0, 1], DsPort := 2650,
    DpaAddr := v4InV6Prefix ++ [127, 0, 0, 1], DpaPort := 30010,
    HostifAddr := v4InV6Prefix ++ [127, 0, 0, 1], HostifPort := 30020,
    Interfaces := [] }

/-- IsValid of `config/agent.go`. -/
def AgentConfig.IsValid (agentConfig : AgentConfig) : Bool :=
  if agentConfig.DsAddr ≠ [] ∧ agentConfig.DsPort > 0 ∧
      agentConfig.DpaAddr ≠ [] ∧ agentConfig.DpaPort > 0 ∧
      agentConfig.HostifAddr ≠ [] ∧ agentConfig.HostifPort > 0 ∧
      agentConfig.Interfaces.length ≥ 0 then
    agentConfig.Interfaces.all (fun kv => kv.2.IsValid)
  else false

/-- Copy of `config/agent.go`; the new map is keyed by the `Name` of each
interface. -/
def AgentConfig.Copy (dupIP : IP → IP) (agentConfig : AgentConfig) : AgentConfig :=
  { DsAddr := agentConfig.DsAddr, DsPort := agentConfig.DsPort,
    DpaAddr := agentConfig.DpaAddr, DpaPort := agentConfig.DpaPort,
    HostifAddr := agentConfig.HostifAddr, HostifPort := agentConfig.HostifPort,
    Interfaces := agentConfig.Interfaces.foldl
      (fun ifaces kv => mapPut ifaces kv.2.Name (kv.2.Copy dupIP)) [] }

/-- AddInterface of `config/agent.go`; `held` says whether the caller holds the
lock of the configuration. -/
def AgentConfig.AddInterface (held : Bool) (agentConfig : AgentConfig) (ifname : String) :
    Outcome AgentConfig :=
  withLock held
    (match mapGet agentConfig.Interfaces ifname with
     | some _ => Outcome.returns agentConfig
     | none =>
       Outcome.returns { agentConfig with
         Interfaces := mapPut agentConfig.Interfaces ifname
           { models.NewInterface with Name := ifname } })

/-- AddSubinterface of `config/agent.go`, called with the lock of the
configuration free; in the second branch AddInterface is called with that lock
held. -/
def AgentConfig.AddSubinterface (agentConfig : AgentConfig) (ifname subifname : String) :
    Outcome AgentConfig :=
  withLock false
    (match mapGet agentConfig.Interfaces ifname with
     | some iface =>
       (iface.AddSubinterface false subifname).andThen (fun iface =>
         Outcome.returns { agentConfig with
           Interfaces := mapPut agentConfig.Interfaces ifname iface })
     | none =>
       (agentConfig.AddInterface true ifname).andThen (fun agentConfig =>
         match mapGet agentConfig.Interfaces ifname with
         | some iface =>
           (iface.AddSubinterface false subifname).andThen (fun iface =>
             Outcome.returns { agentConfig with
               Interfaces := mapPut agentConfig.Interfaces ifname iface })
         | none => Outcome.panics))

/-- DeleteSubifIndex of `config/agent.go`: the call it makes on the interface is
`iface.DeleteSubifPrefix(subifname)`. -/
def AgentConfig.DeleteSubifIndex (agentConfig : AgentConfig) (ifname subifname : String) :
    AgentConfig :=
  match mapGet agentConfig.Interfaces ifname with
  | some iface =>
    { agentConfig with
      Interfaces := mapPut agentConfig.Interfaces ifname (iface.DeleteSubifPrefix subifname) }
  | none => agentConfig

/-- DeleteSubifPrefix of `config/agent.go`. -/
def AgentConfig.DeleteSubifPrefix (agentConfig : AgentConfig) (ifname subifname : String) :
    AgentConfig :=
  match mapGet agentConfig.Interfaces ifname with
  | some iface =>
    { agentConfig with
      Interfaces := mapPut agentConfig.Interfaces ifname (iface.DeleteSubifPrefix subifname) }
  | none => agentConfig

/-- Mgr of `config/manager.go`. -/
structure Mgr where
  current : AgentConfig
  modified : AgentConfig
  deriving DecidableEq, Repr

/-- GetModifiedConfig of `config/manager.go`. -/
def Mgr.GetModifiedConfig (dupIP : IP → IP) (cmgr : Mgr) : AgentConfig :=
  cmgr.modified.Copy dupIP

/-- Commit of `config/manager.go`: the manager it leaves and the value it
returns. -/
def Mgr.Commit (dupIP : IP → IP) (cmgr : Mgr) : Mgr × Bool :=
  ({ current := cmgr.modified, modified := cmgr.modified.Copy dupIP }, true)

/-- Rollback of `config/manager.go`. -/
def Mgr.Rollback (dupIP : IP → IP) (cmgr : Mgr) : Mgr :=
  { cmgr with modified := cmgr.current.Copy dupIP }

/-- Modelled from the spec: the declaration of the type `State` of package
config and of its constants is not among the sources; the three named states
are those of the diagram above NextState and of its switch, and `StateOther` is
any other value of the type, for which the switch has its default branch. -/
inductive State where
  | StateInitialize
  | StateValidation
  | StateCommit
  | StateOther (n : Nat)
  deriving DecidableEq, Repr

/-- The values of `ConfigType` of openconfigd that this repository names, and
any other value of the enumeration. -/
inductive ConfigType where
  | SET
  | DELETE
  | VALIDATE_START
  | VALIDATE_END
  | VALIDATE_SUCCESS
  | VALIDATE_FAILED
  | COMMIT_START
  | COMMIT_END
  | SUBSCRIBE
  | other (n : Nat)
  deriving DecidableEq, Repr

/-- The errors of the handler: "Bad type %v in StateInitialize" (and in
StateValidation, StateCommit), "validation failed", "commit failed", "Bad
config state %v". -/
inductive HandlerError where
  | BadType (t : ConfigType) (s : State)
  | ValidationFailed
  | CommitFailed
  | BadConfigState (s : State)
  deriving DecidableEq, Repr

/-- The doValidate of `config/handler.go`: the manager it leaves and the error
it returns (`none` for nil). -/
def doValidate (dupIP : IP → IP) (cmgr : Mgr) : Mgr × Option HandlerError :=
  if (cmgr.GetModifiedConfig dupIP).IsValid = true then (cmgr.Rollback dupIP, none)
  else (cmgr, some HandlerError.ValidationFailed)

/-- The doCommit of `config/handler.go`. -/
def doCommit (dupIP : IP → IP) (cmgr : Mgr) : Mgr × Option HandlerError :=
  match cmgr.Commit dupIP with
  | (cmgr1, true) => (cmgr1, none)
  | (cmgr1, false) => (cmgr1.Rollback dupIP, some HandlerError.CommitFailed)

/-- NextState of `config/handler.go`: the state of the handler and the manager
it leaves, and the error it returns (`none` for nil). `doSet` and `doDelete`
are what the command parsed from the path does to the manager (nothing, if the
parse fails); both return a nil error when they return. -/
def NextState (dupIP : IP → IP) (doSet doDelete : List String → Mgr → Outcome Mgr)
    (state : State) (cmgr : Mgr) (t : ConfigType) (path : List String) :
    Outcome (State × Mgr × Option HandlerError) :=
  match state with
  | State.StateInitialize =>
    match t with
    | ConfigType.VALIDATE_START => Outcome.returns (State.StateValidation, cmgr, none)
    | ConfigType.COMMIT_START => Outcome.returns (State.StateCommit, cmgr, none)
    | _ => Outcome.returns (state, cmgr, some (HandlerError.BadType t state))
  | State.StateValidation =>
    match t with
    | ConfigType.VALIDATE_END =>
      match doValidate dupIP cmgr with
      | (cmgr1, some err) => Outcome.returns (state, cmgr1, some err)
      | (cmgr1, none) => Outcome.returns (State.StateInitialize, cmgr1, none)
    | ConfigType.SET =>
      (doSet path cmgr).andThen (fun cmgr1 => Outcome.returns (state, cmgr1, none))
    | ConfigType.DELETE =>
      (doDelete path cmgr).andThen (fun cmgr1 => Outcome.returns (state, cmgr1, none))
    | _ => Outcome.returns (state, cmgr, some (HandlerError.BadType t state))
  | State.StateCommit =>
    match t with
    | ConfigType.COMMIT_END =>
      match doCommit dupIP cmgr with
      | (cmgr1, some err) => Outcome.returns (state, cmgr1, some err)
      | (cmgr1, none) => Outcome.returns (State.StateInitialize, cmgr1, none)
    | ConfigType.SET =>
      (doSet path cmgr).andThen (fun cmgr1 => Outcome.returns (state, cmgr1, none))
    | ConfigType.DELETE =>
      (doDelete path cmgr).andThen (fun cmgr1 => Outcome.returns (state, cmgr1, none))
    | _ => Outcome.returns (state, cmgr, some (HandlerError.BadType t state))
  | State.StateOther _ =>
    Outcome.returns (state, cmgr, some (HandlerError.BadConfigState state))

end config

/-- A configuration of the examples: the interface `if0` with the sub-interface
`if0-1` (index 1, 10.0.0.5/24) and the VRRP entry of the examples. -/
def exampleConfig : config.AgentConfig :=
  { config.newAgentConfig with
    Interfaces := [("if0",
      { Name := "if0", Type_ := models.IfType.IfTypeEthernetCsmacd,
        Subinterfaces := [("if0-1",
          { exampleSubif with Name := "if0-1", VRRPs := [(50, exampleModel 100 100 true)] })] })] }

/-- The configuration that the two calls of `subIfConf` leave for the path
`interfaces interface if0 subinterfaces subinterface 1` on a configuration with
the Ethernet interface `if0`: the sub-interface `if0-1` with index 1, without
address and prefix. -/
def exampleUnfinishedConfig : config.AgentConfig :=
  { config.newAgentConfig with
    Interfaces := [("if0",
      { Name := "if0", Type_ := models.IfType.IfTypeEthernetCsmacd,
        Subinterfaces := [("if0-1",
          { models.NewSubinterface with Name := "if0-1", Index := 1 })] })] }

/-- The sub-interface of the examples with its address 10.0.0.5 in the 16-byte
form that `net.ParseIP` returns. -/
def exampleSubif16 : models.Subinterface :=
  { exampleSubif with IP := v4InV6Prefix ++ [10, 0, 0, 5] }

/-- The Master of the examples, built from `exampleSubif16`: the same group as
`exampleMaster` but for the form of `subifIP`. -/
def exampleMaster16 (priority interval : Nat) (preempt : Bool) : World :=
  match newVRRP exampleDataplane 0 exampleSubif16 (exampleModel priority interval preempt) with
  | .ok v => mDownTimerTick (NextState (initialWorld v) EventStart) 100000000000
  | .error _ => initialWorld zeroVRRP

/-! ## The locks around a tick

`timeOutEvent` of `adv_timer.go` takes `AdvTimer.lock` first and releases it by
a deferred `Unlock`, that is when it returns; `mDownTimerLoop` of
`master_down_timer.go` takes `MDownTimer.lock` before its loop and releases it
after; `getVRRPAdvExpired` and `masterDownTimeExpired` of `vrrp.go` take the
lock of the group and release it by a deferred `Unlock`. -/

/-- The mutexes a tick takes: `AdvTimer.lock`, `MDownTimer.lock`, and the lock
of the group with the given object identifier. -/
inductive LockId where
  | advTimer
  | mDownTimer
  | group (objID : String)
  deriving DecidableEq, Repr

/-- What a tick does, in order: a `Lock`, an `Unlock`, or a step of the
group. -/
inductive TickEvent where
  | Lock (l : LockId)
  | Unlock (l : LockId)
  | Do (s : Step)
  deriving DecidableEq, Repr

/-- A step of a transition with the lock its callee takes around it:
`AddMasterTable` and `DeleteMasterTable` take and release `AdvTimer.lock`,
`AddBackupTable` takes and releases `MDownTimer.lock`. The removal from the
backup table inside a tick is the closure over `deleteBackupTable`, which takes
no lock. -/
def lockedStep : Step → List TickEvent
  | Step.AddMasterTable k =>
    [TickEvent.Lock LockId.advTimer, TickEvent.Do (Step.AddMasterTable k),
      TickEvent.Unlock LockId.advTimer]
  | Step.DeleteMasterTable k =>
    [TickEvent.Lock LockId.advTimer, TickEvent.Do (Step.DeleteMasterTable k),
      TickEvent.Unlock LockId.advTimer]
  | Step.AddBackupTable k =>
    [TickEvent.Lock LockId.mDownTimer, TickEvent.Do (Step.AddBackupTable k),
      TickEvent.Unlock LockId.mDownTimer]
  | Step.DeleteBackupTable k => [TickEvent.Do (Step.DeleteBackupTable k)]
  | Step.SetState s => [TickEvent.Do (Step.SetState s)]
  | Step.Call e => [TickEvent.Do (Step.Call e)]

/-- The events of timeOutEvent of `adv_timer.go` for the group of this world:
`at.lock.Lock()`; for a group in the table, `getVRRPAdvExpired` under the lock
of the group; the steps the tick takes (the hand-off of the collected packets);
and the deferred `at.lock.Unlock()` when the function returns. -/
def timeOutEventEvents (w : World) (now : Int) : List TickEvent :=
  [TickEvent.Lock LockId.advTimer] ++
  (if w.v.objID ∈ w.masterTable then
    [TickEvent.Lock (LockId.group w.v.objID), TickEvent.Unlock (LockId.group w.v.objID)]
   else []) ++
  (((timeOutEvent w now).steps.drop w.steps.length).map lockedStep).flatten ++
  [TickEvent.Unlock LockId.advTimer]

/-- The events of one tick of mDownTimerLoop of `master_down_timer.go` for the
group of this world: `mdt.lock.Lock()`; for a group in the table,
`masterDownTimeExpired`, which takes the lock of the group, takes the steps of
the tick and releases the lock of the group when it returns; then
`mdt.lock.Unlock()`. -/
def mDownTimerTickEvents (w : World) (now : Int) : List TickEvent :=
  [TickEvent.Lock LockId.mDownTimer] ++
  (if w.v.objID ∈ w.backupTable then
    [TickEvent.Lock (LockId.group w.v.objID)] ++
    (((mDownTimerTick w now).steps.drop w.steps.length).map lockedStep).flatten ++
    [TickEvent.Unlock (LockId.group w.v.objID)]
   else []) ++
  [TickEvent.Unlock LockId.mDownTimer]

/-- The calls on the dataplane and the host interface in a list of events, each
with the locks that are held when it is made (the last one taken first);
`held` are the locks held at the start. -/
def callsWithLocks : List LockId → List TickEvent → List (Effect × List LockId)
  | _, [] => []
  | held, TickEvent.Lock l :: rest => callsWithLocks (l :: held) rest
  | held, TickEvent.Unlock l :: rest => callsWithLocks (held.erase l) rest
  | held, TickEvent.Do (Step.Call e) :: rest => (e, held) :: callsWithLocks held rest
  | held, TickEvent.Do (Step.AddMasterTable _) :: rest => callsWithLocks held rest
  | held, TickEvent.Do (Step.DeleteMasterTable _) :: rest => callsWithLocks held rest
  | held, TickEvent.Do (Step.AddBackupTable _) :: rest => callsWithLocks held rest
  | held, TickEvent.Do (Step.DeleteBackupTable _) :: rest => callsWithLocks held rest
  | held, TickEvent.Do (Step.SetState _) :: rest => callsWithLocks held rest

/-! # Theorems -/

/-! ## The state machine -/

theorem becomeMaster_state (w : World) : (becomeMaster w).v.state = StateMaster := rfl

theorem becomeBackup_state (w : World) : (becomeBackup w).v.state = StateBackup := rfl

theorem becomeInitialize_state (w : World) :
    (becomeInitialize w).v.state = StateInitialize := rfl

/-- In state Initialize, `EventStart` runs `doInitializeTasks`, whose nested
call is a plain `becomeMaster` or `becomeBackup`. -/
theorem nextStateNoLock_start (w : World) (h : w.v.state = StateInitialize) :
    nextStateNoLock w EventStart =
      if containsInterfaceIPs w.v w.v.IPAddress = true ∨ w.v.Priority = 255 then becomeMaster w
      else becomeBackup w := by
  simp only [nextStateNoLock, nextStateNoLockDepth, nextStateNoLockBody, getStateNoLock, h,
    doInitializeTasks]
  by_cases h1 : containsInterfaceIPs w.v w.v.IPAddress = true
  · simp [h1]
  · by_cases h2 : w.v.Priority = 255 <;> simp [h1, h2]

/-- Two levels of nesting are enough: a larger depth bound gives the same
result. -/
theorem nextStateNoLockDepth_stable (d : Nat) (w : World) (e : VRRPEvent) :
    nextStateNoLockDepth (d + 2) w e = nextStateNoLock w e := by
  cases hs : w.v.state <;> cases e <;>
    simp [nextStateNoLock, nextStateNoLockDepth, nextStateNoLockBody, getStateNoLock, hs,
      doInitializeTasks]

/-- C1. For every world and event, NextState leaves the group in the state of the
transition table (Initialize+StartMaster -> Master, Initialize+StartBackup ->
Backup, Initialize+Start -> Master or Backup, Master+DetectedNewMaster ->
Backup, Master+Shutdown -> Initialize, Backup+MasterDown -> Master,
Backup+Preempt -> Master, Backup+Shutdown -> Initialize), and for every other
(state, event) pair the whole world (group, both tables, trace of calls and
packets) is unchanged. -/
theorem C1_transition_table (w : World) (e : VRRPEvent) :
    match w.v.state, e with
    | StateInitialize, EventStartMaster => (NextState w e).v.state = StateMaster
    | StateInitialize, EventStartBackup => (NextState w e).v.state = StateBackup
    | StateInitialize, EventStart =>
        (NextState w e).v.state = StateMaster ∨ (NextState w e).v.state = StateBackup
    | StateMaster, EventDetectedNewMaster => (NextState w e).v.state = StateBackup
    | StateMaster, EventShutdown => (NextState w e).v.state = StateInitialize
    | StateBackup, EventMasterDown => (NextState w e).v.state = StateMaster
    | StateBackup, EventPreempt => (NextState w e).v.state = StateMaster
    | StateBackup, EventShutdown => (NextState w e).v.state = StateInitialize
    | _, _ => NextState w e = w := by
  cases hs : w.v.state <;> cases e
  case StateInitialize.EventStart =>
    simp only [NextState, nextStateNoLock_start w hs]
    split_ifs <;> simp [becomeMaster_state, becomeBackup_state]
  all_goals
    simp only [NextState, nextStateNoLock, nextStateNoLockDepth, nextStateNoLockBody,
      getStateNoLock, hs, becomeMaster_state, becomeBackup_state, becomeInitialize_state]

/-! ## Derived timer quantities -/

/-- The skew time resetMasterDownInterval computes, in `uint16` arithmetic. -/
theorem resetMasterDownInterval_eq (v : VRRP) (interval : Nat) :
    resetMasterDownInterval v interval =
      { v with
        masterDownInterval :=
          u16 (u16 (3 * interval) + u16 (u16 (256 - v.Priority) * interval) / 256),
        skewTime := u16 (u16 (256 - v.Priority) * interval) / 256 } := by
  unfold resetMasterDownInterval
  simp only
  split_ifs with h
  · rfl
  · have h1 := not_or.mp h
    have hm := not_not.mp h1.1
    have hk := not_not.mp h1.2
    cases v
    simp only at hm hk
    simp only [← hm, ← hk]

/-- Where the product does not leave 16 bits the code computes the quotient of
the mathematical integers; this covers every priority with an interval up to
257 centiseconds. -/
theorem resetMasterDownInterval_exact (v : VRRP) (interval : Nat)
    (hp : v.Priority ≤ 255) (hi : interval ≤ 4095)
    (h : (256 - v.Priority) * interval < 65536) :
    (resetMasterDownInterval v interval).skewTime = ((256 - v.Priority) * interval) / 256 ∧
    (resetMasterDownInterval v interval).masterDownInterval =
      3 * interval + ((256 - v.Priority) * interval) / 256 := by
  rw [resetMasterDownInterval_eq]
  simp only [u16]
  have h1 : (256 - v.Priority) % 65536 = 256 - v.Priority := Nat.mod_eq_of_lt (by omega)
  rw [h1, Nat.mod_eq_of_lt h]
  have h2 : (256 - v.Priority) * interval / 256 < 256 := by omega
  refine ⟨rfl, ?_⟩
  omega

/-- C3. At priority 100 and interval 1000 (both in the claimed ranges)
resetMasterDownInterval leaves skewTime 97 and masterDownInterval 3097, because
`(256 - 100) * 1000` wraps around 2^16; the integers of the claim are
`((256 - 100) * 1000) / 256 = 609` and `3 * 1000 + 609 = 3609`. -/
theorem C3_resetMasterDownInterval_wraps :
    (resetMasterDownInterval (exampleWorld 100 100 true).v 1000).Priority = 100 ∧
    (resetMasterDownInterval (exampleWorld 100 100 true).v 1000).skewTime = 97 ∧
    (resetMasterDownInterval (exampleWorld 100 100 true).v 1000).masterDownInterval = 3097 ∧
    ((256 - 100) * 1000) / 256 = 609 ∧ 3 * 1000 + 609 = 3609 := by
  decide

/-! ## Receiving an advertisement -/

/-- Go's `bytes.Compare a b` is positive exactly when `b` comes before `a` in
the lexicographic order of the byte lists. -/
theorem bytesCompare_pos_iff (a b : List Nat) :
    0 < bytesCompare a b ↔ List.Lex (fun x y : Nat => x < y) b a := by
  induction a generalizing b with
  | nil =>
    cases b with
    | nil => simp [bytesCompare]
    | cons y ys => simp [bytesCompare]
  | cons x xs ih =>
    cases b with
    | nil => simp [bytesCompare, List.Lex.nil]
    | cons y ys =>
      simp only [bytesCompare]
      by_cases hxy : x < y
      · simp only [hxy, if_true]
        constructor
        · intro h; omega
        · intro h
          cases h with
          | cons h => omega
          | rel h => omega
      · by_cases hyx : y < x
        · simp only [hxy, hyx, if_false, if_true]
          exact ⟨fun _ => List.Lex.rel hyx, fun _ => by omega⟩
        · have hxy2 : x = y := by omega
          subst hxy2
          simp only [hxy, if_false, ih ys]
          constructor
          · intro h; exact List.Lex.cons h
          · intro h
            cases h with
            | cons h => exact h
            | rel h => omega

/-- The containsInterfaceIPs test is membership of `subifIP`, byte for byte. -/
theorem containsInterfaceIPs_iff (v : VRRP) (ips : List IP) :
    containsInterfaceIPs v ips = true ↔ v.subifIP ∈ ips := by
  simp only [containsInterfaceIPs, bytesEqual, List.any_eq_true, decide_eq_true_eq]
  constructor
  · rintro ⟨ip, hip, h⟩; exact h ▸ hip
  · intro h; exact ⟨v.subifIP, h, rfl⟩

/-- An advertisement that lists subifIP, and any advertisement in state
Initialize, is dropped. -/
theorem NextStateForRecv_dropped (w : World) (adv : VRRPv3Adv) (src : IP) (now : Int)
    (h : w.v.subifIP ∈ adv.IPAddress ∨ w.v.state = StateInitialize) :
    NextStateForRecv w adv src now = w := by
  unfold NextStateForRecv
  by_cases hc : containsInterfaceIPs w.v adv.IPAddress = true
  · simp [hc]
  · rcases h with h | h
    · exact absurd ((containsInterfaceIPs_iff w.v adv.IPAddress).mpr h) hc
    · simp [hc, getStateNoLock, h]

/-- C9, the failing input. The Master of priority 100 whose subifIP is 10.0.0.5
in the 16-byte form of `net.ParseIP` receives an advertisement of priority 200
and interval 300 that lists 10.0.0.1 and 10.0.0.5 (4 bytes each, as decoded).
The list contains the address of the sub-interface (`net.IP.Equal`), but
containsInterfaceIPs compares the bytes and does not find it: the
advertisement is processed, the group becomes Backup, leaves the advertisement
table, adopts the interval 300 with new timers and calls ToBackup on the
dataplane. With subifIP in 4-byte form the same advertisement changes
nothing. -/
theorem C9_self_address_processed :
    ({ exampleAdv 200 300 with IPAddress := [[10, 0, 0, 1], [10, 0, 0, 5]] } : VRRPv3Adv
      ).IPAddress.any (fun ip => ipEqual ip (exampleMaster16 100 100 true).v.subifIP) = true ∧
    containsInterfaceIPs (exampleMaster16 100 100 true).v [[10, 0, 0, 1], [10, 0, 0, 5]]
      = false ∧
    (exampleMaster16 100 100 true).v.state = StateMaster ∧
    (exampleMaster16 100 100 true).v.MaxAdverInt = 100 ∧
    (exampleMaster16 100 100 true).masterTable = ["s:50"] ∧
    (NextStateForRecv (exampleMaster16 100 100 true)
      { exampleAdv 200 300 with IPAddress := [[10, 0, 0, 1], [10, 0, 0, 5]] } [10, 0, 0, 9]
      5).v.state = StateBackup ∧
    (NextStateForRecv (exampleMaster16 100 100 true)
      { exampleAdv 200 300 with IPAddress := [[10, 0, 0, 1], [10, 0, 0, 5]] } [10, 0, 0, 9]
      5).v.MaxAdverInt = 300 ∧
    (NextStateForRecv (exampleMaster16 100 100 true)
      { exampleAdv 200 300 with IPAddress := [[10, 0, 0, 1], [10, 0, 0, 5]] } [10, 0, 0, 9]
      5).masterTable = [] ∧
    (NextStateForRecv (exampleMaster16 100 100 true)
      { exampleAdv 200 300 with IPAddress := [[10, 0, 0, 1], [10, 0, 0, 5]] } [10, 0, 0, 9]
      5).trace = (exampleMaster16 100 100 true).trace ++
        [Effect.ToBackup "s" (v4InV6Prefix ++ [10, 0, 0, 5], 24) [([10, 0, 0, 1], 24)]] ∧
    NextStateForRecv (exampleMaster 100 100 true)
      { exampleAdv 200 300 with IPAddress := [[10, 0, 0, 1], [10, 0, 0, 5]] } [10, 0, 0, 9] 5
        = exampleMaster 100 100 true := by
  decide

theorem nextStateNoLock_master_detected (w : World) (hs : w.v.state = StateMaster) :
    nextStateNoLock w EventDetectedNewMaster = becomeBackup w := by
  simp [nextStateNoLock, nextStateNoLockDepth, nextStateNoLockBody, getStateNoLock, hs]

theorem nextStateNoLock_backup_preempt (w : World) (hs : w.v.state = StateBackup) :
    nextStateNoLock w EventPreempt = becomeMaster w := by
  simp [nextStateNoLock, nextStateNoLockDepth, nextStateNoLockBody, getStateNoLock, hs]

theorem nextStateNoLock_backup_masterDown (w : World) (hs : w.v.state = StateBackup) :
    nextStateNoLock w EventMasterDown = becomeMaster w := by
  simp [nextStateNoLock, nextStateNoLockDepth, nextStateNoLockBody, getStateNoLock, hs]

/-- NextStateForRecv in state Master, for an advertisement that passes the
self-address check. -/
theorem NextStateForRecv_master (w : World) (adv : VRRPv3Adv) (src : IP) (now : Int)
    (hs : w.v.state = StateMaster) (hself : w.v.subifIP ∉ adv.IPAddress) :
    NextStateForRecv w adv src now =
      if w.v.Priority = 0 then { w with v := { w.v with nextMasterAdvTime := now } }
      else if adv.Priority > w.v.Priority ∨
          (adv.Priority = w.v.Priority ∧ List.Lex (fun x y : Nat => x < y) w.v.subifIP src) then
        becomeBackup { DeleteMasterTable w with
          v := setNextDownTimeNoLock
            (resetMasterDownInterval { w.v with MaxAdverInt := adv.MaxAdverInt } adv.MaxAdverInt)
            now
            (resetMasterDownInterval { w.v with MaxAdverInt := adv.MaxAdverInt }
              adv.MaxAdverInt).masterDownInterval }
      else w := by
  have hc : containsInterfaceIPs w.v adv.IPAddress = false := by
    rw [Bool.eq_false_iff]
    exact fun h => hself ((containsInterfaceIPs_iff _ _).mp h)
  unfold NextStateForRecv
  simp only [hc, getStateNoLock, hs, gt_iff_lt, bytesCompare_pos_iff]
  by_cases hp : w.v.Priority = 0
  · simp [hp]
  · simp only [hp, if_false, Bool.false_eq_true]
    split_ifs with h
    · rw [nextStateNoLock_master_detected]
      · simp [DeleteMasterTable, hs]
      · rw [resetMasterDownInterval_eq]
        exact hs
    · rfl

/-- NextStateForRecv in state Backup, for an advertisement that passes the
self-address check. -/
theorem NextStateForRecv_backup (w : World) (adv : VRRPv3Adv) (src : IP) (now : Int)
    (hs : w.v.state = StateBackup) (hself : w.v.subifIP ∉ adv.IPAddress) :
    NextStateForRecv w adv src now =
      if w.v.Priority = 0 then { w with v := setNextDownTimeNoLock w.v now w.v.skewTime }
      else if w.v.preempt = true ∧ adv.Priority < w.v.Priority then becomeMaster w
      else
        { w with
          v := setNextDownTimeNoLock
            (resetMasterDownInterval { w.v with MaxAdverInt := adv.MaxAdverInt } adv.MaxAdverInt)
            now
            (resetMasterDownInterval { w.v with MaxAdverInt := adv.MaxAdverInt }
              adv.MaxAdverInt).masterDownInterval } := by
  have hc : containsInterfaceIPs w.v adv.IPAddress = false := by
    rw [Bool.eq_false_iff]
    exact fun h => hself ((containsInterfaceIPs_iff _ _).mp h)
  unfold NextStateForRecv
  simp only [hc, getStateNoLock, hs, getSkewTimeTimeNoLock]
  by_cases hp : w.v.Priority = 0
  · simp [hp]
  · simp only [hp, if_false, Bool.false_eq_true]
    by_cases h : w.v.preempt = true ∧ adv.Priority < w.v.Priority
    · simp only [h, and_self, if_true, nextStateNoLock_backup_preempt w hs]
    · simp only [h, if_false]
      have h3 : w.v.preempt = false ∨ adv.Priority ≥ w.v.Priority := by
        by_cases hpre : w.v.preempt = true
        · right
          exact Nat.le_of_not_lt (fun hlt => h ⟨hpre, hlt⟩)
        · left
          simpa using hpre
      simp only [h3, if_true]

/-- The example worlds are built by a successful `newVRRP`. -/
theorem exampleWorld_built :
    (newVRRP exampleDataplane 0 exampleSubif (exampleModel 200 100 true)).toOption
        = some (exampleWorld 200 100 true).v ∧
    (newVRRP exampleDataplane 0 exampleSubif (exampleModel 200 100 false)).toOption
        = some (exampleWorld 200 100 false).v ∧
    (newVRRP exampleDataplane 0 exampleSubif (exampleModel 100 100 true)).toOption
        = some (exampleWorld 100 100 true).v := by
  decide

/-- C6. Master receive rule: a Master with non-zero priority that receives an
advertisement not listing subifIP becomes Backup iff the advertised priority is
higher, or equal with a source address after subifIP in the lexicographic order
of the bytes; then it is out of the advertisement table, in the backup table,
has adopted the advertised interval, has skewTime and masterDownInterval
recomputed from it by resetMasterDownInterval (16-bit arithmetic) and
nextDownTime = now + masterDownInterval centiseconds; otherwise the world is
unchanged. -/
theorem C6_master_receive (w : World) (adv : VRRPv3Adv) (src : IP) (now : Int)
    (hs : w.v.state = StateMaster) (hp : w.v.Priority ≠ 0)
    (hself : w.v.subifIP ∉ adv.IPAddress) :
    ((NextStateForRecv w adv src now).v.state = StateBackup ↔
      (adv.Priority > w.v.Priority ∨
        (adv.Priority = w.v.Priority ∧ List.Lex (fun x y : Nat => x < y) w.v.subifIP src))) ∧
    ((adv.Priority > w.v.Priority ∨
        (adv.Priority = w.v.Priority ∧ List.Lex (fun x y : Nat => x < y) w.v.subifIP src)) →
      w.v.objID ∉ (NextStateForRecv w adv src now).masterTable ∧
      w.v.objID ∈ (NextStateForRecv w adv src now).backupTable ∧
      (NextStateForRecv w adv src now).v.objID = w.v.objID ∧
      (NextStateForRecv w adv src now).v.Priority = w.v.Priority ∧
      (NextStateForRecv w adv src now).v.MaxAdverInt = adv.MaxAdverInt ∧
      (NextStateForRecv w adv src now).v.skewTime =
        u16 (u16 (256 - w.v.Priority) * adv.MaxAdverInt) / 256 ∧
      (NextStateForRecv w adv src now).v.masterDownInterval =
        u16 (u16 (3 * adv.MaxAdverInt) + (NextStateForRecv w adv src now).v.skewTime) ∧
      (NextStateForRecv w adv src now).v.nextDownTime =
        now + ((NextStateForRecv w adv src now).v.masterDownInterval : Int) * Centisecond) ∧
    (¬ (adv.Priority > w.v.Priority ∨
        (adv.Priority = w.v.Priority ∧ List.Lex (fun x y : Nat => x < y) w.v.subifIP src)) →
      NextStateForRecv w adv src now = w) := by
  rw [NextStateForRecv_master w adv src now hs hself, if_neg hp]
  by_cases h : adv.Priority > w.v.Priority ∨
      (adv.Priority = w.v.Priority ∧ List.Lex (fun x y : Nat => x < y) w.v.subifIP src)
  · rw [if_pos h]
    refine ⟨⟨fun _ => h, fun _ => becomeBackup_state _⟩, fun _ => ?_, fun hn => absurd h hn⟩
    simp [becomeBackup, toBackup, AddBackupTable, DeleteMasterTable, setStateNoLock,
      setStateStep, call, setNextDownTimeNoLock, resetMasterDownInterval_eq]
  · rw [if_neg h]
    refine ⟨⟨fun hb => ?_, fun hy => absurd hy h⟩, fun hy => absurd hy h, fun _ => rfl⟩
    rw [hs] at hb
    cases hb

/-- The example of C6: the Master on 10.0.0.5 with priority 100 yields to an
advertisement of equal priority from 10.0.0.9. -/
theorem C6_master_receive_witness :
    (NextStateForRecv (exampleMaster 100 100 true) (exampleAdv 100 100)
      [10, 0, 0, 9] 200000000000).v.state = StateBackup :=
  (C6_master_receive (exampleMaster 100 100 true) (exampleAdv 100 100) [10, 0, 0, 9]
    200000000000 (by decide) (by decide) (by decide)).1.mpr
    (Or.inr ⟨by decide, List.Lex.cons (List.Lex.cons (List.Lex.cons (List.Lex.rel (by decide))))⟩)

/-- C7. Preempt rule: a Backup with non-zero priority that receives an
advertisement not listing subifIP becomes Master when preempt is set and the
advertised priority is lower than its own: ToMaster is called and then the GARP
batch is sent (nothing else is appended to the trace), and the group is in the
advertisement table; with preempt unset the state remains Backup whatever the
advertisement. -/
theorem C7_preempt_rule (w : World) (adv : VRRPv3Adv) (src : IP) (now : Int)
    (hs : w.v.state = StateBackup) (hp : w.v.Priority ≠ 0)
    (hself : w.v.subifIP ∉ adv.IPAddress) :
    (w.v.preempt = true → adv.Priority < w.v.Priority →
      (NextStateForRecv w adv src now).v.state = StateMaster ∧
      (NextStateForRecv w adv src now).trace = w.trace ++
        [Effect.ToMaster w.v.subifName (w.v.subifIP, w.v.subifPrefix)
           (w.v.vaddrs.map (fun a => (a, w.v.subifPrefix))),
         Effect.PacketoutBulk w.v.garpPackets] ∧
      w.v.objID ∈ (NextStateForRecv w adv src now).masterTable ∧
      (NextStateForRecv w adv src now).v.objID = w.v.objID) ∧
    (w.v.preempt = false → (NextStateForRecv w adv src now).v.state = StateBackup) := by
  rw [NextStateForRecv_backup w adv src now hs hself, if_neg hp]
  constructor
  · intro hpre hlt
    rw [if_pos ⟨hpre, hlt⟩]
    simp [becomeMaster, AddMasterTable, sendGARP, toMaster, setStateNoLock, setStateStep,
      call, World.trace, Step.effect]
  · intro hpre
    rw [if_neg (by simp [hpre])]
    simp [setNextDownTimeNoLock, resetMasterDownInterval_eq, hs]

/-- The example of C7: the Backup of priority 200 with preempt set becomes
Master on an advertisement of priority 100, and the same group with preempt
unset stays Backup. -/
theorem C7_preempt_rule_witness :
    (NextStateForRecv (exampleBackup 200 100 true) (exampleAdv 100 100)
      [10, 0, 0, 9] 5).v.state = StateMaster ∧
    (NextStateForRecv (exampleBackup 200 100 false) (exampleAdv 100 100)
      [10, 0, 0, 9] 5).v.state = StateBackup :=
  ⟨((C7_preempt_rule (exampleBackup 200 100 true) (exampleAdv 100 100) [10, 0, 0, 9] 5
      (by decide) (by decide) (by decide)).1 (by decide) (by decide)).1,
   (C7_preempt_rule (exampleBackup 200 100 false) (exampleAdv 100 100) [10, 0, 0, 9] 5
      (by decide) (by decide) (by decide)).2 (by decide)⟩

/-- C8. Backup refresh: a Backup with non-zero priority that receives, at instant
now, an advertisement not listing subifIP, with preempt unset or an advertised
priority not below its own, adopts the advertised interval, has skewTime and
masterDownInterval recomputed from it and the local priority by
resetMasterDownInterval (16-bit arithmetic), sets nextDownTime = now +
masterDownInterval centiseconds, and keeps its state (Backup), its priority,
both tables and the trace. -/
theorem C8_backup_refresh (w : World) (adv : VRRPv3Adv) (src : IP) (now : Int)
    (hs : w.v.state = StateBackup) (hp : w.v.Priority ≠ 0)
    (hself : w.v.subifIP ∉ adv.IPAddress)
    (hc : w.v.preempt = false ∨ adv.Priority ≥ w.v.Priority) :
    (NextStateForRecv w adv src now).v.MaxAdverInt = adv.MaxAdverInt ∧
    (NextStateForRecv w adv src now).v.skewTime =
      u16 (u16 (256 - w.v.Priority) * adv.MaxAdverInt) / 256 ∧
    (NextStateForRecv w adv src now).v.masterDownInterval =
      u16 (u16 (3 * adv.MaxAdverInt) + (NextStateForRecv w adv src now).v.skewTime) ∧
    (NextStateForRecv w adv src now).v.nextDownTime =
      now + ((NextStateForRecv w adv src now).v.masterDownInterval : Int) * Centisecond ∧
    (NextStateForRecv w adv src now).v.state = StateBackup ∧
    (NextStateForRecv w adv src now).v.Priority = w.v.Priority ∧
    (NextStateForRecv w adv src now).masterTable = w.masterTable ∧
    (NextStateForRecv w adv src now).backupTable = w.backupTable ∧
    (NextStateForRecv w adv src now).trace = w.trace := by
  have hno : ¬ (w.v.preempt = true ∧ adv.Priority < w.v.Priority) := by
    rintro ⟨h1, h2⟩
    rcases hc with h | h
    · rw [h1] at h; cases h
    · omega
  rw [NextStateForRecv_backup w adv src now hs hself, if_neg hp, if_neg hno]
  simp [setNextDownTimeNoLock, resetMasterDownInterval_eq, hs, World.trace]

/-- The example of C8 (scenario 2 of the spec): the Backup of priority 100 and
interval 100 that hears a peer of priority 200 at instant 5 has skewTime 60,
masterDownInterval 360 and nextDownTime 5 ns + 3.6 s. -/
theorem C8_backup_refresh_witness :
    (NextStateForRecv (exampleBackup 100 100 true) (exampleAdv 200 100)
      [10, 0, 0, 9] 5).v.skewTime = 60 ∧
    (NextStateForRecv (exampleBackup 100 100 true) (exampleAdv 200 100)
      [10, 0, 0, 9] 5).v.masterDownInterval = 360 ∧
    (NextStateForRecv (exampleBackup 100 100 true) (exampleAdv 200 100)
      [10, 0, 0, 9] 5).v.nextDownTime = 3600000005 := by
  have h := C8_backup_refresh (exampleBackup 100 100 true) (exampleAdv 200 100) [10, 0, 0, 9] 5
    (by decide) (by decide) (by decide) (by decide)
  refine ⟨h.2.1.trans (by decide), ?_, ?_⟩
  · rw [h.2.2.1, h.2.1]; decide
  · rw [h.2.2.2.1, h.2.2.1, h.2.1]; decide

/-! ## Construction and start -/

/-- What SerializeVRRPAdv leaves of the advertisement it is given: only
`Version`, `Type`, `CountIPAddr` and the pseudoheader are set. -/
theorem SerializeVRRPAdv_fields (srcIP : IP) (a a1 : VRRPv3Adv) (buf : List Nat)
    (h : SerializeVRRPAdv srcIP (some a) = .ok (buf, a1)) :
    a1.Priority = a.Priority ∧ a1.IPAddress = a.IPAddress ∧
    a1.MaxAdverInt = a.MaxAdverInt ∧ a1.VirtualRtrID = a.VirtualRtrID ∧
    a1.Version = VRRPv3Version ∧ a1.Type_ = VRRPv3Advertisement ∧
    a1.CountIPAddr = u8 a.IPAddress.length := by
  simp only [SerializeVRRPAdv, bind, Except.bind, pure, Except.pure] at h
  split at h
  · cases h
  · split at h
    · cases h
    · split at h
      · cases h
      · simp only [Except.ok.injEq, Prod.mk.injEq] at h
        obtain ⟨_, h⟩ := h
        subst h
        simp

/-- What createVRRPAdv leaves of the group. -/
theorem createVRRPAdv_fields (v v1 : VRRP) (ps : List Packet)
    (h : createVRRPAdv v = .ok (ps, v1)) :
    v1.state = v.state ∧ v1.subifIP = v.subifIP ∧ v1.vaddrs = v.vaddrs ∧
    v1.Priority = v.Priority ∧ v1.IPAddress = v.IPAddress ∧
    v1.MaxAdverInt = v.MaxAdverInt ∧ v1.objID = v.objID ∧ v1.preempt = v.preempt ∧
    v1.skewTime = v.skewTime ∧ v1.masterDownInterval = v.masterDownInterval := by
  simp only [createVRRPAdv, bind, Except.bind, pure, Except.pure] at h
  split at h
  · cases h
  · rename_i r hr
    obtain ⟨buf, a1⟩ := r
    simp only [Except.ok.injEq, Prod.mk.injEq] at h
    obtain ⟨_, h⟩ := h
    subst h
    have hf := SerializeVRRPAdv_fields _ _ _ _ hr
    simp [hf.1, hf.2.1, hf.2.2.1]

/-- What resetPacket leaves of the group. -/
theorem resetPacket_fields (v v1 : VRRP) (h : resetPacket v = .ok v1) :
    v1.state = v.state ∧ v1.subifIP = v.subifIP ∧ v1.vaddrs = v.vaddrs ∧
    v1.Priority = v.Priority ∧ v1.IPAddress = v.IPAddress ∧
    v1.MaxAdverInt = v.MaxAdverInt ∧ v1.objID = v.objID ∧ v1.preempt = v.preempt ∧
    v1.skewTime = v.skewTime ∧ v1.masterDownInterval = v.masterDownInterval := by
  simp only [resetPacket, bind, Except.bind, pure, Except.pure] at h
  split at h
  · cases h
  · rename_i r hr
    obtain ⟨ps, v2⟩ := r
    have hf := createVRRPAdv_fields _ _ _ hr
    split at h
    · cases h
    · split at h
      · cases h
      · simp only [Except.ok.injEq] at h
        subst h
        simpa using hf

/-- The group newVRRP returns: state Initialize, priority 255 for an address
owner and the configured priority otherwise, the configured addresses, and the
timers derived from that priority and the configured interval. -/
theorem newVRRP_fields (GetVifMacaddr : String → Except VrrpError HardwareAddr) (now : Int)
    (imodel : models.Subinterface) (vmodel : models.VRRP) (v : VRRP)
    (h : newVRRP GetVifMacaddr now imodel vmodel = .ok v) :
    v.state = StateInitialize ∧ v.subifIP = imodel.IP ∧
    v.vaddrs = vmodel.VirtualAddresses ∧
    v.Priority = (if vmodel.IsMaster imodel.IP then 255 else vmodel.Priority) ∧
    v.IPAddress = vmodel.VirtualAddresses ∧ v.MaxAdverInt = vmodel.Interval ∧
    v.preempt = vmodel.Preempt := by
  simp only [newVRRP, bind, Except.bind, pure, Except.pure] at h
  split at h
  · cases h
  · have hf := resetPacket_fields _ _ h
    simp only [setNextDownTimeNoLock, setStateNoLock, resetMasterDownInterval_eq] at hf
    exact ⟨hf.1, hf.2.1, hf.2.2.1, hf.2.2.2.1, hf.2.2.2.2.1, hf.2.2.2.2.2.1, hf.2.2.2.2.2.2.2.1⟩

/-- An address that is in the list byte for byte is in it as an address. -/
theorem IsMaster_of_mem (vmodel : models.VRRP) (addr : IP)
    (h : addr ∈ vmodel.VirtualAddresses) : vmodel.IsMaster addr = true := by
  simp only [models.VRRP.IsMaster, List.any_eq_true]
  exact ⟨addr, h, by simp [ipEqual, bytesEqual]⟩

/-- C10. Start rule: for a group that newVRRP has built, in any world where it is
still as built (state Initialize), NextState(EventStart) leaves it in state
Master if subifIP is one of the virtual addresses or its priority is 255, and
in state Backup otherwise; an address owner, whether its address is in the list
byte for byte or as an equal address (`IsMaster`), is Master. -/
theorem C10_start_rule (GetVifMacaddr : String → Except VrrpError HardwareAddr) (now : Int)
    (imodel : models.Subinterface) (vmodel : models.VRRP) (w : World)
    (h : newVRRP GetVifMacaddr now imodel vmodel = .ok w.v) :
    w.v.state = StateInitialize ∧
    ((imodel.IP ∈ vmodel.VirtualAddresses ∨ w.v.Priority = 255) →
      (NextState w EventStart).v.state = StateMaster) ∧
    (¬ (imodel.IP ∈ vmodel.VirtualAddresses ∨ w.v.Priority = 255) →
      (NextState w EventStart).v.state = StateBackup) ∧
    (vmodel.IsMaster imodel.IP = true → (NextState w EventStart).v.state = StateMaster) := by
  obtain ⟨hst, hip, _, hprio, haddr, _, _⟩ := newVRRP_fields _ _ _ _ _ h
  have hcond : (containsInterfaceIPs w.v w.v.IPAddress = true ∨ w.v.Priority = 255) ↔
      (imodel.IP ∈ vmodel.VirtualAddresses ∨ w.v.Priority = 255) := by
    rw [containsInterfaceIPs_iff, hip, haddr]
  refine ⟨hst, fun hc => ?_, fun hc => ?_, fun hm => ?_⟩
  · rw [NextState, nextStateNoLock_start w hst, if_pos (hcond.mpr hc)]
    rfl
  · rw [NextState, nextStateNoLock_start w hst, if_neg (fun hx => hc (hcond.mp hx))]
    rfl
  · rw [NextState, nextStateNoLock_start w hst, if_pos (Or.inr (by rw [hprio, if_pos hm]))]
    rfl

/-- The examples of C10: the owner of 10.0.0.5, configured with priority 100,
is Master after EventStart, and the non-owner of priority 200 is Backup. -/
theorem C10_start_rule_witness :
    (NextState exampleOwnerWorld EventStart).v.state = StateMaster ∧
    (NextState (exampleWorld 200 100 true) EventStart).v.state = StateBackup :=
  ⟨(C10_start_rule exampleDataplane 0 exampleSubif exampleOwnerModel exampleOwnerWorld
      (by decide)).2.1 (Or.inl (by decide)),
   (C10_start_rule exampleDataplane 0 exampleSubif (exampleModel 200 100 true)
      (exampleWorld 200 100 true) (by decide)).2.2.1 (by decide)⟩

/-! ## Tables and state -/

/-- C2. The failing run: the group of priority 200 with preempt set is started
(Backup, in the backup table) and then hears an advertisement of priority 100;
it preempts, and is then Master, in the advertisement table, and still in the
backup table. The same entry survives a later shutdown. -/
theorem C2_preempt_keeps_backup_entry :
    (run (exampleWorld 200 100 true)
      [Op.nextState EventStart, Op.recv (exampleAdv 100 100) [10, 0, 0, 9] 5]).v.state
        = StateMaster ∧
    (run (exampleWorld 200 100 true)
      [Op.nextState EventStart, Op.recv (exampleAdv 100 100) [10, 0, 0, 9] 5]).masterTable
        = ["s:50"] ∧
    (run (exampleWorld 200 100 true)
      [Op.nextState EventStart, Op.recv (exampleAdv 100 100) [10, 0, 0, 9] 5]).backupTable
        = ["s:50"] ∧
    (run (exampleWorld 200 100 true)
      [Op.nextState EventStart, Op.recv (exampleAdv 100 100) [10, 0, 0, 9] 5]).v.objID
        = "s:50" ∧
    (run (exampleWorld 200 100 true)
      [Op.nextState EventStart, Op.recv (exampleAdv 100 100) [10, 0, 0, 9] 5,
       Op.nextState EventShutdown]).v.state = StateInitialize ∧
    (run (exampleWorld 200 100 true)
      [Op.nextState EventStart, Op.recv (exampleAdv 100 100) [10, 0, 0, 9] 5,
       Op.nextState EventShutdown]).backupTable = ["s:50"] := by
  decide

theorem becomeMaster_tables (w : World) : TablesFollowState (becomeMaster w) := by
  simp [TablesFollowState, becomeMaster, AddMasterTable, sendGARP, toMaster, setStateNoLock,
    setStateStep, call]

theorem becomeBackup_tables (w : World) : TablesFollowState (becomeBackup w) := by
  simp [TablesFollowState, becomeBackup, toBackup, AddBackupTable, DeleteMasterTable,
    setStateNoLock, setStateStep, call]

theorem becomeInitialize_tables (w : World) (h : TablesFollowState w) :
    TablesFollowState (becomeInitialize w) := by
  obtain ⟨h1, _⟩ := h
  cases hs : w.v.state <;>
    simp_all [TablesFollowState, becomeInitialize, getStateNoLock, DeleteBackupTable,
      deleteBackupTable, DeleteMasterTable, sendVRRPAdvPriorityZero, toBackup, setStateNoLock,
      setStateStep, call]

theorem nextStateNoLock_tables (w : World) (e : VRRPEvent) (h : TablesFollowState w) :
    TablesFollowState (nextStateNoLock w e) := by
  cases hs : w.v.state <;> cases e
  case StateInitialize.EventStart =>
    rw [nextStateNoLock_start w hs]
    split_ifs
    · exact becomeMaster_tables w
    · exact becomeBackup_tables w
  all_goals
    simp only [nextStateNoLock, nextStateNoLockDepth, nextStateNoLockBody, getStateNoLock, hs]
    first
      | exact h
      | exact becomeMaster_tables w
      | exact becomeBackup_tables w
      | exact becomeInitialize_tables w h

theorem NextStateForRecv_tables (w : World) (adv : VRRPv3Adv) (src : IP) (now : Int)
    (h : TablesFollowState w) : TablesFollowState (NextStateForRecv w adv src now) := by
  by_cases hself : w.v.subifIP ∈ adv.IPAddress
  · rw [NextStateForRecv_dropped w adv src now (Or.inl hself)]
    exact h
  · cases hs : w.v.state
    · rw [NextStateForRecv_dropped w adv src now (Or.inr hs)]
      exact h
    · rw [NextStateForRecv_backup w adv src now hs hself]
      split_ifs
      · simpa [TablesFollowState, setNextDownTimeNoLock] using h
      · exact becomeMaster_tables w
      · simpa [TablesFollowState, setNextDownTimeNoLock, resetMasterDownInterval_eq] using h
    · rw [NextStateForRecv_master w adv src now hs hself]
      split_ifs
      · simpa [TablesFollowState] using h
      · exact becomeBackup_tables _
      · exact h

theorem timeOutEvent_tables (w : World) (now : Int) (h : TablesFollowState w) :
    TablesFollowState (timeOutEvent w now) := by
  unfold timeOutEvent getVRRPAdvExpired
  split_ifs <;> simp_all [TablesFollowState, setNextMasterAdvTimeNoLock, call]
  all_goals split_ifs <;> simp_all

theorem mDownTimerTick_tables (w : World) (now : Int) (h : TablesFollowState w) :
    TablesFollowState (mDownTimerTick w now) := by
  simp only [mDownTimerTick, masterDownTimeExpired]
  split_ifs with h1 h2 h3
  · rw [nextStateNoLock_backup_masterDown _ h3]
    exact becomeMaster_tables _
  · simp only [getStateNoLock, deleteBackupTable] at h3
    refine ⟨h.1, fun hb => absurd hb h3⟩
  · exact h
  · exact h

/-- What every run keeps of the table/state relation: from a group that newVRRP
has just built (in no table), after any sequence of events, received
advertisements and ticks, the group is in the advertisement table iff its state
is Master, and it is in the backup table if its state is Backup. -/
theorem run_tables (w : World) (ops : List Op) (h : TablesFollowState w) :
    TablesFollowState (run w ops) := by
  induction ops generalizing w with
  | nil => exact h
  | cons op ops ih =>
    apply ih
    cases op with
    | nextState e => exact nextStateNoLock_tables w e h
    | recv adv src now => exact NextStateForRecv_tables w adv src now h
    | advTick now => exact timeOutEvent_tables w now h
    | downTick now => exact mDownTimerTick_tables w now h

theorem initialWorld_tables (v : VRRP) (h : v.state = StateInitialize) :
    TablesFollowState (initialWorld v) := by
  simp [TablesFollowState, initialWorld, h]

/-! ## The checksum -/

theorem shiftLeft8_or (b0 b1 : Nat) (h : b1 < 256) : (b0 <<< 8) ||| b1 = b0 * 256 + b1 := by
  rw [Nat.shiftLeft_eq, Nat.mul_comm]
  exact (Nat.mul_add_lt_is_or (i := 8) h b0).symm

theorem or_shiftLeft8 (b0 b1 : Nat) (h : b1 < 256) : b1 ||| (b0 <<< 8) = b0 * 256 + b1 := by
  rw [Nat.lor_comm, shiftLeft8_or b0 b1 h]

theorem and_ffff (x : Nat) : x &&& 0xffff = x % 65536 :=
  Nat.and_pow_two_sub_one_eq_mod x 16

theorem and_0f (x : Nat) : x &&& 0x0F = x % 16 :=
  Nat.and_pow_two_sub_one_eq_mod x 4

theorem shiftRight16 (x : Nat) : x >>> 16 = x / 65536 := Nat.shiftRight_eq_div_pow x 16

theorem shiftRight8 (x : Nat) : x >>> 8 = x / 256 := Nat.shiftRight_eq_div_pow x 8

theorem shiftRight4 (x : Nat) : x >>> 4 = x / 16 := Nat.shiftRight_eq_div_pow x 4

theorem shiftLeft8 (x : Nat) : x <<< 8 = x * 256 := Nat.shiftLeft_eq x 8

theorem shiftLeft4 (x : Nat) : x <<< 4 = x * 16 := Nat.shiftLeft_eq x 4

/-- The words of a byte list sum to at most 65535 per two bytes. -/
theorem wordSum_le : ∀ (b : List Nat), IsBytes b → wordSum b ≤ 32768 * (b.length + 1)
  | [], _ => by simp [wordSum]
  | [b0], h => by
    have := h b0 (by simp)
    simp only [wordSum, List.length_singleton]
    omega
  | b0 :: b1 :: rest, h => by
    have h0 := h b0 (by simp)
    have h1 := h b1 (by simp)
    have ih := wordSum_le rest (fun x hx => h x (by simp [hx]))
    simp only [wordSum, List.length_cons]
    omega

/-- While the accumulator does not overflow, the first loop of ipChecksum adds
the sum of the words. -/
theorem sumWords_eq : ∀ (b : List Nat) (csum : Nat), IsBytes b →
    csum + wordSum b < 4294967296 → sumWords b csum = csum + wordSum b
  | [], csum, _, _ => by simp [sumWords, wordSum]
  | [b0], csum, _, hlt => by
    simp only [wordSum] at hlt
    simp only [sumWords, wordSum, shiftLeft8, u32]
    exact Nat.mod_eq_of_lt hlt
  | b0 :: b1 :: rest, csum, h, hlt => by
    have h1 := h b1 (by simp)
    simp only [wordSum] at hlt
    simp only [sumWords, wordSum, shiftLeft8_or b0 b1 h1, u32]
    have hlt2 : csum + (b0 * 256 + b1) < 4294967296 := by omega
    rw [Nat.mod_eq_of_lt hlt2]
    rw [sumWords_eq rest _ (fun x hx => h x (by simp [hx])) (by omega)]
    omega

/-- The second loop of ipChecksum ends within two rounds on a `uint32`: this is
its result. -/
theorem foldCarry_eq (fuel csum : Nat) (h : csum < 4294967296) :
    foldCarry (fuel + 2) csum =
      if csum < 65536 then csum
      else if csum % 65536 + csum / 65536 < 65536 then csum % 65536 + csum / 65536
      else (csum % 65536 + csum / 65536) % 65536 + (csum % 65536 + csum / 65536) / 65536 := by
  simp only [foldCarry, and_ffff, shiftRight16, u32]
  by_cases h1 : csum < 65536
  · have : csum / 65536 = 0 := by omega
    simp [h1, this]
  · have h2 : csum / 65536 ≠ 0 := by omega
    have h3 : (csum % 65536 + csum / 65536) % 4294967296 = csum % 65536 + csum / 65536 := by
      omega
    simp only [h1, h2, if_false, ne_eq, not_false_eq_true, if_true, h3]
    by_cases h4 : csum % 65536 + csum / 65536 < 65536
    · have : (csum % 65536 + csum / 65536) / 65536 = 0 := by omega
      simp [h4, this]
    · have h5 : (csum % 65536 + csum / 65536) / 65536 ≠ 0 := by omega
      simp only [h4, h5, if_false, ne_eq, not_false_eq_true, if_true]
      have h6 : ((csum % 65536 + csum / 65536) % 65536 +
          (csum % 65536 + csum / 65536) / 65536) % 4294967296 =
          (csum % 65536 + csum / 65536) % 65536 + (csum % 65536 + csum / 65536) / 65536 := by
        omega
      rw [h6]
      cases fuel with
      | zero => simp [foldCarry]
      | succ n =>
        have h7 : ((csum % 65536 + csum / 65536) % 65536 +
          (csum % 65536 + csum / 65536) / 65536) / 65536 = 0 := by omega
        simp only [foldCarry, shiftRight16, h7, ne_eq, not_true_eq_false, if_false]

/-- The loop has ended: no carry is left. -/
theorem foldCarry_done (fuel csum : Nat) (h : csum < 4294967296) :
    foldCarry (fuel + 2) csum >>> 16 = 0 := by
  rw [foldCarry_eq fuel csum h, shiftRight16]
  split_ifs <;> omega

/-- The folded sum is below 2^16, congruent to the sum modulo 65535, and zero
only for a zero sum. -/
theorem foldCarry_spec (csum : Nat) (h : csum < 4294967296) :
    foldCarry 32 csum < 65536 ∧ foldCarry 32 csum % 65535 = csum % 65535 ∧
    (0 < csum → 0 < foldCarry 32 csum) := by
  rw [foldCarry_eq 30 csum h]
  split_ifs <;> omega

/-- The one's complement property behind the checksum: the complement of the
folded sum, added to the sum, folds to 0xffff. -/
theorem foldCarry_with_complement (s : Nat) (h : s + 65535 < 4294967296) :
    foldCarry 32 (s + (65535 - foldCarry 32 s)) = 65535 := by
  obtain ⟨h1, h2, h3⟩ := foldCarry_spec s (by omega)
  obtain ⟨k1, k2, k3⟩ := foldCarry_spec (s + (65535 - foldCarry 32 s)) (by omega)
  have hpos : 0 < s + (65535 - foldCarry 32 s) := by
    by_cases hs : 0 < s
    · omega
    · have : s = 0 := by omega
      subst this
      have : foldCarry 32 0 = 0 := by decide
      omega
  have k3 := k3 hpos
  omega

/-- A body whose checksum field (bytes 6 and 7) is zero, once the field holds
the checksum computed over it, sums to zero: ipChecksum of the completed body
is 0. The body is written with its first eight bytes apart. -/
theorem ipChecksum_verifies (x0 x1 x2 x3 x4 x5 : Nat) (tail : List Nat) (c0 : Nat)
    (hb : IsBytes (x0 :: x1 :: x2 :: x3 :: x4 :: x5 :: 0 :: 0 :: tail))
    (hbound : c0 + 32768 * (tail.length + 12) < 4294967296) :
    ipChecksum (PutUint16 (x0 :: x1 :: x2 :: x3 :: x4 :: x5 :: 0 :: 0 :: tail) 6
      (ipChecksum (x0 :: x1 :: x2 :: x3 :: x4 :: x5 :: 0 :: 0 :: tail) c0)) c0 = 0 := by
  have hlen := wordSum_le _ hb
  simp only [List.length_cons] at hlen
  have hs : sumWords (x0 :: x1 :: x2 :: x3 :: x4 :: x5 :: 0 :: 0 :: tail) c0 =
      c0 + wordSum (x0 :: x1 :: x2 :: x3 :: x4 :: x5 :: 0 :: 0 :: tail) :=
    sumWords_eq _ _ hb (by omega)
  obtain ⟨S, hS⟩ : ∃ S, S = c0 + wordSum (x0 :: x1 :: x2 :: x3 :: x4 :: x5 :: 0 :: 0 :: tail) :=
    ⟨_, rfl⟩
  rw [← hS] at hs
  have hSlt : S + 65535 < 4294967296 := by omega
  obtain ⟨hF, _, _⟩ := foldCarry_spec S (by omega)
  have hc : ipChecksum (x0 :: x1 :: x2 :: x3 :: x4 :: x5 :: 0 :: 0 :: tail) c0 =
      65535 - foldCarry 32 S := by
    simp only [ipChecksum, hs, u16]
    omega
  rw [hc]
  obtain ⟨c, hcv⟩ : ∃ c, c = 65535 - foldCarry 32 S := ⟨_, rfl⟩
  rw [← hcv]
  have hclt : c < 65536 := by omega
  have hput : PutUint16 (x0 :: x1 :: x2 :: x3 :: x4 :: x5 :: 0 :: 0 :: tail) 6 c =
      x0 :: x1 :: x2 :: x3 :: x4 :: x5 :: (c / 256) :: (c % 256) :: tail := by
    simp only [PutUint16, List.set_cons_succ, List.set_cons_zero, shiftRight8, u8]
    have : c / 256 % 256 = c / 256 := by omega
    rw [this]
  rw [hput]
  have hb2 : IsBytes (x0 :: x1 :: x2 :: x3 :: x4 :: x5 :: (c / 256) :: (c % 256) :: tail) := by
    intro b hmem
    simp only [List.mem_cons] at hmem
    rcases hmem with h | h | h | h | h | h | h | h | h
    · exact h ▸ hb x0 (by simp)
    · exact h ▸ hb x1 (by simp)
    · exact h ▸ hb x2 (by simp)
    · exact h ▸ hb x3 (by simp)
    · exact h ▸ hb x4 (by simp)
    · exact h ▸ hb x5 (by simp)
    · omega
    · omega
    · exact hb b (by simp [h])
  have hw : wordSum (x0 :: x1 :: x2 :: x3 :: x4 :: x5 :: (c / 256) :: (c % 256) :: tail) =
      wordSum (x0 :: x1 :: x2 :: x3 :: x4 :: x5 :: 0 :: 0 :: tail) + c := by
    simp only [wordSum]
    omega
  have hs2 : sumWords (x0 :: x1 :: x2 :: x3 :: x4 :: x5 :: (c / 256) :: (c % 256) :: tail) c0 =
      S + c := by
    rw [sumWords_eq _ _ hb2 (by rw [hw]; omega), hw]
    omega
  simp only [ipChecksum, hs2, u16]
  rw [hcv, foldCarry_with_complement S hSlt]

/-! ## The layout of a serialized advertisement -/

theorem To4_length (ip r : IP) (h : To4 ip = some r) : r.length = 4 := by
  unfold To4 at h
  split_ifs at h with h1 h2
  · cases h; exact h1
  · cases h
    simp only [List.length_drop]
    omega

theorem To4_getD_length (ip : IP) :
    ((To4 ip).getD []).length = 4 ∨ ((To4 ip).getD []).length = 0 := by
  cases h : To4 ip with
  | none => right; rfl
  | some r => left; exact To4_length ip r h

theorem To4_getD_bytes (ip : IP) (h : IsBytes ip) : IsBytes ((To4 ip).getD []) := by
  unfold To4
  split_ifs
  · exact h
  · exact fun b hb => h b (List.mem_of_mem_drop hb)
  · intro b hb
    cases hb

theorem To4_of_length (ip : IP) (h : ip.length = 4) : To4 ip = some ip := by
  simp [To4, h]

theorem copyInto_length (bytes : List Nat) (head : Nat) (src : List Nat)
    (h : head + 4 ≤ bytes.length) :
    (copyInto bytes head (head + 4) src).length = bytes.length := by
  simp only [copyInto, List.length_append, List.length_take, List.length_drop]
  omega

theorem copyInto_take (bytes : List Nat) (head k : Nat) (src : List Nat)
    (h : head + 4 ≤ bytes.length) (hk : k ≤ head) :
    (copyInto bytes head (head + 4) src).take k = bytes.take k := by
  simp only [copyInto, List.append_assoc]
  rw [List.take_append_of_le_length (by simp; omega), List.take_take]
  congr 1
  omega

theorem copyInto_bytes (bytes : List Nat) (lo hi : Nat) (src : List Nat)
    (hb : IsBytes bytes) (hs : IsBytes src) : IsBytes (copyInto bytes lo hi src) := by
  intro b hmem
  simp only [copyInto, List.mem_append] at hmem
  rcases hmem with (h | h) | h
  · exact hb b (List.mem_of_mem_take h)
  · exact hs b (List.mem_of_mem_take h)
  · exact hb b (List.mem_of_mem_drop h)

/-- The address loop keeps the length of the buffer, the bytes in front of the
first address it writes, and writes bytes. -/
theorem writeAddresses_frame : ∀ (ips : List IP) (bytes : List Nat) (i : Nat),
    8 + (i + ips.length) * 4 ≤ bytes.length → IsBytes bytes → (∀ ip ∈ ips, IsBytes ip) →
    (writeAddresses bytes i ips).length = bytes.length ∧
    (writeAddresses bytes i ips).take (8 + i * 4) = bytes.take (8 + i * 4) ∧
    IsBytes (writeAddresses bytes i ips)
  | [], bytes, i, _, hb, _ => by simp [writeAddresses, hb]
  | ip :: ips, bytes, i, hlen, hb, hips => by
    simp only [List.length_cons] at hlen
    simp only [writeAddresses]
    have hhead : 8 + i * 4 + 4 ≤ bytes.length := by omega
    have hl := copyInto_length bytes (8 + i * 4) ((To4 ip).getD []) hhead
    have ih := writeAddresses_frame ips
      (copyInto bytes (8 + i * 4) (8 + i * 4 + 4) ((To4 ip).getD [])) (i + 1)
      (by rw [hl]; omega)
      (copyInto_bytes _ _ _ _ hb (To4_getD_bytes ip (hips ip (by simp))))
      (fun x hx => hips x (by simp [hx]))
    refine ⟨ih.1.trans hl, ?_, ih.2.2⟩
    have h1 := congrArg (List.take (8 + i * 4)) ih.2.1
    rw [List.take_take, List.take_take] at h1
    have hmin : min (8 + i * 4) (8 + (i + 1) * 4) = 8 + i * 4 := by omega
    rw [hmin] at h1
    rw [h1]
    exact copyInto_take bytes (8 + i * 4) (8 + i * 4) _ hhead (Nat.le_refl _)

/-- With 4-byte addresses the loop writes them one after the other. -/
theorem writeAddresses_flatten : ∀ (ips : List IP) (pre rest : List Nat) (i : Nat),
    pre.length = 8 + i * 4 → rest.length = 4 * ips.length → (∀ ip ∈ ips, ip.length = 4) →
    writeAddresses (pre ++ rest) i ips = pre ++ ips.flatten
  | [], pre, rest, i, _, hrest, _ => by
    have : rest = [] := List.eq_nil_of_length_eq_zero (by simpa using hrest)
    simp [writeAddresses, this]
  | ip :: ips, pre, rest, i, hpre, hrest, h4 => by
    have hip : ip.length = 4 := h4 ip (by simp)
    simp only [List.length_cons] at hrest
    simp only [writeAddresses, To4_of_length ip hip, Option.getD_some]
    have hcopy : copyInto (pre ++ rest) (8 + i * 4) (8 + i * 4 + 4) ip =
        (pre ++ ip) ++ rest.drop 4 := by
      simp only [copyInto, ← hpre, List.take_left', Nat.add_sub_cancel_left, hip,
        Nat.min_self, List.drop_append]
      rw [List.take_of_length_le (by omega)]
    rw [hcopy]
    rw [writeAddresses_flatten ips (pre ++ ip) (rest.drop 4) (i + 1)
      (by simp only [List.length_append, hpre, hip]; omega)
      (by simp only [List.length_drop, hrest]; omega)
      (fun x hx => h4 x (by simp [hx]))]
    simp [List.flatten]

/-- The bytes SerializeTo writes before the checksum: the eight header bytes,
checksum field zero, then `4 * len(IPAddress)` bytes, which are the addresses
one after the other when each has 4 bytes. -/
theorem serializeBody_shape (v : VRRPv3Adv) (hv : v.InRange) :
    ∃ tail : List Nat,
      serializeBody v = (u8 (v.Version <<< 4) ||| v.Type_) :: v.VirtualRtrID :: v.Priority ::
        v.CountIPAddr :: u8 (v.MaxAdverInt >>> 8) :: u8 v.MaxAdverInt :: 0 :: 0 :: tail ∧
      tail.length = 4 * v.IPAddress.length ∧
      IsBytes (serializeBody v) ∧
      ((∀ ip ∈ v.IPAddress, ip.length = 4) → tail = v.IPAddress.flatten) := by
  obtain ⟨_, hty, hvr, hpr, hcn, _, _, hips⟩ := hv
  have hb0 : (u8 (v.Version <<< 4) ||| v.Type_) < 256 :=
    Nat.or_lt_two_pow (n := 8) (Nat.mod_lt _ (by decide)) hty
  have hBbytes : IsBytes ([u8 (v.Version <<< 4) ||| v.Type_, v.VirtualRtrID, v.Priority,
      v.CountIPAddr, u8 (v.MaxAdverInt >>> 8), u8 v.MaxAdverInt, 0, 0] ++
        List.replicate (4 * v.IPAddress.length) 0) := by
    intro b hmem
    simp only [List.mem_append, List.mem_cons, List.mem_replicate] at hmem
    have h4 : u8 (v.MaxAdverInt >>> 8) < 256 := Nat.mod_lt _ (by decide)
    have h5 : u8 v.MaxAdverInt < 256 := Nat.mod_lt _ (by decide)
    rcases hmem with (h | h | h | h | h | h | h | h | h) | h
    · omega
    · omega
    · omega
    · omega
    · omega
    · omega
    · omega
    · omega
    · cases h
    · omega
  have hfr := writeAddresses_frame v.IPAddress _ 0
    (by simp only [List.length_append, List.length_replicate, List.length_cons,
          List.length_nil]; omega) hBbytes hips
  have hbody : serializeBody v = writeAddresses
      ([u8 (v.Version <<< 4) ||| v.Type_, v.VirtualRtrID, v.Priority, v.CountIPAddr,
        u8 (v.MaxAdverInt >>> 8), u8 v.MaxAdverInt, 0, 0] ++
        List.replicate (4 * v.IPAddress.length) 0) 0 v.IPAddress := by
    unfold serializeBody
    simp only []
    congr 1
    rw [List.replicate_add]
    simp [PutUint16, List.replicate]
  refine ⟨(serializeBody v).drop 8, ?_, ?_, ?_, ?_⟩
  · have h1 : (serializeBody v).take 8 = [u8 (v.Version <<< 4) ||| v.Type_, v.VirtualRtrID,
        v.Priority, v.CountIPAddr, u8 (v.MaxAdverInt >>> 8), u8 v.MaxAdverInt, 0, 0] := by
      rw [hbody]
      have := hfr.2.1
      simp only [Nat.zero_mul, Nat.add_zero] at this
      rw [this]
      simp
    conv_lhs => rw [← List.take_append_drop 8 (serializeBody v)]
    rw [h1]
    rfl
  · rw [List.length_drop, hbody, hfr.1]
    simp only [List.length_append, List.length_replicate, List.length_cons, List.length_nil]
    omega
  · rw [hbody]
    exact hfr.2.2
  · intro h4
    rw [hbody, writeAddresses_flatten v.IPAddress _ _ 0 (by simp) (by simp) h4]
    simp

/-- ComputeChecksum with an IPv4 pseudoheader is ipChecksum started from the
pseudoheader sum, the protocol and the length. -/
theorem ComputeChecksum_some (ip : IPv4) (b : List Nat) (p : Nat) :
    ComputeChecksum (some ip) b p =
      match pseudoheaderIPv4 ip with
      | .ok c0 => .ok (ipChecksum b
          (u32 (u32 (u32 (c0 + p) + (u32 b.length &&& 0xffff)) + (u32 b.length >>> 16))))
      | .error e => .error e := by
  simp only [ComputeChecksum, bind, Except.bind, pure, Except.pure]
  cases pseudoheaderIPv4 ip <;> rfl

/-- The pseudoheader sum of two addresses made of bytes is small. -/
theorem pseudoheaderIPv4_bound (ip : IPv4) (c0 : Nat) (hsrc : IsBytes ip.SrcIP)
    (hdst : IsBytes ip.DstIP) (h : pseudoheaderIPv4 ip = .ok c0) : c0 ≤ 262140 := by
  unfold pseudoheaderIPv4 at h
  have hs := To4_getD_bytes ip.SrcIP hsrc
  have hd := To4_getD_bytes ip.DstIP hdst
  split at h
  · rename_i s0 s1 s2 s3 d0 d1 d2 d3 hs4 hd4
    rw [hs4] at hs
    rw [hd4] at hd
    simp only [Option.getD_some] at hs hd
    have a0 := hs s0 (by simp)
    have a1 := hs s1 (by simp)
    have a2 := hs s2 (by simp)
    have a3 := hs s3 (by simp)
    have e0 := hd d0 (by simp)
    have e1 := hd d1 (by simp)
    have e2 := hd d2 (by simp)
    have e3 := hd d3 (by simp)
    simp only [pure, Except.pure, Except.ok.injEq, shiftLeft8, u32] at h
    omega
  · cases h

/-- The body SerializeTo returns verifies: ComputeChecksum over the complete
body, with the pseudoheader it was computed with and protocol 112, is 0. -/
theorem SerializeTo_verifies (v : VRRPv3Adv) (ip : IPv4) (body : List Nat)
    (hv : v.InRange) (hn : v.IPAddress.length ≤ 255) (hps : v.pseudoheader = some ip)
    (hsrc : IsBytes ip.SrcIP) (hdst : IsBytes ip.DstIP) (h : SerializeTo v = .ok body) :
    ComputeChecksum (some ip) body IPProtocolVRRP = .ok 0 := by
  obtain ⟨tail, hshape, htail, hbytes, _⟩ := serializeBody_shape v hv
  unfold SerializeTo at h
  split_ifs at h
  simp only [bind, Except.bind, pure, Except.pure, hps, ComputeChecksum_some] at h
  rw [ComputeChecksum_some]
  cases hc0 : pseudoheaderIPv4 ip with
  | error e => rw [hc0] at h; cases h
  | ok c0 =>
    rw [hc0] at h
    simp only [Except.ok.injEq] at h
    have hb := pseudoheaderIPv4_bound ip c0 hsrc hdst hc0
    have hlen : body.length = (serializeBody v).length := by
      rw [← h]
      simp [PutUint16]
    simp only [hlen]
    rw [← h, hshape] at *
    have hl : ((u8 (v.Version <<< 4) ||| v.Type_) :: v.VirtualRtrID :: v.Priority ::
        v.CountIPAddr :: u8 (v.MaxAdverInt >>> 8) :: u8 v.MaxAdverInt :: 0 :: 0 ::
        tail).length = 8 + 4 * v.IPAddress.length := by
      simp only [List.length_cons, htail]
      omega
    simp only [hl]
    have e1 : u32 (8 + 4 * v.IPAddress.length) = 8 + 4 * v.IPAddress.length :=
      Nat.mod_eq_of_lt (by omega)
    have e2 : (8 + 4 * v.IPAddress.length) &&& 0xffff = 8 + 4 * v.IPAddress.length := by
      rw [and_ffff]
      omega
    have e3 : (8 + 4 * v.IPAddress.length) >>> 16 = 0 := by
      rw [shiftRight16]
      omega
    have e4 : u32 (c0 + IPProtocolVRRP) = c0 + 112 := Nat.mod_eq_of_lt (by
      simp only [IPProtocolVRRP]
      omega)
    have e5 : u32 (c0 + 112 + (8 + 4 * v.IPAddress.length)) =
        c0 + 112 + (8 + 4 * v.IPAddress.length) := Nat.mod_eq_of_lt (by omega)
    simp only [e1, e2, e3, e4, e5, Nat.add_zero]
    rw [ipChecksum_verifies _ _ _ _ _ _ tail _ hbytes (by rw [htail]; omega)]

/-! ## Decoding -/

/-- DecodeFromBytes on a body of at least eight bytes whose first byte holds
version 3 and type 1, with a non-zero count and a multiple of four bytes after
the header: it succeeds, with these fields. -/
theorem DecodeFromBytes_ok (v0 : VRRPv3Adv) (x0 x1 x2 x3 x4 x5 x6 x7 : Nat) (tail : List Nat)
    (hver : x0 >>> 4 = 3) (hty : x0 &&& 0x0F = 1) (hcnt : 1 ≤ x3)
    (hlen : tail.length % 4 = 0) :
    DecodeFromBytes v0 (x0 :: x1 :: x2 :: x3 :: x4 :: x5 :: x6 :: x7 :: tail) =
      .ok { v0 with
        Contents := x0 :: x1 :: x2 :: x3 :: x4 :: x5 :: x6 :: x7 :: tail
        Version := 3
        Type_ := 1
        VirtualRtrID := x1
        Priority := x2
        CountIPAddr := x3
        MaxAdverInt := x5 ||| (x4 <<< 8)
        Checksum := x7 ||| (x6 <<< 8)
        IPAddress := v0.IPAddress ++ (List.range (tail.length / 4)).map
          (fun i => ((x0 :: x1 :: x2 :: x3 :: x4 :: x5 :: x6 :: x7 :: tail).drop
            (8 + i * 4)).take 4) } := by
  have hc : ¬ x3 < 1 := by omega
  simp [DecodeFromBytes, index, sliceFrom, Uint16, bind, Except.bind, pure, Except.pure,
    hver, hty, VRRPv3Version, VRRPv3Advertisement, hc, hlen]
  intro h
  simp [h]

/-- Cutting the concatenation of 4-byte addresses every four bytes gives the
addresses back. -/
theorem chunks_flatten : ∀ (ips : List IP) (pre : List Nat) (k : Nat),
    pre.length = k → (∀ ip ∈ ips, ip.length = 4) →
    (List.range ips.length).map (fun i => ((pre ++ ips.flatten).drop (k + i * 4)).take 4) = ips
  | [], _, _, _, _ => by simp
  | ip :: ips, pre, k, hk, h4 => by
    have hip : ip.length = 4 := h4 ip (by simp)
    have ih := chunks_flatten ips (pre ++ ip) (k + 4) (by simp [hk, hip])
      (fun x hx => h4 x (by simp [hx]))
    simp only [List.length_cons, List.range_succ_eq_map, List.map_cons, List.map_map,
      List.flatten_cons]
    congr 1
    · simp only [Nat.zero_mul, Nat.add_zero, ← hk, List.drop_left']
      rw [List.take_append_of_le_length (by omega), List.take_of_length_le (by omega)]
    · conv_rhs => rw [← ih]
      apply List.map_congr_left
      intro i _
      simp only [Function.comp, List.append_assoc]
      congr 2
      omega

/-- The pseudoheader sum exists when both addresses are IPv4. -/
theorem pseudoheaderIPv4_ok (ip : IPv4) (hsrc : (To4 ip.SrcIP).isSome)
    (hdst : (To4 ip.DstIP).isSome) : ∃ c0, pseudoheaderIPv4 ip = .ok c0 := by
  obtain ⟨s, hs⟩ := Option.isSome_iff_exists.mp hsrc
  obtain ⟨d, hd⟩ := Option.isSome_iff_exists.mp hdst
  have hsl := To4_length _ _ hs
  have hdl := To4_length _ _ hd
  match s, hsl, d, hdl, hs, hd with
  | [s0, s1, s2, s3], _, [d0, d1, d2, d3], _, hs, hd =>
    exact ⟨_, by simp only [pseudoheaderIPv4, hs, hd]; rfl⟩

/-- A 16-bit value is read back from the two bytes PutUint16 writes. -/
theorem uint16_bytes (m : Nat) (h : m < 65536) : u8 m ||| (u8 (m >>> 8) <<< 8) = m := by
  have h1 : u8 m < 256 := Nat.mod_lt _ (by decide)
  rw [or_shiftLeft8 (u8 (m >>> 8)) (u8 m) h1]
  simp only [u8, shiftRight8]
  omega

/-- C4. Codec round-trip: for an advertisement with version 3, type 1, fields in
the range of their types, N four-byte addresses with 1 <= N <= 255 and
CountIPAddr = N, and an IPv4 pseudoheader, SerializeTo writes 8 + 4 N bytes,
and DecodeFromBytes on a fresh layer succeeds on them with the same Version,
Type, VirtualRtrID, Priority, CountIPAddr, MaxAdverInt and IPAddress, and with
the Checksum that SerializeTo computed over the body. -/
theorem C4_codec_round_trip (A : VRRPv3Adv) (ip : IPv4)
    (hr : A.InRange) (hver : A.Version = 3) (hty : A.Type_ = 1)
    (h4 : ∀ a ∈ A.IPAddress, a.length = 4)
    (hn1 : 1 ≤ A.IPAddress.length) (hn : A.IPAddress.length ≤ 255)
    (hcount : A.CountIPAddr = A.IPAddress.length)
    (hps : A.pseudoheader = some ip)
    (hsrc : (To4 ip.SrcIP).isSome) (hdst : (To4 ip.DstIP).isSome) :
    ∃ body csum d,
      SerializeTo A = .ok body ∧ body.length = 8 + 4 * A.IPAddress.length ∧
      ComputeChecksum (some ip) (serializeBody A) IPProtocolVRRP = .ok csum ∧
      DecodeFromBytes {} body = .ok d ∧
      d.Version = A.Version ∧ d.Type_ = A.Type_ ∧ d.VirtualRtrID = A.VirtualRtrID ∧
      d.Priority = A.Priority ∧ d.CountIPAddr = A.CountIPAddr ∧
      d.MaxAdverInt = A.MaxAdverInt ∧ d.IPAddress = A.IPAddress ∧ d.Checksum = csum := by
  obtain ⟨c0, hc0⟩ := pseudoheaderIPv4_ok ip hsrc hdst
  obtain ⟨tail, hshape, htail, _, hflat⟩ := serializeBody_shape A hr
  have htl := hflat h4
  obtain ⟨csum, hcsum⟩ : ∃ csum, ComputeChecksum (some ip) (serializeBody A) IPProtocolVRRP
      = .ok csum := by
    rw [ComputeChecksum_some, hc0]
    exact ⟨_, rfl⟩
  have hclt : csum < 65536 := by
    rw [ComputeChecksum_some, hc0] at hcsum
    simp only [Except.ok.injEq, ipChecksum, u16] at hcsum
    omega
  have hser : SerializeTo A = .ok (PutUint16 (serializeBody A) 6 csum) := by
    simp [SerializeTo, hver, hty, VRRPv3Version, VRRPv3Advertisement, hps, hcsum, bind,
      Except.bind, pure, Except.pure]
  have hx0 : (u8 (A.Version <<< 4) ||| A.Type_) = 49 := by
    rw [hver, hty]
    decide
  have hput : PutUint16 (serializeBody A) 6 csum =
      49 :: A.VirtualRtrID :: A.Priority :: A.CountIPAddr :: u8 (A.MaxAdverInt >>> 8) ::
        u8 A.MaxAdverInt :: u8 (csum >>> 8) :: u8 csum :: tail := by
    rw [hshape, hx0]
    simp [PutUint16]
  have hdec := DecodeFromBytes_ok {} 49 A.VirtualRtrID A.Priority A.CountIPAddr
    (u8 (A.MaxAdverInt >>> 8)) (u8 A.MaxAdverInt) (u8 (csum >>> 8)) (u8 csum) tail
    (by decide) (by decide) (by omega) (by omega)
  rw [hput] at hser
  refine ⟨_, csum, _, hser, ?_, hcsum, hdec, ?_⟩
  · simp only [List.length_cons, htail]
    omega
  · obtain ⟨_, _, _, _, _, hm, _, _⟩ := hr
    refine ⟨hver.symm, hty.symm, rfl, rfl, rfl, uint16_bytes _ hm, ?_, uint16_bytes _ hclt⟩
    simp only [List.nil_append]
    have hq : tail.length / 4 = A.IPAddress.length := by omega
    rw [hq, htl]
    exact chunks_flatten A.IPAddress
      [49, A.VirtualRtrID, A.Priority, A.CountIPAddr, u8 (A.MaxAdverInt >>> 8),
        u8 A.MaxAdverInt, u8 (csum >>> 8), u8 csum] 8 rfl h4

/-- What a successful DecodeFromBytes on a body of at least eight bytes says
of the body, and what it returns. -/
theorem DecodeFromBytes_inv (v0 d : VRRPv3Adv) (x0 x1 x2 x3 x4 x5 x6 x7 : Nat)
    (tail : List Nat)
    (h : DecodeFromBytes v0 (x0 :: x1 :: x2 :: x3 :: x4 :: x5 :: x6 :: x7 :: tail) = .ok d) :
    x0 >>> 4 = 3 ∧ x0 &&& 0x0F = 1 ∧ 1 ≤ x3 ∧ tail.length % 4 = 0 ∧
    d.Contents = x0 :: x1 :: x2 :: x3 :: x4 :: x5 :: x6 :: x7 :: tail ∧
    d.CountIPAddr = x3 ∧
    d.IPAddress.length = v0.IPAddress.length + tail.length / 4 := by
  by_cases hver : x0 >>> 4 = 3
  · by_cases hty : x0 &&& 0x0F = 1
    · by_cases hcnt : 1 ≤ x3
      · by_cases hlen : tail.length % 4 = 0
        · rw [DecodeFromBytes_ok v0 x0 x1 x2 x3 x4 x5 x6 x7 tail hver hty hcnt hlen] at h
          simp only [Except.ok.injEq] at h
          subst h
          simp [hver, hty, hcnt, hlen]
        · simp [DecodeFromBytes, index, sliceFrom, Uint16, bind, Except.bind, pure,
            Except.pure, hver, hty, VRRPv3Version, VRRPv3Advertisement, hlen] at h
          split_ifs at h
      · simp [DecodeFromBytes, index, sliceFrom, Uint16, bind, Except.bind, pure,
          Except.pure, hver, hty, VRRPv3Version, VRRPv3Advertisement, hcnt] at h
        split_ifs at h
        omega
    · have hty2 : ¬ 1 = x0 &&& 15 := fun hx => hty hx.symm
      simp [DecodeFromBytes, index, bind, Except.bind, pure, Except.pure, hver, hty2,
        VRRPv3Version, VRRPv3Advertisement] at h
  · simp [DecodeFromBytes, index, bind, Except.bind, pure, Except.pure, hver,
      VRRPv3Version, VRRPv3Advertisement] at h

/-- A successful SerializeTo: the version and type are 3 and 1, the checksum of
the body with a zero checksum field exists, and the body returned is that body
with the checksum in bytes 6 and 7. -/
theorem SerializeTo_inv (v : VRRPv3Adv) (body : List Nat) (h : SerializeTo v = .ok body) :
    v.Version = 3 ∧ v.Type_ = 1 ∧
    ∃ csum, ComputeChecksum v.pseudoheader (serializeBody v) IPProtocolVRRP = .ok csum ∧
      body = PutUint16 (serializeBody v) 6 csum := by
  unfold SerializeTo at h
  split_ifs at h with hc
  simp only [VRRPv3Version, VRRPv3Advertisement, not_or, not_not] at hc
  refine ⟨hc.1, hc.2.symm, ?_⟩
  simp only [bind, Except.bind, pure, Except.pure] at h
  split at h
  · cases h
  · rename_i csum hcs
    simp only [Except.ok.injEq] at h
    exact ⟨csum, hcs, h.symm⟩

/-- The receive check accepts the layer decoded from a serialized body, when
the IPv4 layer has TTL 255 and the count written is the number of addresses. -/
theorem checkVRRPAdv_accepts (v : VRRPv3Adv) (ip : IPv4) (body : List Nat) (d : VRRPv3Adv)
    (hv : v.InRange) (hn : v.IPAddress.length ≤ 255) (hps : v.pseudoheader = some ip)
    (hsrc : IsBytes ip.SrcIP) (hdst : IsBytes ip.DstIP) (h : SerializeTo v = .ok body)
    (hdec : DecodeFromBytes {} body = .ok d) (httl : ip.TTL = VRRPAdvTTL)
    (hcount : v.CountIPAddr = u8 v.IPAddress.length) :
    checkVRRPAdv ip d = none := by
  have hzero := SerializeTo_verifies v ip body hv hn hps hsrc hdst h
  obtain ⟨_, _, csum, _, hbody⟩ := SerializeTo_inv v body h
  obtain ⟨tail, hshape, htail, _, _⟩ := serializeBody_shape v hv
  have hput : body = (u8 (v.Version <<< 4) ||| v.Type_) :: v.VirtualRtrID :: v.Priority ::
      v.CountIPAddr :: u8 (v.MaxAdverInt >>> 8) :: u8 v.MaxAdverInt :: u8 (csum >>> 8) ::
      u8 csum :: tail := by
    rw [hbody, hshape]
    simp [PutUint16]
  rw [hput] at hdec
  obtain ⟨_, _, _, _, hcont, hcnt, hlen⟩ := DecodeFromBytes_inv _ _ _ _ _ _ _ _ _ _ _ hdec
  have hlen2 : d.IPAddress.length = v.IPAddress.length := by
    rw [hlen, htail]
    simp
  rw [← hput] at hcont
  simp [checkVRRPAdv, httl, hcnt, hlen2, hcount, hcont, hzero]

/-- C5. Checksum validity: for every body SerializeTo produces, from an
advertisement with fields in the range of their types and at most 255
addresses, with an IPv4 pseudoheader whose addresses are bytes, ComputeChecksum
over the complete body (checksum field included) with the same pseudoheader and
protocol 112 returns exactly 0; and checkVRRPAdv accepts the layer decoded from
that body when the IPv4 layer has TTL 255 and the count written is the number
of addresses, which is what SerializeVRRPAdv sets (`SerializeVRRPAdv_accepted`). -/
theorem C5_checksum_validity (v : VRRPv3Adv) (ip : IPv4) (body : List Nat)
    (hv : v.InRange) (hn : v.IPAddress.length ≤ 255) (hps : v.pseudoheader = some ip)
    (hsrc : IsBytes ip.SrcIP) (hdst : IsBytes ip.DstIP) (h : SerializeTo v = .ok body) :
    ComputeChecksum (some ip) body IPProtocolVRRP = .ok 0 ∧
    (∀ d, DecodeFromBytes {} body = .ok d → ip.TTL = VRRPAdvTTL →
      v.CountIPAddr = u8 v.IPAddress.length → checkVRRPAdv ip d = none) :=
  ⟨SerializeTo_verifies v ip body hv hn hps hsrc hdst h,
   fun d hdec httl hcount => checkVRRPAdv_accepts v ip body d hv hn hps hsrc hdst h hdec httl hcount⟩

theorem To4_idem (ip r : IP) (h : To4 ip = some r) : To4 r = some r :=
  To4_of_length r (To4_length ip r h)

/-- The pseudoheader sum reads the addresses through `To4`, so it is the same
for the 4-byte forms. -/
theorem pseudoheaderIPv4_To4 (ip : IPv4) (s d : IP) (hs : To4 ip.SrcIP = some s)
    (hd : To4 ip.DstIP = some d) :
    pseudoheaderIPv4 { ip with SrcIP := s, DstIP := d } = pseudoheaderIPv4 ip := by
  simp only [pseudoheaderIPv4, hs, hd, To4_idem _ _ hs, To4_idem _ _ hd]

/-- SerializeTo reads the pseudoheader through its sum only. -/
theorem SerializeTo_pseudoheader (v : VRRPv3Adv) (ip ip1 : IPv4)
    (h : pseudoheaderIPv4 ip1 = pseudoheaderIPv4 ip) :
    SerializeTo { v with pseudoheader := some ip1 } =
      SerializeTo { v with pseudoheader := some ip } := by
  simp only [SerializeTo, serializeBody, ComputeChecksum_some, h]

/-- Every frame SerializeVRRPAdv emits is accepted by the receive check: the
frame carries, after the 14 bytes of Ethernet header and the 20 bytes of IPv4
header, the body SerializeTo writes for the advertisement as the call leaves
it; the checksum of that body with the pseudoheader of the IPv4 layer sent
(TTL 255, destination 224.0.0.18, the source in 4-byte form) is 0, and
checkVRRPAdv accepts the layer decoded from it. -/
theorem SerializeVRRPAdv_accepted (srcIP : IP) (a a1 : VRRPv3Adv) (frame : List Nat)
    (ha : a.InRange) (hn : a.IPAddress.length ≤ 255) (hsrc : IsBytes srcIP)
    (h : SerializeVRRPAdv srcIP (some a) = .ok (frame, a1)) :
    ∃ ip body, a1.pseudoheader = some ip ∧ ip.TTL = 255 ∧ ip.DstIP = VRRPAdvDstIP ∧
      To4 srcIP = some ip.SrcIP ∧ SerializeTo a1 = .ok body ∧
      (frame.drop 34).take body.length = body ∧
      ComputeChecksum (some ip) body IPProtocolVRRP = .ok 0 ∧
      ∀ d, DecodeFromBytes {} body = .ok d → checkVRRPAdv ip d = none := by
  simp only [SerializeVRRPAdv, bind, Except.bind, pure, Except.pure] at h
  split at h
  · cases h
  · rename_i body hbody
    split at h
    · cases h
    · rename_i packet hpacket
      split at h
      · cases h
      · rename_i frame1 hframe
        simp only [Except.ok.injEq, Prod.mk.injEq] at h
        obtain ⟨hf, ha1⟩ := h
        subst hf
        simp only [ipv4Serialize] at hpacket
        split at hpacket
        · rename_i s d hs hd
          simp only [pure, Except.pure, Except.ok.injEq] at hpacket
          simp only [hs, hd, Option.getD_some] at ha1
          have hsl := To4_length _ _ hs
          have hdl := To4_length _ _ hd
          have hd2 : d = VRRPAdvDstIP := by
            have : To4 VRRPAdvDstIP = some VRRPAdvDstIP := by decide
            rw [this] at hd
            exact (Option.some.inj hd).symm
          have hser : SerializeTo a1 = .ok body := by
            have hsum : pseudoheaderIPv4 ⟨VRRPAdvTTL, IPProtocolVRRP, s, d⟩ =
                pseudoheaderIPv4 ⟨VRRPAdvTTL, IPProtocolVRRP, srcIP, VRRPAdvDstIP⟩ :=
              pseudoheaderIPv4_To4 ⟨VRRPAdvTTL, IPProtocolVRRP, srcIP, VRRPAdvDstIP⟩ s d hs hd
            rw [← ha1, ← hbody]
            simp only [SerializeTo, serializeBody, ComputeChecksum_some, hsum]
          have hrange : a1.InRange := by
            rw [← ha1]
            obtain ⟨_, _, h3, h4, _, h6, h7, h8⟩ := ha
            refine ⟨?_, ?_, h3, h4, ?_, h6, h7, h8⟩
            · simp [VRRPv3Version]
            · simp [VRRPv3Advertisement]
            · exact Nat.mod_lt _ (by decide)
          have hlen1 : a1.IPAddress.length ≤ 255 := by rw [← ha1]; exact hn
          have hps : a1.pseudoheader = some
              { TTL := VRRPAdvTTL, Protocol := IPProtocolVRRP, SrcIP := s, DstIP := d } := by
            rw [← ha1]
          have hsb : IsBytes s := by
            have := To4_getD_bytes srcIP hsrc
            rw [hs] at this
            exact this
          have hdb : IsBytes d := by rw [hd2]; decide
          have hcnt : a1.CountIPAddr = u8 a1.IPAddress.length := by rw [← ha1]
          refine ⟨_, body, hps, rfl, hd2, hs, hser, ?_,
            SerializeTo_verifies a1 _ body hrange hlen1 hps hsb hdb hser,
            fun dd hdec => checkVRRPAdv_accepts a1 _ body dd hrange hlen1 hps hsb hdb hser hdec
              rfl hcnt⟩
          simp only [ethernetSerialize] at hframe
          split_ifs at hframe
          simp only [pure, Except.pure, Except.ok.injEq] at hframe
          rw [← hframe, ← hpacket]
          generalize List.replicate _ 0 = pad
          generalize hP : PutUint16 _ 10 _ = P
          have hPl : P.length = 20 := by
            rw [← hP]
            simp [PutUint16, hsl, hdl]
          simp only [VRRPAdvDstMAC, List.append_assoc, List.cons_append, List.nil_append]
          rw [show (34 : Nat) = 20 + 14 from rfl]
          simp only [List.drop_succ_cons]
          rw [List.drop_left' hPl, List.take_left' rfl]
        · cases hpacket

/-- The example of C4: the advertisement of the repository's tests serializes
to the 16 bytes the tests expect, and the round trip holds for it. -/
theorem C4_codec_round_trip_witness :
    SerializeTo exampleWireAdv = .ok exampleWireBody ∧
    ∃ body csum d,
      SerializeTo exampleWireAdv = .ok body ∧
      body.length = 8 + 4 * exampleWireAdv.IPAddress.length ∧
      ComputeChecksum (some exampleWireIP) (serializeBody exampleWireAdv) IPProtocolVRRP
        = .ok csum ∧
      DecodeFromBytes {} body = .ok d ∧
      d.Version = exampleWireAdv.Version ∧ d.Type_ = exampleWireAdv.Type_ ∧
      d.VirtualRtrID = exampleWireAdv.VirtualRtrID ∧
      d.Priority = exampleWireAdv.Priority ∧ d.CountIPAddr = exampleWireAdv.CountIPAddr ∧
      d.MaxAdverInt = exampleWireAdv.MaxAdverInt ∧ d.IPAddress = exampleWireAdv.IPAddress ∧
      d.Checksum = csum :=
  ⟨by decide,
   C4_codec_round_trip exampleWireAdv exampleWireIP (by decide) rfl rfl (by decide)
     (by decide) (by decide) rfl rfl rfl rfl⟩

/-- The example of C5: the body of the repository's tests verifies, and the
layer decoded from it is accepted by checkVRRPAdv. -/
theorem C5_checksum_validity_witness :
    ComputeChecksum (some exampleWireIP) exampleWireBody IPProtocolVRRP = .ok 0 ∧
    (∀ d, DecodeFromBytes {} exampleWireBody = .ok d → checkVRRPAdv exampleWireIP d = none) ∧
    (DecodeFromBytes {} exampleWireBody).toOption.isSome = true :=
  ⟨(C5_checksum_validity exampleWireAdv exampleWireIP exampleWireBody (by decide) (by decide)
      rfl (by decide) (by decide) (by decide)).1,
   fun d hd => (C5_checksum_validity exampleWireAdv exampleWireIP exampleWireBody (by decide)
      (by decide) rfl (by decide) (by decide) (by decide)).2 d hd rfl (by decide),
   by decide⟩

/-- From a group that newVRRP has just built, every run keeps the group in the
advertisement table iff it is Master, and in the backup table if it is
Backup. -/
theorem run_tables_fresh (GetVifMacaddr : String → Except VrrpError HardwareAddr) (now : Int)
    (imodel : models.Subinterface) (vmodel : models.VRRP) (v : VRRP) (ops : List Op)
    (h : newVRRP GetVifMacaddr now imodel vmodel = .ok v) :
    TablesFollowState (run (initialWorld v) ops) :=
  run_tables _ ops (initialWorld_tables v (newVRRP_fields _ _ _ _ _ h).1)

/-! ## The test vectors of the repository -/

/-- The frame of `TestSerializeVRRPAdv`. -/
theorem SerializeVRRPAdv_test_vector :
    (SerializeVRRPAdv [192, 168, 100, 238]
      (some { VirtualRtrID := 50, Priority := 255, MaxAdverInt := 100,
              IPAddress := [[10, 0, 0, 1], [10, 0, 0, 2]] })).toOption.map Prod.fst =
    some [0x01, 0x00, 0x5e, 0x00, 0x00, 0x12, 0x00, 0x00, 0x5e, 0x00, 0x01, 0x32,
          0x08, 0x00, 0x45, 0x00, 0x00, 0x24, 0x00, 0x00, 0x00, 0x00, 0xff, 0x70,
          0xb5, 0xc0, 0xc0, 0xa8, 0x64, 0xee, 0xe0, 0x00, 0x00, 0x12, 0x31, 0x32,
          0xff, 0x02, 0x00, 0x64, 0xb5, 0x39, 0x0a, 0x00, 0x00, 0x01, 0x0a, 0x00,
          0x00, 0x02, 0x00, 0x00, 0x00, 0x00, 0x00, 0x00, 0x00, 0x00, 0x00, 0x00] := by
  decide

/-- The frame of `TestSerializeARP`. -/
theorem SerializeARP_test_vector :
    SerializeARP [10, 0, 0, 1] [0x52, 0x54, 0x00, 0xce, 0xd1, 0xa3] =
    .ok [0xff, 0xff, 0xff, 0xff, 0xff, 0xff, 0x52, 0x54, 0x00, 0xce, 0xd1, 0xa3,
         0x08, 0x06, 0x00, 0x01, 0x08, 0x00, 0x06, 0x04, 0x00, 0x01, 0x52, 0x54,
         0x00, 0xce, 0xd1, 0xa3, 0x0a, 0x00, 0x00, 0x01, 0xff, 0xff, 0xff, 0xff,
         0xff, 0xff, 0x0a, 0x00, 0x00, 0x01, 0x00, 0x00, 0x00, 0x00, 0x00, 0x00,
         0x00, 0x00, 0x00, 0x00, 0x00, 0x00, 0x00, 0x00, 0x00, 0x00, 0x00, 0x00] := by
  decide

/-! ## The advertisement timer -/

/-- The getVRRPAdvExpired of `vrrp.go` by cases on whether the advertisement is
due. -/
theorem getVRRPAdvExpired_eq (v : VRRP) (now : Int) :
    getVRRPAdvExpired v now =
      if v.nextMasterAdvTime ≤ now then
        ({ v with nextMasterAdvTime := now + (v.MaxAdverInt : Int) * Centisecond },
          some v.advPackets, true)
      else (v, none, false) := by
  unfold getVRRPAdvExpired
  by_cases h : v.nextMasterAdvTime ≤ now
  · have h2 : ¬ v.nextMasterAdvTime > now := by omega
    simp only [h2, h, if_true, if_false]
    rfl
  · have h2 : v.nextMasterAdvTime > now := by omega
    simp only [h2, h, if_true, if_false]

/-- C13. Advertisement due check: getVRRPAdvExpired(now) returns the
pre-serialized advertisement template and true, and sets nextMasterAdvTime =
now + MaxAdverInt x 10 ms, iff nextMasterAdvTime <= now; otherwise it returns
nothing and false and leaves the group as it is; in both cases no other field
changes. The tick of the advertisement timer hands the template to the host
interface exactly when the group is in the advertisement table, the
advertisement is due and the template is not empty. -/
theorem C13_advertisement_due (w : World) (now : Int) :
    (getVRRPAdvExpired w.v now =
      if w.v.nextMasterAdvTime ≤ now then
        ({ w.v with nextMasterAdvTime := now + (w.v.MaxAdverInt : Int) * Centisecond },
          some w.v.advPackets, true)
      else (w.v, none, false)) ∧
    ((getVRRPAdvExpired w.v now).2.2 = true ↔ w.v.nextMasterAdvTime ≤ now) ∧
    (timeOutEvent w now =
      if w.v.objID ∈ w.masterTable ∧ w.v.nextMasterAdvTime ≤ now then
        if w.v.advPackets = [] then
          { w with v := { w.v with
              nextMasterAdvTime := now + (w.v.MaxAdverInt : Int) * Centisecond } }
        else
          call { w with v := { w.v with
              nextMasterAdvTime := now + (w.v.MaxAdverInt : Int) * Centisecond } }
            (Effect.PacketoutBulk w.v.advPackets)
      else w) := by
  refine ⟨getVRRPAdvExpired_eq w.v now, ?_, ?_⟩
  · rw [getVRRPAdvExpired_eq]
    split_ifs with h <;> simp [h]
  · unfold timeOutEvent
    rw [getVRRPAdvExpired_eq]
    by_cases hm : w.v.objID ∈ w.masterTable
    · by_cases hd : w.v.nextMasterAdvTime ≤ now
      · by_cases he : w.v.advPackets = []
        · simp [hm, hd, he]
        · simp [hm, hd, he]
      · simp [hm, hd]
    · simp [hm]

/-- The amended C12. Each time getVRRPAdvExpired fires, at an instant now, the
new nextMasterAdvTime is now + MaxAdverInt x 10 ms: it exceeds the previous
nextMasterAdvTime by at least MaxAdverInt x 10 ms, and by exactly that iff the
tick came at the previous nextMasterAdvTime itself; MaxAdverInt is unchanged. -/
theorem C12_timer_advance (v : VRRP) (now : Int)
    (hfire : (getVRRPAdvExpired v now).2.2 = true) :
    (getVRRPAdvExpired v now).1.nextMasterAdvTime = now + (v.MaxAdverInt : Int) * Centisecond ∧
    (getVRRPAdvExpired v now).1.nextMasterAdvTime - v.nextMasterAdvTime
      ≥ (v.MaxAdverInt : Int) * Centisecond ∧
    ((getVRRPAdvExpired v now).1.nextMasterAdvTime - v.nextMasterAdvTime
      = (v.MaxAdverInt : Int) * Centisecond ↔ now = v.nextMasterAdvTime) ∧
    (getVRRPAdvExpired v now).1.MaxAdverInt = v.MaxAdverInt := by
  rw [getVRRPAdvExpired_eq] at hfire ⊢
  by_cases h : v.nextMasterAdvTime ≤ now
  · simp only [h, if_true]
    refine ⟨trivial, ?_, ?_, trivial⟩
    · omega
    · constructor <;> intro hx <;> omega
  · simp [h] at hfire

/-- C12. The failing run: the Master of the examples (priority 100, interval 100,
nextMasterAdvTime 0) is ticked at 100 s, which sets nextMasterAdvTime to 101 s,
and then 3 ms after that instant; the second tick fires and nextMasterAdvTime
goes up by 1.003 s, not by the 1 s of MaxAdverInt x 10 ms. -/
theorem C12_late_tick_counterexample :
    (exampleMaster 100 100 true).v.state = StateMaster ∧
    (exampleMaster 100 100 true).v.Priority = 100 ∧
    (exampleMaster 100 100 true).v.MaxAdverInt = 100 ∧
    (run (exampleMaster 100 100 true) [Op.advTick 100000000000]).v.nextMasterAdvTime
      = 101000000000 ∧
    (getVRRPAdvExpired (run (exampleMaster 100 100 true) [Op.advTick 100000000000]).v
      101003000000).2.2 = true ∧
    (run (exampleMaster 100 100 true)
      [Op.advTick 100000000000, Op.advTick 101003000000]).v.nextMasterAdvTime
      - (run (exampleMaster 100 100 true) [Op.advTick 100000000000]).v.nextMasterAdvTime
      = 1003000000 ∧
    (100 : Int) * Centisecond = 1000000000 := by
  decide

/-- The example of the amended C12: the second tick of the failing run. -/
theorem C12_timer_advance_witness :
    (getVRRPAdvExpired (run (exampleMaster 100 100 true) [Op.advTick 100000000000]).v
      101003000000).1.nextMasterAdvTime = 102003000000 :=
  (C12_timer_advance (run (exampleMaster 100 100 true) [Op.advTick 100000000000]).v
    101003000000 (by decide)).1.trans (by decide)

/-! ## The master-down timer -/

/-- The masterDownTimeExpired of `vrrp.go`, with the closure of the timer, by
cases. -/
theorem masterDownTimeExpired_eq (w : World) (now : Int) :
    masterDownTimeExpired w now deleteBackupTable =
      if now < w.v.nextDownTime then w
      else if w.v.state = StateBackup then becomeMaster (deleteBackupTable w)
      else deleteBackupTable w := by
  simp only [masterDownTimeExpired, getNextDownTimeNoLock, getStateNoLock]
  by_cases h : w.v.nextDownTime ≤ now
  · have h2 : ¬ now < w.v.nextDownTime := by omega
    simp only [h, h2, if_true, if_false]
    by_cases hs : w.v.state = StateBackup
    · have hs2 : (deleteBackupTable w).v.state = StateBackup := hs
      simp only [hs2, hs, if_true]
      exact nextStateNoLock_backup_masterDown _ hs2
    · have hs2 : ¬ (deleteBackupTable w).v.state = StateBackup := hs
      simp only [hs2, hs, if_false]
  · have h2 : now < w.v.nextDownTime := by omega
    simp only [h, h2, if_true, if_false]

/-- C14. Master-down tick, for a group in the backup table at instant now: with
nextDownTime > now nothing changes; with nextDownTime <= now the group is
removed from the backup table and, iff its state is Backup, EventMasterDown is
applied: the group ends in state Master and in the advertisement table, after
the steps DeleteBackupTable, ToMaster, one GARP batch, AddMasterTable and the
assignment of the state; a group in another state is only removed from the
backup table. -/
theorem C14_master_down_tick (w : World) (now : Int) (hin : w.v.objID ∈ w.backupTable) :
    mDownTimerTick w now = masterDownTimeExpired w now deleteBackupTable ∧
    (now < w.v.nextDownTime → mDownTimerTick w now = w) ∧
    (w.v.nextDownTime ≤ now → w.v.state = StateBackup →
      (mDownTimerTick w now).v.state = StateMaster ∧
      w.v.objID ∈ (mDownTimerTick w now).masterTable ∧
      w.v.objID ∉ (mDownTimerTick w now).backupTable ∧
      (mDownTimerTick w now).steps = w.steps ++
        [Step.DeleteBackupTable w.v.objID,
         Step.Call (Effect.ToMaster w.v.subifName (w.v.subifIP, w.v.subifPrefix)
           (w.v.vaddrs.map (fun a => (a, w.v.subifPrefix)))),
         Step.Call (Effect.PacketoutBulk w.v.garpPackets),
         Step.AddMasterTable w.v.objID,
         Step.SetState StateMaster] ∧
      (mDownTimerTick w now).v = { w.v with state := StateMaster }) ∧
    (w.v.nextDownTime ≤ now → w.v.state ≠ StateBackup →
      (mDownTimerTick w now).v = w.v ∧
      (mDownTimerTick w now).masterTable = w.masterTable ∧
      w.v.objID ∉ (mDownTimerTick w now).backupTable ∧
      (mDownTimerTick w now).backupTable = w.backupTable.filter (fun k => k ≠ w.v.objID) ∧
      (mDownTimerTick w now).steps = w.steps ++ [Step.DeleteBackupTable w.v.objID]) := by
  have htick : mDownTimerTick w now = masterDownTimeExpired w now deleteBackupTable := by
    simp [mDownTimerTick, hin]
  rw [htick, masterDownTimeExpired_eq]
  refine ⟨rfl, fun h => by simp [h], fun h hs => ?_, fun h hs => ?_⟩
  · have h2 : ¬ now < w.v.nextDownTime := by omega
    simp [h2, hs, becomeMaster, AddMasterTable, sendGARP, toMaster, setStateStep,
      setStateNoLock, call, deleteBackupTable]
  · have h2 : ¬ now < w.v.nextDownTime := by omega
    simp [h2, hs, deleteBackupTable]

/-- The examples of C14: the Backup of the examples, whose down timer runs out
at 3.21 s, is left alone by a tick at 1 s and is Master after a tick at 4 s;
the group that preempted (Master, still in the backup table) is only removed
from the backup table by a tick at 4 s. -/
theorem C14_master_down_tick_witness :
    mDownTimerTick (exampleBackup 200 100 true) 1000000000 = exampleBackup 200 100 true ∧
    (mDownTimerTick (exampleBackup 200 100 true) 4000000000).v.state = StateMaster ∧
    (mDownTimerTick
      (NextStateForRecv (exampleBackup 200 100 true) (exampleAdv 100 100) [10, 0, 0, 9] 5)
      4000000000).v =
      (NextStateForRecv (exampleBackup 200 100 true) (exampleAdv 100 100) [10, 0, 0, 9] 5).v :=
  ⟨(C14_master_down_tick (exampleBackup 200 100 true) 1000000000 (by decide)).2.1 (by decide),
   ((C14_master_down_tick (exampleBackup 200 100 true) 4000000000 (by decide)).2.2.1
      (by decide) (by decide)).1,
   ((C14_master_down_tick
      (NextStateForRecv (exampleBackup 200 100 true) (exampleAdv 100 100) [10, 0, 0, 9] 5)
      4000000000 (by decide)).2.2.2 (by decide) (by decide)).1⟩

/-! ## Validation of the header fields -/

/-- SerializeTo rejects a version other than 3 or a type other than 1 before it
writes anything. -/
theorem SerializeTo_bad_version_or_type (v : VRRPv3Adv) (h : v.Version ≠ 3 ∨ v.Type_ ≠ 1) :
    SerializeTo v = .error (VrrpError.BadVersionOrType v.Version v.Type_) := by
  have h2 : v.Version ≠ VRRPv3Version ∨ VRRPv3Advertisement ≠ v.Type_ := by
    rcases h with h | h
    · exact Or.inl h
    · exact Or.inr (fun hx => h hx.symm)
  simp only [SerializeTo, h2, if_true]
  rfl

/-- DecodeFromBytes rejects a first byte whose high nibble is not 3 or whose
low nibble is not 1, whatever follows. -/
theorem DecodeFromBytes_bad_version_or_type (v0 : VRRPv3Adv) (b0 : Nat) (rest : List Nat)
    (h : b0 >>> 4 ≠ 3 ∨ b0 &&& 0x0F ≠ 1) :
    DecodeFromBytes v0 (b0 :: rest) =
      .error (VrrpError.BadVersionOrType (b0 >>> 4) (b0 &&& 0x0F)) := by
  have h2 : b0 >>> 4 ≠ VRRPv3Version ∨ VRRPv3Advertisement ≠ b0 &&& 0x0F := by
    rcases h with h | h
    · exact Or.inl h
    · exact Or.inr (fun hx => h hx.symm)
  simp only [DecodeFromBytes, index, List.getElem?_cons_zero, bind, Except.bind, pure,
    Except.pure, h2, if_true]

/-- DecodeFromBytes rejects a zero count byte once version and type are valid. -/
theorem DecodeFromBytes_zero_count (v0 : VRRPv3Adv) (b0 b1 b2 : Nat) (rest : List Nat)
    (hver : b0 >>> 4 = 3) (hty : b0 &&& 0x0F = 1) :
    DecodeFromBytes v0 (b0 :: b1 :: b2 :: 0 :: rest) = .error VrrpError.BadNumberOfAddresses := by
  simp [DecodeFromBytes, index, bind, Except.bind, pure, Except.pure, hver, hty,
    VRRPv3Version, VRRPv3Advertisement]

/-- C20. Header-field validation: SerializeTo returns the error "Bad version or
type: version = V, type = T" whenever the version V of the advertisement is not
3 or its type T is not 1; DecodeFromBytes returns the same error, V and T being
the high and the low nibble of byte 0, whenever V is not 3 or T is not 1; and
DecodeFromBytes returns "VRRPv3 number of IP addresses is not valid" whenever V
and T are valid and byte 3 is 0. -/
theorem C20_header_validation (v v0 : VRRPv3Adv) (b0 b1 b2 : Nat) (rest : List Nat) :
    ((v.Version ≠ 3 ∨ v.Type_ ≠ 1) →
      SerializeTo v = .error (VrrpError.BadVersionOrType v.Version v.Type_)) ∧
    ((b0 >>> 4 ≠ 3 ∨ b0 &&& 0x0F ≠ 1) →
      DecodeFromBytes v0 (b0 :: rest) =
        .error (VrrpError.BadVersionOrType (b0 >>> 4) (b0 &&& 0x0F))) ∧
    (b0 >>> 4 = 3 → b0 &&& 0x0F = 1 →
      DecodeFromBytes v0 (b0 :: b1 :: b2 :: 0 :: rest) =
        .error VrrpError.BadNumberOfAddresses) ∧
    (∀ V T : Nat, (VrrpError.BadVersionOrType V T).message =
      some ("Bad version or type: version = " ++ toString V ++ ", type = " ++ toString T)) ∧
    VrrpError.BadNumberOfAddresses.message =
      some "VRRPv3 number of IP addresses is not valid" :=
  ⟨SerializeTo_bad_version_or_type v,
   DecodeFromBytes_bad_version_or_type v0 b0 rest,
   DecodeFromBytes_zero_count v0 b0 b1 b2 rest,
   fun _ _ => rfl, rfl⟩

/-- The examples of C20 are the five tests of the repository: version 4 and
type 2 on serialization, first byte 0x41 and 0x32 and a zero count on
decoding, with the messages the tests expect. -/
theorem C20_header_validation_witness :
    (SerializeTo { exampleWireAdv with Version := 4 }) =
      .error (VrrpError.BadVersionOrType 4 1) ∧
    (SerializeTo { exampleWireAdv with Type_ := 2 }) =
      .error (VrrpError.BadVersionOrType 3 2) ∧
    DecodeFromBytes {} (0x41 :: exampleWireBody.tail) =
      .error (VrrpError.BadVersionOrType 4 1) ∧
    DecodeFromBytes {} (0x32 :: exampleWireBody.tail) =
      .error (VrrpError.BadVersionOrType 3 2) ∧
    DecodeFromBytes {} (0x31 :: 0x32 :: 0xff :: 0 :: exampleWireBody.drop 4) =
      .error VrrpError.BadNumberOfAddresses ∧
    (VrrpError.BadVersionOrType 4 1).message =
      some "Bad version or type: version = 4, type = 1" ∧
    (VrrpError.BadVersionOrType 3 2).message =
      some "Bad version or type: version = 3, type = 2" :=
  ⟨(C20_header_validation { exampleWireAdv with Version := 4 } {} 0 0 0 []).1
      (Or.inl (by decide)),
   (C20_header_validation { exampleWireAdv with Type_ := 2 } {} 0 0 0 []).1
      (Or.inr (by decide)),
   (C20_header_validation {} {} 0x41 0 0 exampleWireBody.tail).2.1 (Or.inl (by decide)),
   (C20_header_validation {} {} 0x32 0 0 exampleWireBody.tail).2.1 (Or.inr (by decide)),
   (C20_header_validation {} {} 0x31 0x32 0xff (exampleWireBody.drop 4)).2.2.1
      (by decide) (by decide),
   by decide, by decide⟩

/-! ## The reserved bits of the interval field -/

/-- DecodeFromBytes takes MaxAdverInt from the whole 16-bit word at bytes 4-5,
the four reserved bits included. -/
theorem DecodeFromBytes_interval (v0 d : VRRPv3Adv) (x0 x1 x2 x3 x4 x5 x6 x7 : Nat)
    (tail : List Nat) (h4 : x4 < 256) (h5 : x5 < 256)
    (h : DecodeFromBytes v0 (x0 :: x1 :: x2 :: x3 :: x4 :: x5 :: x6 :: x7 :: tail) = .ok d) :
    d.MaxAdverInt = x4 * 256 + x5 ∧
    (x4 < 16 → d.MaxAdverInt = (x4 * 256 + x5) % 4096) := by
  obtain ⟨hver, hty, hcnt, hlen, _⟩ := DecodeFromBytes_inv _ _ _ _ _ _ _ _ _ _ _ h
  rw [DecodeFromBytes_ok v0 x0 x1 x2 x3 x4 x5 x6 x7 tail hver hty hcnt hlen] at h
  simp only [Except.ok.injEq] at h
  subst h
  simp only [or_shiftLeft8 x4 x5 h5]
  exact ⟨trivial, fun h16 => by omega⟩

/-- SerializeTo writes the high byte of MaxAdverInt into byte 4 as it is: its
high four bits are zero when MaxAdverInt is below 4096. -/
theorem SerializeTo_reserved (v : VRRPv3Adv) (body : List Nat) (hv : v.InRange)
    (h : SerializeTo v = .ok body) :
    body[4]? = some (v.MaxAdverInt / 256) ∧
    (v.MaxAdverInt < 4096 → body[4]? = some (v.MaxAdverInt / 256) ∧
      (v.MaxAdverInt / 256) >>> 4 = 0) := by
  obtain ⟨_, _, csum, _, hbody⟩ := SerializeTo_inv v body h
  obtain ⟨tail, hshape, _, _, _⟩ := serializeBody_shape v hv
  have hm : v.MaxAdverInt < 65536 := hv.2.2.2.2.2.1
  have h4 : body[4]? = some (v.MaxAdverInt / 256) := by
    rw [hbody, hshape]
    simp only [PutUint16, List.set_cons_succ, List.set_cons_zero, List.getElem?_cons_succ,
      List.getElem?_cons_zero, u8, shiftRight8, Option.some.injEq]
    omega
  refine ⟨h4, fun hlt => ⟨h4, ?_⟩⟩
  rw [shiftRight4]
  omega

/-- C19. The failing inputs: a body whose bytes 4-5 are 0x10 0x64 (reserved bits
0001, interval 100) decodes with MaxAdverInt 4196, not the 100 of the low 12
bits; and an advertisement with MaxAdverInt 4196 is serialized with byte 4 =
0x10, whose high four bits are not zero. -/
theorem C19_reserved_bits_kept :
    (DecodeFromBytes {}
      [0x31, 0x32, 0x64, 0x01, 0x10, 0x64, 0x00, 0x00, 0x0a, 0x00, 0x00, 0x01]).toOption.map
        (fun d => d.MaxAdverInt) = some 4196 ∧
    (0x10 * 256 + 0x64) % 4096 = 100 ∧
    (SerializeTo { exampleWireAdv with MaxAdverInt := 4196 }).toOption.map
        (fun body => body.take 6) = some [0x31, 0x32, 0xff, 0x02, 0x10, 0x64] ∧
    (0x10 : Nat) >>> 4 = 1 := by
  decide

/-! ## The layout of a transmitted frame -/

/-- The address loop keeps the length of the buffer and the bytes in front of
the first address it writes, whatever the buffer holds. -/
theorem writeAddresses_shape : ∀ (ips : List IP) (bytes : List Nat) (i : Nat),
    8 + (i + ips.length) * 4 ≤ bytes.length →
    (writeAddresses bytes i ips).length = bytes.length ∧
    (writeAddresses bytes i ips).take (8 + i * 4) = bytes.take (8 + i * 4)
  | [], bytes, i, _ => by simp [writeAddresses]
  | ip :: ips, bytes, i, hlen => by
    simp only [List.length_cons] at hlen
    simp only [writeAddresses]
    have hhead : 8 + i * 4 + 4 ≤ bytes.length := by omega
    have hl := copyInto_length bytes (8 + i * 4) ((To4 ip).getD []) hhead
    have ih := writeAddresses_shape ips
      (copyInto bytes (8 + i * 4) (8 + i * 4 + 4) ((To4 ip).getD [])) (i + 1)
      (by rw [hl]; omega)
    refine ⟨ih.1.trans hl, ?_⟩
    have h1 := congrArg (List.take (8 + i * 4)) ih.2
    rw [List.take_take, List.take_take] at h1
    have hmin : min (8 + i * 4) (8 + (i + 1) * 4) = 8 + i * 4 := by omega
    rw [hmin] at h1
    rw [h1]
    exact copyInto_take bytes (8 + i * 4) (8 + i * 4) _ hhead (Nat.le_refl _)

/-- With IPv4 addresses, in 4-byte or in 16-byte form, the loop writes their
4-byte forms one after the other. -/
theorem writeAddresses_flatten_To4 : ∀ (ips : List IP) (pre rest : List Nat) (i : Nat),
    pre.length = 8 + i * 4 → rest.length = 4 * ips.length →
    (∀ ip ∈ ips, (To4 ip).isSome = true) →
    writeAddresses (pre ++ rest) i ips =
      pre ++ (ips.map (fun ip => (To4 ip).getD [])).flatten
  | [], pre, rest, i, _, hrest, _ => by
    have : rest = [] := List.eq_nil_of_length_eq_zero (by simpa using hrest)
    simp [writeAddresses, this]
  | ip :: ips, pre, rest, i, hpre, hrest, h4 => by
    obtain ⟨r, hr⟩ := Option.isSome_iff_exists.mp (h4 ip (by simp))
    have hrl : r.length = 4 := To4_length ip r hr
    simp only [List.length_cons] at hrest
    simp only [writeAddresses, hr, Option.getD_some, List.map_cons, List.flatten_cons]
    have hcopy : copyInto (pre ++ rest) (8 + i * 4) (8 + i * 4 + 4) r =
        (pre ++ r) ++ rest.drop 4 := by
      simp only [copyInto, ← hpre, List.take_left', Nat.add_sub_cancel_left, hrl,
        Nat.min_self, List.drop_append]
      rw [List.take_of_length_le (by omega)]
    rw [hcopy]
    rw [writeAddresses_flatten_To4 ips (pre ++ r) (rest.drop 4) (i + 1)
      (by simp only [List.length_append, hpre, hrl]; omega)
      (by simp only [List.length_drop, hrest]; omega)
      (fun x hx => h4 x (by simp [hx]))]
    simp

/-- The bytes SerializeTo writes before the checksum, for any advertisement:
the eight header bytes with a zero checksum field, then `4 * len(IPAddress)`
bytes, which are the 4-byte forms of the addresses in list order when all are
IPv4 addresses. -/
theorem serializeBody_layout (v : VRRPv3Adv) :
    ∃ tail : List Nat,
      serializeBody v = (u8 (v.Version <<< 4) ||| v.Type_) :: v.VirtualRtrID :: v.Priority ::
        v.CountIPAddr :: u8 (v.MaxAdverInt >>> 8) :: u8 v.MaxAdverInt :: 0 :: 0 :: tail ∧
      tail.length = 4 * v.IPAddress.length ∧
      ((∀ ip ∈ v.IPAddress, (To4 ip).isSome = true) →
        tail = (v.IPAddress.map (fun ip => (To4 ip).getD [])).flatten) := by
  have hbody : serializeBody v = writeAddresses
      ([u8 (v.Version <<< 4) ||| v.Type_, v.VirtualRtrID, v.Priority, v.CountIPAddr,
        u8 (v.MaxAdverInt >>> 8), u8 v.MaxAdverInt, 0, 0] ++
        List.replicate (4 * v.IPAddress.length) 0) 0 v.IPAddress := by
    unfold serializeBody
    simp only []
    congr 1
    rw [List.replicate_add]
    simp [PutUint16, List.replicate]
  have hfr := writeAddresses_shape v.IPAddress
    ([u8 (v.Version <<< 4) ||| v.Type_, v.VirtualRtrID, v.Priority, v.CountIPAddr,
        u8 (v.MaxAdverInt >>> 8), u8 v.MaxAdverInt, 0, 0] ++
        List.replicate (4 * v.IPAddress.length) 0) 0
    (by simp only [List.length_append, List.length_replicate, List.length_cons,
          List.length_nil]; omega)
  refine ⟨(serializeBody v).drop 8, ?_, ?_, ?_⟩
  · have h1 : (serializeBody v).take 8 = [u8 (v.Version <<< 4) ||| v.Type_, v.VirtualRtrID,
        v.Priority, v.CountIPAddr, u8 (v.MaxAdverInt >>> 8), u8 v.MaxAdverInt, 0, 0] := by
      rw [hbody]
      have := hfr.2
      simp only [Nat.zero_mul, Nat.add_zero] at this
      rw [this]
      simp
    conv_lhs => rw [← List.take_append_drop 8 (serializeBody v)]
    rw [h1]
    rfl
  · rw [List.length_drop, hbody, hfr.1]
    simp only [List.length_append, List.length_replicate, List.length_cons, List.length_nil]
    omega
  · intro h4
    rw [hbody, writeAddresses_flatten_To4 v.IPAddress _ _ 0 (by simp) (by simp) h4]
    simp

/-- The IPv4 header gopacket writes verifies: with the checksum in bytes 10 and
11, the one's complement sum of its ten 16-bit words is 0xffff. -/
theorem ipv4Header_verifies (h0 h1 h2 h3 h4 h5 h6 h7 h8 h9 s0 s1 s2 s3 d0 d1 d2 d3 : Nat)
    (hb : IsBytes [h0, h1, h2, h3, h4, h5, h6, h7, h8, h9, 0, 0, s0, s1, s2, s3,
      d0, d1, d2, d3]) :
    ipv4HeaderChecksum [h0, h1, h2, h3, h4, h5, h6, h7, h8, h9, 0, 0, s0, s1, s2, s3,
      d0, d1, d2, d3] < 65536 ∧
    foldCarry 32 (sumWords (PutUint16 [h0, h1, h2, h3, h4, h5, h6, h7, h8, h9, 0, 0,
      s0, s1, s2, s3, d0, d1, d2, d3] 10
      (ipv4HeaderChecksum [h0, h1, h2, h3, h4, h5, h6, h7, h8, h9, 0, 0, s0, s1, s2, s3,
        d0, d1, d2, d3])) 0) = 65535 := by
  have hlen := wordSum_le _ hb
  simp only [List.length_cons, List.length_nil] at hlen
  have hs : sumWords [h0, h1, h2, h3, h4, h5, h6, h7, h8, h9, 0, 0, s0, s1, s2, s3,
      d0, d1, d2, d3] 0 = 0 + wordSum [h0, h1, h2, h3, h4, h5, h6, h7, h8, h9, 0, 0,
      s0, s1, s2, s3, d0, d1, d2, d3] := sumWords_eq _ _ hb (by omega)
  obtain ⟨S, hS⟩ : ∃ S, S = wordSum [h0, h1, h2, h3, h4, h5, h6, h7, h8, h9, 0, 0,
      s0, s1, s2, s3, d0, d1, d2, d3] := ⟨_, rfl⟩
  rw [Nat.zero_add, ← hS] at hs
  have hSlt : S + 65535 < 4294967296 := by omega
  obtain ⟨hF, _, _⟩ := foldCarry_spec S (by omega)
  have hc : ipv4HeaderChecksum [h0, h1, h2, h3, h4, h5, h6, h7, h8, h9, 0, 0,
      s0, s1, s2, s3, d0, d1, d2, d3] = 65535 - foldCarry 32 S := by
    simp only [ipv4HeaderChecksum, List.set_cons_succ, List.set_cons_zero, hs, u16]
    omega
  rw [hc]
  obtain ⟨c, hcv⟩ : ∃ c, c = 65535 - foldCarry 32 S := ⟨_, rfl⟩
  rw [← hcv]
  have hclt : c < 65536 := by omega
  refine ⟨hclt, ?_⟩
  have hput : PutUint16 [h0, h1, h2, h3, h4, h5, h6, h7, h8, h9, 0, 0,
      s0, s1, s2, s3, d0, d1, d2, d3] 10 c =
      [h0, h1, h2, h3, h4, h5, h6, h7, h8, h9, c / 256, c % 256, s0, s1, s2, s3,
        d0, d1, d2, d3] := by
    simp only [PutUint16, List.set_cons_succ, List.set_cons_zero, shiftRight8, u8]
    have : c / 256 % 256 = c / 256 := by omega
    rw [this]
  rw [hput]
  have hb2 : IsBytes [h0, h1, h2, h3, h4, h5, h6, h7, h8, h9, c / 256, c % 256,
      s0, s1, s2, s3, d0, d1, d2, d3] := by
    intro b hmem
    have hq : c / 256 < 256 := by omega
    have hr : c % 256 < 256 := by omega
    simp only [List.mem_cons, List.mem_singleton, List.not_mem_nil, or_false] at hmem
    rcases hmem with h | h | h | h | h | h | h | h | h | h | h | h | h | h | h | h | h | h | h | h
    all_goals first
      | (rw [h]; exact hq)
      | (rw [h]; exact hr)
      | exact hb b (by simp [h])
  have hw : wordSum [h0, h1, h2, h3, h4, h5, h6, h7, h8, h9, c / 256, c % 256,
      s0, s1, s2, s3, d0, d1, d2, d3] = S + c := by
    rw [hS]
    simp only [wordSum]
    omega
  rw [sumWords_eq _ _ hb2 (by rw [hw]; omega), hw, Nat.zero_add, hcv]
  exact foldCarry_with_complement S hSlt

/-- What `copy` leaves after the first eight bytes depends on what the buffer
held after its first eight bytes only. -/
theorem copyInto_drop8 (bytes : List Nat) (lo hi : Nat) (src : List Nat) (h8 : 8 ≤ lo)
    (hlo : lo ≤ bytes.length) :
    (copyInto bytes lo hi src).drop 8 =
      (bytes.drop 8).take (lo - 8) ++ src.take (hi - lo) ++
        (bytes.drop 8).drop (lo - 8 + min (hi - lo) src.length) := by
  simp only [copyInto, List.append_assoc]
  rw [List.drop_append_of_le_length (by simp only [List.length_take]; omega), List.drop_take,
    List.drop_drop]
  congr 3
  omega

/-- The address loop leaves, after the first eight bytes, bytes that depend on
the addresses and on what the buffer held after its first eight bytes only. -/
theorem writeAddresses_drop8 : ∀ (ips : List IP) (bytes bytes2 : List Nat) (i : Nat),
    bytes.length = bytes2.length → bytes.drop 8 = bytes2.drop 8 →
    8 + (i + ips.length) * 4 ≤ bytes.length →
    (writeAddresses bytes i ips).drop 8 = (writeAddresses bytes2 i ips).drop 8
  | [], bytes, bytes2, i, _, hd, _ => by simpa [writeAddresses] using hd
  | ip :: ips, bytes, bytes2, i, hl, hd, hlen => by
    simp only [List.length_cons] at hlen
    simp only [writeAddresses]
    have hhead : 8 + i * 4 + 4 ≤ bytes.length := by omega
    have hhead2 : 8 + i * 4 + 4 ≤ bytes2.length := by omega
    apply writeAddresses_drop8 ips
    · rw [copyInto_length bytes (8 + i * 4) _ hhead, copyInto_length bytes2 (8 + i * 4) _ hhead2,
        hl]
    · rw [copyInto_drop8 bytes _ _ _ (by omega) (by omega),
        copyInto_drop8 bytes2 _ _ _ (by omega) (by omega), hd]
    · rw [copyInto_length bytes (8 + i * 4) _ hhead]
      omega

/-- The buffer the address loop of SerializeTo starts from. -/
theorem serializeBody_eq (v : VRRPv3Adv) :
    serializeBody v = writeAddresses
      ([u8 (v.Version <<< 4) ||| v.Type_, v.VirtualRtrID, v.Priority, v.CountIPAddr,
        u8 (v.MaxAdverInt >>> 8), u8 v.MaxAdverInt, 0, 0] ++
        List.replicate (4 * v.IPAddress.length) 0) 0 v.IPAddress := by
  unfold serializeBody
  simp only []
  congr 1
  rw [List.replicate_add]
  simp [PutUint16, List.replicate]

/-- The address area SerializeTo writes depends on the list of addresses
only. -/
theorem serializeBody_drop8_congr (a b : VRRPv3Adv) (h : a.IPAddress = b.IPAddress) :
    (serializeBody a).drop 8 = (serializeBody b).drop 8 := by
  rw [serializeBody_eq a, serializeBody_eq b, h]
  apply writeAddresses_drop8
  · simp
  · simp
  · simp only [List.length_append, List.length_replicate, List.length_cons, List.length_nil]
    omega

/-- What SerializeVRRPAdv returns for a source address that is an IPv4 address
(4-byte form `s0.s1.s2.s3`), byte by byte: it always succeeds, whatever the
advertisement holds. `tail` is the address area, which is what the address loop
of SerializeTo leaves after the header, `csum` the VRRP checksum, `hsum` the
checksum of the IPv4 header. -/
theorem SerializeVRRPAdv_tail (srcIP : IP) (s0 s1 s2 s3 : Nat) (a : VRRPv3Adv)
    (hs : To4 srcIP = some [s0, s1, s2, s3]) :
    ∃ (tail : List Nat) (csum hsum : Nat),
      tail = (serializeBody a).drop 8 ∧
      tail.length = 4 * a.IPAddress.length ∧
      ((∀ ip ∈ a.IPAddress, (To4 ip).isSome = true) →
        tail = (a.IPAddress.map (fun ip => (To4 ip).getD [])).flatten) ∧
      ComputeChecksum (some ⟨255, 112, [s0, s1, s2, s3], [224, 0, 0, 18]⟩)
        (0x31 :: a.VirtualRtrID :: a.Priority :: u8 a.IPAddress.length ::
          u8 (a.MaxAdverInt >>> 8) :: u8 a.MaxAdverInt :: 0 :: 0 :: tail) 112 = .ok csum ∧
      hsum = ipv4HeaderChecksum
        [0x45, 0, u8 (u16 (28 + 4 * a.IPAddress.length) >>> 8),
          u8 (u16 (28 + 4 * a.IPAddress.length)), 0, 0, 0, 0, 255, 112, 0, 0,
          s0, s1, s2, s3, 224, 0, 0, 18] ∧
      SerializeVRRPAdv srcIP (some a) = .ok
        ([0x01, 0x00, 0x5e, 0x00, 0x00, 0x12, 0x00, 0x00, 0x5e, 0x00, 0x01, a.VirtualRtrID,
          0x08, 0x00,
          0x45, 0, u8 (u16 (28 + 4 * a.IPAddress.length) >>> 8),
          u8 (u16 (28 + 4 * a.IPAddress.length)), 0, 0, 0, 0, 255, 112,
          u8 (hsum >>> 8), u8 hsum, s0, s1, s2, s3, 224, 0, 0, 18,
          0x31, a.VirtualRtrID, a.Priority, u8 a.IPAddress.length,
          u8 (a.MaxAdverInt >>> 8), u8 a.MaxAdverInt, u8 (csum >>> 8), u8 csum] ++ tail ++
          List.replicate (60 - (42 + 4 * a.IPAddress.length)) 0,
         { a with Version := 3, Type_ := 1, CountIPAddr := u8 a.IPAddress.length,
                  pseudoheader := some ⟨255, 112, [s0, s1, s2, s3], [224, 0, 0, 18]⟩ }) := by
  obtain ⟨tail, hshape, htail, hflat⟩ := serializeBody_layout
    { a with Version := VRRPv3Version, Type_ := VRRPv3Advertisement,
             CountIPAddr := u8 a.IPAddress.length,
             pseudoheader := some ⟨VRRPAdvTTL, IPProtocolVRRP, srcIP, VRRPAdvDstIP⟩ }
  replace htail : tail.length = 4 * a.IPAddress.length := htail
  have htl : tail = (serializeBody a).drop 8 := by
    have hdrop := congrArg (List.drop 8) hshape
    simp only [List.drop_succ_cons, List.drop_zero] at hdrop
    rw [← hdrop]
    exact serializeBody_drop8_congr _ a rfl
  replace hflat : (∀ ip ∈ a.IPAddress, (To4 ip).isSome = true) →
      tail = (a.IPAddress.map (fun ip => (To4 ip).getD [])).flatten := hflat
  have hx0 : (u8 (VRRPv3Version <<< 4) ||| VRRPv3Advertisement) = 0x31 := by decide
  simp only [hx0] at hshape
  have hd : To4 VRRPAdvDstIP = some [224, 0, 0, 18] := by decide
  have hsum0 : pseudoheaderIPv4 ⟨VRRPAdvTTL, IPProtocolVRRP, srcIP, VRRPAdvDstIP⟩ =
      pseudoheaderIPv4 ⟨255, 112, [s0, s1, s2, s3], [224, 0, 0, 18]⟩ :=
    (pseudoheaderIPv4_To4 ⟨VRRPAdvTTL, IPProtocolVRRP, srcIP, VRRPAdvDstIP⟩ _ _ hs hd).symm
  obtain ⟨c0, hc0⟩ := pseudoheaderIPv4_ok ⟨255, 112, [s0, s1, s2, s3], [224, 0, 0, 18]⟩
    (by simp [To4]) (by simp [To4])
  obtain ⟨csum, hcs⟩ : ∃ csum, ComputeChecksum
      (some ⟨255, 112, [s0, s1, s2, s3], [224, 0, 0, 18]⟩)
      (0x31 :: a.VirtualRtrID :: a.Priority :: u8 a.IPAddress.length ::
        u8 (a.MaxAdverInt >>> 8) :: u8 a.MaxAdverInt :: 0 :: 0 :: tail) 112 = .ok csum := by
    rw [ComputeChecksum_some, hc0]
    exact ⟨_, rfl⟩
  have hcs2 := hcs
  rw [ComputeChecksum_some, hc0] at hcs2
  simp only [Except.ok.injEq] at hcs2
  refine ⟨tail, csum, _, htl, htail, hflat, hcs, rfl, ?_⟩
  simp only [SerializeVRRPAdv, SerializeTo, bind, Except.bind, pure, Except.pure,
      VRRPv3Version, VRRPv3Advertisement, ne_eq, not_true_eq_false, or_self, if_false,
      ComputeChecksum_some, hsum0, hc0, ipv4Serialize, hs, hd, ethernetSerialize] at hshape ⊢
  simp only [hshape]
  have e1 : 4 * a.IPAddress.length + 1 + 1 + 1 + 1 + 1 + 1 + 1 + 1 =
      4 * a.IPAddress.length + 8 := by omega
  have e2 : 20 + (4 * a.IPAddress.length + 8) = 28 + 4 * a.IPAddress.length := by omega
  have e3 : u8 112 = 112 := by decide
  have e4 : u8 (2048 >>> 8) = 8 := by decide
  have e5 : u8 2048 = 0 := by decide
  simp only [List.length_cons, htail, e1] at hcs2
  simp only [IPProtocolVRRP, PutUint16, List.set_cons_succ, List.set_cons_zero,
    List.length_cons, htail, VRRPAdvDstMAC, List.length_nil, VRRPAdvTTL, e1, e2, e3, e4, e5,
    hcs2, List.cons_append, List.nil_append, List.length_append, not_true_eq_false,
    or_self, if_false, Except.ok.injEq, Prod.mk.injEq, Option.getD_some, and_true]
  repeat (first | rfl | (refine congrArg₂ List.cons rfl ?_))
  congr 2
  omega

/-- What SerializeVRRPAdv returns for a source address that is an IPv4 address
(4-byte form `s0.s1.s2.s3`), byte by byte: it always succeeds, whatever the
advertisement holds. `tail` is the address area, `csum` the VRRP checksum,
`hsum` the checksum of the IPv4 header. -/
theorem SerializeVRRPAdv_layout (srcIP : IP) (s0 s1 s2 s3 : Nat) (a : VRRPv3Adv)
    (hs : To4 srcIP = some [s0, s1, s2, s3]) :
    ∃ (tail : List Nat) (csum hsum : Nat),
      tail.length = 4 * a.IPAddress.length ∧
      ((∀ ip ∈ a.IPAddress, (To4 ip).isSome = true) →
        tail = (a.IPAddress.map (fun ip => (To4 ip).getD [])).flatten) ∧
      ComputeChecksum (some ⟨255, 112, [s0, s1, s2, s3], [224, 0, 0, 18]⟩)
        (0x31 :: a.VirtualRtrID :: a.Priority :: u8 a.IPAddress.length ::
          u8 (a.MaxAdverInt >>> 8) :: u8 a.MaxAdverInt :: 0 :: 0 :: tail) 112 = .ok csum ∧
      hsum = ipv4HeaderChecksum
        [0x45, 0, u8 (u16 (28 + 4 * a.IPAddress.length) >>> 8),
          u8 (u16 (28 + 4 * a.IPAddress.length)), 0, 0, 0, 0, 255, 112, 0, 0,
          s0, s1, s2, s3, 224, 0, 0, 18] ∧
      SerializeVRRPAdv srcIP (some a) = .ok
        ([0x01, 0x00, 0x5e, 0x00, 0x00, 0x12, 0x00, 0x00, 0x5e, 0x00, 0x01, a.VirtualRtrID,
          0x08, 0x00,
          0x45, 0, u8 (u16 (28 + 4 * a.IPAddress.length) >>> 8),
          u8 (u16 (28 + 4 * a.IPAddress.length)), 0, 0, 0, 0, 255, 112,
          u8 (hsum >>> 8), u8 hsum, s0, s1, s2, s3, 224, 0, 0, 18,
          0x31, a.VirtualRtrID, a.Priority, u8 a.IPAddress.length,
          u8 (a.MaxAdverInt >>> 8), u8 a.MaxAdverInt, u8 (csum >>> 8), u8 csum] ++ tail ++
          List.replicate (60 - (42 + 4 * a.IPAddress.length)) 0,
         { a with Version := 3, Type_ := 1, CountIPAddr := u8 a.IPAddress.length,
                  pseudoheader := some ⟨255, 112, [s0, s1, s2, s3], [224, 0, 0, 18]⟩ }) := by
  obtain ⟨tail, csum, hsum, -, h⟩ := SerializeVRRPAdv_tail srcIP s0 s1 s2 s3 a hs
  exact ⟨tail, csum, hsum, h⟩

/-! ## C18: the layout of the transmitted frame -/

/-- C18 (transmit frame layout): for a source address that is an IPv4 address
`s0.s1.s2.s3` and an advertisement with N IPv4 addresses, 1 ≤ N ≤ 255, whose
router identifier, priority and interval are in the range of their Go types,
whatever its Version, Type, CountIPAddr and Checksum fields hold on entry,
SerializeVRRPAdv returns the frame made of: the Ethernet header (destination
01:00:5e:00:00:12, source 00:00:5e:00:01:VRID, EtherType 0x0800); the IPv4
header (0x45, TOS 0, total length 28+4N big-endian, Id 0, flags and fragment
0, TTL 255, protocol 112, header checksum `hsum` big-endian, source
s0.s1.s2.s3, destination 224.0.0.18); the VRRP body (0x31, VRID, Priority, N,
MaxAdverInt big-endian, checksum `csum` big-endian, the N addresses in list
order in 4-byte form); and `60 - (42+4N)` zero bytes, which pads the frame to
60 bytes when it is shorter. Both checksums are correct: the one's complement
sum of the words of the IPv4 header is 0xffff, and ComputeChecksum over the
VRRP body with the pseudoheader of this IPv4 header is 0. -/
theorem C18_frame_layout (srcIP : IP) (s0 s1 s2 s3 : Nat) (a : VRRPv3Adv)
    (hs : To4 srcIP = some [s0, s1, s2, s3]) (hsb : IsBytes srcIP)
    (h4 : ∀ ip ∈ a.IPAddress, (To4 ip).isSome = true)
    (hab : ∀ ip ∈ a.IPAddress, IsBytes ip)
    (h1 : 1 ≤ a.IPAddress.length) (hn : a.IPAddress.length ≤ 255)
    (hvrid : a.VirtualRtrID < 256) (hprio : a.Priority < 256)
    (hint : a.MaxAdverInt < 65536) :
    ∃ (csum hsum : Nat) (a1 : VRRPv3Adv), csum < 65536 ∧ hsum < 65536 ∧
      SerializeVRRPAdv srcIP (some a) = .ok
        ([0x01, 0x00, 0x5e, 0x00, 0x00, 0x12, 0x00, 0x00, 0x5e, 0x00, 0x01, a.VirtualRtrID,
          0x08, 0x00] ++
         [0x45, 0, (28 + 4 * a.IPAddress.length) / 256, (28 + 4 * a.IPAddress.length) % 256,
          0, 0, 0, 0, 255, 112, hsum / 256, hsum % 256, s0, s1, s2, s3, 224, 0, 0, 18] ++
         ([0x31, a.VirtualRtrID, a.Priority, a.IPAddress.length,
           a.MaxAdverInt / 256, a.MaxAdverInt % 256, csum / 256, csum % 256] ++
          (a.IPAddress.map (fun ip => (To4 ip).getD [])).flatten) ++
         List.replicate (60 - (42 + 4 * a.IPAddress.length)) 0, a1) ∧
      foldCarry 32 (sumWords
        [0x45, 0, (28 + 4 * a.IPAddress.length) / 256, (28 + 4 * a.IPAddress.length) % 256,
         0, 0, 0, 0, 255, 112, hsum / 256, hsum % 256, s0, s1, s2, s3, 224, 0, 0, 18] 0)
        = 0xffff ∧
      ComputeChecksum (some ⟨255, 112, [s0, s1, s2, s3], [224, 0, 0, 18]⟩)
        ([0x31, a.VirtualRtrID, a.Priority, a.IPAddress.length,
          a.MaxAdverInt / 256, a.MaxAdverInt % 256, csum / 256, csum % 256] ++
         (a.IPAddress.map (fun ip => (To4 ip).getD [])).flatten) 112 = .ok 0 := by
  obtain ⟨tail, csum, hsum, htail, hflat, hcs, hhs, hser⟩ :=
    SerializeVRRPAdv_layout srcIP s0 s1 s2 s3 a hs
  have htl := hflat h4
  subst htl
  have hsb4 : IsBytes [s0, s1, s2, s3] := by
    have := To4_getD_bytes srcIP hsb
    rwa [hs] at this
  have e1 : u8 (u16 (28 + 4 * a.IPAddress.length) >>> 8) =
      (28 + 4 * a.IPAddress.length) / 256 := by
    simp only [u8, u16, shiftRight8]; omega
  have e2 : u8 (u16 (28 + 4 * a.IPAddress.length)) = (28 + 4 * a.IPAddress.length) % 256 := by
    simp only [u8, u16]; omega
  have e3 : u8 a.IPAddress.length = a.IPAddress.length := by
    simp only [u8]; omega
  have e4 : u8 (a.MaxAdverInt >>> 8) = a.MaxAdverInt / 256 := by
    simp only [u8, shiftRight8]; omega
  have e5 : u8 a.MaxAdverInt = a.MaxAdverInt % 256 := rfl
  simp only [e1, e2, e3, e4, e5] at hcs hhs hser
  have hv := ipv4Header_verifies 0x45 0 ((28 + 4 * a.IPAddress.length) / 256)
    ((28 + 4 * a.IPAddress.length) % 256) 0 0 0 0 255 112 s0 s1 s2 s3 224 0 0 18 (by
      intro b hb
      simp only [List.mem_cons, List.mem_singleton, List.not_mem_nil, or_false] at hb
      have h0 := hsb4 s0 (by simp)
      have h1 := hsb4 s1 (by simp)
      have h2 := hsb4 s2 (by simp)
      have h3 := hsb4 s3 (by simp)
      omega)
  rw [← hhs] at hv
  obtain ⟨hhlt, hhv⟩ := hv
  have e6 : u8 (hsum >>> 8) = hsum / 256 := by
    simp only [u8, shiftRight8]; omega
  have e7 : u8 hsum = hsum % 256 := rfl
  have hclt : csum < 65536 := by
    rw [ComputeChecksum_some] at hcs
    split at hcs
    · simp only [Except.ok.injEq] at hcs
      rw [← hcs]
      exact Nat.mod_lt _ (by decide)
    · cases hcs
  have e8 : u8 (csum >>> 8) = csum / 256 := by
    simp only [u8, shiftRight8]; omega
  have e9 : u8 csum = csum % 256 := rfl
  simp only [e6, e7, e8, e9] at hser
  simp only [PutUint16, List.set_cons_succ, List.set_cons_zero, e6, e7] at hhv
  obtain ⟨fa, hfa⟩ : ∃ fa, SerializeVRRPAdv srcIP (some a) = .ok fa := ⟨_, hser⟩
  obtain ⟨frame, a1⟩ := fa
  rw [hfa] at hser
  simp only [Except.ok.injEq, Prod.mk.injEq] at hser
  refine ⟨csum, hsum, a1, hclt, hhlt, ?_, hhv, ?_⟩
  · rw [hfa, hser.1]
    simp
  · obtain ⟨v, hv⟩ : ∃ v : VRRPv3Adv, v = { a with
        Version := VRRPv3Version, Type_ := VRRPv3Advertisement,
        CountIPAddr := a.IPAddress.length, Checksum := 0,
        pseudoheader := some ⟨255, 112, [s0, s1, s2, s3], [224, 0, 0, 18]⟩ } := ⟨_, rfl⟩
    have hvr : v.InRange := by
      subst hv
      exact ⟨by show 3 < 256; omega, by show 1 < 256; omega, hvrid, hprio,
        by show a.IPAddress.length < 256; omega, hint, by show 0 < 65536; omega, hab⟩
    have hbody : SerializeTo v = .ok
        ([0x31, a.VirtualRtrID, a.Priority, a.IPAddress.length,
          a.MaxAdverInt / 256, a.MaxAdverInt % 256, csum / 256, csum % 256] ++
         (a.IPAddress.map (fun ip => (To4 ip).getD [])).flatten) := by
      obtain ⟨tail, hshape, _, hflat2⟩ := serializeBody_layout v
      have ht := hflat2 (by subst hv; exact h4)
      subst hv
      replace ht : tail = (a.IPAddress.map (fun ip => (To4 ip).getD [])).flatten := ht
      subst ht
      have hx0 : (u8 (VRRPv3Version <<< 4) ||| VRRPv3Advertisement) = 0x31 := by decide
      simp only [hx0, e4, e5] at hshape
      simp only [SerializeTo, ne_eq, not_true_eq_false, or_self, if_false, hshape, bind,
        Except.bind, IPProtocolVRRP, hcs, pure, Except.pure, PutUint16, List.set_cons_succ,
        List.set_cons_zero, e8, e9, List.cons_append, List.nil_append]
    have := SerializeTo_verifies v _ _ hvr (by subst hv; exact hn) (by subst hv; rfl)
      hsb4 (by show IsBytes [224, 0, 0, 18]; decide) hbody
    exact this

/-- The example of C18, the frame of `TestSerializeVRRPAdv`: VRID 50, priority
255, interval 100, addresses 10.0.0.1 and 10.0.0.2 from 192.168.100.238. The
VRRP checksum is 0xb539 and the header checksum 0xb5c0. -/
theorem C18_frame_layout_witness :
    ∃ (csum hsum : Nat) (a1 : VRRPv3Adv), csum = 0xb539 ∧ hsum = 0xb5c0 ∧
      SerializeVRRPAdv [192, 168, 100, 238]
        (some { VirtualRtrID := 50, Priority := 255, MaxAdverInt := 100,
                IPAddress := [[10, 0, 0, 1], [10, 0, 0, 2]] }) = .ok
        ([0x01, 0x00, 0x5e, 0x00, 0x00, 0x12, 0x00, 0x00, 0x5e, 0x00, 0x01, 0x32, 0x08, 0x00,
          0x45, 0x00, 0x00, 0x24, 0x00, 0x00, 0x00, 0x00, 0xff, 0x70,
          hsum / 256, hsum % 256, 0xc0, 0xa8, 0x64, 0xee, 0xe0, 0x00, 0x00, 0x12,
          0x31, 0x32, 0xff, 0x02, 0x00, 0x64, csum / 256, csum % 256,
          0x0a, 0x00, 0x00, 0x01, 0x0a, 0x00, 0x00, 0x02,
          0x00, 0x00, 0x00, 0x00, 0x00, 0x00, 0x00, 0x00, 0x00, 0x00], a1) := by
  obtain ⟨csum, hsum, a1, hc, hh, hser, _, _⟩ := C18_frame_layout [192, 168, 100, 238]
    192 168 100 238 { VirtualRtrID := 50, Priority := 255, MaxAdverInt := 100,
                      IPAddress := [[10, 0, 0, 1], [10, 0, 0, 2]] }
    (by decide) (by decide) (by decide) (by decide) (by decide) (by decide) (by decide)
    (by decide) (by decide)
  have htv := SerializeVRRPAdv_test_vector
  rw [hser] at htv
  simp only [Except.toOption, Option.map_some', Option.some.injEq] at htv
  have h1 : hsum / 256 = 0xb5 := by
    have := congrArg (fun l => l.getD 24 0) htv
    simpa using this
  have h2 : hsum % 256 = 0xc0 := by
    have := congrArg (fun l => l.getD 25 0) htv
    simpa using this
  have h3 : csum / 256 = 0xb5 := by
    have := congrArg (fun l => l.getD 40 0) htv
    simpa using this
  have h4 : csum % 256 = 0x39 := by
    have := congrArg (fun l => l.getD 41 0) htv
    simpa using this
  refine ⟨csum, hsum, a1, by omega, by omega, ?_⟩
  rw [hser]
  rfl

/-! ## What only newVRRP writes -/

theorem becomeMaster_settings (w : World) : (becomeMaster w).v.settings = w.v.settings := by
  simp [becomeMaster, AddMasterTable, sendGARP, toMaster, setStateNoLock, setStateStep, call,
    VRRP.settings]

theorem becomeBackup_settings (w : World) : (becomeBackup w).v.settings = w.v.settings := by
  simp [becomeBackup, toBackup, AddBackupTable, DeleteMasterTable, setStateNoLock,
    setStateStep, call, VRRP.settings]

theorem becomeInitialize_settings (w : World) :
    (becomeInitialize w).v.settings = w.v.settings := by
  cases hs : w.v.state <;>
    simp [becomeInitialize, getStateNoLock, DeleteBackupTable, deleteBackupTable,
      DeleteMasterTable, sendVRRPAdvPriorityZero, toBackup, setStateNoLock, setStateStep,
      call, VRRP.settings, hs]

theorem nextStateNoLock_settings (w : World) (e : VRRPEvent) :
    (nextStateNoLock w e).v.settings = w.v.settings := by
  cases hs : w.v.state <;> cases e
  case StateInitialize.EventStart =>
    rw [nextStateNoLock_start w hs]
    split_ifs
    · exact becomeMaster_settings w
    · exact becomeBackup_settings w
  all_goals
    simp only [nextStateNoLock, nextStateNoLockDepth, nextStateNoLockBody, getStateNoLock, hs]
    try first
      | rfl
      | exact becomeMaster_settings w
      | exact becomeBackup_settings w
      | exact becomeInitialize_settings w

theorem NextStateForRecv_settings (w : World) (adv : VRRPv3Adv) (src : IP) (now : Int) :
    (NextStateForRecv w adv src now).v.settings = w.v.settings := by
  by_cases hself : w.v.subifIP ∈ adv.IPAddress
  · rw [NextStateForRecv_dropped w adv src now (Or.inl hself)]
  · cases hs : w.v.state
    · rw [NextStateForRecv_dropped w adv src now (Or.inr hs)]
    · rw [NextStateForRecv_backup w adv src now hs hself]
      split_ifs
      · simp [VRRP.settings, setNextDownTimeNoLock]
      · exact becomeMaster_settings w
      · simp [VRRP.settings, setNextDownTimeNoLock, resetMasterDownInterval_eq]
    · rw [NextStateForRecv_master w adv src now hs hself]
      split_ifs
      · simp [VRRP.settings]
      · rw [becomeBackup_settings]
        simp [VRRP.settings, setNextDownTimeNoLock, resetMasterDownInterval_eq,
          DeleteMasterTable]
      · rfl

theorem timeOutEvent_settings (w : World) (now : Int) :
    (timeOutEvent w now).v.settings = w.v.settings := by
  unfold timeOutEvent getVRRPAdvExpired
  split_ifs <;> simp [VRRP.settings, setNextMasterAdvTimeNoLock, call]
  all_goals split_ifs <;> simp

theorem mDownTimerTick_settings (w : World) (now : Int) :
    (mDownTimerTick w now).v.settings = w.v.settings := by
  simp only [mDownTimerTick, masterDownTimeExpired]
  split_ifs with h1 h2 h3
  · rw [nextStateNoLock_settings]
    rfl
  · rfl
  · rfl
  · rfl

/-- No event, received advertisement or tick writes a field of the group other
than `state`, `MaxAdverInt`, `masterDownInterval`, `skewTime`, `nextDownTime`
and `nextMasterAdvTime`. -/
theorem run_settings (w : World) (ops : List Op) : (run w ops).v.settings = w.v.settings := by
  induction ops generalizing w with
  | nil => rfl
  | cons op ops ih =>
    refine (ih (applyOp w op)).trans ?_
    cases op with
    | nextState e => exact nextStateNoLock_settings w e
    | recv adv src now => exact NextStateForRecv_settings w adv src now
    | advTick now => exact timeOutEvent_settings w now
    | downTick now => exact mDownTimerTick_settings w now

/-! ## The packet templates -/

/-- The frame SerializeVRRPAdv builds depends on the router identifier, the
priority, the interval and the addresses of the advertisement only. -/
theorem SerializeVRRPAdv_congr (srcIP : IP) (a b : VRRPv3Adv)
    (h1 : a.VirtualRtrID = b.VirtualRtrID) (h2 : a.Priority = b.Priority)
    (h3 : a.MaxAdverInt = b.MaxAdverInt) (h4 : a.IPAddress = b.IPAddress) :
    (SerializeVRRPAdv srcIP (some a)).toOption.map Prod.fst =
      (SerializeVRRPAdv srcIP (some b)).toOption.map Prod.fst := by
  simp only [SerializeVRRPAdv, SerializeTo, serializeBody, bind, Except.bind, pure,
    Except.pure, h1, h2, h3, h4]
  split_ifs
  · rfl
  · split
    · rfl
    · split
      · rfl
      · split <;> rfl

/-- A frame that ethernetSerialize returns starts with the destination MAC. -/
theorem ethernetSerialize_head (dst src : HardwareAddr) (t : Nat) (payload frame : List Nat)
    (h : ethernetSerialize dst src t payload = .ok frame) : frame.head? = dst.head? := by
  unfold ethernetSerialize at h
  split_ifs at h with hl
  simp only [pure, Except.pure, Except.ok.injEq] at h
  subst h
  have hd : dst.length = 6 := by
    by_contra hne
    exact hl (Or.inl hne)
  match dst, hd with
  | d :: _, _ => rfl

/-- Every frame of createGARP starts with 0xff (the broadcast MAC). -/
theorem createGARP_head (v : VRRP) (ps : List Packet) (h : createGARP v = .ok ps) :
    ∀ p ∈ ps, p.Data.head? = some 0xff := by
  have key : ∀ (ips : List IP) (acc ps : List Packet),
      ips.foldlM (fun ps ip => do
        let buf ← SerializeARP ip v.vmac
        pure (ps ++ [Packet.mk v.subifName buf])) acc = .ok ps →
      (∀ p ∈ acc, p.Data.head? = some 0xff) → ∀ p ∈ ps, p.Data.head? = some 0xff := by
    intro ips
    induction ips with
    | nil =>
      intro acc ps h hacc
      simp only [List.foldlM, pure, Except.pure, Except.ok.injEq] at h
      subst h
      exact hacc
    | cons ip ips ih =>
      intro acc ps h hacc
      simp only [List.foldlM, bind, Except.bind, pure, Except.pure] at h
      split at h
      · cases h
      · rename_i acc1 hacc1
        split at hacc1
        · cases hacc1
        · rename_i buf hbuf
          simp only [Except.ok.injEq] at hacc1
          subst hacc1
          refine ih _ _ h ?_
          intro p hp
          rcases List.mem_append.mp hp with hp | hp
          · exact hacc p hp
          · simp only [List.mem_singleton] at hp
            subst hp
            simp only [SerializeARP, bind, Except.bind] at hbuf
            split at hbuf
            · cases hbuf
            · exact ethernetSerialize_head _ _ _ _ _ hbuf
  exact key v.IPAddress [] ps h (by simp)

/-- What createVRRPAdv returns: one packet for the sub-interface, holding the
frame of SerializeVRRPAdv for the group's advertisement. -/
theorem createVRRPAdv_eq (v v1 : VRRP) (ps : List Packet)
    (h : createVRRPAdv v = .ok (ps, v1)) :
    ∃ frame a1, SerializeVRRPAdv v.subifIP (some v.toVRRPv3Adv) = .ok (frame, a1) ∧
      ps = [⟨v.subifName, frame⟩] ∧ v1 = { v with toVRRPv3Adv := a1 } := by
  simp only [createVRRPAdv, bind, Except.bind, pure, Except.pure] at h
  split at h
  · cases h
  · rename_i r hr
    obtain ⟨buf, a1⟩ := r
    simp only [Except.ok.injEq, Prod.mk.injEq] at h
    exact ⟨buf, a1, hr, h.1.symm, h.2.symm⟩

/-- The templates resetPacket stores: the advertisement frame of the group, the
frame of the same advertisement with priority 0, and GARP frames, which all
start with 0xff. -/
theorem resetPacket_templates (v v1 : VRRP) (h : resetPacket v = .ok v1) :
    ∃ frame a1 frame0 a0,
      SerializeVRRPAdv v.subifIP (some v.toVRRPv3Adv) = .ok (frame, a1) ∧
      SerializeVRRPAdv v.subifIP (some { a1 with Priority := 0 }) = .ok (frame0, a0) ∧
      v1.advPackets = [⟨v.subifName, frame⟩] ∧
      v1.advPriorityZeroPackets = [⟨v.subifName, frame0⟩] ∧
      (∀ p ∈ v1.garpPackets, p.Data.head? = some 0xff) ∧
      v1.toVRRPv3Adv = a1 ∧ v1.subifName = v.subifName ∧ v1.subifIP = v.subifIP := by
  simp only [resetPacket, bind, Except.bind, pure, Except.pure] at h
  split at h
  · cases h
  · rename_i r hr
    obtain ⟨ps, v2⟩ := r
    obtain ⟨frame, a1, hser, hps, hv2⟩ := createVRRPAdv_eq _ _ _ hr
    subst hps hv2
    simp only [createVRRPAdvPriorityZero, bind, Except.bind, pure, Except.pure] at h
    split at h
    · cases h
    · rename_i ps0 hps0
      split at hps0
      · cases hps0
      · rename_i r0 hr0
        obtain ⟨ps00, v3⟩ := r0
        obtain ⟨frame0, a0, hser0, hps00, _⟩ := createVRRPAdv_eq _ _ _ hr0
        simp only [Except.ok.injEq] at hps0
        subst hps0 hps00
        split at h
        · cases h
        · rename_i garp hgarp
          simp only [Except.ok.injEq] at h
          subst h
          exact ⟨frame, a1, frame0, a0, hser, hser0, rfl, rfl,
            createGARP_head _ _ hgarp, rfl, rfl, rfl⟩

/-- The timers of the group newVRRP returns: the 16-bit formula of
resetMasterDownInterval on the effective priority and the configured
interval. -/
theorem newVRRP_timers (GetVifMacaddr : String → Except VrrpError HardwareAddr) (now : Int)
    (imodel : models.Subinterface) (vmodel : models.VRRP) (v : VRRP)
    (h : newVRRP GetVifMacaddr now imodel vmodel = .ok v) :
    v.skewTime = u16 (u16 (256 - v.Priority) * vmodel.Interval) / 256 ∧
    v.masterDownInterval = u16 (u16 (3 * vmodel.Interval) + v.skewTime) := by
  simp only [newVRRP, bind, Except.bind, pure, Except.pure] at h
  split at h
  · cases h
  · have hf := resetPacket_fields _ _ h
    simp only [setNextDownTimeNoLock, setStateNoLock, resetMasterDownInterval_eq] at hf
    obtain ⟨-, -, -, hp, -, -, -, -, hsk, hmd⟩ := hf
    rw [hsk, hmd, hp]
    exact ⟨rfl, rfl⟩

/-- The templates of the group newVRRP returns: the advertisement frame is the
frame of SerializeVRRPAdv from the address of the sub-interface for an
advertisement `a` with the configured router identifier, the effective
priority, the configured interval and the configured addresses; the
priority-zero frame is the frame for the same advertisement with priority 0;
every GARP frame starts with 0xff. -/
theorem newVRRP_templates (GetVifMacaddr : String → Except VrrpError HardwareAddr) (now : Int)
    (imodel : models.Subinterface) (vmodel : models.VRRP) (v : VRRP)
    (h : newVRRP GetVifMacaddr now imodel vmodel = .ok v) :
    ∃ a frame a1 frame0 a0,
      a.VirtualRtrID = vmodel.Vrid ∧
      a.Priority = (if vmodel.IsMaster imodel.IP then 255 else vmodel.Priority) ∧
      a.MaxAdverInt = vmodel.Interval ∧ a.IPAddress = vmodel.VirtualAddresses ∧
      SerializeVRRPAdv imodel.IP (some a) = .ok (frame, a1) ∧
      SerializeVRRPAdv imodel.IP (some { a1 with Priority := 0 }) = .ok (frame0, a0) ∧
      v.advPackets = [⟨imodel.Name, frame⟩] ∧
      v.advPriorityZeroPackets = [⟨imodel.Name, frame0⟩] ∧
      (∀ p ∈ v.garpPackets, p.Data.head? = some 0xff) ∧
      v.toVRRPv3Adv = a1 ∧ v.subifName = imodel.Name ∧ v.subifIP = imodel.IP := by
  simp only [newVRRP, bind, Except.bind, pure, Except.pure] at h
  split at h
  · cases h
  · obtain ⟨frame, a1, frame0, a0, h1, h2, h3, h4, h5, h6, h7, h8⟩ :=
      resetPacket_templates _ _ h
    simp only [setNextDownTimeNoLock, setStateNoLock,
      resetMasterDownInterval_eq] at h1 h2 h3 h4 h7 h8
    exact ⟨_, frame, a1, frame0, a0, rfl, rfl, rfl, rfl, h1, h2, h3, h4, h5, h6, h7, h8⟩

/-- SerializeVRRPAdv succeeds only for a source address that is an IPv4
address. -/
theorem SerializeVRRPAdv_src (srcIP : IP) (a a1 : VRRPv3Adv) (frame : List Nat)
    (h : SerializeVRRPAdv srcIP (some a) = .ok (frame, a1)) :
    ∃ s0 s1 s2 s3, To4 srcIP = some [s0, s1, s2, s3] := by
  cases hto : To4 srcIP with
  | none =>
    simp only [SerializeVRRPAdv, bind, Except.bind, pure, Except.pure, ipv4Serialize, hto] at h
    split at h
    · cases h
    · cases h
  | some src =>
    have hl := To4_length _ _ hto
    match src, hl with
    | [s0, s1, s2, s3], _ => exact ⟨s0, s1, s2, s3, rfl⟩

/-- Where a frame of SerializeVRRPAdv carries the fields of the advertisement:
the first byte is 0x01 (the multicast MAC), byte 35 is the router identifier,
byte 36 the priority, bytes 38 and 39 the interval, big-endian. -/
theorem SerializeVRRPAdv_bytes (srcIP : IP) (a a1 : VRRPv3Adv) (frame : List Nat)
    (h : SerializeVRRPAdv srcIP (some a) = .ok (frame, a1)) :
    frame.head? = some 0x01 ∧ frame[35]? = some a.VirtualRtrID ∧
    frame[36]? = some a.Priority ∧ frame[38]? = some (u8 (a.MaxAdverInt >>> 8)) ∧
    frame[39]? = some (u8 a.MaxAdverInt) := by
  obtain ⟨s0, s1, s2, s3, hs⟩ := SerializeVRRPAdv_src srcIP a a1 frame h
  obtain ⟨tail, csum, hsum, -, -, -, -, hser⟩ := SerializeVRRPAdv_layout srcIP s0 s1 s2 s3 a hs
  rw [h] at hser
  simp only [Except.ok.injEq, Prod.mk.injEq] at hser
  rw [hser.1]
  simp

/-! ## C11: the priority of an address owner -/

/-- C11 (owner priority): the group newVRRP builds from a sub-interface model
and a VRRP model has Priority 255 if `IsMaster` holds, that is if some
configured virtual address equals the address of the sub-interface (`net.IP.Equal`),
whatever the configured priority, and the configured priority otherwise; its
skewTime and masterDownInterval are the 16-bit values resetMasterDownInterval
derives from that priority and the configured interval; and its advertisement
template is one packet for the sub-interface whose priority byte (byte 36 of
the frame, byte 2 of the VRRP body) is that priority. -/
theorem C11_owner_priority (GetVifMacaddr : String → Except VrrpError HardwareAddr)
    (now : Int) (imodel : models.Subinterface) (vmodel : models.VRRP) (v : VRRP)
    (h : newVRRP GetVifMacaddr now imodel vmodel = .ok v) :
    (vmodel.IsMaster imodel.IP = true ↔
      ∃ vaddr ∈ vmodel.VirtualAddresses, ipEqual vaddr imodel.IP = true) ∧
    (vmodel.IsMaster imodel.IP = true → v.Priority = 255) ∧
    (vmodel.IsMaster imodel.IP = false → v.Priority = vmodel.Priority) ∧
    v.skewTime = u16 (u16 (256 - v.Priority) * vmodel.Interval) / 256 ∧
    v.masterDownInterval = u16 (u16 (3 * vmodel.Interval) + v.skewTime) ∧
    ∃ frame, v.advPackets = [⟨imodel.Name, frame⟩] ∧ frame[36]? = some v.Priority := by
  have hf := newVRRP_fields _ _ _ _ _ h
  have ht := newVRRP_timers _ _ _ _ _ h
  obtain ⟨a, frame, a1, frame0, a0, -, hp, -, -, hser, -, hadv, -⟩ :=
    newVRRP_templates _ _ _ _ _ h
  refine ⟨?_, ?_, ?_, ht.1, ht.2, frame, hadv, ?_⟩
  · simp only [models.VRRP.IsMaster, List.any_eq_true]
  · intro hm
    rw [hf.2.2.2.1, if_pos hm]
  · intro hm
    rw [hf.2.2.2.1, hm]
    rfl
  · rw [(SerializeVRRPAdv_bytes _ _ _ _ hser).2.2.1, hp, hf.2.2.2.1]

/-- The examples of C11: the owner of 10.0.0.5, configured with priority 100,
is built with priority 255, skew time 0 and master-down interval 300, and byte
36 of its template is 255; the group of priority 200 that owns no address keeps
priority 200, with skew time 21 and master-down interval 321. -/
theorem C11_owner_priority_witness :
    exampleOwnerWorld.v.Priority = 255 ∧ exampleOwnerWorld.v.skewTime = 0 ∧
    exampleOwnerWorld.v.masterDownInterval = 300 ∧
    (∃ frame, exampleOwnerWorld.v.advPackets = [⟨"s", frame⟩] ∧ frame[36]? = some 255) ∧
    (exampleWorld 200 100 true).v.Priority = 200 ∧
    (exampleWorld 200 100 true).v.skewTime = 21 ∧
    (exampleWorld 200 100 true).v.masterDownInterval = 321 := by
  have ho := C11_owner_priority exampleDataplane 0 exampleSubif exampleOwnerModel
    exampleOwnerWorld.v (by decide)
  have hn := C11_owner_priority exampleDataplane 0 exampleSubif (exampleModel 200 100 true)
    (exampleWorld 200 100 true).v (by decide)
  have hop := ho.2.1 (by decide)
  have hnp := hn.2.2.1 (by decide)
  obtain ⟨-, -, -, hos, hom, frame, hof, hob⟩ := ho
  obtain ⟨-, -, -, hns, hnm, -⟩ := hn
  rw [hop] at hos hob
  rw [hnp] at hns
  rw [hos] at hom
  rw [hns] at hnm
  exact ⟨hop, hos, hom, ⟨frame, hof, hob⟩, hnp, hns, hnm⟩

/-! ## C17: the advertisement template is built once -/

/-- C17, the failing input. The Backup of priority 100 and interval 100
receives an advertisement of priority 200 and interval 400: it stays Backup and
adopts the interval 400, and its advertisement template is the one built at
construction, whose VRRP body (bytes 34 to 45 of the frame) decodes to the
interval 100. When its down timer has run out the group becomes Master, and the
tick of the advertisement timer at 200 s hands over that template, with the
interval 100 in it, and arms the next advertisement 400 centiseconds later. -/
theorem C17_stale_template_sent :
    (NextStateForRecv (exampleBackup 100 100 true) (exampleAdv 200 400)
      [10, 0, 0, 9] 5).v.state = StateBackup ∧
    (NextStateForRecv (exampleBackup 100 100 true) (exampleAdv 200 400)
      [10, 0, 0, 9] 5).v.MaxAdverInt = 400 ∧
    (NextStateForRecv (exampleBackup 100 100 true) (exampleAdv 200 400)
      [10, 0, 0, 9] 5).v.advPackets = (exampleWorld 100 100 true).v.advPackets ∧
    (NextStateForRecv (exampleBackup 100 100 true) (exampleAdv 200 400)
      [10, 0, 0, 9] 5).v.advPackets.map
        (fun p => (DecodeFromBytes {} ((p.Data.drop 34).take 12)).toOption.map
          (fun d => d.MaxAdverInt)) = [some 100] ∧
    (mDownTimerTick (NextStateForRecv (exampleBackup 100 100 true) (exampleAdv 200 400)
      [10, 0, 0, 9] 5) 100000000000).v.state = StateMaster ∧
    (mDownTimerTick (NextStateForRecv (exampleBackup 100 100 true) (exampleAdv 200 400)
      [10, 0, 0, 9] 5) 100000000000).v.MaxAdverInt = 400 ∧
    (timeOutEvent (mDownTimerTick (NextStateForRecv (exampleBackup 100 100 true)
      (exampleAdv 200 400) [10, 0, 0, 9] 5) 100000000000) 200000000000).trace.getLast? =
        some (Effect.PacketoutBulk (exampleWorld 100 100 true).v.advPackets) ∧
    (timeOutEvent (mDownTimerTick (NextStateForRecv (exampleBackup 100 100 true)
      (exampleAdv 200 400) [10, 0, 0, 9] 5) 100000000000) 200000000000).v.nextMasterAdvTime =
        200000000000 + 400 * Centisecond := by
  decide

/-- What holds of the advertisement template: for a group that newVRRP has
built, after every sequence of events, received advertisements and ticks, the
template is the one stored at construction; the priority, the router
identifier, the address list and subifIP of the group are those of
construction; and the template is one packet for the sub-interface whose frame
is the frame SerializeVRRPAdv builds from subifIP for the group's advertisement
with the interval configured at construction in place of the current
MaxAdverInt. Byte 36 of the frame is the current priority and bytes 38 and 39
are the configured interval. -/
theorem template_built_once (GetVifMacaddr : String → Except VrrpError HardwareAddr)
    (now : Int) (imodel : models.Subinterface) (vmodel : models.VRRP) (v : VRRP)
    (ops : List Op) (h : newVRRP GetVifMacaddr now imodel vmodel = .ok v) :
    (run (initialWorld v) ops).v.advPackets = v.advPackets ∧
    (run (initialWorld v) ops).v.Priority = v.Priority ∧
    (run (initialWorld v) ops).v.VirtualRtrID = vmodel.Vrid ∧
    (run (initialWorld v) ops).v.IPAddress = vmodel.VirtualAddresses ∧
    (run (initialWorld v) ops).v.subifIP = imodel.IP ∧
    ∃ frame, (run (initialWorld v) ops).v.advPackets = [⟨imodel.Name, frame⟩] ∧
      (SerializeVRRPAdv (run (initialWorld v) ops).v.subifIP
        (some { (run (initialWorld v) ops).v.toVRRPv3Adv with
          MaxAdverInt := vmodel.Interval })).toOption.map Prod.fst = some frame ∧
      frame[36]? = some (run (initialWorld v) ops).v.Priority ∧
      frame[38]? = some (u8 (vmodel.Interval >>> 8)) ∧
      frame[39]? = some (u8 vmodel.Interval) := by
  have hsett : (run (initialWorld v) ops).v.settings = v.settings := run_settings _ ops
  obtain ⟨w, hw⟩ : ∃ w, w = run (initialWorld v) ops := ⟨_, rfl⟩
  rw [← hw] at hsett ⊢
  have hadv : w.v.advPackets = v.advPackets := congrArg (fun x => x.advPackets) hsett
  have hprio : w.v.Priority = v.Priority := congrArg (fun x => x.Priority) hsett
  have hvrid : w.v.VirtualRtrID = v.VirtualRtrID := congrArg (fun x => x.VirtualRtrID) hsett
  have haddr : w.v.IPAddress = v.IPAddress := congrArg (fun x => x.IPAddress) hsett
  have hsub : w.v.subifIP = v.subifIP := congrArg (fun x => x.subifIP) hsett
  obtain ⟨a, frame, a1, frame0, a0, ha1, ha2, ha3, ha4, hser, -, hpk, -, -, hv, -, hip⟩ :=
    newVRRP_templates _ _ _ _ _ h
  have hf := SerializeVRRPAdv_fields _ _ _ _ hser
  have hb := SerializeVRRPAdv_bytes _ _ _ _ hser
  have hvp : v.Priority = a.Priority := by rw [← hf.1, ← hv]
  have hvv : v.VirtualRtrID = a.VirtualRtrID := by rw [← hf.2.2.2.1, ← hv]
  have hva : v.IPAddress = a.IPAddress := by rw [← hf.2.1, ← hv]
  refine ⟨hadv, hprio, by rw [hvrid, hvv, ha1], by rw [haddr, hva, ha4], by rw [hsub, hip],
    frame, by rw [hadv, hpk], ?_, by rw [hb.2.2.1, hprio, hvp], by rw [hb.2.2.2.1, ha3],
    by rw [hb.2.2.2.2, ha3]⟩
  have hc := SerializeVRRPAdv_congr imodel.IP
    { w.v.toVRRPv3Adv with MaxAdverInt := vmodel.Interval } a (hvrid.trans hvv)
    (hprio.trans hvp) ha3.symm (haddr.trans hva)
  rw [hsub, hip]
  refine hc.trans ?_
  rw [hser]
  rfl

/-! ## What a transition sends -/

/-- The steps of NextState(EventShutdown) on a Master, in order. -/
theorem NextState_master_shutdown (w : World) (hs : w.v.state = StateMaster) :
    (NextState w EventShutdown).steps = w.steps ++
      [Step.DeleteMasterTable w.v.objID,
       Step.Call (Effect.PacketoutBulk w.v.advPriorityZeroPackets),
       Step.Call (Effect.ToBackup w.v.subifName (w.v.subifIP, w.v.subifPrefix)
         (w.v.vaddrs.map (fun a => (a, w.v.subifPrefix)))),
       Step.SetState StateInitialize] ∧
    (NextState w EventShutdown).v.state = StateInitialize ∧
    w.v.objID ∉ (NextState w EventShutdown).masterTable := by
  simp [NextState, nextStateNoLock, nextStateNoLockDepth, nextStateNoLockBody, getStateNoLock,
    hs, becomeInitialize, DeleteMasterTable, sendVRRPAdvPriorityZero, toBackup, setStateStep,
    setStateNoLock, call]

/-- The only packets becomeMaster sends are the GARP template. -/
theorem becomeMaster_sends (w : World) :
    ∃ added, (becomeMaster w).steps = w.steps ++ added ∧
      ∀ ps, Step.Call (Effect.PacketoutBulk ps) ∈ added → ps = w.v.garpPackets := by
  refine ⟨[Step.Call (Effect.ToMaster w.v.subifName (w.v.subifIP, w.v.subifPrefix)
      (w.v.vaddrs.map (fun a => (a, w.v.subifPrefix)))),
    Step.Call (Effect.PacketoutBulk w.v.garpPackets), Step.AddMasterTable w.v.objID,
    Step.SetState StateMaster], ?_, ?_⟩
  · simp [becomeMaster, AddMasterTable, sendGARP, toMaster, setStateStep, call]
  · intro ps hps
    simpa using hps

/-- Nothing is sent by becomeBackup. -/
theorem becomeBackup_sends (w : World) :
    ∃ added, (becomeBackup w).steps = w.steps ++ added ∧
      ∀ ps, Step.Call (Effect.PacketoutBulk ps) ∉ added := by
  refine ⟨[Step.DeleteMasterTable w.v.objID, Step.AddBackupTable w.v.objID,
    Step.SetState StateBackup,
    Step.Call (Effect.ToBackup w.v.subifName (w.v.subifIP, w.v.subifPrefix)
      (w.v.vaddrs.map (fun a => (a, w.v.subifPrefix))))], ?_, ?_⟩
  · simp [becomeBackup, toBackup, AddBackupTable, DeleteMasterTable, setStateStep, call,
      setStateNoLock]
  · intro ps hps
    simp at hps

/-- Every transition other than Master + EventShutdown sends the GARP template
or nothing. -/
theorem nextStateNoLock_sends (w : World) (e : VRRPEvent)
    (hne : ¬ (w.v.state = StateMaster ∧ e = EventShutdown)) :
    ∃ added, (nextStateNoLock w e).steps = w.steps ++ added ∧
      ∀ ps, Step.Call (Effect.PacketoutBulk ps) ∈ added → ps = w.v.garpPackets := by
  have hm := becomeMaster_sends w
  have hb : ∃ added, (becomeBackup w).steps = w.steps ++ added ∧
      ∀ ps, Step.Call (Effect.PacketoutBulk ps) ∈ added → ps = w.v.garpPackets := by
    obtain ⟨added, h1, h2⟩ := becomeBackup_sends w
    exact ⟨added, h1, fun ps hps => absurd hps (h2 ps)⟩
  have hid : ∃ added, w.steps = w.steps ++ added ∧
      ∀ ps, Step.Call (Effect.PacketoutBulk ps) ∈ added → ps = w.v.garpPackets :=
    ⟨[], by simp, by simp⟩
  cases hs : w.v.state <;> cases e
  case StateInitialize.EventStart =>
    rw [nextStateNoLock_start w hs]
    split_ifs
    · exact hm
    · exact hb
  case StateMaster.EventShutdown => exact absurd ⟨hs, rfl⟩ hne
  case StateBackup.EventShutdown =>
    refine ⟨[Step.DeleteBackupTable w.v.objID, Step.SetState StateInitialize], ?_, by simp⟩
    simp [nextStateNoLock, nextStateNoLockDepth, nextStateNoLockBody, getStateNoLock, hs,
      becomeInitialize, DeleteBackupTable, deleteBackupTable, setStateStep]
  all_goals
    simp only [nextStateNoLock, nextStateNoLockDepth, nextStateNoLockBody, getStateNoLock, hs]
    first
      | exact hid
      | exact hm
      | exact hb

/-- NextStateForRecv sends the GARP template or nothing. -/
theorem NextStateForRecv_sends (w : World) (adv : VRRPv3Adv) (src : IP) (now : Int) :
    ∃ added, (NextStateForRecv w adv src now).steps = w.steps ++ added ∧
      ∀ ps, Step.Call (Effect.PacketoutBulk ps) ∈ added → ps = w.v.garpPackets := by
  have hid : ∃ added, w.steps = w.steps ++ added ∧
      ∀ ps, Step.Call (Effect.PacketoutBulk ps) ∈ added → ps = w.v.garpPackets :=
    ⟨[], by simp, by simp⟩
  by_cases hself : w.v.subifIP ∈ adv.IPAddress
  · rw [NextStateForRecv_dropped w adv src now (Or.inl hself)]
    exact hid
  · cases hs : w.v.state
    · rw [NextStateForRecv_dropped w adv src now (Or.inr hs)]
      exact hid
    · rw [NextStateForRecv_backup w adv src now hs hself]
      split_ifs
      · exact hid
      · exact becomeMaster_sends w
      · exact hid
    · rw [NextStateForRecv_master w adv src now hs hself]
      split_ifs
      · exact hid
      · obtain ⟨added, h1, h2⟩ := becomeBackup_sends { DeleteMasterTable w with
          v := setNextDownTimeNoLock
            (resetMasterDownInterval { w.v with MaxAdverInt := adv.MaxAdverInt } adv.MaxAdverInt)
            now
            (resetMasterDownInterval { w.v with MaxAdverInt := adv.MaxAdverInt }
              adv.MaxAdverInt).masterDownInterval }
        refine ⟨Step.DeleteMasterTable w.v.objID :: added, ?_, ?_⟩
        · rw [h1]
          simp [DeleteMasterTable]
        · intro ps hps
          simp only [List.mem_cons, reduceCtorEq, false_or] at hps
          exact absurd hps (h2 ps)
      · exact hid

/-- In a group newVRRP has built, the GARP template differs from the
priority-zero template: the latter is one frame that starts with 0x01, and
every GARP frame starts with 0xff. -/
theorem newVRRP_templates_differ (GetVifMacaddr : String → Except VrrpError HardwareAddr)
    (now : Int) (imodel : models.Subinterface) (vmodel : models.VRRP) (v : VRRP)
    (h : newVRRP GetVifMacaddr now imodel vmodel = .ok v) :
    v.garpPackets ≠ v.advPriorityZeroPackets := by
  obtain ⟨a, frame, a1, frame0, a0, -, -, -, -, -, hser0, -, hp0, hgarp, -⟩ :=
    newVRRP_templates _ _ _ _ _ h
  intro heq
  have hmem : (⟨imodel.Name, frame0⟩ : Packet) ∈ v.garpPackets := by
    rw [heq, hp0]
    exact List.mem_singleton.mpr rfl
  have h1 := hgarp _ hmem
  have h2 := (SerializeVRRPAdv_bytes _ _ _ _ hser0).1
  simp only [h2, Option.some.injEq] at h1
  omega

/-! ## C15: the priority-zero announcement -/

/-- C15 (priority-zero announcement): let `w` be any world a group built by
newVRRP can reach through events, received advertisements and ticks. If the
group is Master, NextState(EventShutdown) performs exactly these steps, in this
order: removal from the advertisement table, one send of the priority-zero
template, one ToBackup call on the dataplane, and the write of state
Initialize. For every other pair of state and event (Master with
EventDetectedNewMaster and Backup with EventShutdown among them) the steps
NextState performs contain no send of the priority-zero template, and neither do
the steps of any NextStateForRecv: what these send, if anything, is the GARP
template, which is a different list of packets. -/
theorem C15_priority_zero_announcement
    (GetVifMacaddr : String → Except VrrpError HardwareAddr) (now : Int)
    (imodel : models.Subinterface) (vmodel : models.VRRP) (v : VRRP) (ops : List Op)
    (w : World) (h : newVRRP GetVifMacaddr now imodel vmodel = .ok v)
    (hw : w = run (initialWorld v) ops) :
    (w.v.state = StateMaster →
      (NextState w EventShutdown).steps = w.steps ++
        [Step.DeleteMasterTable w.v.objID,
         Step.Call (Effect.PacketoutBulk w.v.advPriorityZeroPackets),
         Step.Call (Effect.ToBackup w.v.subifName (w.v.subifIP, w.v.subifPrefix)
           (w.v.vaddrs.map (fun a => (a, w.v.subifPrefix)))),
         Step.SetState StateInitialize] ∧
      (NextState w EventShutdown).v.state = StateInitialize) ∧
    (∀ e, ¬ (w.v.state = StateMaster ∧ e = EventShutdown) →
      ∃ added, (NextState w e).steps = w.steps ++ added ∧
        (∀ ps, Step.Call (Effect.PacketoutBulk ps) ∈ added → ps = w.v.garpPackets) ∧
        Step.Call (Effect.PacketoutBulk w.v.advPriorityZeroPackets) ∉ added) ∧
    (∀ adv src now1, ∃ added, (NextStateForRecv w adv src now1).steps = w.steps ++ added ∧
        (∀ ps, Step.Call (Effect.PacketoutBulk ps) ∈ added → ps = w.v.garpPackets) ∧
        Step.Call (Effect.PacketoutBulk w.v.advPriorityZeroPackets) ∉ added) := by
  have hsett : w.v.settings = v.settings := by
    rw [hw]
    exact run_settings _ ops
  have hg : w.v.garpPackets ≠ w.v.advPriorityZeroPackets := by
    have h1 : w.v.garpPackets = v.garpPackets := congrArg (fun x => x.garpPackets) hsett
    have h2 : w.v.advPriorityZeroPackets = v.advPriorityZeroPackets :=
      congrArg (fun x => x.advPriorityZeroPackets) hsett
    rw [h1, h2]
    exact newVRRP_templates_differ _ _ _ _ _ h
  refine ⟨fun hs => ⟨(NextState_master_shutdown w hs).1, (NextState_master_shutdown w hs).2.1⟩,
    ?_, ?_⟩
  · intro e hne
    obtain ⟨added, h1, h2⟩ := nextStateNoLock_sends w e hne
    exact ⟨added, h1, h2, fun hmem => hg (h2 _ hmem).symm⟩
  · intro adv src now1
    obtain ⟨added, h1, h2⟩ := NextStateForRecv_sends w adv src now1
    exact ⟨added, h1, h2, fun hmem => hg (h2 _ hmem).symm⟩

/-- The example of C15: the Master of the examples (started as a Backup, Master
after its master-down timer) is shut down; the four steps follow in order and
the state is Initialize. -/
theorem C15_priority_zero_announcement_witness :
    (NextState (exampleMaster 100 100 true) EventShutdown).steps =
      (exampleMaster 100 100 true).steps ++
        [Step.DeleteMasterTable "s:50",
         Step.Call (Effect.PacketoutBulk (exampleMaster 100 100 true).v.advPriorityZeroPackets),
         Step.Call (Effect.ToBackup "s" ([10, 0, 0, 5], 24) [([10, 0, 0, 1], 24)]),
         Step.SetState StateInitialize] ∧
    (NextState (exampleMaster 100 100 true) EventShutdown).v.state = StateInitialize :=
  (C15_priority_zero_announcement exampleDataplane 0 exampleSubif (exampleModel 100 100 true)
    (exampleWorld 100 100 true).v [Op.nextState EventStart, Op.downTick 100000000000]
    (exampleMaster 100 100 true) (by decide) (by decide)).1 (by decide)

/-! ## C16: shutdown and the tables -/

/-- What NextState(EventShutdown) does to the tables: from Master or Backup the
state becomes Initialize and the group is out of the advertisement table;
a Backup is taken out of the backup table, and for a Master the backup table is
left as it is. -/
theorem NextState_shutdown_tables (w : World)
    (hs : w.v.state = StateMaster ∨ w.v.state = StateBackup) :
    (NextState w EventShutdown).v.state = StateInitialize ∧
    (w.v.objID ∈ (NextState w EventShutdown).masterTable ↔
      w.v.state = StateBackup ∧ w.v.objID ∈ w.masterTable) ∧
    (w.v.objID ∈ (NextState w EventShutdown).backupTable ↔
      w.v.state = StateMaster ∧ w.v.objID ∈ w.backupTable) := by
  rcases hs with hs | hs <;>
    simp [NextState, nextStateNoLock, nextStateNoLockDepth, nextStateNoLockBody,
      getStateNoLock, hs, becomeInitialize, DeleteMasterTable, DeleteBackupTable,
      deleteBackupTable, sendVRRPAdvPriorityZero, toBackup, setStateStep, setStateNoLock, call]

/-- C16, the failing run: the group of priority 200 with preempt set is started
(Backup), hears an advertisement of priority 100 and preempts (Master), and is
then shut down. Its state is Initialize and it is out of the advertisement
table, and it is still in the backup table. -/
theorem C16_shutdown_after_preempt :
    (run (exampleWorld 200 100 true)
      [Op.nextState EventStart, Op.recv (exampleAdv 100 100) [10, 0, 0, 9] 5]).v.state
        = StateMaster ∧
    (run (exampleWorld 200 100 true)
      [Op.nextState EventStart, Op.recv (exampleAdv 100 100) [10, 0, 0, 9] 5,
       Op.nextState EventShutdown]).v.state = StateInitialize ∧
    (run (exampleWorld 200 100 true)
      [Op.nextState EventStart, Op.recv (exampleAdv 100 100) [10, 0, 0, 9] 5,
       Op.nextState EventShutdown]).masterTable = [] ∧
    (run (exampleWorld 200 100 true)
      [Op.nextState EventStart, Op.recv (exampleAdv 100 100) [10, 0, 0, 9] 5,
       Op.nextState EventShutdown]).v.objID ∈
    (run (exampleWorld 200 100 true)
      [Op.nextState EventStart, Op.recv (exampleAdv 100 100) [10, 0, 0, 9] 5,
       Op.nextState EventShutdown]).backupTable := by
  decide

/-! ## C29: validity of the models -/

/-- A string has positive length iff it is not the empty string. -/
theorem string_length_pos (s : String) : s.length > 0 ↔ s ≠ "" := by
  cases s with
  | mk data =>
    cases data with
    | nil => simp [String.length]
    | cons c cs => simp [String.length, String.ext_iff]

/-- C29 (sub-interface validity): IsValid of a Subinterface is true iff the name
is not empty, the address is set (not nil), the index is at most 4294967295,
the prefix is at most 32 and every VRRP entry is valid; IsValid of a VRRP entry
is true iff Vrid > 0 and the list of virtual addresses is not empty. A new
Subinterface and a new VRRP entry are not valid, and a sub-interface without
VRRP entries is valid when its own fields are. -/
theorem C29_subinterface_validity (subif : models.Subinterface) (vrrp : models.VRRP) :
    (subif.IsValid = true ↔
      subif.Name ≠ "" ∧ subif.IP ≠ [] ∧ subif.Index ≤ 4294967295 ∧ subif.Prefix ≤ 32 ∧
      ∀ kv ∈ subif.VRRPs, kv.2.IsValid = true) ∧
    (vrrp.IsValid = true ↔ vrrp.Vrid > 0 ∧ vrrp.VirtualAddresses ≠ []) ∧
    models.NewSubinterface.IsValid = false ∧
    models.NewVRRP.IsValid = false ∧
    ((subif.Name ≠ "" ∧ subif.IP ≠ [] ∧ subif.Index ≤ 4294967295 ∧ subif.Prefix ≤ 32) →
      models.Subinterface.IsValid { subif with VRRPs := [] } = true) := by
  have hname : subif.Name.length > 0 ↔ subif.Name ≠ "" := string_length_pos subif.Name
  refine ⟨?_, ?_, by decide, by decide, ?_⟩
  · simp only [models.Subinterface.IsValid, hname, ge_iff_le, Nat.zero_le, true_and, and_true]
    split_ifs with h
    · simp only [List.all_eq_true]
      exact ⟨fun hall => ⟨h.1, h.2.1, h.2.2.1, h.2.2.2, hall⟩, fun hx => hx.2.2.2.2⟩
    · constructor
      · intro hf
        cases hf
      · intro hx
        exact absurd ⟨hx.1, hx.2.1, hx.2.2.1, hx.2.2.2.1⟩ h
  · simp only [models.VRRP.IsValid, gt_iff_lt, List.length_pos]
    split_ifs with h
    · exact ⟨fun _ => h, fun _ => rfl⟩
    · constructor
      · intro hf
        cases hf
      · intro hx
        exact absurd hx h
  · intro hx
    simp only [models.Subinterface.IsValid, hname, ge_iff_le, Nat.zero_le, true_and, and_true]
    rw [if_pos hx]
    rfl

/-! ## C30: the list of virtual addresses -/

/-- An address is `Equal` to itself. -/
theorem ipEqual_refl (a : IP) : ipEqual a a = true := by
  simp [ipEqual, bytesEqual]

/-- The loop of DeleteVirtualAddress is a filter. -/
theorem DeleteVirtualAddress_filter (vrrp : models.VRRP) (addr : IP) :
    (vrrp.DeleteVirtualAddress addr).VirtualAddresses =
      vrrp.VirtualAddresses.filter (fun vaddr => !ipEqual vaddr addr) := by
  have key : ∀ (l acc : List IP),
      l.foldl (fun tmp vaddr => if !ipEqual vaddr addr then tmp ++ [vaddr] else tmp) acc =
        acc ++ l.filter (fun vaddr => !ipEqual vaddr addr) := by
    intro l
    induction l with
    | nil => intro acc; simp
    | cons x xs ih =>
      intro acc
      rw [List.foldl_cons, ih]
      cases hx : ipEqual x addr <;> simp [List.filter_cons, hx]
  simp only [models.VRRP.DeleteVirtualAddress]
  rw [key]
  rfl

/-- C30 (the virtual-address list keeps insertion order without duplicates), for
a VRRP entry whose list holds no two `Equal` addresses, and presence meaning
that an entry is `Equal` (`net.IP.Equal`) to the address: AddVirtualAddress
appends the address at the end if it is absent and leaves the entry unchanged
if it is present; it is idempotent, keeps the list free of duplicates and keeps
the existing entries, in their order, as a prefix. DeleteVirtualAddress removes
every entry `Equal` to the address and keeps the others in their order. For an
absent address, DeleteVirtualAddress after AddVirtualAddress gives back the
entry. -/
theorem C30_virtual_address_list (vrrp : models.VRRP) (a : IP)
    (hnd : vrrp.VirtualAddresses.Pairwise (fun x y => ipEqual x y = false)) :
    ((∀ v ∈ vrrp.VirtualAddresses, ipEqual v a = false) →
      (vrrp.AddVirtualAddress a).VirtualAddresses = vrrp.VirtualAddresses ++ [a]) ∧
    ((∃ v ∈ vrrp.VirtualAddresses, ipEqual v a = true) → vrrp.AddVirtualAddress a = vrrp) ∧
    (vrrp.AddVirtualAddress a).AddVirtualAddress a = vrrp.AddVirtualAddress a ∧
    (vrrp.AddVirtualAddress a).VirtualAddresses.Pairwise (fun x y => ipEqual x y = false) ∧
    vrrp.VirtualAddresses <+: (vrrp.AddVirtualAddress a).VirtualAddresses ∧
    (vrrp.DeleteVirtualAddress a).VirtualAddresses =
      vrrp.VirtualAddresses.filter (fun v => !ipEqual v a) ∧
    (∀ v ∈ (vrrp.DeleteVirtualAddress a).VirtualAddresses, ipEqual v a = false) ∧
    ((∀ v ∈ vrrp.VirtualAddresses, ipEqual v a = false) →
      (vrrp.AddVirtualAddress a).DeleteVirtualAddress a = vrrp) := by
  have habs : (∀ v ∈ vrrp.VirtualAddresses, ipEqual v a = false) →
      vrrp.AddVirtualAddress a = { vrrp with VirtualAddresses := vrrp.VirtualAddresses ++ [a] } := by
    intro h
    have : vrrp.VirtualAddresses.any (fun vaddr => ipEqual vaddr a) = false := by
      rw [List.any_eq_false]
      intro x hx
      simp [h x hx]
    simp [models.VRRP.AddVirtualAddress, this]
  have hpres : (∃ v ∈ vrrp.VirtualAddresses, ipEqual v a = true) →
      vrrp.AddVirtualAddress a = vrrp := by
    intro h
    have : vrrp.VirtualAddresses.any (fun vaddr => ipEqual vaddr a) = true :=
      List.any_eq_true.mpr h
    simp [models.VRRP.AddVirtualAddress, this]
  have hcase : (∀ v ∈ vrrp.VirtualAddresses, ipEqual v a = false) ∨
      (∃ v ∈ vrrp.VirtualAddresses, ipEqual v a = true) := by
    by_cases h : ∃ v ∈ vrrp.VirtualAddresses, ipEqual v a = true
    · exact Or.inr h
    · left
      intro v hv
      cases hx : ipEqual v a
      · rfl
      · exact absurd ⟨v, hv, hx⟩ h
  have hfilter : ∀ l : List IP, (∀ v ∈ l, ipEqual v a = false) →
      l.filter (fun v => !ipEqual v a) = l := by
    intro l hl
    rw [List.filter_eq_self]
    intro v hv
    simp [hl v hv]
  refine ⟨fun h => by rw [habs h], hpres, ?_, ?_, ?_, DeleteVirtualAddress_filter vrrp a, ?_, ?_⟩
  · rcases hcase with h | h
    · rw [habs h]
      have : (vrrp.VirtualAddresses ++ [a]).any (fun vaddr => ipEqual vaddr a) = true := by
        rw [List.any_eq_true]
        exact ⟨a, by simp, ipEqual_refl a⟩
      simp [models.VRRP.AddVirtualAddress, this]
    · rw [hpres h, hpres h]
  · rcases hcase with h | h
    · rw [habs h]
      show (vrrp.VirtualAddresses ++ [a]).Pairwise (fun x y => ipEqual x y = false)
      rw [List.pairwise_append]
      refine ⟨hnd, List.pairwise_singleton _ _, ?_⟩
      intro x hx y hy
      rw [List.mem_singleton.mp hy]
      exact h x hx
    · rw [hpres h]
      exact hnd
  · rcases hcase with h | h
    · rw [habs h]
      exact List.prefix_append _ _
    · rw [hpres h]
  · intro v hv
    rw [DeleteVirtualAddress_filter, List.mem_filter] at hv
    simpa using hv.2
  · intro h
    rw [habs h]
    have hd := DeleteVirtualAddress_filter
      { vrrp with VirtualAddresses := vrrp.VirtualAddresses ++ [a] } a
    have hl : (vrrp.VirtualAddresses ++ [a]).filter (fun v => !ipEqual v a) =
        vrrp.VirtualAddresses := by
      rw [List.filter_append, hfilter _ h]
      simp [List.filter_cons, ipEqual_refl]
    simp only [hl] at hd
    simp only [models.VRRP.DeleteVirtualAddress] at hd ⊢
    rw [hd]

/-- The examples of C30, on the entry of the examples (virtual address
10.0.0.1): adding 10.0.0.2 appends it, adding 10.0.0.1 or its 16-byte form
changes nothing, and deleting 10.0.0.2 after adding it gives the entry back. -/
theorem C30_virtual_address_list_witness :
    ((exampleModel 100 100 true).AddVirtualAddress [10, 0, 0, 2]).VirtualAddresses =
      [[10, 0, 0, 1], [10, 0, 0, 2]] ∧
    (exampleModel 100 100 true).AddVirtualAddress [10, 0, 0, 1] = exampleModel 100 100 true ∧
    (exampleModel 100 100 true).AddVirtualAddress
      [0, 0, 0, 0, 0, 0, 0, 0, 0, 0, 255, 255, 10, 0, 0, 1] = exampleModel 100 100 true ∧
    ((exampleModel 100 100 true).AddVirtualAddress [10, 0, 0, 2]).DeleteVirtualAddress
      [10, 0, 0, 2] = exampleModel 100 100 true :=
  ⟨(C30_virtual_address_list (exampleModel 100 100 true) [10, 0, 0, 2] (by decide)).1
      (by decide),
   (C30_virtual_address_list (exampleModel 100 100 true) [10, 0, 0, 1] (by decide)).2.1
      (by decide),
   (C30_virtual_address_list (exampleModel 100 100 true)
      [0, 0, 0, 0, 0, 0, 0, 0, 0, 0, 255, 255, 10, 0, 0, 1] (by decide)).2.1 (by decide),
   (C30_virtual_address_list (exampleModel 100 100 true) [10, 0, 0, 2]
      (by decide)).2.2.2.2.2.2.2 (by decide)⟩

/-! ## C21: the length of the address area -/

/-- What DecodeFromBytes does with the address area, on a body of at least eight
bytes with version 3, type 1 and a non-zero count: it returns "VRRPv3 length of
IP addresses is not valid" iff the number of bytes after the header is not a
multiple of 4, and succeeds otherwise, with one address per four bytes; a
length of zero or above 255 is not rejected. -/
theorem DecodeFromBytes_length_rule (v0 : VRRPv3Adv) (x0 x1 x2 x3 x4 x5 x6 x7 : Nat)
    (tail : List Nat) (hver : x0 >>> 4 = 3) (hty : x0 &&& 0x0F = 1) (hcnt : 1 ≤ x3) :
    (tail.length % 4 ≠ 0 →
      DecodeFromBytes v0 (x0 :: x1 :: x2 :: x3 :: x4 :: x5 :: x6 :: x7 :: tail) =
        .error VrrpError.BadLengthOfAddresses) ∧
    (tail.length % 4 = 0 →
      ∃ d, DecodeFromBytes v0 (x0 :: x1 :: x2 :: x3 :: x4 :: x5 :: x6 :: x7 :: tail) = .ok d ∧
        d.IPAddress.length = v0.IPAddress.length + tail.length / 4) ∧
    VrrpError.BadLengthOfAddresses.message =
      some "VRRPv3 length of IP addresses is not valid" := by
  refine ⟨?_, ?_, rfl⟩
  · intro hlen
    have hc : ¬ x3 < 1 := by omega
    simp [DecodeFromBytes, index, sliceFrom, Uint16, bind, Except.bind, pure, Except.pure,
      hver, hty, VRRPv3Version, VRRPv3Advertisement, hc, hlen]
  · intro hlen
    refine ⟨_, DecodeFromBytes_ok v0 x0 x1 x2 x3 x4 x5 x6 x7 tail hver hty hcnt hlen, ?_⟩
    simp

/-- C21, the failing inputs. A body that ends after the 8-byte header (count 1,
no address byte) is decoded without error, with an empty address list; and a
body with 256 bytes after the header (count 1) is decoded without error, with
64 addresses. -/
theorem C21_address_area_not_bounded :
    (DecodeFromBytes {} [0x31, 0x32, 0x64, 0x01, 0x00, 0x64, 0x00, 0x00]).toOption.map
      (fun d => d.IPAddress) = some [] ∧
    (DecodeFromBytes {}
      ([0x31, 0x32, 0x64, 0x01, 0x00, 0x64, 0x00, 0x00] ++ List.replicate 256 0)).toOption.map
      (fun d => d.IPAddress.length) = some 64 := by
  refine ⟨by decide, ?_⟩
  obtain ⟨d, hd, hl⟩ := (DecodeFromBytes_length_rule {} 0x31 0x32 0x64 0x01 0x00 0x64 0x00 0x00
    (List.replicate 256 0) (by decide) (by decide) (by decide)).2.1 (by rw [List.length_replicate])
  have hd2 : DecodeFromBytes {}
      ([0x31, 0x32, 0x64, 0x01, 0x00, 0x64, 0x00, 0x00] ++ List.replicate 256 0) = .ok d := hd
  rw [hd2]
  show some d.IPAddress.length = some 64
  rw [hl, List.length_replicate]
  rfl

/-! ## C28: the order of the steps into Master -/

/-- The steps of becomeMaster, in order, and what they leave. -/
theorem becomeMaster_steps (w : World) :
    (becomeMaster w).steps = w.steps ++
      [Step.Call (Effect.ToMaster w.v.subifName (w.v.subifIP, w.v.subifPrefix)
        (w.v.vaddrs.map (fun a => (a, w.v.subifPrefix)))),
       Step.Call (Effect.PacketoutBulk w.v.garpPackets),
       Step.AddMasterTable w.v.objID,
       Step.SetState StateMaster] ∧
    (becomeMaster w).v = { w.v with state := StateMaster } ∧
    (becomeMaster w).masterTable = w.masterTable.insert w.v.objID ∧
    (becomeMaster w).backupTable = w.backupTable := by
  simp [becomeMaster, AddMasterTable, sendGARP, toMaster, setStateStep, setStateNoLock, call]

/-- C28 (GARP before visibility): in every transition into Master, that is
Initialize with EventStartMaster, Initialize with EventStart for an owner
(subifIP among the addresses, or priority 255), Backup with EventMasterDown and
Backup with EventPreempt, the steps NextState performs are exactly, in this
order: the ToMaster call on the dataplane with the name of the sub-interface,
subifIP with the prefix length and every virtual address, in order, with the
prefix length; one hand-off of the GARP batch to the host interface; the
insertion into the advertisement table; and the write of state Master. The
GARP batch is therefore handed over while the advertisement table is still the
one from before the transition. -/
theorem C28_garp_before_visibility (w : World) (e : VRRPEvent)
    (h : (w.v.state = StateInitialize ∧ e = EventStartMaster) ∨
      (w.v.state = StateInitialize ∧ e = EventStart ∧
        (w.v.subifIP ∈ w.v.IPAddress ∨ w.v.Priority = 255)) ∨
      (w.v.state = StateBackup ∧ (e = EventMasterDown ∨ e = EventPreempt))) :
    (NextState w e).steps = w.steps ++
      [Step.Call (Effect.ToMaster w.v.subifName (w.v.subifIP, w.v.subifPrefix)
        (w.v.vaddrs.map (fun a => (a, w.v.subifPrefix)))),
       Step.Call (Effect.PacketoutBulk w.v.garpPackets),
       Step.AddMasterTable w.v.objID,
       Step.SetState StateMaster] ∧
    (NextState w e).v.state = StateMaster ∧
    (NextState w e).masterTable = w.masterTable.insert w.v.objID ∧
    w.v.objID ∈ (NextState w e).masterTable := by
  have hb : NextState w e = becomeMaster w := by
    rcases h with ⟨hs, he⟩ | ⟨hs, he, ho⟩ | ⟨hs, he | he⟩
    · subst he
      simp [NextState, nextStateNoLock, nextStateNoLockDepth, nextStateNoLockBody,
        getStateNoLock, hs]
    · subst he
      have ho2 : containsInterfaceIPs w.v w.v.IPAddress = true ∨ w.v.Priority = 255 :=
        ho.imp (containsInterfaceIPs_iff _ _).mpr id
      rw [NextState, nextStateNoLock_start w hs, if_pos ho2]
    · subst he
      exact nextStateNoLock_backup_masterDown w hs
    · subst he
      exact nextStateNoLock_backup_preempt w hs
  obtain ⟨h1, h2, h3, -⟩ := becomeMaster_steps w
  rw [hb]
  refine ⟨h1, by rw [h2], h3, ?_⟩
  rw [h3]
  exact List.mem_insert_self _ _

/-- The examples of C28: the owner of the examples is started, and the Backup of
the examples gets EventMasterDown; both perform the four steps in order. -/
theorem C28_garp_before_visibility_witness :
    (NextState exampleOwnerWorld EventStart).steps =
      [Step.Call (Effect.ToMaster "s" ([10, 0, 0, 5], 24) [([10, 0, 0, 5], 24)]),
       Step.Call (Effect.PacketoutBulk exampleOwnerWorld.v.garpPackets),
       Step.AddMasterTable "s:50",
       Step.SetState StateMaster] ∧
    (NextState (exampleBackup 100 100 true) EventMasterDown).steps =
      (exampleBackup 100 100 true).steps ++
      [Step.Call (Effect.ToMaster "s" ([10, 0, 0, 5], 24) [([10, 0, 0, 1], 24)]),
       Step.Call (Effect.PacketoutBulk (exampleBackup 100 100 true).v.garpPackets),
       Step.AddMasterTable "s:50",
       Step.SetState StateMaster] :=
  ⟨(C28_garp_before_visibility exampleOwnerWorld EventStart
      (Or.inr (Or.inl ⟨by decide, rfl, Or.inl (by decide)⟩))).1,
   (C28_garp_before_visibility (exampleBackup 100 100 true) EventMasterDown
      (Or.inr (Or.inr ⟨by decide, Or.inl rfl⟩))).1⟩

/-! ## C25: the GARP frames -/

/-- The frame SerializeARP returns for an IPv4 address `a.b.c.d` and a 6-byte
MAC, byte by byte. -/
theorem SerializeARP_layout (ip : IP) (a b c d m0 m1 m2 m3 m4 m5 : Nat)
    (hip : To4 ip = some [a, b, c, d]) :
    SerializeARP ip [m0, m1, m2, m3, m4, m5] = .ok
      ([0xff, 0xff, 0xff, 0xff, 0xff, 0xff, m0, m1, m2, m3, m4, m5, 0x08, 0x06,
        0x00, 0x01, 0x08, 0x00, 0x06, 0x04, 0x00, 0x01,
        m0, m1, m2, m3, m4, m5, a, b, c, d,
        0xff, 0xff, 0xff, 0xff, 0xff, 0xff, a, b, c, d] ++ List.replicate 18 0) := by
  simp [SerializeARP, hip, arpSerialize, ethernetSerialize, BroadcastMAC, bind, Except.bind,
    pure, Except.pure, u8]

/-- What createGARP returns when it succeeds: one packet per address of the
group, in the order of the list, each for the sub-interface of the group and
holding the frame SerializeARP builds for that address and the MAC of the
group. -/
theorem createGARP_frames (v : VRRP) (ps : List Packet) (h : createGARP v = .ok ps) :
    List.Forall₂ (fun ip p => p.Subifname = v.subifName ∧ SerializeARP ip v.vmac = .ok p.Data)
      v.IPAddress ps := by
  have key : ∀ (ips : List IP) (acc ps : List Packet),
      ips.foldlM (fun ps ip => do
        let buf ← SerializeARP ip v.vmac
        pure (ps ++ [Packet.mk v.subifName buf])) acc = .ok ps →
      ∃ rest, ps = acc ++ rest ∧
        List.Forall₂ (fun ip p => p.Subifname = v.subifName ∧
          SerializeARP ip v.vmac = .ok p.Data) ips rest := by
    intro ips
    induction ips with
    | nil =>
      intro acc ps h
      simp only [List.foldlM, pure, Except.pure, Except.ok.injEq] at h
      exact ⟨[], by simp [h], List.Forall₂.nil⟩
    | cons ip ips ih =>
      intro acc ps h
      simp only [List.foldlM, bind, Except.bind, pure, Except.pure] at h
      split at h
      · cases h
      · rename_i acc1 hacc1
        split at hacc1
        · cases hacc1
        · rename_i buf hbuf
          simp only [Except.ok.injEq] at hacc1
          subst hacc1
          obtain ⟨rest, hps, hrest⟩ := ih _ _ h
          refine ⟨Packet.mk v.subifName buf :: rest, ?_, List.Forall₂.cons ⟨rfl, hbuf⟩ hrest⟩
          rw [hps]
          simp
  obtain ⟨rest, hps, hrest⟩ := key v.IPAddress [] ps h
  rw [hps]
  exact hrest

/-- The frames of createGARP depend on the addresses, the MAC and the name of
the sub-interface only. -/
theorem createGARP_congr (v v1 : VRRP) (h1 : v1.IPAddress = v.IPAddress)
    (h2 : v1.vmac = v.vmac) (h3 : v1.subifName = v.subifName) :
    createGARP v1 = createGARP v := by
  simp only [createGARP, h1, h2, h3]

/-- The GARP template resetPacket stores is what createGARP returns for the
group. -/
theorem resetPacket_garp (v v1 : VRRP) (h : resetPacket v = .ok v1) :
    createGARP v1 = .ok v1.garpPackets ∧ v1.vmac = v.vmac ∧ v1.subifName = v.subifName := by
  simp only [resetPacket, bind, Except.bind, pure, Except.pure] at h
  split at h
  · cases h
  · rename_i r hr
    obtain ⟨ps, v2⟩ := r
    obtain ⟨frame, a1, -, -, hv2⟩ := createVRRPAdv_eq _ _ _ hr
    subst hv2
    split at h
    · cases h
    · split at h
      · cases h
      · rename_i garp hgarp
        simp only [Except.ok.injEq] at h
        subst h
        refine ⟨?_, rfl, rfl⟩
        rw [← hgarp]
        exact createGARP_congr _ _ rfl rfl rfl

/-- The MAC and the GARP template of the group newVRRP returns: the MAC is the
one the dataplane gives for the sub-interface, and the template is what
createGARP returns for the group. -/
theorem newVRRP_garp (GetVifMacaddr : String → Except VrrpError HardwareAddr) (now : Int)
    (imodel : models.Subinterface) (vmodel : models.VRRP) (v : VRRP)
    (h : newVRRP GetVifMacaddr now imodel vmodel = .ok v) :
    GetVifMacaddr imodel.Name = .ok v.vmac ∧ createGARP v = .ok v.garpPackets ∧
    v.subifName = imodel.Name := by
  simp only [newVRRP, bind, Except.bind, pure, Except.pure] at h
  split at h
  · cases h
  · rename_i mac hmac
    obtain ⟨h1, h2, h3⟩ := resetPacket_garp _ _ h
    simp only [setNextDownTimeNoLock, setStateNoLock, resetMasterDownInterval_eq] at hmac h2 h3
    refine ⟨?_, h1, h3⟩
    rw [h2]
    exact hmac

/-- SerializeARP succeeds for every address when the MAC has 6 bytes. -/
theorem SerializeARP_ok (ip : IP) (mac : HardwareAddr) (hmac : mac.length = 6) :
    ∃ frame, SerializeARP ip mac = .ok frame := by
  simp [SerializeARP, arpSerialize, ethernetSerialize, BroadcastMAC, bind, Except.bind,
    pure, Except.pure, hmac]

/-- The createGARP of a group whose MAC has 6 bytes succeeds. -/
theorem createGARP_ok (v : VRRP) (hmac : v.vmac.length = 6) : ∃ ps, createGARP v = .ok ps := by
  have key : ∀ (ips : List IP) (acc : List Packet),
      ∃ ps, ips.foldlM (fun ps ip => do
        let buf ← SerializeARP ip v.vmac
        pure (ps ++ [Packet.mk v.subifName buf])) acc = .ok ps := by
    intro ips
    induction ips with
    | nil => intro acc; exact ⟨acc, rfl⟩
    | cons ip ips ih =>
      intro acc
      obtain ⟨frame, hframe⟩ := SerializeARP_ok ip v.vmac hmac
      obtain ⟨ps, hps⟩ := ih (acc ++ [Packet.mk v.subifName frame])
      refine ⟨ps, ?_⟩
      simp only [List.foldlM, bind, Except.bind, pure, Except.pure, hframe]
      exact hps
  exact key v.IPAddress []

/-- C25 (GARP layout): for an IPv4 address `a.b.c.d` and a 6-byte MAC,
SerializeARP returns the 60-byte frame made of the Ethernet header (destination
ff:ff:ff:ff:ff:ff, source the MAC, EtherType 0x0806), the ARP request (hardware
type 1, protocol type 0x0800, hardware length 6, protocol length 4, opcode 1,
sender hardware address the MAC, sender protocol address a.b.c.d, target
hardware address ff:ff:ff:ff:ff:ff, target protocol address a.b.c.d) and 18
zero bytes. For a group whose MAC has 6 bytes, createGARP succeeds and returns
one packet per address of the group, in the order of the list, each holding the
frame of SerializeARP for that address and the MAC of the group; and in a group
built by newVRRP that MAC is the one the dataplane gives for the sub-interface,
the addresses are the configured virtual addresses and the stored GARP template
is the result of createGARP. -/
theorem C25_garp_layout (ip : IP) (a b c d m0 m1 m2 m3 m4 m5 : Nat) (v : VRRP)
    (hip : To4 ip = some [a, b, c, d]) (hmac : v.vmac.length = 6) :
    SerializeARP ip [m0, m1, m2, m3, m4, m5] = .ok
      ([0xff, 0xff, 0xff, 0xff, 0xff, 0xff, m0, m1, m2, m3, m4, m5, 0x08, 0x06,
        0x00, 0x01, 0x08, 0x00, 0x06, 0x04, 0x00, 0x01,
        m0, m1, m2, m3, m4, m5, a, b, c, d,
        0xff, 0xff, 0xff, 0xff, 0xff, 0xff, a, b, c, d] ++ List.replicate 18 0) ∧
    (∀ frame, SerializeARP ip [m0, m1, m2, m3, m4, m5] = .ok frame → frame.length = 60) ∧
    (∃ ps, createGARP v = .ok ps ∧
      List.Forall₂ (fun x p => p.Subifname = v.subifName ∧ SerializeARP x v.vmac = .ok p.Data)
        v.IPAddress ps) ∧
    (∀ (GetVifMacaddr : String → Except VrrpError HardwareAddr) (now : Int)
      (imodel : models.Subinterface) (vmodel : models.VRRP),
      newVRRP GetVifMacaddr now imodel vmodel = .ok v →
        GetVifMacaddr imodel.Name = .ok v.vmac ∧ v.IPAddress = vmodel.VirtualAddresses ∧
        v.subifName = imodel.Name ∧ createGARP v = .ok v.garpPackets) := by
  have hl := SerializeARP_layout ip a b c d m0 m1 m2 m3 m4 m5 hip
  refine ⟨hl, ?_, ?_, ?_⟩
  · intro frame hf
    rw [hl] at hf
    simp only [Except.ok.injEq] at hf
    rw [← hf]
    rfl
  · obtain ⟨ps, hps⟩ := createGARP_ok v hmac
    exact ⟨ps, hps, createGARP_frames v ps hps⟩
  · intro G now imodel vmodel h
    obtain ⟨h1, h2, h3⟩ := newVRRP_garp _ _ _ _ _ h
    exact ⟨h1, (newVRRP_fields _ _ _ _ _ h).2.2.2.2.1, h3, h2⟩

/-- The example of C25 is the frame of `TestSerializeARP`, for 10.0.0.1 and the
MAC 52:54:00:ce:d1:a3; the group of the examples, built with that MAC, has this
one frame as its GARP template. -/
theorem C25_garp_layout_witness :
    SerializeARP [10, 0, 0, 1] [0x52, 0x54, 0x00, 0xce, 0xd1, 0xa3] = .ok
      ([0xff, 0xff, 0xff, 0xff, 0xff, 0xff, 0x52, 0x54, 0x00, 0xce, 0xd1, 0xa3, 0x08, 0x06,
        0x00, 0x01, 0x08, 0x00, 0x06, 0x04, 0x00, 0x01,
        0x52, 0x54, 0x00, 0xce, 0xd1, 0xa3, 10, 0, 0, 1,
        0xff, 0xff, 0xff, 0xff, 0xff, 0xff, 10, 0, 0, 1] ++ List.replicate 18 0) ∧
    createGARP (exampleWorld 100 100 true).v = .ok (exampleWorld 100 100 true).v.garpPackets :=
  ⟨(C25_garp_layout [10, 0, 0, 1] 10 0 0 1 0x52 0x54 0x00 0xce 0xd1 0xa3
      (exampleWorld 100 100 true).v (by decide) (by decide)).1,
   ((C25_garp_layout [10, 0, 0, 1] 10 0 0 1 0x52 0x54 0x00 0xce 0xd1 0xa3
      (exampleWorld 100 100 true).v (by decide) (by decide)).2.2.2 exampleDataplane 0
      exampleSubif (exampleModel 100 100 true) (by decide)).2.2.2⟩

/-! ## The registry -/

/-- The object identifier of the group newVRRP returns. -/
theorem newVRRP_objID (GetVifMacaddr : String → Except VrrpError HardwareAddr) (now : Int)
    (imodel : models.Subinterface) (vmodel : models.VRRP) (v : VRRP)
    (h : newVRRP GetVifMacaddr now imodel vmodel = .ok v) :
    v.objID = imodel.Name ++ ":" ++ toString vmodel.Vrid := by
  simp only [newVRRP, bind, Except.bind, pure, Except.pure] at h
  split at h
  · cases h
  · have hf := resetPacket_fields _ _ h
    simp only [setNextDownTimeNoLock, setStateNoLock, resetMasterDownInterval_eq] at hf
    exact hf.2.2.2.2.2.2.1

/-- No event changes the object identifier or the addresses of a group. -/
theorem NextState_kept (w : World) (e : VRRPEvent) :
    (NextState w e).v.objID = w.v.objID ∧ (NextState w e).v.IPAddress = w.v.IPAddress :=
  ⟨congrArg (fun x => x.objID) (nextStateNoLock_settings w e),
   congrArg (fun x => x.IPAddress) (nextStateNoLock_settings w e)⟩

theorem mem_mapDelete (t : List (String × VRRP)) (k : String) (kv : String × VRRP) :
    kv ∈ mapDelete t k ↔ kv ∈ t ∧ kv.1 ≠ k := by
  simp [mapDelete, List.mem_filter]

theorem mem_mapSet (t : List (String × VRRP)) (k : String) (v : VRRP) (kv : String × VRRP) :
    kv ∈ mapSet t k v ↔ (kv ∈ t ∧ kv.1 ≠ k) ∨ kv = (k, v) := by
  simp [mapSet, mem_mapDelete]

/-- The keys of the registry after `m[k] = v`. -/
theorem keys_mapSet (t : List (String × VRRP)) (k : String) (v : VRRP) (x : String) :
    x ∈ (mapSet t k v).map Prod.fst ↔ x ∈ t.map Prod.fst ∨ x = k := by
  simp only [List.mem_map, mem_mapSet]
  constructor
  · rintro ⟨kv, h | h, rfl⟩
    · exact Or.inl ⟨kv, h.1, rfl⟩
    · right
      rw [h]
  · rintro (⟨kv, h, rfl⟩ | rfl)
    · by_cases hk : kv.1 = k
      · exact ⟨(k, v), Or.inr rfl, hk.symm⟩
      · exact ⟨kv, Or.inl ⟨h, hk⟩, rfl⟩
    · exact ⟨(x, v), Or.inr rfl, rfl⟩

/-- Distinct keys stay distinct under `m[k] = v`. -/
theorem nodup_mapSet (t : List (String × VRRP)) (k : String) (v : VRRP)
    (h : (t.map Prod.fst).Nodup) : ((mapSet t k v).map Prod.fst).Nodup := by
  simp only [mapSet, mapDelete, List.map_append, List.map_cons, List.map_nil]
  rw [List.nodup_append]
  refine ⟨?_, List.nodup_singleton _, ?_⟩
  · exact (List.Nodup.sublist (List.Sublist.map _ (List.filter_sublist _)) h)
  · intro x hx hx2
    rw [List.mem_singleton] at hx2
    subst hx2
    simp only [List.mem_map, List.mem_filter] at hx
    obtain ⟨kv, ⟨-, hne⟩, rfl⟩ := hx
    simp at hne

/-- The inner loop of UpdateSettings when no construction fails: the keys of the
registry are the old keys and the object identifier `name:vrid` of every entry;
the keys stay distinct; and every stored pair is an old one or a group stored
under its own object identifier, with the addresses of its entry. -/
theorem createGroups_spec (GetVifMacaddr : String → Except VrrpError HardwareAddr)
    (now : models.Subinterface → models.VRRP → Int) (subif : models.Subinterface) :
    ∀ (es : List (Nat × models.VRRP)) (m m1 : Mgr),
      createGroups GetVifMacaddr now subif m es = (m1, none) →
      (∀ x, x ∈ m1.vrrpTable.map Prod.fst ↔
        x ∈ m.vrrpTable.map Prod.fst ∨
        ∃ e ∈ es, x = subif.Name ++ ":" ++ toString e.2.Vrid) ∧
      ((m.vrrpTable.map Prod.fst).Nodup → (m1.vrrpTable.map Prod.fst).Nodup) ∧
      (∀ kv ∈ m1.vrrpTable, kv ∈ m.vrrpTable ∨
        (kv.1 = kv.2.objID ∧ ∃ e ∈ es, kv.2.IPAddress = e.2.VirtualAddresses))
  | [], m, m1, h => by
    simp only [createGroups, Prod.mk.injEq, and_true] at h
    subst h
    simp
  | (k, vmodel) :: rest, m, m1, h => by
    simp only [createGroups] at h
    split at h
    · rename_i v hv
      have hid := newVRRP_objID _ _ _ _ _ hv
      have haddr := (newVRRP_fields _ _ _ _ _ hv).2.2.2.2.1
      obtain ⟨hk1, hk2⟩ := NextState_kept (m.world v) EventStart
      have hk1b : (NextState (m.world v) EventStart).v.objID =
          subif.Name ++ ":" ++ toString vmodel.Vrid := hk1.trans hid
      have hk2b : (NextState (m.world v) EventStart).v.IPAddress = vmodel.VirtualAddresses :=
        hk2.trans haddr
      obtain ⟨ih1, ih2, ih3⟩ := createGroups_spec GetVifMacaddr now subif rest _ m1 h
      refine ⟨?_, ?_, ?_⟩
      · intro x
        rw [ih1 x]
        simp only [keys_mapSet, hk1b, List.mem_cons, exists_eq_or_imp]
        tauto
      · intro hnd
        exact ih2 (nodup_mapSet _ _ _ hnd)
      · intro kv hkv
        rcases ih3 kv hkv with h1 | ⟨h1, e, he, h2⟩
        · rcases (mem_mapSet _ _ _ _).mp h1 with h3 | h3
          · exact Or.inl h3.1
          · right
            rw [h3]
            exact ⟨rfl, (k, vmodel), List.mem_cons_self _ _, hk2b⟩
        · exact Or.inr ⟨h1, e, List.mem_cons_of_mem _ he, h2⟩
    · simp at h

/-- Every VRRP entry of a valid sub-interface has a router identifier above 0
and at least one virtual address. -/
theorem IsValid_entries (subif : models.Subinterface) (h : subif.IsValid = true) :
    ∀ kv ∈ subif.VRRPs, kv.2.Vrid > 0 ∧ kv.2.VirtualAddresses ≠ [] := by
  intro kv hkv
  simp only [models.Subinterface.IsValid] at h
  split_ifs at h
  rw [List.all_eq_true] at h
  have hv := h kv hkv
  simp only [models.VRRP.IsValid] at hv
  split_ifs at hv with hc
  exact ⟨hc.1, List.length_pos.mp hc.2⟩

/-- The outer loop of UpdateSettings when no construction fails: the keys of the
registry are the old keys and `name:vrid` for every VRRP entry of every valid
sub-interface of the table; the keys stay distinct; and every stored pair is an
old one or a group stored under its own object identifier, with at least one
address. -/
theorem createSubifs_spec (GetVifMacaddr : String → Except VrrpError HardwareAddr)
    (now : models.Subinterface → models.VRRP → Int) :
    ∀ (tbl : List (String × models.Subinterface)) (m m1 : Mgr),
      createSubifs GetVifMacaddr now m tbl = (m1, none) →
      (∀ x, x ∈ m1.vrrpTable.map Prod.fst ↔
        x ∈ m.vrrpTable.map Prod.fst ∨
        ∃ s ∈ tbl, s.2.IsValid = true ∧
          ∃ e ∈ s.2.VRRPs, x = s.2.Name ++ ":" ++ toString e.2.Vrid) ∧
      ((m.vrrpTable.map Prod.fst).Nodup → (m1.vrrpTable.map Prod.fst).Nodup) ∧
      (∀ kv ∈ m1.vrrpTable, kv ∈ m.vrrpTable ∨ (kv.1 = kv.2.objID ∧ kv.2.IPAddress ≠ []))
  | [], m, m1, h => by
    simp only [createSubifs, Prod.mk.injEq, and_true] at h
    subst h
    exact ⟨by simp, id, fun kv hkv => Or.inl hkv⟩
  | (k, subif) :: rest, m, m1, h => by
    simp only [createSubifs] at h
    split_ifs at h with hvalid
    · split at h
      · rename_i m2 hm2
        obtain ⟨g1, g2, g3⟩ := createGroups_spec GetVifMacaddr now subif _ m m2 hm2
        obtain ⟨ih1, ih2, ih3⟩ := createSubifs_spec GetVifMacaddr now rest m2 m1 h
        refine ⟨?_, fun hnd => ih2 (g2 hnd), ?_⟩
        · intro x
          rw [ih1 x, g1 x]
          constructor
          · rintro ((h1 | ⟨e, he, hx⟩) | ⟨s, hs, hv, e, he, hx⟩)
            · exact Or.inl h1
            · exact Or.inr ⟨(k, subif), List.mem_cons_self _ _, hvalid, e, he, hx⟩
            · exact Or.inr ⟨s, List.mem_cons_of_mem _ hs, hv, e, he, hx⟩
          · rintro (h1 | ⟨s, hs, hv, e, he, hx⟩)
            · exact Or.inl (Or.inl h1)
            · rcases List.mem_cons.mp hs with hs | hs
              · subst hs
                exact Or.inl (Or.inr ⟨e, he, hx⟩)
              · exact Or.inr ⟨s, hs, hv, e, he, hx⟩
        · intro kv hkv
          rcases ih3 kv hkv with h1 | h1
          · rcases g3 kv h1 with h2 | ⟨h2, e, he, h3⟩
            · exact Or.inl h2
            · right
              refine ⟨h2, ?_⟩
              rw [h3]
              exact (IsValid_entries subif hvalid e he).2
          · exact Or.inr h1
      · simp at h
    · obtain ⟨ih1, ih2, ih3⟩ := createSubifs_spec GetVifMacaddr now rest m m1 h
      refine ⟨?_, ih2, ih3⟩
      intro x
      rw [ih1 x]
      constructor
      · rintro (h1 | ⟨s, hs, hv, e, he, hx⟩)
        · exact Or.inl h1
        · exact Or.inr ⟨s, List.mem_cons_of_mem _ hs, hv, e, he, hx⟩
      · rintro (h1 | ⟨s, hs, hv, e, he, hx⟩)
        · exact Or.inl h1
        · rcases List.mem_cons.mp hs with hs | hs
          · subst hs
            exact absurd hv hvalid
          · exact Or.inr ⟨s, hs, hv, e, he, hx⟩

/-- The first loop of UpdateSettings removes from the registry the keys that are
the object identifiers of the visited groups, and nothing else. -/
theorem shutdownAll_table : ∀ (l : List (String × VRRP)) (m : Mgr),
    (shutdownAll m l).vrrpTable =
      m.vrrpTable.filter (fun e => l.all (fun kv => decide (e.1 ≠ kv.2.objID)))
  | [], m => by simp [shutdownAll]
  | kv :: l, m => by
    have ih := shutdownAll_table l
      { vrrpTable := mapDelete m.vrrpTable kv.2.objID,
        masterTable := (NextState (m.world kv.2) EventShutdown).masterTable,
        backupTable := (NextState (m.world kv.2) EventShutdown).backupTable,
        steps := (NextState (m.world kv.2) EventShutdown).steps }
    simp only [shutdownAll, List.foldl_cons] at ih ⊢
    rw [ih]
    simp only [mapDelete, List.filter_filter, List.all_cons]
    congr 1
    funext e
    rw [Bool.and_comm]

/-- When every key of the registry is the object identifier of its group, the
first loop of UpdateSettings leaves the registry empty. -/
theorem shutdownAll_empty (m : Mgr) (hinv : ∀ kv ∈ m.vrrpTable, kv.1 = kv.2.objID) :
    (shutdownAll m m.vrrpTable).vrrpTable = [] := by
  rw [shutdownAll_table, List.filter_eq_nil_iff]
  intro e he
  simp only [List.all_eq_true, decide_eq_true_eq, not_forall]
  exact ⟨e, he, fun hne => hne (hinv e he)⟩

/-! ## C26: the rebuild of the registry -/

/-- C26, the claim as stated fails: the table holds the sub-interface `s` with
two VRRP entries, the valid entry of the examples (VRID 50, one virtual
address) and an entry with VRID 51 that has no virtual address yet. The sub-interface is then not
valid and UpdateSettings skips it: it returns no error and the registry is
empty, so there is no group under the key `s:50` of the valid entry. -/
theorem C26_invalid_subinterface_counterexample :
    (exampleModel 100 100 true).IsValid = true ∧
    models.Subinterface.IsValid
      { exampleSubif with
        VRRPs := [(50, exampleModel 100 100 true), (51, { models.NewVRRP with Vrid := 51 })] }
        = false ∧
    UpdateSettings exampleDataplane (fun _ _ => 0) false none none newVRRPMgr
      [("s", { exampleSubif with
        VRRPs := [(50, exampleModel 100 100 true),
          (51, { models.NewVRRP with Vrid := 51 })] })]
        = (newVRRPMgr, none) := by
  decide

/-- C26 as amended (configuration rebuild): for a registry in which every key
is the object identifier of its group, as UpdateSettings itself leaves it, and
a table of sub-interfaces for which UpdateSettings returns no error: the loop
that shuts the old groups down removes them all, and afterwards the keys of the
registry are exactly `name:vrid` for every VRRP entry of every sub-interface of
the table for which IsValid holds (no key for an entry of a sub-interface that
is not valid); the keys are distinct and every group is stored under its own
object identifier. -/
theorem C26_configuration_rebuild (GetVifMacaddr : String → Except VrrpError HardwareAddr)
    (now : models.Subinterface → models.VRRP → Int) (moduleSuspended : Bool)
    (ResumeModules SuspendModules : Option VrrpError) (m m1 : Mgr)
    (subifTable : List (String × models.Subinterface))
    (hinv : ∀ kv ∈ m.vrrpTable, kv.1 = kv.2.objID)
    (h : UpdateSettings GetVifMacaddr now moduleSuspended ResumeModules SuspendModules m
      subifTable = (m1, none)) :
    (shutdownAll m m.vrrpTable).vrrpTable = [] ∧
    (∀ x, x ∈ m1.vrrpTable.map Prod.fst ↔
      ∃ s ∈ subifTable, s.2.IsValid = true ∧
        ∃ e ∈ s.2.VRRPs, x = s.2.Name ++ ":" ++ toString e.2.Vrid) ∧
    (m1.vrrpTable.map Prod.fst).Nodup ∧
    (∀ kv ∈ m1.vrrpTable, kv.1 = kv.2.objID) := by
  have hempty := shutdownAll_empty m hinv
  have hc : createSubifs GetVifMacaddr now (shutdownAll m m.vrrpTable) subifTable
      = (m1, none) := by
    simp only [UpdateSettings] at h
    split at h
    · simp at h
    · split at h
      · simp at h
      · rename_i m2 hm2
        split_ifs at h
        · split at h
          · simp at h
          · simp only [Prod.mk.injEq, and_true] at h
            rw [hm2, h]
        · simp only [Prod.mk.injEq, and_true] at h
          rw [hm2, h]
  obtain ⟨h1, h2, h3⟩ := createSubifs_spec GetVifMacaddr now subifTable _ m1 hc
  refine ⟨hempty, ?_, ?_, ?_⟩
  · intro x
    rw [h1 x, hempty]
    simp
  · apply h2
    rw [hempty]
    exact List.nodup_nil
  · intro kv hkv
    rcases h3 kv hkv with h4 | h4
    · rw [hempty] at h4
      cases h4
    · exact h4.1

/-- The example of C26: from the empty registry, the table with the
sub-interface `s` and the valid entry of the examples gives a registry with the
key `s:50`, and no key `s:51`. -/
theorem C26_configuration_rebuild_witness :
    "s:50" ∈ (UpdateSettings exampleDataplane (fun _ _ => 0) false none none newVRRPMgr
      [("s", { exampleSubif with VRRPs := [(50, exampleModel 100 100 true)] })]).1.vrrpTable.map
        Prod.fst ∧
    "s:51" ∉ (UpdateSettings exampleDataplane (fun _ _ => 0) false none none newVRRPMgr
      [("s", { exampleSubif with VRRPs := [(50, exampleModel 100 100 true)] })]).1.vrrpTable.map
        Prod.fst := by
  have hthm := C26_configuration_rebuild exampleDataplane (fun _ _ => 0) false none none
    newVRRPMgr
    (UpdateSettings exampleDataplane (fun _ _ => 0) false none none newVRRPMgr
      [("s", { exampleSubif with VRRPs := [(50, exampleModel 100 100 true)] })]).1
    [("s", { exampleSubif with VRRPs := [(50, exampleModel 100 100 true)] })]
    (by decide) (by decide)
  refine ⟨(hthm.2.1 "s:50").mpr ⟨_, List.mem_singleton.mpr rfl, by decide, (50, _),
    List.mem_singleton.mpr rfl, by decide⟩, ?_⟩
  intro hmem
  obtain ⟨s, hs, -, e, he, hx⟩ := (hthm.2.1 "s:51").mp hmem
  rw [List.mem_singleton.mp hs] at he hx
  rw [List.mem_singleton.mp he] at hx
  revert hx
  decide

/-! ## C27: an empty list of virtual addresses -/

/-- The resetPacket of a group whose subifIP is an IPv4 address succeeds when
createGARP does. -/
theorem resetPacket_ok (v : VRRP) (s0 s1 s2 s3 : Nat) (ps : List Packet)
    (hs : To4 v.subifIP = some [s0, s1, s2, s3]) (hg : createGARP v = .ok ps) :
    ∃ v1, resetPacket v = .ok v1 ∧ v1.garpPackets = ps := by
  obtain ⟨t1, c1, h1, -, -, -, -, hser1⟩ :=
    SerializeVRRPAdv_layout v.subifIP s0 s1 s2 s3 v.toVRRPv3Adv hs
  obtain ⟨r1, hr1⟩ : ∃ r, SerializeVRRPAdv v.subifIP (some v.toVRRPv3Adv) = .ok r :=
    ⟨_, hser1⟩
  obtain ⟨frame, a1⟩ := r1
  have hf := SerializeVRRPAdv_fields _ _ _ _ hr1
  obtain ⟨t0, c0, h0, -, -, -, -, hser0⟩ :=
    SerializeVRRPAdv_layout v.subifIP s0 s1 s2 s3 { a1 with Priority := 0 } hs
  obtain ⟨r0, hr0⟩ : ∃ r, SerializeVRRPAdv v.subifIP (some { a1 with Priority := 0 }) = .ok r :=
    ⟨_, hser0⟩
  have hg2 : ∀ (p1 p0 : List Packet), createGARP
      { { { v with toVRRPv3Adv := a1 } with advPackets := p1 } with
        advPriorityZeroPackets := p0 } = .ok ps := by
    intro p1 p0
    rw [← hg]
    exact createGARP_congr _ _ hf.2.1 rfl rfl
  cases hr : resetPacket v with
  | error e =>
    simp [resetPacket, createVRRPAdv, createVRRPAdvPriorityZero, bind, Except.bind, pure,
      Except.pure, hr1, hr0, hg2] at hr
  | ok v1 =>
    refine ⟨v1, rfl, ?_⟩
    obtain ⟨g1, g2, g3⟩ := resetPacket_garp _ _ hr
    have g4 := (resetPacket_fields _ _ hr).2.2.2.2.1
    rw [createGARP_congr v v1 g4 g2 g3, hg] at g1
    simp only [Except.ok.injEq] at g1
    exact g1.symm

/-- When newVRRP succeeds: the dataplane gives a MAC for the sub-interface, the
address of the sub-interface is an IPv4 address, and the MAC has 6 bytes or
there is no virtual address. The list of virtual addresses is not looked at
otherwise. -/
theorem newVRRP_ok (GetVifMacaddr : String → Except VrrpError HardwareAddr) (now : Int)
    (imodel : models.Subinterface) (vmodel : models.VRRP) (mac : HardwareAddr)
    (s0 s1 s2 s3 : Nat) (hmac : GetVifMacaddr imodel.Name = .ok mac)
    (hs : To4 imodel.IP = some [s0, s1, s2, s3])
    (hg : mac.length = 6 ∨ vmodel.VirtualAddresses = []) :
    ∃ v, newVRRP GetVifMacaddr now imodel vmodel = .ok v := by
  have h2 : ∀ X : VRRP, To4 X.subifIP = some [s0, s1, s2, s3] →
      (∃ ps, createGARP X = .ok ps) → ∀ e, resetPacket X ≠ .error e := by
    intro X hX ⟨ps, hps⟩ e hr
    obtain ⟨v1, hv1, -⟩ := resetPacket_ok X s0 s1 s2 s3 ps hX hps
    rw [hv1] at hr
    cases hr
  cases hn : newVRRP GetVifMacaddr now imodel vmodel with
  | ok v => exact ⟨v, rfl⟩
  | error e =>
    simp only [newVRRP, bind, Except.bind, pure, Except.pure, setNextDownTimeNoLock,
      setStateNoLock, resetMasterDownInterval_eq, hmac] at hn
    refine absurd hn (h2 _ hs ?_ e)
    rcases hg with hg | hg
    · exact createGARP_ok _ hg
    · exact ⟨[], by simp [createGARP, hg, pure, Except.pure]⟩

/-- C27, the claim as stated fails: for the sub-interface of the examples and
the VRRP entry of the examples with its list of virtual addresses emptied,
newVRRP returns a group and no error; the group has no address and no GARP
frame. -/
theorem C27_empty_list_accepted_counterexample :
    (newVRRP exampleDataplane 0 exampleSubif
      { exampleModel 100 100 true with VirtualAddresses := [] }).toOption.map
        (fun v => (v.IPAddress, v.garpPackets, v.state)) = some ([], [], StateInitialize) := by
  decide

/-- C27 as amended (an empty list is rejected before construction, not by
newVRRP). newVRRP has no check of the list: for a VRRP entry without virtual
addresses it returns a group, with no address, whenever the dataplane gives a
MAC for the sub-interface and the address of the sub-interface is an IPv4
address. The check is IsValid: a valid sub-interface has no VRRP entry with an
empty list, and UpdateSettings builds groups for valid sub-interfaces only, so
after an UpdateSettings that returns no error every group of the registry has at
least one address. -/
theorem C27_empty_list_guard (GetVifMacaddr : String → Except VrrpError HardwareAddr)
    (now : models.Subinterface → models.VRRP → Int) (moduleSuspended : Bool)
    (ResumeModules SuspendModules : Option VrrpError) (m m1 : Mgr)
    (subifTable : List (String × models.Subinterface))
    (hinv : ∀ kv ∈ m.vrrpTable, kv.1 = kv.2.objID)
    (h : UpdateSettings GetVifMacaddr now moduleSuspended ResumeModules SuspendModules m
      subifTable = (m1, none)) :
    (∀ (now0 : Int) (imodel : models.Subinterface) (vmodel : models.VRRP) (mac : HardwareAddr)
      (s0 s1 s2 s3 : Nat), GetVifMacaddr imodel.Name = .ok mac →
      To4 imodel.IP = some [s0, s1, s2, s3] → vmodel.VirtualAddresses = [] →
      ∃ v, newVRRP GetVifMacaddr now0 imodel vmodel = .ok v ∧ v.IPAddress = []) ∧
    (∀ subif : models.Subinterface, subif.IsValid = true →
      ∀ kv ∈ subif.VRRPs, kv.2.VirtualAddresses ≠ []) ∧
    (∀ kv ∈ m1.vrrpTable, kv.2.IPAddress ≠ []) := by
  refine ⟨?_, fun subif hv kv hkv => (IsValid_entries subif hv kv hkv).2, ?_⟩
  · intro now0 imodel vmodel mac s0 s1 s2 s3 hmac hs he
    obtain ⟨v, hv⟩ := newVRRP_ok GetVifMacaddr now0 imodel vmodel mac s0 s1 s2 s3 hmac hs
      (Or.inr he)
    exact ⟨v, hv, ((newVRRP_fields _ _ _ _ _ hv).2.2.2.2.1).trans he⟩
  · have hempty := shutdownAll_empty m hinv
    have hc : createSubifs GetVifMacaddr now (shutdownAll m m.vrrpTable) subifTable
        = (m1, none) := by
      simp only [UpdateSettings] at h
      split at h
      · simp at h
      · split at h
        · simp at h
        · rename_i m2 hm2
          split_ifs at h
          · split at h
            · simp at h
            · simp only [Prod.mk.injEq, and_true] at h
              rw [hm2, h]
          · simp only [Prod.mk.injEq, and_true] at h
            rw [hm2, h]
    intro kv hkv
    rcases (createSubifs_spec GetVifMacaddr now subifTable _ m1 hc).2.2 kv hkv with h4 | h4
    · rw [hempty] at h4
      cases h4
    · exact h4.2

/-- The example of C27: UpdateSettings on the table with the sub-interface `s`
and the valid entry of the examples returns no error; newVRRP accepts the entry
of the examples with its list emptied; and no group of the registry after that
UpdateSettings has an empty list. -/
theorem C27_empty_list_guard_witness :
    (UpdateSettings exampleDataplane (fun _ _ => 0) false none none newVRRPMgr
      [("s", { exampleSubif with VRRPs := [(50, exampleModel 100 100 true)] })]).2 = none ∧
    (∃ v, newVRRP exampleDataplane 0 exampleSubif
      { exampleModel 100 100 true with VirtualAddresses := [] } = .ok v ∧ v.IPAddress = []) ∧
    (UpdateSettings exampleDataplane (fun _ _ => 0) false none none newVRRPMgr
      [("s", { exampleSubif with VRRPs := [(50, exampleModel 100 100 true)] })]).1.vrrpTable.all
        (fun kv => !(kv.2.IPAddress.isEmpty)) = true := by
  have hthm := C27_empty_list_guard exampleDataplane (fun _ _ => 0) false none none newVRRPMgr
    (UpdateSettings exampleDataplane (fun _ _ => 0) false none none newVRRPMgr
      [("s", { exampleSubif with VRRPs := [(50, exampleModel 100 100 true)] })]).1
    [("s", { exampleSubif with VRRPs := [(50, exampleModel 100 100 true)] })]
    (by decide) (by decide)
  refine ⟨by decide, hthm.1 0 exampleSubif _ [0x52, 0x54, 0x00, 0xce, 0xd1, 0xa3] 10 0 0 5
    (by decide) (by decide) rfl, ?_⟩
  rw [List.all_eq_true]
  intro kv hkv
  have h3 := hthm.2.2 kv hkv
  cases hl : kv.2.IPAddress with
  | nil => exact absurd hl h3
  | cons a l => rfl

/-! ## C24: the checksum against its reference -/

/-- The words of a byte list add up to `wordSum`. -/
theorem words16_sum : ∀ (b : List Nat), (words16 b).sum = wordSum b
  | [] => rfl
  | [b0] => by simp [words16, wordSum]
  | b0 :: b1 :: rest => by
    simp only [words16, wordSum, List.sum_cons, words16_sum rest]

/-- The words of a byte list are 16-bit words. -/
theorem words16_le : ∀ (b : List Nat), IsBytes b → ∀ w ∈ words16 b, w ≤ 65535
  | [], _ => by simp [words16]
  | [b0], h => by
    have := h b0 (by simp)
    simp only [words16, List.mem_singleton]
    intro w hw
    omega
  | b0 :: b1 :: rest, h => by
    have h0 := h b0 (by simp)
    have h1 := h b1 (by simp)
    have ih := words16_le rest (fun x hx => h x (by simp [hx]))
    simp only [words16, List.mem_cons]
    rintro w (hw | hw)
    · omega
    · exact ih w hw

/-- The one's-complement sum of 16-bit words, from a 16-bit start: it is a
16-bit word, congruent modulo 65535 to the sum of the numbers, and zero only
when every number is zero. -/
theorem onesComplementSum_spec : ∀ (ws : List Nat) (acc : Nat), acc ≤ 65535 →
    (∀ w ∈ ws, w ≤ 65535) →
    ws.foldl onesComplementAdd acc ≤ 65535 ∧
    ws.foldl onesComplementAdd acc % 65535 = (acc + ws.sum) % 65535 ∧
    (ws.foldl onesComplementAdd acc = 0 ↔ acc + ws.sum = 0)
  | [], acc, hacc, _ => by simp [hacc]
  | w :: ws, acc, hacc, hws => by
    have hw := hws w (by simp)
    have hstep : onesComplementAdd acc w ≤ 65535 ∧
        onesComplementAdd acc w % 65535 = (acc + w) % 65535 ∧
        (onesComplementAdd acc w = 0 ↔ acc + w = 0) := by
      by_cases hc : 65536 ≤ acc + w
      · have hv : onesComplementAdd acc w = acc + w - 65536 + 1 := by
          simp [onesComplementAdd, hc]
        rw [hv]
        refine ⟨by omega, by omega, ?_⟩
        constructor <;> intro hx <;> omega
      · have hv : onesComplementAdd acc w = acc + w := by
          simp [onesComplementAdd, hc]
        rw [hv]
        exact ⟨by omega, rfl, Iff.rfl⟩
    obtain ⟨s1, s2, s3⟩ := hstep
    obtain ⟨i1, i2, i3⟩ := onesComplementSum_spec ws (onesComplementAdd acc w) s1
      (fun x hx => hws x (by simp [hx]))
    simp only [List.foldl_cons, List.sum_cons]
    refine ⟨i1, ?_, ?_⟩
    · rw [i2]
      omega
    · rw [i3]
      omega

/-- The pseudoheader sum of two IPv4 addresses, without the `uint32`
truncations, which never cut anything off. -/
theorem pseudoheaderIPv4_eq (ip : IPv4) (s0 s1 s2 s3 d0 d1 d2 d3 : Nat)
    (hsrc : To4 ip.SrcIP = some [s0, s1, s2, s3]) (hdst : To4 ip.DstIP = some [d0, d1, d2, d3])
    (hsb : IsBytes [s0, s1, s2, s3]) (hdb : IsBytes [d0, d1, d2, d3]) :
    pseudoheaderIPv4 ip =
      .ok ((s0 + s2) * 256 + (s1 + s3) + (d0 + d2) * 256 + (d1 + d3)) := by
  have a0 := hsb s0 (by simp)
  have a1 := hsb s1 (by simp)
  have a2 := hsb s2 (by simp)
  have a3 := hsb s3 (by simp)
  have e0 := hdb d0 (by simp)
  have e1 := hdb d1 (by simp)
  have e2 := hdb d2 (by simp)
  have e3 := hdb d3 (by simp)
  simp only [pseudoheaderIPv4, hsrc, hdst, shiftLeft8, u32, pure, Except.pure, Nat.zero_add]
  congr 1
  omega

/-- C24 (checksum reference): for a body `b` of at most 65535 bytes and an IPv4
pseudoheader with source `s0.s1.s2.s3` and destination `d0.d1.d2.d3`,
ComputeChecksum(b, 112) is the reference checksum: the 16-bit complement of the
one's-complement (end-around carry) sum of the 16-bit big-endian words of the
source, the destination, the word 0x0070, the length of `b` and `b` itself, an
odd last byte of `b` being the high byte of a last word. The loop that folds the
carries ends for every `uint32` accumulator within two rounds, with the upper
16 bits zero. -/
theorem C24_checksum_reference (ip : IPv4) (s0 s1 s2 s3 d0 d1 d2 d3 : Nat) (b : List Nat)
    (hsrc : To4 ip.SrcIP = some [s0, s1, s2, s3]) (hdst : To4 ip.DstIP = some [d0, d1, d2, d3])
    (hsb : IsBytes [s0, s1, s2, s3]) (hdb : IsBytes [d0, d1, d2, d3]) (hb : IsBytes b)
    (hlen : b.length ≤ 65535) :
    ComputeChecksum (some ip) b 112 =
      .ok (referenceChecksum [s0, s1, s2, s3] [d0, d1, d2, d3] b) ∧
    (∀ csum fuel, csum < 4294967296 →
      foldCarry (fuel + 2) csum >>> 16 = 0 ∧ foldCarry (fuel + 2) csum = foldCarry 2 csum) := by
  constructor
  · have a0 := hsb s0 (by simp)
    have a1 := hsb s1 (by simp)
    have a2 := hsb s2 (by simp)
    have a3 := hsb s3 (by simp)
    have e0 := hdb d0 (by simp)
    have e1 := hdb d1 (by simp)
    have e2 := hdb d2 (by simp)
    have e3 := hdb d3 (by simp)
    have hws := wordSum_le b hb
    rw [ComputeChecksum_some, pseudoheaderIPv4_eq ip s0 s1 s2 s3 d0 d1 d2 d3 hsrc hdst hsb hdb]
    simp only [Except.ok.injEq]
    obtain ⟨c0, hc0⟩ : ∃ c0, c0 = (s0 + s2) * 256 + (s1 + s3) + (d0 + d2) * 256 + (d1 + d3) :=
      ⟨_, rfl⟩
    rw [← hc0]
    have hacc : u32 (u32 (u32 (c0 + 112) + (u32 b.length &&& 0xffff)) + (u32 b.length >>> 16))
        = c0 + 112 + b.length := by
      simp only [u32, and_ffff, shiftRight16]
      omega
    rw [hacc]
    have hsum : sumWords b (c0 + 112 + b.length) = c0 + 112 + b.length + wordSum b :=
      sumWords_eq b _ hb (by omega)
    obtain ⟨f1, f2, f3⟩ := foldCarry_spec (c0 + 112 + b.length + wordSum b) (by omega)
    have hwords : ∀ w ∈ words16 [s0, s1, s2, s3] ++ words16 [d0, d1, d2, d3] ++
        [0x0070, b.length] ++ words16 b, w ≤ 65535 := by
      intro w hw
      simp only [List.mem_append, List.mem_cons, List.mem_singleton, List.not_mem_nil,
        or_false] at hw
      rcases hw with ((hw | hw) | hw | hw) | hw
      · exact words16_le _ hsb w hw
      · exact words16_le _ hdb w hw
      · omega
      · omega
      · exact words16_le _ hb w hw
    obtain ⟨g1, g2, g3⟩ := onesComplementSum_spec _ 0 (by omega) hwords
    have htot : (words16 [s0, s1, s2, s3] ++ words16 [d0, d1, d2, d3] ++
        [0x0070, b.length] ++ words16 b).sum = c0 + 112 + b.length + wordSum b := by
      simp only [List.sum_append, words16_sum, wordSum, List.sum_cons, List.sum_nil]
      omega
    rw [htot] at g2 g3
    simp only [ipChecksum, referenceChecksum, hsum, u16]
    obtain ⟨F, hF⟩ : ∃ F, F = foldCarry 32 (c0 + 112 + b.length + wordSum b) := ⟨_, rfl⟩
    obtain ⟨R, hR⟩ : ∃ R, R = (words16 [s0, s1, s2, s3] ++ words16 [d0, d1, d2, d3] ++
        [0x0070, b.length] ++ words16 b).foldl onesComplementAdd 0 := ⟨_, rfl⟩
    rw [← hF] at f1 f2 f3 ⊢
    rw [← hR] at g1 g2 g3 ⊢
    have hFR : F = R := by
      by_cases hz : c0 + 112 + b.length + wordSum b = 0
      · omega
      · have := f3 (by omega)
        have hR0 : R ≠ 0 := fun h0 => hz (by
          have := g3.mp h0
          omega)
        omega
    rw [hFR]
    omega
  · intro csum fuel hlt
    refine ⟨foldCarry_done fuel csum hlt, ?_⟩
    rw [foldCarry_eq fuel csum hlt, foldCarry_eq 0 csum hlt]

/-- The example of C24: the body of the repository's tests with a zero checksum
field, from 192.168.100.238 to 224.0.0.18; the reference checksum is 0xb539,
the checksum of the tests. A body of odd length is covered as well. -/
theorem C24_checksum_reference_witness :
    ComputeChecksum (some exampleWireIP)
      [0x31, 0x32, 0xff, 0x02, 0x00, 0x64, 0x00, 0x00, 0x0a, 0x00, 0x00, 0x01, 0x0a, 0x00,
       0x00, 0x02] 112 = .ok 0xb539 ∧
    ComputeChecksum (some exampleWireIP) [0x31, 0x32, 0xff] 112 =
      .ok (referenceChecksum [192, 168, 100, 238] [224, 0, 0, 18] [0x31, 0x32, 0xff]) :=
  ⟨(C24_checksum_reference exampleWireIP 192 168 100 238 224 0 0 18
      [0x31, 0x32, 0xff, 0x02, 0x00, 0x64, 0x00, 0x00, 0x0a, 0x00, 0x00, 0x01, 0x0a, 0x00,
       0x00, 0x02] (by decide) (by decide) (by decide) (by decide) (by decide)
      (by decide)).1.trans (by decide),
   (C24_checksum_reference exampleWireIP 192 168 100 238 224 0 0 18 [0x31, 0x32, 0xff]
      (by decide) (by decide) (by decide) (by decide) (by decide) (by decide)).1⟩

/-! ## DecodeVRRPAdv on the frames of the repository's tests -/

/-- The frame of `TestDecodeVRRPAdv`. -/
theorem DecodeVRRPAdv_test_vector :
    DecodeVRRPAdv decodeLayersPlain
      [0x01, 0x00, 0x5e, 0x00, 0x00, 0x12, 0x52, 0x54, 0x00, 0xdc, 0x65, 0x98,
       0x08, 0x00, 0x45, 0xc0, 0x00, 0x24, 0x00, 0x01, 0x00, 0x00, 0xff, 0x70,
       0xb4, 0xff, 0xc0, 0xa8, 0x64, 0xee, 0xe0, 0x00, 0x00, 0x12, 0x31, 0x32,
       0xff, 0x02, 0x00, 0x64, 0xb5, 0x39, 0x0a, 0x00, 0x00, 0x01, 0x0a, 0x00,
       0x00, 0x02, 0x00, 0x00, 0x00, 0x00, 0x00, 0x00, 0x00, 0x00, 0x00, 0x00] =
    .ok ({ SrcMAC := [0x52, 0x54, 0x00, 0xdc, 0x65, 0x98],
           DstMAC := [0x01, 0x00, 0x5e, 0x00, 0x00, 0x12], EthernetType := 0x0800, Length := 0 },
         exampleWireIP,
         { exampleWireAdv with Contents := exampleWireBody, Checksum := 0xb539 }) := by
  decide

/-- The frames of `TestDecodeVRRPAdvErrorBadChecksum`,
`TestDecodeVRRPAdvErrorBadTTL` and `TestDecodeVRRPAdvErrorBadCountIPAddr`, with
the messages the tests expect. -/
theorem DecodeVRRPAdv_error_vectors :
    DecodeVRRPAdv decodeLayersPlain
      [0x01, 0x00, 0x5e, 0x00, 0x00, 0x12, 0x52, 0x54, 0x00, 0xdc, 0x65, 0x98,
       0x08, 0x00, 0x45, 0xc0, 0x00, 0x24, 0x00, 0x01, 0x00, 0x00, 0xff, 0x70,
       0xb4, 0xff, 0xc0, 0xa8, 0x64, 0xee, 0xe0, 0x00, 0x00, 0x12, 0x31, 0x32,
       0xff, 0x02, 0x00, 0x64, 0xb5, 0x38, 0x0a, 0x00, 0x00, 0x01, 0x0a, 0x00,
       0x00, 0x02, 0x00, 0x00, 0x00, 0x00, 0x00, 0x00, 0x00, 0x00, 0x00, 0x00] =
      .error VrrpError.BadChecksum ∧
    DecodeVRRPAdv decodeLayersPlain
      [0x01, 0x00, 0x5e, 0x00, 0x00, 0x12, 0x52, 0x54, 0x00, 0xdc, 0x65, 0x98,
       0x08, 0x00, 0x45, 0xc0, 0x00, 0x24, 0x00, 0x01, 0x00, 0x00, 0xfe, 0x70,
       0xb4, 0xff, 0xc0, 0xa8, 0x64, 0xee, 0xe0, 0x00, 0x00, 0x12, 0x31, 0x32,
       0xff, 0x02, 0x00, 0x64, 0xb5, 0x39, 0x0a, 0x00, 0x00, 0x01, 0x0a, 0x00,
       0x00, 0x02, 0x00, 0x00, 0x00, 0x00, 0x00, 0x00, 0x00, 0x00, 0x00, 0x00] =
      .error (VrrpError.BadTTL 254) ∧
    DecodeVRRPAdv decodeLayersPlain
      [0x01, 0x00, 0x5e, 0x00, 0x00, 0x12, 0x52, 0x54, 0x00, 0xdc, 0x65, 0x98,
       0x08, 0x00, 0x45, 0xc0, 0x00, 0x24, 0x00, 0x01, 0x00, 0x00, 0xff, 0x70,
       0xb4, 0xff, 0xc0, 0xa8, 0x64, 0xee, 0xe0, 0x00, 0x00, 0x12, 0x31, 0x32,
       0xff, 0x03, 0x00, 0x64, 0xb5, 0x38, 0x0a, 0x00, 0x00, 0x01, 0x0a, 0x00,
       0x00, 0x02, 0x00, 0x00, 0x00, 0x00, 0x00, 0x00, 0x00, 0x00, 0x00, 0x00] =
      .error (VrrpError.BadCountIPAddr 3 2) ∧
    (VrrpError.BadTTL 254).message = some "Bad TTL: 254" ∧
    (VrrpError.BadCountIPAddr 3 2).message =
      some "Bad CountIPAddr. CountIPAddr: 3, IPAddress: 2" ∧
    VrrpError.BadChecksum.message = some "Bad checksum" := by
  decide

/-! ## C22, C23: the checks of DecodeVRRPAdv -/

/-- A run of zero bytes adds nothing to the sum of the words. -/
theorem wordSum_zeros : ∀ n, wordSum (List.replicate n 0) = 0 ∧
    wordSum (List.replicate (n + 1) 0) = 0
  | 0 => by simp [wordSum]
  | n + 1 => by
    refine ⟨(wordSum_zeros n).2, ?_⟩
    simp only [List.replicate_succ, wordSum]
    have := (wordSum_zeros n).1
    omega

/-- What DecodeVRRPAdv returns, by the three checks of checkVRRPAdv in their
order, for every behaviour of `DecodeLayers`. -/
theorem DecodeVRRPAdv_eq (DecodeLayers : List Nat → Except VrrpError (Ethernet × IPv4 × VRRPv3Adv))
    (packet : List Nat) (eth : Ethernet) (ip : IPv4) (vrrp : VRRPv3Adv)
    (hdec : DecodeLayers packet = .ok (eth, ip, vrrp)) :
    DecodeVRRPAdv DecodeLayers packet =
      if ip.TTL ≠ 255 then .error (VrrpError.BadTTL ip.TTL)
      else if vrrp.CountIPAddr ≠ u8 vrrp.IPAddress.length then
        .error (VrrpError.BadCountIPAddr vrrp.CountIPAddr (u8 vrrp.IPAddress.length))
      else
        match ComputeChecksum (some ip) vrrp.Contents 112 with
        | .error err => .error err
        | .ok csum =>
          if csum ≠ 0 then .error VrrpError.BadChecksum
          else .ok (eth,
            ⟨ip.TTL, ip.Protocol, (To4 ip.SrcIP).getD ip.SrcIP, (To4 ip.DstIP).getD ip.DstIP⟩,
            { vrrp with
              pseudoheader := some ⟨ip.TTL, ip.Protocol, (To4 ip.SrcIP).getD ip.SrcIP,
                (To4 ip.DstIP).getD ip.DstIP⟩ }) := by
  simp only [DecodeVRRPAdv, hdec, bind, Except.bind, checkVRRPAdv, VRRPAdvTTL, IPProtocolVRRP]
  split_ifs with h1 h2
  · rfl
  · rfl
  · cases hc : ComputeChecksum (some ip) vrrp.Contents 112 with
    | error err => rfl
    | ok csum =>
      simp only
      split_ifs <;> rfl

/-- C23 (TTL and checksum validation): for a frame that gopacket decodes into an
Ethernet, an IPv4 and a VRRP layer, DecodeVRRPAdv returns "Bad TTL: t" if the
TTL t of the IPv4 layer is not 255, whatever the count and the checksum; with
TTL 255 it returns "Bad CountIPAddr" if the count check fails, whatever the
checksum; with TTL 255 and the count check passed it returns "Bad checksum" if
the checksum computed over the received body (the contents of the VRRP layer)
with the pseudoheader of the IPv4 layer is not zero. It returns the three
layers exactly when TTL is 255, the count check passes and the checksum
computes to zero. The count check is `CountIPAddr != uint8(len(IPAddress))`,
which for at most 255 decoded addresses is the comparison of the count with the
number of addresses. -/
theorem C23_ttl_and_checksum
    (DecodeLayers : List Nat → Except VrrpError (Ethernet × IPv4 × VRRPv3Adv))
    (packet : List Nat) (eth : Ethernet) (ip : IPv4) (vrrp : VRRPv3Adv)
    (hdec : DecodeLayers packet = .ok (eth, ip, vrrp)) :
    (ip.TTL ≠ 255 →
      DecodeVRRPAdv DecodeLayers packet = .error (VrrpError.BadTTL ip.TTL)) ∧
    (ip.TTL = 255 → vrrp.CountIPAddr ≠ u8 vrrp.IPAddress.length →
      DecodeVRRPAdv DecodeLayers packet =
        .error (VrrpError.BadCountIPAddr vrrp.CountIPAddr (u8 vrrp.IPAddress.length))) ∧
    (ip.TTL = 255 → vrrp.CountIPAddr = u8 vrrp.IPAddress.length →
      ∀ csum, ComputeChecksum (some ip) vrrp.Contents 112 = .ok csum → csum ≠ 0 →
      DecodeVRRPAdv DecodeLayers packet = .error VrrpError.BadChecksum) ∧
    ((∃ r, DecodeVRRPAdv DecodeLayers packet = .ok r) ↔
      ip.TTL = 255 ∧ vrrp.CountIPAddr = u8 vrrp.IPAddress.length ∧
      ComputeChecksum (some ip) vrrp.Contents 112 = .ok 0) ∧
    (∀ r, DecodeVRRPAdv DecodeLayers packet = .ok r →
      r.1 = eth ∧ r.2.1.TTL = 255 ∧ r.2.1.Protocol = ip.Protocol ∧
      r.2.2 = { vrrp with pseudoheader := some r.2.1 }) ∧
    (vrrp.IPAddress.length ≤ 255 →
      (vrrp.CountIPAddr = u8 vrrp.IPAddress.length ↔
        vrrp.CountIPAddr = vrrp.IPAddress.length)) ∧
    (∀ t : Nat, (VrrpError.BadTTL t).message = some ("Bad TTL: " ++ toString t)) ∧
    VrrpError.BadChecksum.message = some "Bad checksum" := by
  have heq := DecodeVRRPAdv_eq DecodeLayers packet eth ip vrrp hdec
  refine ⟨?_, ?_, ?_, ?_, ?_, ?_, fun _ => rfl, rfl⟩
  · intro h
    rw [heq, if_pos h]
  · intro h1 h2
    rw [heq, if_neg (not_not.mpr h1), if_pos h2]
  · intro h1 h2 csum hc hne
    rw [heq, if_neg (not_not.mpr h1), if_neg (not_not.mpr h2), hc]
    simp only [if_pos hne]
  · rw [heq]
    constructor
    · rintro ⟨r, hr⟩
      split_ifs at hr with h1 h2
      have h1 := not_not.mp h1
      have h2 := not_not.mp h2
      refine ⟨h1, h2, ?_⟩
      cases hc : ComputeChecksum (some ip) vrrp.Contents 112 with
      | error err => rw [hc] at hr; cases hr
      | ok csum =>
        rw [hc] at hr
        simp only at hr
        split_ifs at hr with h3
        rw [not_not.mp h3]
    · rintro ⟨h1, h2, h3⟩
      rw [if_neg (not_not.mpr h1), if_neg (not_not.mpr h2), h3]
      exact ⟨_, rfl⟩
  · intro r hr
    rw [heq] at hr
    split_ifs at hr with h1 h2
    have h1 := not_not.mp h1
    cases hc : ComputeChecksum (some ip) vrrp.Contents 112 with
    | error err => rw [hc] at hr; cases hr
    | ok csum =>
      rw [hc] at hr
      simp only at hr
      split_ifs at hr with h3
      simp only [Except.ok.injEq] at hr
      subst hr
      exact ⟨rfl, h1, rfl, rfl⟩
  · intro hle
    have : u8 vrrp.IPAddress.length = vrrp.IPAddress.length := by
      simp only [u8]
      omega
    rw [this]

/-- The examples of C23 are the frames of `TestDecodeVRRPAdvErrorBadTTL` (TTL
254) and `TestDecodeVRRPAdvErrorBadChecksum` (checksum 0xb538 in place of
0xb539). -/
theorem C23_ttl_and_checksum_witness :
    DecodeVRRPAdv decodeLayersPlain
      [0x01, 0x00, 0x5e, 0x00, 0x00, 0x12, 0x52, 0x54, 0x00, 0xdc, 0x65, 0x98,
       0x08, 0x00, 0x45, 0xc0, 0x00, 0x24, 0x00, 0x01, 0x00, 0x00, 0xfe, 0x70,
       0xb4, 0xff, 0xc0, 0xa8, 0x64, 0xee, 0xe0, 0x00, 0x00, 0x12, 0x31, 0x32,
       0xff, 0x02, 0x00, 0x64, 0xb5, 0x39, 0x0a, 0x00, 0x00, 0x01, 0x0a, 0x00,
       0x00, 0x02, 0x00, 0x00, 0x00, 0x00, 0x00, 0x00, 0x00, 0x00, 0x00, 0x00] =
      .error (VrrpError.BadTTL 254) ∧
    DecodeVRRPAdv decodeLayersPlain
      [0x01, 0x00, 0x5e, 0x00, 0x00, 0x12, 0x52, 0x54, 0x00, 0xdc, 0x65, 0x98,
       0x08, 0x00, 0x45, 0xc0, 0x00, 0x24, 0x00, 0x01, 0x00, 0x00, 0xff, 0x70,
       0xb4, 0xff, 0xc0, 0xa8, 0x64, 0xee, 0xe0, 0x00, 0x00, 0x12, 0x31, 0x32,
       0xff, 0x02, 0x00, 0x64, 0xb5, 0x38, 0x0a, 0x00, 0x00, 0x01, 0x0a, 0x00,
       0x00, 0x02, 0x00, 0x00, 0x00, 0x00, 0x00, 0x00, 0x00, 0x00, 0x00, 0x00] =
      .error VrrpError.BadChecksum :=
  ⟨(C23_ttl_and_checksum decodeLayersPlain _
      { SrcMAC := [0x52, 0x54, 0x00, 0xdc, 0x65, 0x98],
        DstMAC := [0x01, 0x00, 0x5e, 0x00, 0x00, 0x12], EthernetType := 0x0800, Length := 0 }
      { exampleWireIP with TTL := 254 }
      { exampleWireAdv with Contents := exampleWireBody, Checksum := 0xb539,
                            pseudoheader := none }
      (by decide)).1 (by decide),
   (C23_ttl_and_checksum decodeLayersPlain _
      { SrcMAC := [0x52, 0x54, 0x00, 0xdc, 0x65, 0x98],
        DstMAC := [0x01, 0x00, 0x5e, 0x00, 0x00, 0x12], EthernetType := 0x0800, Length := 0 }
      exampleWireIP
      { exampleWireAdv with
        Contents := [0x31, 0x32, 0xff, 0x02, 0x00, 0x64, 0xb5, 0x38, 0x0a, 0x00, 0x00, 0x01,
          0x0a, 0x00, 0x00, 0x02]
        Checksum := 0xb538
        pseudoheader := none }
      (by decide)).2.2.1 (by decide) (by decide) 1 (by decide) (by decide)⟩

/-- What every result of DecodeVRRPAdv satisfies, for every behaviour of
`DecodeLayers`: the count is the number of decoded addresses modulo 256, and it
is that number when there are at most 255 addresses. -/
theorem DecodeVRRPAdv_count
    (DecodeLayers : List Nat → Except VrrpError (Ethernet × IPv4 × VRRPv3Adv))
    (packet : List Nat) (r : Ethernet × IPv4 × VRRPv3Adv)
    (h : DecodeVRRPAdv DecodeLayers packet = .ok r) :
    r.2.2.CountIPAddr = r.2.2.IPAddress.length % 256 ∧
    (r.2.2.IPAddress.length ≤ 255 → r.2.2.CountIPAddr = r.2.2.IPAddress.length) := by
  cases hdec : DecodeLayers packet with
  | error err => simp [DecodeVRRPAdv, hdec, bind, Except.bind] at h
  | ok l =>
    obtain ⟨eth, ip, vrrp⟩ := l
    rw [DecodeVRRPAdv_eq DecodeLayers packet eth ip vrrp hdec] at h
    split_ifs at h with h1 h2
    have h2 := not_not.mp h2
    cases hc : ComputeChecksum (some ip) vrrp.Contents 112 with
    | error err => rw [hc] at h; cases h
    | ok csum =>
      rw [hc] at h
      simp only at h
      split_ifs at h with h3
      simp only [Except.ok.injEq] at h
      subst h
      have hle2 : ∀ (hle : vrrp.IPAddress.length ≤ 255),
          vrrp.CountIPAddr = vrrp.IPAddress.length := by
        intro hle
        rw [h2]
        exact Nat.mod_eq_of_lt (by omega)
      exact ⟨h2, hle2⟩

/-- The layers of a plain frame with TTL 255 from 192.168.100.238 to
224.0.0.18 whose VRRP body is the header 31 32 64 01 00 64 60 42 followed by
1028 bytes. -/
theorem decodeLayersPlain_long (t : List Nat) (ht : t.length = 1028) :
    decodeLayersPlain
      ([0x01, 0x00, 0x5e, 0x00, 0x00, 0x12, 0x52, 0x54, 0x00, 0xdc, 0x65, 0x98,
        0x08, 0x00, 0x45, 0x00, 0x04, 0x20, 0x00, 0x00, 0x00, 0x00, 0xff, 0x70,
        0xb1, 0xc4, 0xc0, 0xa8, 0x64, 0xee, 0xe0, 0x00, 0x00, 0x12, 0x31, 0x32,
        0x64, 0x01, 0x00, 0x64, 0x60, 0x42] ++ t) =
    (DecodeFromBytes {} (0x31 :: 0x32 :: 0x64 :: 0x01 :: 0x00 :: 0x64 :: 0x60 :: 0x42 :: t)).map
      (fun vrrp => ((⟨[0x52, 0x54, 0x00, 0xdc, 0x65, 0x98],
        [0x01, 0x00, 0x5e, 0x00, 0x00, 0x12], 0x0800, 0⟩ : Ethernet), exampleWireIP,
        vrrp)) := by
  have hlen : (0x31 :: 0x32 :: 0x64 :: 0x01 :: 0x00 :: 0x64 :: 0x60 :: 0x42 :: t).length
      = 1036 := by
    simp only [List.length_cons, ht]
  have htake : List.take 1036
      (0x31 :: 0x32 :: 0x64 :: 0x01 :: 0x00 :: 0x64 :: 0x60 :: 0x42 :: t) =
      0x31 :: 0x32 :: 0x64 :: 0x01 :: 0x00 :: 0x64 :: 0x60 :: 0x42 :: t :=
    List.take_of_length_le (by rw [hlen])
  simp only [decodeLayersPlain, List.cons_append, List.nil_append, List.length_cons, ht,
    List.drop_succ_cons, List.drop_zero, List.getD_cons_succ, List.getD_cons_zero]
  have ht2 : List.take 1028 t = t := List.take_of_length_le (by rw [ht])
  norm_num [IPProtocolVRRP, List.take, ht2, ht, exampleWireIP, Except.map, bind, Except.bind,
    pure, Except.pure]

/-- DecodeVRRPAdv accepts the plain frame of `decodeLayersPlain_long` when the
1028 bytes after the VRRP header are bytes whose words add up to zero: the
count byte is 1 and 257 addresses are decoded. -/
theorem DecodeVRRPAdv_long (t : List Nat) (ht : t.length = 1028) (hz : wordSum t = 0)
    (hb : IsBytes t) :
    ∃ eth ip vrrp, DecodeVRRPAdv decodeLayersPlain
      ([0x01, 0x00, 0x5e, 0x00, 0x00, 0x12, 0x52, 0x54, 0x00, 0xdc, 0x65, 0x98,
        0x08, 0x00, 0x45, 0x00, 0x04, 0x20, 0x00, 0x00, 0x00, 0x00, 0xff, 0x70,
        0xb1, 0xc4, 0xc0, 0xa8, 0x64, 0xee, 0xe0, 0x00, 0x00, 0x12, 0x31, 0x32,
        0x64, 0x01, 0x00, 0x64, 0x60, 0x42] ++ t) = .ok (eth, ip, vrrp) ∧
      vrrp.CountIPAddr = 1 ∧ vrrp.IPAddress.length = 257 := by
  have hlayers := decodeLayersPlain_long t ht
  have hd := DecodeFromBytes_ok {} 0x31 0x32 0x64 0x01 0x00 0x64 0x60 0x42 t
    (by decide) (by decide) (by decide) (by rw [ht])
  rw [hd] at hlayers
  simp only [Except.map] at hlayers
  have heq := DecodeVRRPAdv_eq decodeLayersPlain _ _ _ _ hlayers
  have hbytes : IsBytes (0x31 :: 0x32 :: 0x64 :: 0x01 :: 0x00 :: 0x64 :: 0x60 :: 0x42 :: t) := by
    intro b hb2
    simp only [List.mem_cons] at hb2
    rcases hb2 with h | h | h | h | h | h | h | h | h
    any_goals omega
    exact hb b h
  have hws : wordSum (0x31 :: 0x32 :: 0x64 :: 0x01 :: 0x00 :: 0x64 :: 0x60 :: 0x42 :: t)
      = 62937 := by
    simp only [wordSum, hz]
  have hcs : ComputeChecksum (some exampleWireIP)
      (0x31 :: 0x32 :: 0x64 :: 0x01 :: 0x00 :: 0x64 :: 0x60 :: 0x42 :: t) 112 = .ok 0 := by
    rw [ComputeChecksum_some]
    have hp : pseudoheaderIPv4 exampleWireIP = .ok 132520 := by decide
    simp only [hp, List.length_cons, ht, ipChecksum]
    have hacc : u32 (u32 (u32 (132520 + 112) + (u32 (1028 + 1 + 1 + 1 + 1 + 1 + 1 + 1 + 1) &&&
        0xffff)) + (u32 (1028 + 1 + 1 + 1 + 1 + 1 + 1 + 1 + 1) >>> 16)) = 133668 := by decide
    rw [hacc, sumWords_eq _ _ hbytes (by rw [hws]; decide), hws]
    decide
  simp only [List.length_append, List.length_map, List.length_range, List.length_nil, ht,
    hcs] at heq
  rw [if_neg (by decide), if_neg (by decide)] at heq
  simp only [ne_eq, not_true_eq_false, if_false] at heq
  refine ⟨_, _, _, heq, rfl, ?_⟩
  simp only [List.length_append, List.length_map, List.length_range, List.length_nil, ht]

/-- C22, the failing input: a plain frame from 192.168.100.238 to 224.0.0.18
with TTL 255, IPv4 total length 1056, and a VRRP body with count byte 1 followed
by 257 addresses 0.0.0.0 (1028 zero bytes), its checksum 0x6042 being correct.
DecodeVRRPAdv returns the layers without error: the count is 1 and 257
addresses are decoded. -/
theorem C22_count_compared_modulo_256 :
    ∃ eth ip vrrp, DecodeVRRPAdv decodeLayersPlain
      ([0x01, 0x00, 0x5e, 0x00, 0x00, 0x12, 0x52, 0x54, 0x00, 0xdc, 0x65, 0x98,
        0x08, 0x00, 0x45, 0x00, 0x04, 0x20, 0x00, 0x00, 0x00, 0x00, 0xff, 0x70,
        0xb1, 0xc4, 0xc0, 0xa8, 0x64, 0xee, 0xe0, 0x00, 0x00, 0x12, 0x31, 0x32,
        0x64, 0x01, 0x00, 0x64, 0x60, 0x42] ++ List.replicate 1028 0) = .ok (eth, ip, vrrp) ∧
      vrrp.CountIPAddr = 1 ∧ vrrp.IPAddress.length = 257 :=
  DecodeVRRPAdv_long (List.replicate 1028 0) (List.length_replicate _ _) (wordSum_zeros 1028).1
    (fun b hb => by rw [List.eq_of_mem_replicate hb]; decide)

/-! ## C36: the discard branch of a Backup -/

/-- C36. For a group in state Backup and an advertisement that passes the
self-address check, one of the first three cases of NextStateForRecv applies:
with local priority 0 the down timer is re-armed with the skew time; else with
preempt and a lower advertised priority EventPreempt is applied; else (not
preempt, or an advertised priority at least the local one, which is all that
is left) MaxAdverInt is taken from the advertisement and the down timer is
re-armed with the new master-down interval. The fourth branch, which discards
the advertisement, is never taken. -/
theorem C36_backup_discard_unreachable (w : World) (adv : VRRPv3Adv) (src : IP) (now : Int)
    (hs : w.v.state = StateBackup) (hself : containsInterfaceIPs w.v adv.IPAddress = false) :
    (w.v.Priority = 0 ∨ (w.v.preempt = true ∧ adv.Priority < w.v.Priority) ∨
      (w.v.preempt = false ∨ adv.Priority ≥ w.v.Priority)) ∧
    (w.v.Priority = 0 →
      NextStateForRecv w adv src now =
        { w with v := setNextDownTimeNoLock w.v now (getSkewTimeTimeNoLock w.v) } ∧
      (NextStateForRecv w adv src now).v.nextDownTime =
        now + (w.v.skewTime : Int) * Centisecond) ∧
    (w.v.Priority ≠ 0 → w.v.preempt = true ∧ adv.Priority < w.v.Priority →
      NextStateForRecv w adv src now = nextStateNoLock w EventPreempt ∧
      (NextStateForRecv w adv src now).v.state = StateMaster) ∧
    (w.v.Priority ≠ 0 → ¬ (w.v.preempt = true ∧ adv.Priority < w.v.Priority) →
      (w.v.preempt = false ∨ adv.Priority ≥ w.v.Priority) ∧
      NextStateForRecv w adv src now =
        { w with
          v := setNextDownTimeNoLock
            (resetMasterDownInterval { w.v with MaxAdverInt := adv.MaxAdverInt } adv.MaxAdverInt)
            now
            (resetMasterDownInterval { w.v with MaxAdverInt := adv.MaxAdverInt }
              adv.MaxAdverInt).masterDownInterval } ∧
      (NextStateForRecv w adv src now).v.nextDownTime =
        now + ((resetMasterDownInterval { w.v with MaxAdverInt := adv.MaxAdverInt }
          adv.MaxAdverInt).masterDownInterval : Int) * Centisecond) := by
  have hnot : w.v.subifIP ∉ adv.IPAddress := by
    intro hmem
    rw [(containsInterfaceIPs_iff _ _).mpr hmem] at hself
    cases hself
  have hcover : ¬ (w.v.preempt = true ∧ adv.Priority < w.v.Priority) →
      (w.v.preempt = false ∨ adv.Priority ≥ w.v.Priority) := by
    intro h
    by_cases hpre : w.v.preempt = true
    · exact Or.inr (Nat.le_of_not_lt (fun hlt => h ⟨hpre, hlt⟩))
    · exact Or.inl (by simpa using hpre)
  have heq := NextStateForRecv_backup w adv src now hs hnot
  refine ⟨?_, ?_, ?_, ?_⟩
  · by_cases h : w.v.preempt = true ∧ adv.Priority < w.v.Priority
    · exact Or.inr (Or.inl h)
    · exact Or.inr (Or.inr (hcover h))
  · intro hp
    rw [heq]
    simp [hp, getSkewTimeTimeNoLock, setNextDownTimeNoLock]
  · intro hp hc
    rw [heq, nextStateNoLock_backup_preempt w hs]
    simp [hp, hc, becomeMaster_state]
  · intro hp hc
    refine ⟨hcover hc, ?_⟩
    rw [heq]
    simp [hp, hc, setNextDownTimeNoLock]

/-- The examples of C36: the Backup of the examples (priority 200, preempt)
receives an advertisement of priority 100 and preempts; the Backup of priority
100 receives an advertisement of priority 200 and re-arms its down timer. -/
theorem C36_backup_discard_unreachable_witness :
    (NextStateForRecv (exampleBackup 200 100 true) (exampleAdv 100 100) [10, 0, 0, 9] 5).v.state
      = StateMaster ∧
    (NextStateForRecv (exampleBackup 100 100 true) (exampleAdv 200 100) [10, 0, 0, 9]
      5).v.nextDownTime = 5 + ((resetMasterDownInterval
        { (exampleBackup 100 100 true).v with MaxAdverInt := (exampleAdv 200 100).MaxAdverInt }
        (exampleAdv 200 100).MaxAdverInt).masterDownInterval : Int) * Centisecond :=
  ⟨((C36_backup_discard_unreachable (exampleBackup 200 100 true) (exampleAdv 100 100)
      [10, 0, 0, 9] 5 (by decide) (by decide)).2.2.1 (by decide) (by decide)).2,
   ((C36_backup_discard_unreachable (exampleBackup 100 100 true) (exampleAdv 200 100)
      [10, 0, 0, 9] 5 (by decide) (by decide)).2.2.2 (by decide) (by decide)).2.2⟩

/-! ## C37: bounds of the master-down interval -/

/-- The quotient by 256 of a 16-bit value is below 256. -/
theorem u16_div_lt (n : Nat) : u16 n / 256 < 256 := by
  have h : u16 n < 65536 := Nat.mod_lt _ (by decide)
  omega

/-- The bounds of the two values resetMasterDownInterval computes, for a
priority up to 255 and an interval from 1 to 4095: the sum of the second line
does not leave 16 bits, whatever the product of the first line does. -/
theorem resetMasterDownInterval_bounds (v : VRRP) (i : Nat) (hp : v.Priority ≤ 255)
    (h1 : 1 ≤ i) (h2 : i ≤ 4095) :
    (resetMasterDownInterval v i).skewTime ≤ i ∧
    (resetMasterDownInterval v i).skewTime ≤ 255 ∧
    (resetMasterDownInterval v i).masterDownInterval =
      3 * i + (resetMasterDownInterval v i).skewTime := by
  rw [resetMasterDownInterval_eq]
  show u16 (u16 (256 - v.Priority) * i) / 256 ≤ i ∧
    u16 (u16 (256 - v.Priority) * i) / 256 ≤ 255 ∧
    u16 (u16 (3 * i) + u16 (u16 (256 - v.Priority) * i) / 256) =
      3 * i + u16 (u16 (256 - v.Priority) * i) / 256
  have hs := u16_div_lt (u16 (256 - v.Priority) * i)
  have h3 : u16 (3 * i) = 3 * i := Nat.mod_eq_of_lt (by omega)
  have hsk : u16 (u16 (256 - v.Priority) * i) / 256 ≤ i := by
    by_cases hi : i < 256
    · have hq : u16 (256 - v.Priority) = 256 - v.Priority := Nat.mod_eq_of_lt (by omega)
      have hle : (256 - v.Priority) * i ≤ 256 * i := Nat.mul_le_mul_right i (by omega)
      have hprod : u16 ((256 - v.Priority) * i) = (256 - v.Priority) * i :=
        Nat.mod_eq_of_lt (by omega)
      rw [hq, hprod]
      exact Nat.div_le_of_le_mul hle
    · omega
  refine ⟨hsk, by omega, ?_⟩
  rw [h3]
  exact Nat.mod_eq_of_lt (by omega)

/-- A master-down tick before the deadline of the group changes nothing. -/
theorem mDownTimerTick_not_expired (w : World) (now : Int) (h : now < w.v.nextDownTime) :
    mDownTimerTick w now = w := by
  unfold mDownTimerTick
  split_ifs
  · rw [masterDownTimeExpired_eq]
    simp [h]
  · rfl

/-- A deadline armed at `t` with the master-down interval of
resetMasterDownInterval lies at least three intervals after `t`. -/
theorem armed_after_three_intervals (v : VRRP) (i : Nat) (hp : v.Priority ≤ 255)
    (h1 : 1 ≤ i) (h2 : i ≤ 4095) (t now : Int) (hnow : now < t + 3 * (i : Int) * Centisecond) :
    now < (setNextDownTimeNoLock (resetMasterDownInterval v i) t
      (resetMasterDownInterval v i).masterDownInterval).nextDownTime := by
  obtain ⟨-, -, hmd⟩ := resetMasterDownInterval_bounds v i hp h1 h2
  show now < t + ((resetMasterDownInterval v i).masterDownInterval : Int) * Centisecond
  rw [hmd]
  have hc : (0 : Int) ≤ ((resetMasterDownInterval v i).skewTime : Int) * Centisecond :=
    Int.mul_nonneg (Int.ofNat_nonneg _) (by decide)
  push_cast
  rw [add_mul]
  omega

/-- C37, the claim as stated fails at priority 0. The Backup of the examples
with priority 0 and interval 100 (skewTime 100, masterDownInterval 400) is
refreshed at 5 s by an advertisement of priority 100 and interval 100: the case
of a local priority 0 arms the down timer with the skew time, 1 s, and the
master-down tick at 6 s, one interval after the refresh and before the three
intervals of the claim (8 s), makes the group Master. -/
theorem C37_priority_zero_counterexample :
    (exampleBackup 0 100 true).v.state = StateBackup ∧
    (exampleBackup 0 100 true).v.Priority = 0 ∧
    (exampleBackup 0 100 true).v.skewTime = 100 ∧
    (exampleBackup 0 100 true).v.masterDownInterval = 400 ∧
    (NextStateForRecv (exampleBackup 0 100 true) (exampleAdv 100 100) [10, 0, 0, 9]
      5000000000).v.state = StateBackup ∧
    (NextStateForRecv (exampleBackup 0 100 true) (exampleAdv 100 100) [10, 0, 0, 9]
      5000000000).v.nextDownTime = 5000000000 + 100 * Centisecond ∧
    (mDownTimerTick (NextStateForRecv (exampleBackup 0 100 true) (exampleAdv 100 100)
      [10, 0, 0, 9] 5000000000) 6000000000).v.state = StateMaster ∧
    (6000000000 : Int) < 5000000000 + 3 * 100 * Centisecond := by
  decide

/-- C37 as amended (the consequence holds for a Backup whose own priority is
not 0). For every priority up to 255 and every interval from 1 to 4095 the
values resetMasterDownInterval leaves satisfy skewTime <= interval and
3 * interval <= masterDownInterval <= 4 * interval, with masterDownInterval =
3 * interval + skewTime as integers (the sum does not wrap around 2^16). A
down timer armed at instant t with that masterDownInterval, as
setNextDownTimeNoLock does, is therefore not expired before
t + 3 * interval centiseconds: a master-down tick before that instant changes
nothing. This is the case of a Backup of a priority other than 0 that is
refreshed at t by an advertisement it does not preempt and whose interval is
the given one. A Backup whose own priority is 0 is refreshed with its skew
time in place of the master-down interval: its down timer is armed at
t + skewTime centiseconds, and a master-down tick at or after that instant
makes it Master. -/
theorem C37_master_down_interval_bounds (v : VRRP) (i : Nat) (hp : v.Priority ≤ 255)
    (h1 : 1 ≤ i) (h2 : i ≤ 4095) :
    (resetMasterDownInterval v i).skewTime ≤ i ∧
    3 * i ≤ (resetMasterDownInterval v i).masterDownInterval ∧
    (resetMasterDownInterval v i).masterDownInterval ≤ 4 * i ∧
    (resetMasterDownInterval v i).masterDownInterval =
      3 * i + (resetMasterDownInterval v i).skewTime ∧
    (resetMasterDownInterval v i).masterDownInterval < 65536 ∧
    (∀ (w : World) (t now : Int),
      w.v = setNextDownTimeNoLock (resetMasterDownInterval v i) t
        (resetMasterDownInterval v i).masterDownInterval →
      now < t + 3 * (i : Int) * Centisecond →
      mDownTimerTick w now = w) ∧
    (∀ (w : World) (adv : VRRPv3Adv) (src : IP) (t now : Int),
      w.v.state = StateBackup → containsInterfaceIPs w.v adv.IPAddress = false →
      w.v.Priority ≠ 0 → w.v.Priority ≤ 255 →
      ¬ (w.v.preempt = true ∧ adv.Priority < w.v.Priority) →
      adv.MaxAdverInt = i → now < t + 3 * (i : Int) * Centisecond →
      mDownTimerTick (NextStateForRecv w adv src t) now = NextStateForRecv w adv src t) ∧
    (∀ (w : World) (adv : VRRPv3Adv) (src : IP) (t now : Int),
      w.v.state = StateBackup → containsInterfaceIPs w.v adv.IPAddress = false →
      w.v.Priority = 0 →
      (NextStateForRecv w adv src t).v.nextDownTime =
        t + (w.v.skewTime : Int) * Centisecond ∧
      (w.v.objID ∈ w.backupTable → t + (w.v.skewTime : Int) * Centisecond ≤ now →
        (mDownTimerTick (NextStateForRecv w adv src t) now).v.state = StateMaster)) := by
  obtain ⟨hsk, hsk2, hmd⟩ := resetMasterDownInterval_bounds v i hp h1 h2
  refine ⟨hsk, by omega, by omega, hmd, by omega, ?_, ?_, ?_⟩
  · intro w t now hw hnow
    apply mDownTimerTick_not_expired
    rw [hw]
    exact armed_after_three_intervals v i hp h1 h2 t now hnow
  · intro w adv src t now hs hself hp0 hp255 hc hi hnow
    have hnot : w.v.subifIP ∉ adv.IPAddress := by
      intro hmem
      rw [(containsInterfaceIPs_iff _ _).mpr hmem] at hself
      cases hself
    apply mDownTimerTick_not_expired
    rw [NextStateForRecv_backup w adv src t hs hnot, if_neg hp0, if_neg hc, hi]
    exact armed_after_three_intervals { w.v with MaxAdverInt := i } i hp255 h1 h2 t now hnow
  · intro w adv src t now hs hself hp0
    have hnot : w.v.subifIP ∉ adv.IPAddress := by
      intro hmem
      rw [(containsInterfaceIPs_iff _ _).mpr hmem] at hself
      cases hself
    have heq : NextStateForRecv w adv src t =
        { w with v := setNextDownTimeNoLock w.v t w.v.skewTime } := by
      rw [NextStateForRecv_backup w adv src t hs hnot, if_pos hp0]
    rw [heq]
    refine ⟨rfl, ?_⟩
    intro hin hnow
    have htick : mDownTimerTick { w with v := setNextDownTimeNoLock w.v t w.v.skewTime } now =
        masterDownTimeExpired { w with v := setNextDownTimeNoLock w.v t w.v.skewTime } now
          deleteBackupTable := by
      unfold mDownTimerTick
      rw [if_pos]
      exact hin
    have hlt : ¬ now < (setNextDownTimeNoLock w.v t w.v.skewTime).nextDownTime := by
      show ¬ now < t + (w.v.skewTime : Int) * Centisecond
      omega
    have hs2 : (setNextDownTimeNoLock w.v t w.v.skewTime).state = StateBackup := hs
    rw [htick, masterDownTimeExpired_eq, if_neg hlt, if_pos hs2]
    exact becomeMaster_state _

/-- The example of C37: priority 100 and interval 1000, where the product
wraps: skewTime 97 <= 1000 and 3000 <= 3097 <= 4000; the Backup of the
examples, armed at 0 with interval 100, is left alone by a tick at 2.99 s; and
the Backup of priority 0, refreshed at 5 s, has its down timer at 6 s. -/
theorem C37_master_down_interval_bounds_witness :
    (resetMasterDownInterval (exampleWorld 100 100 true).v 1000).skewTime ≤ 1000 ∧
    3 * 1000 ≤ (resetMasterDownInterval (exampleWorld 100 100 true).v 1000).masterDownInterval ∧
    (resetMasterDownInterval (exampleWorld 100 100 true).v 1000).masterDownInterval ≤ 4 * 1000 ∧
    mDownTimerTick (exampleBackup 100 100 true) 2990000000 = exampleBackup 100 100 true ∧
    (NextStateForRecv (exampleBackup 0 100 true) (exampleAdv 100 100) [10, 0, 0, 9]
      5000000000).v.nextDownTime =
        5000000000 + ((exampleBackup 0 100 true).v.skewTime : Int) * Centisecond :=
  ⟨(C37_master_down_interval_bounds (exampleWorld 100 100 true).v 1000 (by decide)
      (by decide) (by decide)).1,
   (C37_master_down_interval_bounds (exampleWorld 100 100 true).v 1000 (by decide)
      (by decide) (by decide)).2.1,
   (C37_master_down_interval_bounds (exampleWorld 100 100 true).v 1000 (by decide)
      (by decide) (by decide)).2.2.1,
   (C37_master_down_interval_bounds (exampleBackup 100 100 true).v 100 (by decide)
      (by decide) (by decide)).2.2.2.2.2.1 (exampleBackup 100 100 true) 0 2990000000
      (by decide) (by decide),
   ((C37_master_down_interval_bounds (exampleBackup 100 100 true).v 100 (by decide)
      (by decide) (by decide)).2.2.2.2.2.2.2 (exampleBackup 0 100 true) (exampleAdv 100 100)
      [10, 0, 0, 9] 5000000000 0 (by decide) (by decide) (by decide)).1⟩

/-! ## C39, C40: the decoder on short input, and the registered decoder -/

/-- On an input of at least eight bytes DecodeFromBytes indexes nothing past
the end: it returns a decoded advertisement or one of its three errors. -/
theorem DecodeFromBytes_total (v0 : VRRPv3Adv) (data : List Nat) (h : 8 ≤ data.length) :
    (∃ d, DecodeFromBytes v0 data = .ok d) ∨
    (∃ version type, DecodeFromBytes v0 data =
      .error (VrrpError.BadVersionOrType version type)) ∨
    DecodeFromBytes v0 data = .error VrrpError.BadNumberOfAddresses ∨
    DecodeFromBytes v0 data = .error VrrpError.BadLengthOfAddresses := by
  match data, h with
  | x0 :: x1 :: x2 :: x3 :: x4 :: x5 :: x6 :: x7 :: tail, _ =>
    by_cases hvt : x0 >>> 4 = 3 ∧ x0 &&& 0x0F = 1
    · by_cases hcnt : 1 ≤ x3
      · by_cases hlen : tail.length % 4 = 0
        · exact Or.inl ⟨_, DecodeFromBytes_ok v0 x0 x1 x2 x3 x4 x5 x6 x7 tail hvt.1 hvt.2 hcnt hlen⟩
        · exact Or.inr (Or.inr (Or.inr
            ((DecodeFromBytes_length_rule v0 x0 x1 x2 x3 x4 x5 x6 x7 tail hvt.1 hvt.2 hcnt).1
              hlen)))
      · refine Or.inr (Or.inr (Or.inl ?_))
        have hc : x3 < 1 := by omega
        simp [DecodeFromBytes, index, bind, Except.bind, pure, Except.pure, hvt.1, hvt.2,
          VRRPv3Version, VRRPv3Advertisement, hc]
    · refine Or.inr (Or.inl ⟨x0 >>> 4, x0 &&& 0x0F, ?_⟩)
      have hvt2 : ¬ x0 >>> 4 = 3 ∨ ¬ 1 = x0 &&& 15 := by
        by_cases hver : x0 >>> 4 = 3
        · exact Or.inr (fun hx => hvt ⟨hver, hx.symm⟩)
        · exact Or.inl hver
      simp [DecodeFromBytes, index, bind, Except.bind, pure, Except.pure,
        VRRPv3Version, VRRPv3Advertisement, hvt2]

/-- What decodeVRRPv3Adv does on an input of at least eight bytes: it returns no
error, whatever DecodeFromBytes returns, and it adds the VRRP layer to the
builder exactly when DecodeFromBytes fails. -/
theorem decodeVRRPv3Adv_inverted (data : List Nat) (p : List Nat) (h : 8 ≤ data.length) :
    (decodeVRRPv3Adv data p).1 = none ∧
    ((∃ d, DecodeFromBytes {} data = .ok d) → (decodeVRRPv3Adv data p).2 = p) ∧
    ((∃ e, DecodeFromBytes {} data = .error e) →
      (decodeVRRPv3Adv data p).2 = p ++ [VRRPv3LayerType]) := by
  have hlt : ¬ data.length < 8 := by omega
  rcases DecodeFromBytes_total {} data h with ⟨d, he⟩ | ⟨a, b, he⟩ | he | he
  all_goals simp [decodeVRRPv3Adv, hlt, he]

/-- On an input of fewer than eight bytes DecodeFromBytes never succeeds: it
returns "Bad version or type" or the error of a zero count when the bytes that
are present say so, and otherwise it indexes past the end. -/
theorem DecodeFromBytes_short (v0 : VRRPv3Adv) (data : List Nat) (h : data.length < 8) :
    DecodeFromBytes v0 data = .error VrrpError.IndexOutOfRange ∨
    (∃ version type, DecodeFromBytes v0 data =
      .error (VrrpError.BadVersionOrType version type)) ∨
    DecodeFromBytes v0 data = .error VrrpError.BadNumberOfAddresses := by
  by_cases hvt : ∃ x0 rest, data = x0 :: rest ∧ ¬ (x0 >>> 4 = 3 ∧ x0 &&& 0x0F = 1)
  · obtain ⟨x0, rest, hd, hvt⟩ := hvt
    refine Or.inr (Or.inl ⟨x0 >>> 4, x0 &&& 0x0F, ?_⟩)
    have hvt2 : ¬ x0 >>> 4 = 3 ∨ ¬ 1 = x0 &&& 15 := by
      by_cases hver : x0 >>> 4 = 3
      · exact Or.inr (fun hx => hvt ⟨hver, hx.symm⟩)
      · exact Or.inl hver
    simp [hd, DecodeFromBytes, index, bind, Except.bind, pure, Except.pure,
      VRRPv3Version, VRRPv3Advertisement, hvt2]
  · match data, h with
    | [], _ => exact Or.inl rfl
    | x0 :: rest, h =>
      have hv : x0 >>> 4 = 3 ∧ x0 &&& 0x0F = 1 := by
        by_contra hc
        exact hvt ⟨x0, rest, rfl, hc⟩
      have hty : ¬ 1 = x0 &&& 15 → False := fun hx => hx hv.2.symm
      match rest, h with
      | [], _ | [x1], _ | [x1, x2], _ =>
        left
        simp [DecodeFromBytes, index, bind, Except.bind, pure, Except.pure,
          VRRPv3Version, VRRPv3Advertisement, hv.1, hv.2]
      | [x1, x2, x3], _ | [x1, x2, x3, x4], _ | [x1, x2, x3, x4, x5], _
      | [x1, x2, x3, x4, x5, x6], _ =>
        by_cases hc : x3 < 1
        · right
          right
          simp [DecodeFromBytes, index, bind, Except.bind, pure, Except.pure,
            VRRPv3Version, VRRPv3Advertisement, hv.1, hv.2, hc]
        · left
          simp [DecodeFromBytes, index, sliceFrom, Uint16, bind, Except.bind, pure, Except.pure,
            VRRPv3Version, VRRPv3Advertisement, hv.1, hv.2, hc]
      | _ :: _ :: _ :: _ :: _ :: _ :: _ :: _, h => simp at h; omega

/-- C39, the failing inputs. On the empty input, on the first three bytes of
the advertisement of the repository's tests, on its first five and on its first
seven bytes, DecodeFromBytes indexes past the end of the input (`data[0]`,
`data[3]`, `Uint16(data[4:])`, `Uint16(data[6:])`): the Go runtime panics, and
the call returns neither an advertisement nor an error. The registered decoder
decodeVRRPv3Adv has the length test that DecodeFromBytes lacks. -/
theorem C39_short_input_indexes_past_end :
    DecodeFromBytes {} [] = .error VrrpError.IndexOutOfRange ∧
    DecodeFromBytes {} [0x31, 0x32, 0xff] = .error VrrpError.IndexOutOfRange ∧
    DecodeFromBytes {} [0x31, 0x32, 0xff, 0x02, 0x00] = .error VrrpError.IndexOutOfRange ∧
    DecodeFromBytes {} [0x31, 0x32, 0xff, 0x02, 0x00, 0x64, 0xb5] =
      .error VrrpError.IndexOutOfRange ∧
    VrrpError.IndexOutOfRange.message = none ∧
    decodeVRRPv3Adv [0x31, 0x32, 0xff] [] = (some VrrpError.PacketTooSmall, []) := by
  decide

/-- C40, the failing inputs. The body of the advertisement of the repository's
tests (16 bytes) is decoded by DecodeFromBytes without error, and
decodeVRRPv3Adv returns without adding the VRRP layer to the builder; the same
body with version 4 in its first byte is rejected by DecodeFromBytes ("Bad
version or type"), and decodeVRRPv3Adv returns no error and adds the layer. -/
theorem C40_decoder_test_inverted :
    (DecodeFromBytes {} exampleWireBody).toOption.map (fun d => d.VirtualRtrID) = some 50 ∧
    decodeVRRPv3Adv exampleWireBody [] = (none, []) ∧
    DecodeFromBytes {} (0x41 :: exampleWireBody.tail) =
      .error (VrrpError.BadVersionOrType 4 1) ∧
    decodeVRRPv3Adv (0x41 :: exampleWireBody.tail) [] = (none, [VRRPv3LayerType]) := by
  decide

/-! ## Maps as lists of pairs -/

/-- After `m[k] = v` the key `k` has the value `v`. -/
theorem mapGet_mapPut_self {κ α : Type} [DecidableEq κ] (m : List (κ × α)) (k : κ) (v : α) :
    mapGet (mapPut m k v) k = some v := by
  unfold mapPut
  split_ifs with h
  · induction m with
    | nil => simp at h
    | cons e m ih =>
      by_cases he : e.1 = k
      · simp [mapGet, he]
      · have h2 : (m.any fun e => decide (e.1 = k)) = true := by
          simpa [he] using h
        have := ih h2
        simp only [mapGet, List.map_cons, he, if_false, List.find?_cons, decide_False] at this ⊢
        exact this
  · induction m with
    | nil => simp [mapGet]
    | cons e m ih =>
      have he : ¬ e.1 = k := by
        intro hx
        exact h (by simp [hx])
      have h2 : ¬ (m.any fun e => decide (e.1 = k)) = true := by
        intro hx
        exact h (by simp [List.any_cons, hx])
      have := ih h2
      simp only [mapGet, List.cons_append, List.find?_cons, he, decide_False] at this ⊢
      exact this

/-- After `m[k] = v` every other key has the value it had. -/
theorem mapGet_mapPut_ne {κ α : Type} [DecidableEq κ] (m : List (κ × α)) (k k2 : κ) (v : α)
    (hne : k2 ≠ k) : mapGet (mapPut m k v) k2 = mapGet m k2 := by
  have hne2 : ¬ k = k2 := fun h => hne h.symm
  unfold mapPut
  split_ifs with h
  · clear h
    induction m with
    | nil => rfl
    | cons e m ih =>
      by_cases he : e.1 = k
      · have he2 : ¬ e.1 = k2 := fun hx => hne (hx.symm.trans he)
        simp only [mapGet, List.map_cons, he, if_true, List.find?_cons, hne2, he2,
          decide_False] at ih ⊢
        exact ih
      · by_cases he2 : e.1 = k2
        · simp [mapGet, he, he2, hne]
        · simp only [mapGet, List.map_cons, he, if_false, List.find?_cons, he2,
            decide_False] at ih ⊢
          exact ih
  · simp [mapGet, List.find?_append, hne2]

/-! ## C31: DeleteSubifIndex of the configuration -/

/-- DeleteSubifIndex of the interface model resets the index of the
sub-interface and nothing else. -/
theorem Interface_DeleteSubifIndex_spec (iface : models.Interface) (subifname : String)
    (subiface : models.Subinterface) (h : mapGet iface.Subinterfaces subifname = some subiface) :
    mapGet (iface.DeleteSubifIndex subifname).Subinterfaces subifname =
      some { subiface with Index := models.MaxUint64 } ∧
    (∀ other, other ≠ subifname →
      mapGet (iface.DeleteSubifIndex subifname).Subinterfaces other =
        mapGet iface.Subinterfaces other) := by
  simp only [models.Interface.DeleteSubifIndex, h, models.Subinterface.DeleteIndex]
  exact ⟨mapGet_mapPut_self _ _ _, fun other ho => mapGet_mapPut_ne _ _ _ _ ho⟩

/-- DeleteSubifIndex of the configuration is DeleteSubifPrefix of the
configuration: for an interface and a sub-interface that exist, the prefix of
the sub-interface is reset to `math.MaxUint32` and its index is kept. -/
theorem AgentConfig_DeleteSubifIndex_spec (agentConfig : config.AgentConfig)
    (ifname subifname : String) (iface : models.Interface) (subiface : models.Subinterface)
    (hi : mapGet agentConfig.Interfaces ifname = some iface)
    (hs : mapGet iface.Subinterfaces subifname = some subiface) :
    agentConfig.DeleteSubifIndex ifname subifname =
      agentConfig.DeleteSubifPrefix ifname subifname ∧
    ∃ iface1, mapGet (agentConfig.DeleteSubifIndex ifname subifname).Interfaces ifname =
        some iface1 ∧
      mapGet iface1.Subinterfaces subifname =
        some { subiface with Prefix := models.MaxUint32 } := by
  refine ⟨rfl, iface.DeleteSubifPrefix subifname, ?_, ?_⟩
  · simp only [config.AgentConfig.DeleteSubifIndex, hi]
    exact mapGet_mapPut_self _ _ _
  · simp only [models.Interface.DeleteSubifPrefix, hs, models.Subinterface.DeletePrefix]
    exact mapGet_mapPut_self _ _ _

/-- C31, the failing input. On the configuration of the examples (interface
`if0`, sub-interface `if0-1` with index 1 and prefix 24),
`DeleteSubifIndex("if0", "if0-1")` leaves the index 1 and resets the prefix to
`math.MaxUint32`; DeleteSubifIndex of the interface model, on the same
interface, resets the index and keeps the prefix. -/
theorem C31_delete_index_resets_prefix :
    ((mapGet (exampleConfig.DeleteSubifIndex "if0" "if0-1").Interfaces "if0").bind
      (fun iface => mapGet iface.Subinterfaces "if0-1")).map
        (fun subif => (subif.Index, subif.Prefix)) = some (1, models.MaxUint32) ∧
    ((mapGet exampleConfig.Interfaces "if0").bind
      (fun iface => mapGet iface.Subinterfaces "if0-1")).map
        (fun subif => (subif.Index, subif.Prefix)) = some (1, 24) ∧
    ((mapGet exampleConfig.Interfaces "if0").bind
      (fun iface => mapGet (iface.DeleteSubifIndex "if0-1").Subinterfaces "if0-1")).map
        (fun subif => (subif.Index, subif.Prefix)) = some (models.MaxUint64, 24) := by
  decide

/-! ## C32: the setters that create a missing entry -/

/-- A setter of the sub-interface model on an entry that exists: it returns,
the entry is updated and every other entry is as it was. -/
theorem SetVrrpPriority_existing (subif : models.Subinterface) (vrid priority : Nat)
    (vrrp : models.VRRP) (h : mapGet subif.VRRPs vrid = some vrrp) :
    ∃ subif1, subif.SetVrrpPriority vrid priority = Outcome.returns subif1 ∧
      mapGet subif1.VRRPs vrid = some { vrrp with Priority := priority } ∧
      (∀ other, other ≠ vrid → mapGet subif1.VRRPs other = mapGet subif.VRRPs other) ∧
      subif1.Name = subif.Name ∧ subif1.Index = subif.Index ∧ subif1.IP = subif.IP ∧
      subif1.Prefix = subif.Prefix := by
  refine ⟨{ subif with VRRPs := mapPut subif.VRRPs vrid (vrrp.SetPriority priority) }, ?_,
    mapGet_mapPut_self _ _ _, fun other ho => mapGet_mapPut_ne _ _ _ _ ho, rfl, rfl, rfl, rfl⟩
  simp [models.Subinterface.SetVrrpPriority, withLock, h]

/-- AddVrrp of the sub-interface model, called with the lock free on a
sub-interface without an entry for `vrid`: it returns, and the new entry is the
default entry with that `Vrid`. -/
theorem AddVrrp_creates (subif : models.Subinterface) (vrid : Nat)
    (h : mapGet subif.VRRPs vrid = none) :
    ∃ subif1, subif.AddVrrp false vrid = Outcome.returns subif1 ∧
      mapGet subif1.VRRPs vrid =
        some { Vrid := vrid, Priority := 100, Preempt := true, Accept := false,
               Interval := 100, VirtualAddresses := [] } ∧
      (∀ other, other ≠ vrid → mapGet subif1.VRRPs other = mapGet subif.VRRPs other) := by
  refine ⟨{ subif with VRRPs := mapPut subif.VRRPs vrid { models.NewVRRP with Vrid := vrid } },
    ?_, mapGet_mapPut_self _ _ _, fun other ho => mapGet_mapPut_ne _ _ _ _ ho⟩
  simp [models.Subinterface.AddVrrp, withLock, h]

/-- The second branch of the setters never returns: AddVrrp is called with the
lock of the sub-interface held. -/
theorem addThenSet_blocks (subif : models.Subinterface) (vrid : Nat)
    (set : models.VRRP → models.VRRP) : subif.addThenSet vrid set = Outcome.blocks := by
  simp [models.Subinterface.addThenSet, models.Subinterface.AddVrrp, withLock, Outcome.andThen]

/-- C32, what the code does on the inputs of the claim. On a sub-interface
without an entry for `vrid`, SetVrrpPriority, SetVrrpPreempt, SetVrrpInterval
and AddVrrpVirtualAddress take the lock of the sub-interface and call AddVrrp,
which takes the same lock again: the call never returns, and no entry is
created. The same holds for SetSubifIndex of an interface without the
sub-interface (AddSubinterface takes the lock of the interface again) and for
AddSubinterface of a configuration without the interface (AddInterface takes
the lock of the configuration again). -/
theorem C32_create_on_set_blocks (subif : models.Subinterface) (vrid : Nat)
    (h : mapGet subif.VRRPs vrid = none) :
    (∀ priority, subif.SetVrrpPriority vrid priority = Outcome.blocks) ∧
    (∀ preempt, subif.SetVrrpPreempt vrid preempt = Outcome.blocks) ∧
    (∀ interval, subif.SetVrrpInterval vrid interval = Outcome.blocks) ∧
    (∀ addr, subif.AddVrrpVirtualAddress vrid addr = Outcome.blocks) ∧
    (∀ (iface : models.Interface) (subifname : String) (index : Nat),
      mapGet iface.Subinterfaces subifname = none →
      iface.SetSubifIndex subifname index = Outcome.blocks) ∧
    (∀ (agentConfig : config.AgentConfig) (ifname subifname : String),
      mapGet agentConfig.Interfaces ifname = none →
      agentConfig.AddSubinterface ifname subifname = Outcome.blocks) := by
  refine ⟨?_, ?_, ?_, ?_, ?_, ?_⟩
  · intro priority
    simp [models.Subinterface.SetVrrpPriority, withLock, h, addThenSet_blocks]
  · intro preempt
    simp [models.Subinterface.SetVrrpPreempt, withLock, h, addThenSet_blocks]
  · intro interval
    simp [models.Subinterface.SetVrrpInterval, withLock, h, addThenSet_blocks]
  · intro addr
    simp [models.Subinterface.AddVrrpVirtualAddress, withLock, h, addThenSet_blocks]
  · intro iface subifname index hi
    simp [models.Interface.SetSubifIndex, models.Interface.AddSubinterface, withLock, hi,
      Outcome.andThen]
  · intro agentConfig ifname subifname hi
    simp [config.AgentConfig.AddSubinterface, config.AgentConfig.AddInterface, withLock, hi,
      Outcome.andThen]

/-- The example of C32: `SetVrrpPriority(1, 200)` on a new sub-interface named
`s`, `SetSubifIndex("if0-1", 1)` on a new interface, and
`AddSubinterface("if0", "if0-1")` on a new configuration never return;
SetVrrpPriority on the entry 50 of the sub-interface of the examples
returns. -/
theorem C32_create_on_set_blocks_witness :
    { models.NewSubinterface with Name := "s" }.SetVrrpPriority 1 200 = Outcome.blocks ∧
    models.NewInterface.SetSubifIndex "if0-1" 1 = Outcome.blocks ∧
    config.newAgentConfig.AddSubinterface "if0" "if0-1" = Outcome.blocks ∧
    ({ exampleSubif with VRRPs := [(50, exampleModel 100 100 true)] }.SetVrrpPriority 50 200
      = Outcome.returns
        { exampleSubif with VRRPs := [(50, exampleModel 200 100 true)] }) :=
  ⟨(C32_create_on_set_blocks { models.NewSubinterface with Name := "s" } 1 rfl).1 200,
   (C32_create_on_set_blocks { models.NewSubinterface with Name := "s" } 1 rfl).2.2.2.2.1
     models.NewInterface "if0-1" 1 rfl,
   (C32_create_on_set_blocks { models.NewSubinterface with Name := "s" } 1 rfl).2.2.2.2.2
     config.newAgentConfig "if0" "if0-1" rfl,
   by decide⟩

/-! ## C33: the state machine of the configuration handler -/

/-- C33, the failing input. The handler is in state Validation and the
modified configuration holds the sub-interface `if0-1` with its index but
without address and prefix. On VALIDATE_END NextState returns "validation
failed", the handler stays in state Validation and the modified configuration
is kept as it is, not rolled back; the VALIDATE_START that follows is rejected
("Bad type"). With the valid configuration of the examples VALIDATE_END leads
to Initialize, the only arrow the diagram above NextState has for "validation
end". -/
theorem C33_failed_validation_keeps_state :
    config.NextState id (fun _ m => Outcome.returns m) (fun _ m => Outcome.returns m)
      config.State.StateValidation
      { current := config.newAgentConfig, modified := exampleUnfinishedConfig }
      config.ConfigType.VALIDATE_END [] =
        Outcome.returns (config.State.StateValidation,
          { current := config.newAgentConfig, modified := exampleUnfinishedConfig },
          some config.HandlerError.ValidationFailed) ∧
    config.NextState id (fun _ m => Outcome.returns m) (fun _ m => Outcome.returns m)
      config.State.StateValidation
      { current := config.newAgentConfig, modified := exampleUnfinishedConfig }
      config.ConfigType.VALIDATE_START [] =
        Outcome.returns (config.State.StateValidation,
          { current := config.newAgentConfig, modified := exampleUnfinishedConfig },
          some (config.HandlerError.BadType config.ConfigType.VALIDATE_START
            config.State.StateValidation)) ∧
    config.NextState id (fun _ m => Outcome.returns m) (fun _ m => Outcome.returns m)
      config.State.StateValidation
      { current := config.newAgentConfig, modified := exampleConfig }
      config.ConfigType.VALIDATE_END [] =
        Outcome.returns (config.State.StateInitialize,
          { current := config.newAgentConfig,
            modified := config.newAgentConfig.Copy id }, none) := by
  decide

/-- What NextState of the configuration handler does, by state and message
type. From Initialize, VALIDATE_START leads to Validation and COMMIT_START to
Commit, and every other type is rejected. In Commit, COMMIT_END leads to
Initialize for every configuration (Commit always returns true). In
Validation, VALIDATE_END leads to Initialize when the copy of the modified
configuration is valid, and otherwise returns "validation failed" and leaves the
state Validation and the manager as it was. A rejected type returns an error
and leaves state and manager unchanged. -/
theorem config_NextState_cases (dupIP : IP → IP)
    (doSet doDelete : List String → config.Mgr → Outcome config.Mgr) (cmgr : config.Mgr)
    (path : List String) :
    config.NextState dupIP doSet doDelete config.State.StateInitialize cmgr
      config.ConfigType.VALIDATE_START path =
        Outcome.returns (config.State.StateValidation, cmgr, none) ∧
    config.NextState dupIP doSet doDelete config.State.StateInitialize cmgr
      config.ConfigType.COMMIT_START path =
        Outcome.returns (config.State.StateCommit, cmgr, none) ∧
    (∀ t, t ≠ config.ConfigType.VALIDATE_START → t ≠ config.ConfigType.COMMIT_START →
      config.NextState dupIP doSet doDelete config.State.StateInitialize cmgr t path =
        Outcome.returns (config.State.StateInitialize, cmgr,
          some (config.HandlerError.BadType t config.State.StateInitialize))) ∧
    config.NextState dupIP doSet doDelete config.State.StateCommit cmgr
      config.ConfigType.COMMIT_END path =
        Outcome.returns (config.State.StateInitialize,
          { current := cmgr.modified, modified := cmgr.modified.Copy dupIP }, none) ∧
    ((cmgr.modified.Copy dupIP).IsValid = true →
      config.NextState dupIP doSet doDelete config.State.StateValidation cmgr
        config.ConfigType.VALIDATE_END path =
          Outcome.returns (config.State.StateInitialize,
            { cmgr with modified := cmgr.current.Copy dupIP }, none)) ∧
    ((cmgr.modified.Copy dupIP).IsValid = false →
      config.NextState dupIP doSet doDelete config.State.StateValidation cmgr
        config.ConfigType.VALIDATE_END path =
          Outcome.returns (config.State.StateValidation, cmgr,
            some config.HandlerError.ValidationFailed)) ∧
    (∀ t, t ≠ config.ConfigType.VALIDATE_END → t ≠ config.ConfigType.SET →
      t ≠ config.ConfigType.DELETE →
      config.NextState dupIP doSet doDelete config.State.StateValidation cmgr t path =
        Outcome.returns (config.State.StateValidation, cmgr,
          some (config.HandlerError.BadType t config.State.StateValidation))) ∧
    (∀ t, t ≠ config.ConfigType.COMMIT_END → t ≠ config.ConfigType.SET →
      t ≠ config.ConfigType.DELETE →
      config.NextState dupIP doSet doDelete config.State.StateCommit cmgr t path =
        Outcome.returns (config.State.StateCommit, cmgr,
          some (config.HandlerError.BadType t config.State.StateCommit))) := by
  refine ⟨rfl, rfl, ?_, rfl, ?_, ?_, ?_, ?_⟩
  · intro t h1 h2
    cases t <;> first | rfl | exact absurd rfl h1 | exact absurd rfl h2
  · intro hv
    simp [config.NextState, config.doValidate, config.Mgr.GetModifiedConfig, hv,
      config.Mgr.Rollback]
  · intro hv
    simp [config.NextState, config.doValidate, config.Mgr.GetModifiedConfig, hv]
  · intro t h1 h2 h3
    cases t <;> first | rfl | exact absurd rfl h1 | exact absurd rfl h2 | exact absurd rfl h3
  · intro t h1 h2 h3
    cases t <;> first | rfl | exact absurd rfl h1 | exact absurd rfl h2 | exact absurd rfl h3

/-! ## C35: the form of the address of the sub-interface -/

/-- With `subifIP` in 4-byte form and 4-byte addresses in the advertisement, the
self-address check of containsInterfaceIPs is address equality. -/
theorem containsInterfaceIPs_four (v : VRRP) (ips : List IP) (h4 : v.subifIP.length = 4)
    (hips : ∀ ip ∈ ips, ip.length = 4) :
    containsInterfaceIPs v ips = ips.any (fun ip => ipEqual ip v.subifIP) := by
  unfold containsInterfaceIPs
  induction ips with
  | nil => rfl
  | cons ip rest ih =>
    have hl : ip.length = 4 := hips ip (List.mem_cons_self _ _)
    have hrest := ih (fun x hx => hips x (List.mem_cons_of_mem _ hx))
    simp only [List.any_cons, hrest]
    congr 1
    simp only [ipEqual, hl, h4, if_true, bytesEqual]
    by_cases he : v.subifIP = ip
    · simp [he]
    · have he2 : ¬ ip = v.subifIP := fun hx => he hx.symm
      simp [he, he2]

/-- With `subifIP` in 16-byte form the self-address check never holds for the
4-byte addresses of a decoded advertisement, equal or not. -/
theorem containsInterfaceIPs_sixteen (v : VRRP) (ips : List IP) (h16 : v.subifIP.length = 16)
    (hips : ∀ ip ∈ ips, ip.length = 4) : containsInterfaceIPs v ips = false := by
  unfold containsInterfaceIPs
  rw [List.any_eq_false]
  intro ip hip
  have hl := hips ip hip
  simp only [bytesEqual, decide_eq_true_eq]
  intro he
  rw [he, hl] at h16
  omega

/-- `bytes.Compare` of a source address whose first byte is not 0 with an
address in 16-byte IPv4-mapped form is positive, whatever the two addresses
are. -/
theorem bytesCompare_mapped (s0 : Nat) (rest x : List Nat) (h : 0 < s0) :
    bytesCompare (s0 :: rest) (v4InV6Prefix ++ x) > 0 := by
  have hn : ¬ s0 < 0 := by omega
  simp [v4InV6Prefix, bytesCompare, hn, h]

/-- C35, the failing inputs. Two Masters of priority 100 that differ only in
the form of subifIP (10.0.0.5 in 4 bytes, and in the 16 bytes of
`net.ParseIP`). An advertisement of priority 255 that lists 10.0.0.5 is
discarded by the first (self-address check) and makes the second a Backup. An
advertisement of the same priority 100 from 10.0.0.3, an address before
10.0.0.5, leaves the first a Master and makes the second a Backup. For both
groups IsMaster finds 10.0.0.5 equal to the address of the sub-interface. -/
theorem C35_representation_dependent :
    (exampleMaster 100 100 true).v.state = StateMaster ∧
    (exampleMaster16 100 100 true).v.state = StateMaster ∧
    (exampleMaster 100 100 true).v.subifIP = [10, 0, 0, 5] ∧
    (exampleMaster16 100 100 true).v.subifIP = v4InV6Prefix ++ [10, 0, 0, 5] ∧
    To4 (exampleMaster16 100 100 true).v.subifIP = some (exampleMaster 100 100 true).v.subifIP ∧
    { (exampleMaster16 100 100 true).v with subifIP := [10, 0, 0, 5] } =
      (exampleMaster 100 100 true).v ∧
    (NextStateForRecv (exampleMaster 100 100 true)
      { exampleAdv 255 100 with IPAddress := [[10, 0, 0, 5]] } [10, 0, 0, 9] 5).v.state
        = StateMaster ∧
    (NextStateForRecv (exampleMaster16 100 100 true)
      { exampleAdv 255 100 with IPAddress := [[10, 0, 0, 5]] } [10, 0, 0, 9] 5).v.state
        = StateBackup ∧
    (NextStateForRecv (exampleMaster 100 100 true) (exampleAdv 100 100) [10, 0, 0, 3] 5).v.state
        = StateMaster ∧
    (NextStateForRecv (exampleMaster16 100 100 true) (exampleAdv 100 100) [10, 0, 0, 3]
      5).v.state = StateBackup ∧
    exampleOwnerModel.IsMaster exampleSubif.IP = true ∧
    exampleOwnerModel.IsMaster exampleSubif16.IP = true := by
  decide

/-! ## C38: the templates at construction -/

/-- The frames SerializeVRRPAdv builds for an advertisement and for the same
advertisement with priority 0, from a source address that is an IPv4 address:
the same bytes but for the priority (byte 36) and the VRRP checksum (bytes 40
and 41); `csum0` is the checksum computed over the body with priority 0 and a
zero checksum field. -/
theorem SerializeVRRPAdv_priority_zero (srcIP : IP) (s0 s1 s2 s3 : Nat) (a : VRRPv3Adv)
    (hs : To4 srcIP = some [s0, s1, s2, s3]) :
    ∃ (tail : List Nat) (csum csum0 hsum : Nat) (a1 a0 : VRRPv3Adv),
      tail = (serializeBody a).drop 8 ∧
      tail.length = 4 * a.IPAddress.length ∧
      ComputeChecksum (some ⟨255, 112, [s0, s1, s2, s3], [224, 0, 0, 18]⟩)
        (0x31 :: a.VirtualRtrID :: a.Priority :: u8 a.IPAddress.length ::
          u8 (a.MaxAdverInt >>> 8) :: u8 a.MaxAdverInt :: 0 :: 0 :: tail) 112 = .ok csum ∧
      ComputeChecksum (some ⟨255, 112, [s0, s1, s2, s3], [224, 0, 0, 18]⟩)
        (0x31 :: a.VirtualRtrID :: 0 :: u8 a.IPAddress.length ::
          u8 (a.MaxAdverInt >>> 8) :: u8 a.MaxAdverInt :: 0 :: 0 :: tail) 112 = .ok csum0 ∧
      SerializeVRRPAdv srcIP (some a) = .ok
        ([0x01, 0x00, 0x5e, 0x00, 0x00, 0x12, 0x00, 0x00, 0x5e, 0x00, 0x01, a.VirtualRtrID,
          0x08, 0x00,
          0x45, 0, u8 (u16 (28 + 4 * a.IPAddress.length) >>> 8),
          u8 (u16 (28 + 4 * a.IPAddress.length)), 0, 0, 0, 0, 255, 112,
          u8 (hsum >>> 8), u8 hsum, s0, s1, s2, s3, 224, 0, 0, 18,
          0x31, a.VirtualRtrID, a.Priority, u8 a.IPAddress.length,
          u8 (a.MaxAdverInt >>> 8), u8 a.MaxAdverInt, u8 (csum >>> 8), u8 csum] ++ tail ++
          List.replicate (60 - (42 + 4 * a.IPAddress.length)) 0, a1) ∧
      SerializeVRRPAdv srcIP (some { a with Priority := 0 }) = .ok
        ([0x01, 0x00, 0x5e, 0x00, 0x00, 0x12, 0x00, 0x00, 0x5e, 0x00, 0x01, a.VirtualRtrID,
          0x08, 0x00,
          0x45, 0, u8 (u16 (28 + 4 * a.IPAddress.length) >>> 8),
          u8 (u16 (28 + 4 * a.IPAddress.length)), 0, 0, 0, 0, 255, 112,
          u8 (hsum >>> 8), u8 hsum, s0, s1, s2, s3, 224, 0, 0, 18,
          0x31, a.VirtualRtrID, 0, u8 a.IPAddress.length,
          u8 (a.MaxAdverInt >>> 8), u8 a.MaxAdverInt, u8 (csum0 >>> 8), u8 csum0] ++ tail ++
          List.replicate (60 - (42 + 4 * a.IPAddress.length)) 0, a0) := by
  obtain ⟨tail, csum, hsum, htl, hlen, -, hcs, hh, hser⟩ :=
    SerializeVRRPAdv_tail srcIP s0 s1 s2 s3 a hs
  obtain ⟨tail0, csum0, hsum0, htl0, -, -, hcs0, hh0, hser0⟩ :=
    SerializeVRRPAdv_tail srcIP s0 s1 s2 s3 { a with Priority := 0 } hs
  have ht : tail0 = tail := by
    rw [htl0, htl]
    exact serializeBody_drop8_congr _ _ rfl
  have hhs : hsum0 = hsum := by
    rw [hh0, hh]
  subst ht
  subst hhs
  exact ⟨tail0, csum, csum0, hsum0, _, _, htl, hlen, hcs, hcs0, hser, hser0⟩

/-- The checksum SerializeTo stores verifies: with the checksum `csum` of the
body with a zero checksum field written into bytes 6 and 7, ComputeChecksum
over the body is 0. The fields are in the range of their Go types and there
are at most 255 addresses. -/
theorem checksum_field_verifies (s0 s1 s2 s3 : Nat) (a : VRRPv3Adv) (tail : List Nat)
    (csum : Nat) (hsb : IsBytes [s0, s1, s2, s3]) (hvrid : a.VirtualRtrID < 256)
    (hprio : a.Priority < 256) (hint : a.MaxAdverInt < 65536)
    (hab : ∀ ip ∈ a.IPAddress, IsBytes ip) (hn : a.IPAddress.length ≤ 255)
    (htl : tail = (serializeBody a).drop 8)
    (hcs : ComputeChecksum (some ⟨255, 112, [s0, s1, s2, s3], [224, 0, 0, 18]⟩)
      (0x31 :: a.VirtualRtrID :: a.Priority :: u8 a.IPAddress.length ::
        u8 (a.MaxAdverInt >>> 8) :: u8 a.MaxAdverInt :: 0 :: 0 :: tail) 112 = .ok csum) :
    ComputeChecksum (some ⟨255, 112, [s0, s1, s2, s3], [224, 0, 0, 18]⟩)
      (0x31 :: a.VirtualRtrID :: a.Priority :: u8 a.IPAddress.length ::
        u8 (a.MaxAdverInt >>> 8) :: u8 a.MaxAdverInt :: u8 (csum >>> 8) :: u8 csum :: tail)
      112 = .ok 0 := by
  obtain ⟨v, hv⟩ : ∃ v : VRRPv3Adv, v = { a with
      Version := VRRPv3Version, Type_ := VRRPv3Advertisement,
      CountIPAddr := u8 a.IPAddress.length, Checksum := 0,
      pseudoheader := some ⟨255, 112, [s0, s1, s2, s3], [224, 0, 0, 18]⟩ } := ⟨_, rfl⟩
  have hvr : v.InRange := by
    subst hv
    exact ⟨by show 3 < 256; omega, by show 1 < 256; omega, hvrid, hprio,
      Nat.mod_lt _ (by decide), hint, by show 0 < 65536; omega, hab⟩
  have hbody : SerializeTo v = .ok
      (0x31 :: a.VirtualRtrID :: a.Priority :: u8 a.IPAddress.length ::
        u8 (a.MaxAdverInt >>> 8) :: u8 a.MaxAdverInt :: u8 (csum >>> 8) :: u8 csum :: tail) := by
    obtain ⟨tail2, hshape, -, -⟩ := serializeBody_layout v
    have ht2 : tail2 = tail := by
      have hdrop := congrArg (List.drop 8) hshape
      simp only [List.drop_succ_cons, List.drop_zero] at hdrop
      rw [← hdrop, htl]
      subst hv
      exact serializeBody_drop8_congr _ _ rfl
    subst hv
    subst ht2
    have hx0 : (u8 (VRRPv3Version <<< 4) ||| VRRPv3Advertisement) = 0x31 := by decide
    simp only [hx0] at hshape
    simp only [SerializeTo, ne_eq, not_true_eq_false, or_self, if_false, hshape, bind,
      Except.bind, IPProtocolVRRP, hcs, pure, Except.pure, PutUint16, List.set_cons_succ,
      List.set_cons_zero]
  exact SerializeTo_verifies v _ _ hvr (by subst hv; exact hn) (by subst hv; rfl)
    hsb (by show IsBytes [224, 0, 0, 18]; decide) hbody

/-- C38. For every sub-interface and VRRP model for which newVRRP succeeds: the
address of the sub-interface is an IPv4 address `s0.s1.s2.s3`; advPackets is
one packet for the sub-interface whose frame is the frame of SerializeVRRPAdv
from subifIP for the advertisement of the group; advPriorityZeroPackets is one
packet whose frame is the frame for the same advertisement with priority 0, and
the two frames are the same bytes but for the priority (byte 36: the priority
of the group in one, 0 in the other) and the VRRP checksum (bytes 40 and 41),
which is computed anew; garpPackets holds one packet per virtual address, in
the order of the list, with the frame of SerializeARP for it; and the priority
of the group is the effective priority (255 for an address owner, else the
configured one), not 0. With the fields of the models in the range of their Go
types and at most 255 addresses, the VRRP checksum of each of the two frames
verifies: ComputeChecksum over the VRRP body with the pseudoheader is 0. -/
theorem C38_templates_at_construction
    (GetVifMacaddr : String → Except VrrpError HardwareAddr) (now : Int)
    (imodel : models.Subinterface) (vmodel : models.VRRP) (v : VRRP)
    (h : newVRRP GetVifMacaddr now imodel vmodel = .ok v) :
    ∃ (frame frame0 : List Nat) (s0 s1 s2 s3 : Nat) (tail : List Nat) (csum csum0 hsum : Nat),
      To4 imodel.IP = some [s0, s1, s2, s3] ∧
      v.subifIP = imodel.IP ∧ v.VirtualRtrID = vmodel.Vrid ∧
      v.IPAddress = vmodel.VirtualAddresses ∧ v.MaxAdverInt = vmodel.Interval ∧
      v.Priority = (if vmodel.IsMaster imodel.IP then 255 else vmodel.Priority) ∧
      v.advPackets = [⟨imodel.Name, frame⟩] ∧
      v.advPriorityZeroPackets = [⟨imodel.Name, frame0⟩] ∧
      (SerializeVRRPAdv v.subifIP (some v.toVRRPv3Adv)).toOption.map Prod.fst = some frame ∧
      (SerializeVRRPAdv v.subifIP (some { v.toVRRPv3Adv with Priority := 0 })).toOption.map
        Prod.fst = some frame0 ∧
      tail.length = 4 * v.IPAddress.length ∧
      frame =
        [0x01, 0x00, 0x5e, 0x00, 0x00, 0x12, 0x00, 0x00, 0x5e, 0x00, 0x01, v.VirtualRtrID,
          0x08, 0x00,
          0x45, 0, u8 (u16 (28 + 4 * v.IPAddress.length) >>> 8),
          u8 (u16 (28 + 4 * v.IPAddress.length)), 0, 0, 0, 0, 255, 112,
          u8 (hsum >>> 8), u8 hsum, s0, s1, s2, s3, 224, 0, 0, 18,
          0x31, v.VirtualRtrID, v.Priority, u8 v.IPAddress.length,
          u8 (v.MaxAdverInt >>> 8), u8 v.MaxAdverInt, u8 (csum >>> 8), u8 csum] ++ tail ++
          List.replicate (60 - (42 + 4 * v.IPAddress.length)) 0 ∧
      frame0 =
        [0x01, 0x00, 0x5e, 0x00, 0x00, 0x12, 0x00, 0x00, 0x5e, 0x00, 0x01, v.VirtualRtrID,
          0x08, 0x00,
          0x45, 0, u8 (u16 (28 + 4 * v.IPAddress.length) >>> 8),
          u8 (u16 (28 + 4 * v.IPAddress.length)), 0, 0, 0, 0, 255, 112,
          u8 (hsum >>> 8), u8 hsum, s0, s1, s2, s3, 224, 0, 0, 18,
          0x31, v.VirtualRtrID, 0, u8 v.IPAddress.length,
          u8 (v.MaxAdverInt >>> 8), u8 v.MaxAdverInt, u8 (csum0 >>> 8), u8 csum0] ++ tail ++
          List.replicate (60 - (42 + 4 * v.IPAddress.length)) 0 ∧
      (IsBytes imodel.IP → vmodel.Vrid < 256 → vmodel.Priority < 256 →
        vmodel.Interval < 65536 → (∀ ip ∈ vmodel.VirtualAddresses, IsBytes ip) →
        vmodel.VirtualAddresses.length ≤ 255 →
        ComputeChecksum (some ⟨255, 112, [s0, s1, s2, s3], [224, 0, 0, 18]⟩)
          (0x31 :: v.VirtualRtrID :: v.Priority :: u8 v.IPAddress.length ::
            u8 (v.MaxAdverInt >>> 8) :: u8 v.MaxAdverInt :: u8 (csum >>> 8) :: u8 csum :: tail)
          112 = .ok 0 ∧
        ComputeChecksum (some ⟨255, 112, [s0, s1, s2, s3], [224, 0, 0, 18]⟩)
          (0x31 :: v.VirtualRtrID :: 0 :: u8 v.IPAddress.length ::
            u8 (v.MaxAdverInt >>> 8) :: u8 v.MaxAdverInt :: u8 (csum0 >>> 8) :: u8 csum0 :: tail)
          112 = .ok 0) ∧
      List.Forall₂
        (fun ip p => p.Subifname = imodel.Name ∧ SerializeARP ip v.vmac = .ok p.Data)
        vmodel.VirtualAddresses v.garpPackets ∧
      v.garpPackets.length = vmodel.VirtualAddresses.length := by
  obtain ⟨a, frame, a1, frame0, a0, hvrid, hprio, hint, haddr, hser, hser0, hadv, hadv0, -, hv1,
    hname, hsip⟩ := newVRRP_templates GetVifMacaddr now imodel vmodel v h
  obtain ⟨hf1, hf2, hf3, hf4, -, -, -⟩ := SerializeVRRPAdv_fields _ _ _ _ hser
  obtain ⟨s0, s1, s2, s3, hs⟩ := SerializeVRRPAdv_src _ _ _ _ hser
  obtain ⟨tail, csum, csum0, hsum, b1, b0, htl, hlen, hcs, hcs0, hx, hx0⟩ :=
    SerializeVRRPAdv_priority_zero imodel.IP s0 s1 s2 s3 a1 hs
  obtain ⟨fx, hfx⟩ : ∃ fx, SerializeVRRPAdv imodel.IP (some a1) = .ok (fx, b1) := ⟨_, hx⟩
  obtain ⟨fx0, hfx0⟩ : ∃ fx0, SerializeVRRPAdv imodel.IP (some { a1 with Priority := 0 }) =
    .ok (fx0, b0) := ⟨_, hx0⟩
  have hfr : frame = fx := by
    have hc := SerializeVRRPAdv_congr imodel.IP a a1 hf4.symm hf1.symm hf3.symm hf2.symm
    rw [hser, hfx] at hc
    simpa [Except.toOption] using hc
  have hfr0 : frame0 = fx0 := by
    have hc := hser0.symm.trans hfx0
    simp only [Except.ok.injEq, Prod.mk.injEq] at hc
    exact hc.1
  have hfxe := hfx.symm.trans hx
  have hfx0e := hfx0.symm.trans hx0
  simp only [Except.ok.injEq, Prod.mk.injEq, and_true] at hfxe hfx0e
  have hgarp := newVRRP_garp GetVifMacaddr now imodel vmodel v h
  have hforall := createGARP_frames v v.garpPackets hgarp.2.1
  have hva : v.IPAddress = vmodel.VirtualAddresses := by
    show v.toVRRPv3Adv.IPAddress = _
    rw [hv1, hf2, haddr]
  have hvv : v.VirtualRtrID = vmodel.Vrid := by
    show v.toVRRPv3Adv.VirtualRtrID = _
    rw [hv1, hf4, hvrid]
  have hvi : v.MaxAdverInt = vmodel.Interval := by
    show v.toVRRPv3Adv.MaxAdverInt = _
    rw [hv1, hf3, hint]
  have hvp : v.Priority = (if vmodel.IsMaster imodel.IP then 255 else vmodel.Priority) := by
    show v.toVRRPv3Adv.Priority = _
    rw [hv1, hf1, hprio]
  have e1 : v.VirtualRtrID = a1.VirtualRtrID := by rw [← hv1]
  have e2 : v.Priority = a1.Priority := by rw [← hv1]
  have e3 : v.MaxAdverInt = a1.MaxAdverInt := by rw [← hv1]
  have e4 : v.IPAddress = a1.IPAddress := by rw [← hv1]
  rw [hname] at hforall
  rw [hva] at hforall
  refine ⟨frame, frame0, s0, s1, s2, s3, tail, csum, csum0, hsum, hs, hsip, hvv, hva, hvi, hvp,
    hadv, hadv0, ?_, ?_, ?_, ?_, ?_, ?_, hforall, ?_⟩
  · rw [hsip, hv1, hfx, hfr]
    rfl
  · rw [hsip, hv1, hfx0, hfr0]
    rfl
  · rw [e4]
    exact hlen
  · rw [hfr, e1, e2, e3, e4]
    exact hfxe
  · rw [hfr0, e1, e3, e4]
    exact hfx0e
  · intro hb hr1 hr2 hr3 hr4 hr5
    have hsb4 : IsBytes [s0, s1, s2, s3] := by
      have := To4_getD_bytes imodel.IP hb
      rwa [hs] at this
    have ha1v : a1.VirtualRtrID < 256 := by rw [← e1, hvv]; exact hr1
    have ha1p : a1.Priority < 256 := by
      rw [← e2, hvp]
      split_ifs
      · omega
      · exact hr2
    have ha1i : a1.MaxAdverInt < 65536 := by rw [← e3, hvi]; exact hr3
    have ha1b : ∀ ip ∈ a1.IPAddress, IsBytes ip := by rw [← e4, hva]; exact hr4
    have ha1n : a1.IPAddress.length ≤ 255 := by rw [← e4, hva]; exact hr5
    rw [e1, e2, e3, e4]
    refine ⟨?_, ?_⟩
    · exact checksum_field_verifies s0 s1 s2 s3 a1 tail csum hsb4 ha1v ha1p ha1i ha1b ha1n
        htl hcs
    · exact checksum_field_verifies s0 s1 s2 s3 { a1 with Priority := 0 } tail csum0 hsb4 ha1v
        (by show 0 < 256; omega) ha1i ha1b ha1n
        (by rw [htl]; exact serializeBody_drop8_congr _ _ rfl) hcs0
  · exact (List.Forall₂.length_eq hforall).symm

/-- The example of C38: the group of the examples with priority 200. Its two
advertisement templates are one frame each, with priority byte 200 and 0, its
GARP template has one frame for the one virtual address, and its priority is
200. -/
theorem C38_templates_at_construction_witness :
    ∃ (frame frame0 : List Nat),
      (exampleWorld 200 100 true).v.advPackets = [⟨"s", frame⟩] ∧
      (exampleWorld 200 100 true).v.advPriorityZeroPackets = [⟨"s", frame0⟩] ∧
      frame[36]? = some 200 ∧ frame0[36]? = some 0 ∧
      frame0.take 36 = frame.take 36 ∧ (frame0.drop 37).take 3 = (frame.drop 37).take 3 ∧
      frame0.drop 42 = frame.drop 42 ∧
      (exampleWorld 200 100 true).v.garpPackets.length = 1 ∧
      (exampleWorld 200 100 true).v.Priority = 200 := by
  obtain ⟨frame, frame0, s0, s1, s2, s3, tail, csum, csum0, hsum, -, -, -, -, -, hvp, hadv, hadv0,
    -, -, -, hfr, hfr0, -, -, hlen⟩ :=
    C38_templates_at_construction exampleDataplane 0 exampleSubif (exampleModel 200 100 true)
      (exampleWorld 200 100 true).v (by decide)
  have hp : (exampleWorld 200 100 true).v.Priority = 200 := by decide
  refine ⟨frame, frame0, hadv, hadv0, ?_, ?_, ?_, ?_, ?_, hlen, hp⟩
  · rw [hfr, hp]
    rfl
  · rw [hfr0]
    rfl
  · rw [hfr, hfr0]
    rfl
  · rw [hfr, hfr0]
    rfl
  · rw [hfr, hfr0]
    rfl

/-! ## C34: the locks held at the calls of a tick -/

/-- The steps a tick of the advertisement timer adds: none, or the one hand-off
of the advertisement template. -/
theorem timeOutEvent_steps (w : World) (now : Int) :
    (timeOutEvent w now).steps = w.steps ∨
    (w.v.objID ∈ w.masterTable ∧
      (timeOutEvent w now).steps = w.steps ++ [Step.Call (Effect.PacketoutBulk w.v.advPackets)]) := by
  unfold timeOutEvent
  rw [getVRRPAdvExpired_eq]
  by_cases hm : w.v.objID ∈ w.masterTable
  · by_cases hd : w.v.nextMasterAdvTime ≤ now
    · by_cases he : w.v.advPackets = []
      · simp [hm, hd, he]
      · simp [hm, hd, he, call]
    · simp [hm, hd]
  · simp [hm]

/-- The steps a tick of the master-down timer adds for a group in the backup
table: none, the removal from the backup table alone, or the removal followed
by the steps into Master. -/
theorem mDownTimerTick_steps (w : World) (now : Int) (hin : w.v.objID ∈ w.backupTable) :
    (mDownTimerTick w now).steps = w.steps ∨
    (mDownTimerTick w now).steps = w.steps ++ [Step.DeleteBackupTable w.v.objID] ∨
    (mDownTimerTick w now).steps = w.steps ++
      [Step.DeleteBackupTable w.v.objID,
       Step.Call (Effect.ToMaster w.v.subifName (w.v.subifIP, w.v.subifPrefix)
         (w.v.vaddrs.map (fun a => (a, w.v.subifPrefix)))),
       Step.Call (Effect.PacketoutBulk w.v.garpPackets),
       Step.AddMasterTable w.v.objID,
       Step.SetState StateMaster] := by
  have htick : mDownTimerTick w now = masterDownTimeExpired w now deleteBackupTable := by
    simp [mDownTimerTick, hin]
  rw [htick, masterDownTimeExpired_eq]
  by_cases h : now < w.v.nextDownTime
  · simp [h]
  · by_cases hs : w.v.state = StateBackup
    · right
      right
      simp [h, hs, becomeMaster, AddMasterTable, sendGARP, toMaster, setStateStep,
        setStateNoLock, call, deleteBackupTable]
    · right
      left
      simp [h, hs, deleteBackupTable]

/-- C34, the claim as stated fails. In the tick of the advertisement timer at
100 s for the Master of the examples, the advertisement template is handed to
the host interface while `AdvTimer.lock` is held; in the tick of the
master-down timer at 4 s for the Backup of the examples, ToMaster is called on
the dataplane and the GARP frames are handed to the host interface while the
lock of the group and `MDownTimer.lock` are held. -/
theorem C34_calls_under_locks_counterexample :
    callsWithLocks [] (timeOutEventEvents (exampleMaster 200 100 true) 100000000000) =
      [(Effect.PacketoutBulk (exampleMaster 200 100 true).v.advPackets, [LockId.advTimer])] ∧
    callsWithLocks [] (mDownTimerTickEvents (exampleBackup 200 100 true) 4000000000) =
      [(Effect.ToMaster "s" ([10, 0, 0, 5], 24) [([10, 0, 0, 1], 24)],
         [LockId.group "s:50", LockId.mDownTimer]),
       (Effect.PacketoutBulk (exampleBackup 200 100 true).v.garpPackets,
         [LockId.group "s:50", LockId.mDownTimer])] := by
  decide

/-- C34 as amended (the calls are made with the locks held). In every tick of
the advertisement timer there is at most one call, the hand-off of the
advertisement template to the host interface, and it is made while
`AdvTimer.lock` is held, the lock of the group already released; in every
master-down tick every call (ToMaster on the dataplane, the hand-off of the
GARP frames) is made while the lock of the group and `MDownTimer.lock` are
both held. -/
theorem C34_calls_under_locks (w : World) (now : Int) :
    (callsWithLocks [] (timeOutEventEvents w now) = [] ∨
      callsWithLocks [] (timeOutEventEvents w now) =
        [(Effect.PacketoutBulk w.v.advPackets, [LockId.advTimer])]) ∧
    (callsWithLocks [] (mDownTimerTickEvents w now) = [] ∨
      callsWithLocks [] (mDownTimerTickEvents w now) =
        [(Effect.ToMaster w.v.subifName (w.v.subifIP, w.v.subifPrefix)
            (w.v.vaddrs.map (fun a => (a, w.v.subifPrefix))),
           [LockId.group w.v.objID, LockId.mDownTimer]),
         (Effect.PacketoutBulk w.v.garpPackets,
           [LockId.group w.v.objID, LockId.mDownTimer])]) ∧
    (w.v.objID ∈ w.masterTable → w.v.nextMasterAdvTime ≤ now → w.v.advPackets ≠ [] →
      callsWithLocks [] (timeOutEventEvents w now) =
        [(Effect.PacketoutBulk w.v.advPackets, [LockId.advTimer])]) ∧
    (w.v.objID ∈ w.backupTable → w.v.nextDownTime ≤ now → w.v.state = StateBackup →
      callsWithLocks [] (mDownTimerTickEvents w now) =
        [(Effect.ToMaster w.v.subifName (w.v.subifIP, w.v.subifPrefix)
            (w.v.vaddrs.map (fun a => (a, w.v.subifPrefix))),
           [LockId.group w.v.objID, LockId.mDownTimer]),
         (Effect.PacketoutBulk w.v.garpPackets,
           [LockId.group w.v.objID, LockId.mDownTimer])]) := by
  refine ⟨?_, ?_, ?_, ?_⟩
  · rcases timeOutEvent_steps w now with h | ⟨hm, h⟩
    · left
      by_cases hm : w.v.objID ∈ w.masterTable <;>
        simp [timeOutEventEvents, h, hm, callsWithLocks]
    · right
      simp [timeOutEventEvents, h, hm, callsWithLocks, lockedStep]
  · by_cases hin : w.v.objID ∈ w.backupTable
    · rcases mDownTimerTick_steps w now hin with h | h | h
      · left
        simp [mDownTimerTickEvents, h, hin, callsWithLocks]
      · left
        simp [mDownTimerTickEvents, h, hin, callsWithLocks, lockedStep]
      · right
        simp [mDownTimerTickEvents, h, hin, callsWithLocks, lockedStep]
    · left
      simp [mDownTimerTickEvents, hin, callsWithLocks]
  · intro hm hd he
    have h : (timeOutEvent w now).steps =
        w.steps ++ [Step.Call (Effect.PacketoutBulk w.v.advPackets)] := by
      unfold timeOutEvent
      rw [getVRRPAdvExpired_eq]
      simp [hm, hd, he, call]
    simp [timeOutEventEvents, h, hm, callsWithLocks, lockedStep]
  · intro hin hd hs
    have htick : mDownTimerTick w now = masterDownTimeExpired w now deleteBackupTable := by
      simp [mDownTimerTick, hin]
    have h2 : ¬ now < w.v.nextDownTime := by omega
    have h : (mDownTimerTick w now).steps = w.steps ++
        [Step.DeleteBackupTable w.v.objID,
         Step.Call (Effect.ToMaster w.v.subifName (w.v.subifIP, w.v.subifPrefix)
           (w.v.vaddrs.map (fun a => (a, w.v.subifPrefix)))),
         Step.Call (Effect.PacketoutBulk w.v.garpPackets),
         Step.AddMasterTable w.v.objID,
         Step.SetState StateMaster] := by
      rw [htick, masterDownTimeExpired_eq]
      simp [h2, hs, becomeMaster, AddMasterTable, sendGARP, toMaster, setStateStep,
        setStateNoLock, call, deleteBackupTable]
    simp [mDownTimerTickEvents, h, hin, callsWithLocks, lockedStep]

/-- The examples of C34: the Master of the examples, whose advertisement is
due, hands its template over with `AdvTimer.lock` held; the Backup of the
examples, whose down timer has run out at 4 s, calls ToMaster and hands the
GARP frames over with its own lock and `MDownTimer.lock` held. -/
theorem C34_calls_under_locks_witness :
    (callsWithLocks [] (timeOutEventEvents (exampleMaster 100 100 true) 100000000000)).map
      Prod.snd = [[LockId.advTimer]] ∧
    (callsWithLocks [] (mDownTimerTickEvents (exampleBackup 100 100 true) 4000000000)).map
      Prod.snd = [[LockId.group "s:50", LockId.mDownTimer],
        [LockId.group "s:50", LockId.mDownTimer]] := by
  have h := C34_calls_under_locks (exampleMaster 100 100 true) 100000000000
  have h2 := C34_calls_under_locks (exampleBackup 100 100 true) 4000000000
  rw [h.2.2.1 (by decide) (by decide) (by decide), h2.2.2.2 (by decide) (by decide) (by decide)]
  exact ⟨rfl, rfl⟩

end Vrrpd
